import Mathlib

/-! Frame lifecycle of `vk2d::_internal::WindowImpl`.

A shallow embedding of the frame lifecycle, render target dependency tracking and
GPU/CPU synchronisation code of `Source/Interface/Window.cpp`.

* Member functions become state-passing functions on `WindowImpl σ`.
* Every call the code makes to the graphics device is answered by an outcome record that is
  an argument of the function; the call, together with its answer, is appended to
  `WindowImpl.trace`, so that properties such as "no queue submission happened" or "the fence
  was waited for before the command buffer was recorded again" are statements about the trace.
* The render target objects (`RenderTargetTextureImpl`, whose member function bodies are not
  part of the sources at hand) are collaborators: their state is the type parameter `σ` and their
  member functions are the fields of `RenderTargetOps σ`.
* Indexing a `std::vector` past its end is undefined in C++; the embedding reads the default
  value there and drops writes (`List.getD`, `List.set`).
* The rectangle type of `Include/Types/Rect2.hpp`, the cursor classes of `Window.cpp` and the
  fence of `Source/Types/Synchronization.cpp` are embedded next to the window: a constructor
  is a function that returns the object, a call through a null pointer gives no value.
-/

namespace vk2d

/-! ## Vulkan values used by the code (`vulkan_core.h`) -/

/-- The codes of `VkResult`: negative values are errors, positive values partial successes. -/
abbrev VkResult := Int

abbrev VK_SUCCESS : VkResult := 0
abbrev VK_NOT_READY : VkResult := 1
abbrev VK_TIMEOUT : VkResult := 2
abbrev VK_ERROR_OUT_OF_HOST_MEMORY : VkResult := -1
abbrev VK_ERROR_DEVICE_LOST : VkResult := -4
abbrev VK_ERROR_SURFACE_LOST_KHR : VkResult := -1000000000
abbrev VK_SUBOPTIMAL_KHR : VkResult := 1000001003
abbrev VK_ERROR_OUT_OF_DATE_KHR : VkResult := -1000001004

abbrev UINT32_MAX : Nat := 4294967295

/-- The bits of `VkPipelineStageFlags` the window code uses. -/
abbrev VkPipelineStageFlags := Nat

abbrev VK_PIPELINE_STAGE_VERTEX_INPUT_BIT : VkPipelineStageFlags := 0x4
abbrev VK_PIPELINE_STAGE_VERTEX_SHADER_BIT : VkPipelineStageFlags := 0x8
abbrev VK_PIPELINE_STAGE_ALL_COMMANDS_BIT : VkPipelineStageFlags := 0x10000

/-- The values of `VkPresentModeKHR`. -/
inductive VkPresentModeKHR
  | VK_PRESENT_MODE_IMMEDIATE_KHR
  | VK_PRESENT_MODE_MAILBOX_KHR
  | VK_PRESENT_MODE_FIFO_KHR
  | VK_PRESENT_MODE_FIFO_RELAXED_KHR
  deriving DecidableEq, Repr

/-- A semaphore handle, named by the member that owns it. Semaphores owned by render target
objects are numbered by the collaborator. -/
inductive VkSemaphore
  | vk_transfer_semaphore
  | vk_submit_to_present_semaphores (slot : Nat)
  | of_render_target (handle : Nat)
  deriving DecidableEq, Repr

/-- A fence handle, named by the member that owns it. -/
inductive VkFence
  | vk_acquire_image_fence
  | vk_gpu_to_cpu_frame_fences (slot : Nat)
  deriving DecidableEq, Repr

/-- A command buffer handle, named by the member that owns it. -/
inductive VkCommandBuffer
  | vk_transfer_command_buffer
  | vk_render_command_buffers (slot : Nat)
  | of_render_target (handle : Nat)
  deriving DecidableEq, Repr

/-- The parts of `VkSubmitInfo` (with the `VkTimelineSemaphoreSubmitInfo` chained through
`pNext`) that the frame code fills in. Pointer/count pairs are lists. -/
structure VkSubmitInfo where
  pWaitSemaphores : List VkSemaphore
  pWaitDstStageMask : List VkPipelineStageFlags
  pWaitSemaphoreValues : List Nat
  pCommandBuffers : List VkCommandBuffer
  pSignalSemaphores : List VkSemaphore
  pSignalSemaphoreValues : List Nat
  deriving DecidableEq, Repr

/-! ## Types of the window implementation -/

/-- The enumeration `vk2d::_internal::NextRenderCallFunction`. -/
inductive NextRenderCallFunction
  | BEGIN
  | END
  deriving DecidableEq, Repr

/-- The enumeration `WindowImpl::ScreenshotState`, with the enumerators the code names. -/
inductive ScreenshotState
  | IDLE
  | IDLE_ERROR
  | REQUESTED
  | WAITING_RENDER
  | WAITING_FILE_WRITE
  | WAITING_EVENT_REPORT
  deriving DecidableEq, Repr

/-- A texel, `vk2d::Color8`. -/
structure Color8 where
  r : Nat
  g : Nat
  b : Nat
  a : Nat
  deriving DecidableEq, Repr

/-- The pixel data handed to the screenshot event, `vk2d::ImageData`. -/
structure ImageData where
  size : Nat × Nat
  data : List Color8
  deriving DecidableEq, Repr

/-- Modelled from the spec: the declaration of `RenderTargetTextureDependencyInfo`
(System/RenderTargetTextureDependecyGraphInfo.hpp) is not among the sources. Following the
data model of the spec it is a copyable handle that binds a consumer to one render target
(the member `render_target` that `Window.cpp` reads, here the address of the object) and to
the swap buffer generation it refers to. Whatever a render target records for a handle when
it commits is part of the collaborator state. -/
structure RenderTargetTextureDependencyInfo where
  render_target : Nat
  swap_buffer_index : Nat
  deriving DecidableEq, Repr

/-- One entry of `RenderTargetTextureRenderCollector`: the two submissions `EndRender` reads
from it. -/
structure RenderTargetTextureRenderCollection where
  vk_transfer_submit_info : VkSubmitInfo
  vk_render_submit_info : VkSubmitInfo
  deriving DecidableEq, Repr

abbrev RenderTargetTextureRenderCollector := List RenderTargetTextureRenderCollection

/-- The implementation object behind a `vk2d::Texture`: either an ordinary texture resource
or a render target texture, each identified by its address. -/
inductive TextureImpl
  | TextureResourceImpl (address : Nat)
  | RenderTargetTextureImpl (address : Nat)
  deriving DecidableEq, Repr

/-- A `vk2d::Texture` as far as the window code looks into it. -/
structure Texture where
  texture_impl : TextureImpl
  deriving DecidableEq, Repr

/-- The cast `dynamic_cast<RenderTargetTextureImpl*>( texture->texture_impl )`: the address of
the render target, or no value (a null pointer) for any other texture. -/
def dynamic_cast_RenderTargetTextureImpl : TextureImpl → Option Nat
  | .TextureResourceImpl _ => none
  | .RenderTargetTextureImpl address => some address

/-- The values of `VkPrimitiveTopology` the draw calls use. -/
inductive VkPrimitiveTopology
  | VK_PRIMITIVE_TOPOLOGY_POINT_LIST
  | VK_PRIMITIVE_TOPOLOGY_LINE_LIST
  | VK_PRIMITIVE_TOPOLOGY_TRIANGLE_LIST
  deriving DecidableEq, Repr

/-- The values of `VkPolygonMode`. -/
inductive VkPolygonMode
  | VK_POLYGON_MODE_FILL
  | VK_POLYGON_MODE_LINE
  | VK_POLYGON_MODE_POINT
  deriving DecidableEq, Repr

/-- The members of `GraphicsPipelineSettings` in which the settings of two draw calls to one
window can differ. The pipeline layout, the render pass, the sample count and the blending
flag are the same in every draw call of a window. -/
structure GraphicsPipelineSettings where
  primitive_topology : VkPrimitiveTopology
  polygon_mode : VkPolygonMode
  shader_programs : Nat
  deriving DecidableEq, Repr

/-- A descriptor set of the window, named by the member map that owns it and the key it is
stored under: the address of a sampler, or a texture. -/
inductive DescriptorSet
  | sampler_descriptor_sets (sampler : Nat)
  | texture_descriptor_sets (texture : Texture)
  deriving DecidableEq, Repr

/-- The member functions of `RenderTargetTextureImpl` that the window calls. Their bodies
(RenderTargetTextureImpl.cpp) are not among the sources, so they are parameters: `σ` is the
state of all render target objects, and each function takes the dependency handle it is
called with. -/
structure RenderTargetOps (σ : Type) where
  GetCurrentSwapBuffer : Nat → σ → Nat
  CommitRenderTargetTextureRender :
    RenderTargetTextureDependencyInfo → RenderTargetTextureRenderCollector → σ →
      Bool × RenderTargetTextureRenderCollector × σ
  ConfirmRenderTargetTextureRenderSubmission : RenderTargetTextureDependencyInfo → σ → σ
  ConfirmRenderTargetTextureRenderFinished : RenderTargetTextureDependencyInfo → σ → σ
  AbortRenderTargetTextureRender : RenderTargetTextureDependencyInfo → σ → σ
  GetAllCompleteSemaphore : RenderTargetTextureDependencyInfo → σ → VkSemaphore
  GetRenderCounter : RenderTargetTextureDependencyInfo → σ → Nat

/-- Modelled from the spec: `RenderTargetTextureImpl::GetDependencyInfo`
(RenderTargetTextureImpl.cpp is not among the sources) hands out the handle that binds the
consumer to this render target and to its current swap buffer. -/
def GetDependencyInfo {σ : Type} (ops : RenderTargetOps σ) (render_target : Nat) (targets : σ) :
    RenderTargetTextureDependencyInfo :=
  { render_target := render_target
    swap_buffer_index := ops.GetCurrentSwapBuffer render_target targets }

/-- What the code does to the outside world, in the order it does it. Calls to the device
carry the result the device gave. -/
inductive Effect
  | Report (message : String)
  | vkAcquireNextImageKHR (result : VkResult) (new_image_index : Nat)
  | vkWaitForFences (fence : VkFence) (result : VkResult)
  | vkResetFences (fence : VkFence) (result : VkResult)
  | vkBeginCommandBuffer (command_buffer : VkCommandBuffer) (result : VkResult)
  | vkEndCommandBuffer (command_buffer : VkCommandBuffer) (result : VkResult)
  | Submit (submit_infos : List VkSubmitInfo) (fence : VkFence) (result : VkResult)
  | Present (wait_semaphore : VkSemaphore) (image_index : Nat) (result : VkResult)
      (present_result : VkResult)
  | CommitRenderTargetTextureRender (d : RenderTargetTextureDependencyInfo) (success : Bool)
  | ConfirmRenderTargetTextureRenderSubmission (d : RenderTargetTextureDependencyInfo)
  | ConfirmRenderTargetTextureRenderFinished (d : RenderTargetTextureDependencyInfo)
  | AbortRenderTargetTextureRender (d : RenderTargetTextureDependencyInfo)
  | ScheduleTask_ScreenshotSaverTask
  | assertion_failed (expression : String)
  | EventScreenshot (path : String) (data : ImageData) (success : Bool) (message : String)
  | EventWindowSize (size : Nat × Nat)
  | EventWindowIconify (iconified : Bool)
  | vkCmdBindPipeline (command_buffer : VkCommandBuffer)
      (pipeline_settings : GraphicsPipelineSettings)
  | vkCmdBindDescriptorSets (command_buffer : VkCommandBuffer) (descriptor_set : DescriptorSet)
  | vkCmdSetLineWidth (command_buffer : VkCommandBuffer) (line_width : ℚ)
  | vkCmdDrawIndexed (command_buffer : VkCommandBuffer) (index_count : Nat)
      (instance_count : Nat)
  | vkCmdDraw (command_buffer : VkCommandBuffer) (vertex_count : Nat) (instance_count : Nat)
  | stbi_write (path : String) (pixel_channels : Nat) (stbi_write_success : Bool)
  deriving DecidableEq, Repr

/-- The members of `VkSurfaceCapabilitiesKHR` the window reads. -/
structure VkSurfaceCapabilitiesKHR where
  minImageCount : Nat
  maxImageCount : Nat
  currentExtent : Nat × Nat
  deriving DecidableEq, Repr

/-- The members of `WindowImpl` that the frame lifecycle reads or writes. Vectors of device
handles are represented by their sizes; `render_targets` is the state of the render target
objects reachable through the tracked handles; `trace` is the list of effects so far. A
pointer member is the object it points to, or no value when it is null; the value-initialised
`previous_pipeline_settings`, which carries no pipeline layout and so differs from the
settings of every draw call, is no value as well. -/
structure WindowImpl (σ : Type) where
  vsync : Bool
  create_info_event_handler : Option Nat
  event_handler : Option Nat
  is_iconified : Bool
  should_reconstruct : Bool
  next_render_call_function : NextRenderCallFunction
  next_image : Nat
  previous_image : Nat
  previous_frame_need_synchronization : Bool
  extent : Nat × Nat
  surface_capabilities : VkSurfaceCapabilitiesKHR
  present_mode : VkPresentModeKHR
  swapchain_image_count : Nat
  vk_swapchain_images_size : Nat
  vk_swapchain_image_views_size : Nat
  vk_framebuffers_size : Nat
  vk_render_command_buffers_size : Nat
  vk_submit_to_present_semaphores_size : Nat
  vk_gpu_to_cpu_frame_fences_size : Nat
  render_target_texture_dependencies : List (List RenderTargetTextureDependencyInfo)
  screenshot_state : ScreenshotState
  screenshot_swapchain_id : Nat
  screenshot_save_path : String
  screenshot_alpha : Bool
  screenshot_save_data : ImageData
  screenshot_event_error : Bool
  screenshot_event_message : String
  previous_pipeline_settings : Option GraphicsPipelineSettings
  previous_sampler : Option Nat
  previous_texture : Option Texture
  previous_line_width : ℚ
  render_targets : σ
  trace : List Effect

section FrameLifecycle

variable {σ : Type}

/-- Append one effect to the trace. -/
def emit (e : Effect) (w : WindowImpl σ) : WindowImpl σ :=
  { w with trace := w.trace ++ [e] }

/-- The call `instance->Report( ..., message )`. -/
def Report (message : String) (w : WindowImpl σ) : WindowImpl σ :=
  emit (.Report message) w

/-- The tracked list of one slot, `render_target_texture_dependencies[ slot ]`. -/
def dependencies_of (w : WindowImpl σ) (slot : Nat) : List RenderTargetTextureDependencyInfo :=
  w.render_target_texture_dependencies.getD slot []

/-! ## Render target dependency tracker (Window.cpp 3811-3873) -/

/-- The loop of `WindowImpl::CommitRenderTargetTextureRender` over the tracked handles: each
render target commits into the collector, and the first failure ends the loop. -/
def CommitRenderTargetTextureRender_loop (ops : RenderTargetOps σ) :
    List RenderTargetTextureDependencyInfo → RenderTargetTextureRenderCollector →
      WindowImpl σ → Bool × RenderTargetTextureRenderCollector × WindowImpl σ
  | [], collector, w => (true, collector, w)
  | d :: rest, collector, w =>
    let r := ops.CommitRenderTargetTextureRender d collector w.render_targets
    let w1 := emit (.CommitRenderTargetTextureRender d r.1) { w with render_targets := r.2.2 }
    if !r.1 then (false, r.2.1, w1)
    else CommitRenderTargetTextureRender_loop ops rest r.2.1 w1

/-- The function `WindowImpl::CommitRenderTargetTextureRender( collector )`. -/
def CommitRenderTargetTextureRender (ops : RenderTargetOps σ)
    (collector : RenderTargetTextureRenderCollector) (w : WindowImpl σ) :
    Bool × RenderTargetTextureRenderCollector × WindowImpl σ :=
  CommitRenderTargetTextureRender_loop ops (dependencies_of w w.next_image) collector w

/-- Call one notification of the render target objects for every handle of a list, in order. -/
def notify_each (notify : RenderTargetTextureDependencyInfo → σ → σ)
    (effect : RenderTargetTextureDependencyInfo → Effect) :
    List RenderTargetTextureDependencyInfo → WindowImpl σ → WindowImpl σ
  | [], w => w
  | d :: rest, w =>
    notify_each notify effect rest
      (emit (effect d) { w with render_targets := notify d w.render_targets })

/-- The function `WindowImpl::ConfirmRenderTargetTextureRenderSubmission()`. -/
def ConfirmRenderTargetTextureRenderSubmission (ops : RenderTargetOps σ) (w : WindowImpl σ) :
    WindowImpl σ :=
  notify_each ops.ConfirmRenderTargetTextureRenderSubmission
    .ConfirmRenderTargetTextureRenderSubmission (dependencies_of w w.next_image) w

/-- The function `WindowImpl::ConfirmRenderTargetTextureRenderFinished( for_frame_image_index )`:
notify every tracked target of the slot, then clear the slot. -/
def ConfirmRenderTargetTextureRenderFinished (ops : RenderTargetOps σ)
    (for_frame_image_index : Nat) (w : WindowImpl σ) : WindowImpl σ :=
  let w1 := notify_each ops.ConfirmRenderTargetTextureRenderFinished
    .ConfirmRenderTargetTextureRenderFinished (dependencies_of w for_frame_image_index) w
  { w1 with
    render_target_texture_dependencies :=
      w1.render_target_texture_dependencies.set for_frame_image_index [] }

/-- The function `WindowImpl::AbortRenderTargetTextureRender()`: notify every tracked target
of the current slot, then clear the slot. -/
def AbortRenderTargetTextureRender (ops : RenderTargetOps σ) (w : WindowImpl σ) :
    WindowImpl σ :=
  let w1 := notify_each ops.AbortRenderTargetTextureRender
    .AbortRenderTargetTextureRender (dependencies_of w w.next_image) w
  { w1 with
    render_target_texture_dependencies :=
      w1.render_target_texture_dependencies.set w1.next_image [] }

/-- The function `WindowImpl::CheckAndAddRenderTargetTextureDependency( texture )`: when the
texture is a render target that no tracked handle of the current slot refers to
(`std::none_of`), its dependency handle is pushed to the back of the list. -/
def CheckAndAddRenderTargetTextureDependency (ops : RenderTargetOps σ) (texture : Texture)
    (w : WindowImpl σ) : WindowImpl σ :=
  match dynamic_cast_RenderTargetTextureImpl texture.texture_impl with
  | none => w
  | some render_target =>
    if !(dependencies_of w w.next_image).any (fun rt => render_target == rt.render_target) then
      { w with
        render_target_texture_dependencies :=
          w.render_target_texture_dependencies.set w.next_image
            (dependencies_of w w.next_image ++
              [GetDependencyInfo ops render_target w.render_targets]) }
    else w

/-! ## Frame synchronisation (Window.cpp 2752-2827, 3875-3903) -/

/-- The function `WindowImpl::HandleScreenshotEvent()`: deliver the finished screenshot to the
event handler, if there is one, and return the screenshot machinery to `IDLE`. -/
def HandleScreenshotEvent (w : WindowImpl σ) : WindowImpl σ :=
  let w0 :=
    if w.screenshot_state = .WAITING_EVENT_REPORT then w
    else emit (.assertion_failed "screenshot_state == WAITING_EVENT_REPORT") w
  let w1 :=
    if w0.event_handler.isSome then
      if w0.screenshot_save_path ≠ "" then
        emit (.EventScreenshot w0.screenshot_save_path { size := (0, 0), data := [] }
          (!w0.screenshot_event_error) w0.screenshot_event_message) w0
      else
        emit (.EventScreenshot "" w0.screenshot_save_data
          (!w0.screenshot_event_error) w0.screenshot_event_message) w0
    else w0
  { w1 with
    screenshot_save_path := ""
    screenshot_event_error := false
    screenshot_event_message := ""
    screenshot_state := .IDLE }

/-- The answers of the device to one call of `WindowImpl::SynchronizeFrame`. `mapped_data` is
what mapping the screenshot buffer gives: no value when the mapping fails. -/
structure SynchronizeFrameOutcome where
  vkWaitForFences : VkResult
  vkResetFences : VkResult
  mapped_data : Option (List Color8)

/-- The screenshot part of `WindowImpl::SynchronizeFrame` (Window.cpp 2788-2820): fetch the
texels of a screenshot rendered by the frame that has just finished, then report a screenshot
that is ready to be reported. -/
def SynchronizeFrame_screenshot (o : SynchronizeFrameOutcome) (w : WindowImpl σ) :
    WindowImpl σ :=
  let w1 :=
    if w.screenshot_state = .WAITING_RENDER ∧ w.screenshot_swapchain_id = w.previous_image then
      let texel_count := w.extent.1 * w.extent.2
      let w0 := { w with
        screenshot_save_data :=
          { size := w.extent
            data := w.screenshot_save_data.data.take texel_count ++
              List.replicate (texel_count - w.screenshot_save_data.data.length)
                { r := 0, g := 0, b := 0, a := 0 } } }
      match o.mapped_data with
      | some texels =>
        let w00 := { w0 with
          screenshot_save_data :=
            { size := w.extent
              data := (List.range texel_count).map
                (fun i => texels.getD i { r := 0, g := 0, b := 0, a := 0 }) } }
        if w00.screenshot_save_path = "" then
          { w00 with screenshot_state := .WAITING_EVENT_REPORT }
        else
          emit .ScheduleTask_ScreenshotSaverTask
            { w00 with screenshot_state := .WAITING_FILE_WRITE }
      | none =>
        let w00 := Report
          "Internal error: Cannot save screenshot, cannot map screenshot buffer memory!" w0
        { w00 with
          screenshot_event_error := true
          screenshot_event_message := "Internal error: Cannot map buffer data."
          screenshot_state := .WAITING_EVENT_REPORT }
    else w
  if w1.screenshot_state = .WAITING_EVENT_REPORT then HandleScreenshotEvent w1 else w1

/-- The function `WindowImpl::SynchronizeFrame()`: when the previous frame still needs
synchronisation, wait for the fence of its slot, tell the tracked render targets that the
frame has finished, reset the fence and clear the flag. -/
def SynchronizeFrame (ops : RenderTargetOps σ) (o : SynchronizeFrameOutcome)
    (w : WindowImpl σ) : Bool × WindowImpl σ :=
  if w.previous_frame_need_synchronization then
    let w1 := emit
      (.vkWaitForFences (.vk_gpu_to_cpu_frame_fences w.previous_image) o.vkWaitForFences) w
    if o.vkWaitForFences = VK_TIMEOUT then
      (false, Report "Internal error: Timeout synchronizing frame." w1)
    else if o.vkWaitForFences ≠ VK_SUCCESS then
      (false, Report "Internal error: Cannot properly synchronize frame." w1)
    else
      let w2 := ConfirmRenderTargetTextureRenderFinished ops w1.previous_image w1
      let w3 := emit
        (.vkResetFences (.vk_gpu_to_cpu_frame_fences w2.previous_image) o.vkResetFences) w2
      if o.vkResetFences ≠ VK_SUCCESS then
        (false, Report "Internal error: Cannot properly synchronize frame." w3)
      else
        let w4 := SynchronizeFrame_screenshot o w3
        (true, { w4 with previous_frame_need_synchronization := false })
  else (true, w)

/-! ## Rebuilding the swapchain dependent resources (Window.cpp 2842-2917, 3210-3476) -/

/-- The answers of the device to one call of `WindowImpl::ReCreateSwapchain`.
`device_image_count` is the number of images `vkGetSwapchainImagesKHR` reports. -/
structure ReCreateSwapchainOutcome where
  SynchronizeFrame : SynchronizeFrameOutcome
  vkGetPhysicalDeviceSurfaceCapabilitiesKHR : VkResult
  queried_surface_capabilities : VkSurfaceCapabilitiesKHR
  vkGetPhysicalDeviceSurfacePresentModesKHR_count : VkResult
  vkGetPhysicalDeviceSurfacePresentModesKHR_modes : VkResult
  surface_present_modes : List VkPresentModeKHR
  vkCreateSwapchainKHR : VkResult
  vkGetSwapchainImagesKHR_count : VkResult
  vkGetSwapchainImagesKHR_images : VkResult
  device_image_count : Nat
  vkCreateImageView : Nat → VkResult

/-- The loop over the supported present modes in `ReCreateSwapchain`: mailbox ends the search,
immediate is remembered and the search goes on. The pair is `present_mode` and
`present_mode_found`. -/
def present_mode_search :
    List VkPresentModeKHR → VkPresentModeKHR × Bool → VkPresentModeKHR × Bool
  | [], found => found
  | p :: rest, found =>
    if p = .VK_PRESENT_MODE_MAILBOX_KHR then (.VK_PRESENT_MODE_MAILBOX_KHR, true)
    else if p = .VK_PRESENT_MODE_IMMEDIATE_KHR then
      present_mode_search rest (.VK_PRESENT_MODE_IMMEDIATE_KHR, true)
    else present_mode_search rest found

/-- The image count `ReCreateSwapchain` asks for: 2 with vsync and 3 without, lowered to the
maximum the surface allows (when there is one) and then raised to its minimum. -/
def requested_swapchain_image_count (vsync : Bool) (caps : VkSurfaceCapabilitiesKHR) : Nat :=
  let count := if vsync then 2 else 3
  let count := if caps.maxImageCount ≠ 0 ∧ count > caps.maxImageCount then caps.maxImageCount
    else count
  if count < caps.minImageCount then caps.minImageCount else count

/-- The function `WindowImpl::ReCreateSwapchain()`. It first synchronises the previous frame.
Without vsync the supported present modes are queried with two device calls, and a failure of
either ends the function. The image count written to the member `swapchain_image_count` comes from the capabilities
known before the new query; the count the device reports afterwards goes to a local variable
of the same name and sizes only `vk_swapchain_images` and `vk_swapchain_image_views`. -/
def ReCreateSwapchain (ops : RenderTargetOps σ) (o : ReCreateSwapchainOutcome)
    (w : WindowImpl σ) : Bool × WindowImpl σ :=
  let s := SynchronizeFrame ops o.SynchronizeFrame w
  if !s.1 then (false, s.2)
  else
    let w1 := { s.2 with
      swapchain_image_count := requested_swapchain_image_count s.2.vsync s.2.surface_capabilities }
    if o.vkGetPhysicalDeviceSurfaceCapabilitiesKHR ≠ VK_SUCCESS then
      (false, Report
        "Internal error: Cannot query physical device surface capabilities, cannot continue!" w1)
    else
      let w2 := { w1 with
        surface_capabilities := o.queried_surface_capabilities
        extent := o.queried_surface_capabilities.currentExtent }
      if w2.vsync = false ∧ (o.vkGetPhysicalDeviceSurfacePresentModesKHR_count ≠ VK_SUCCESS ∨
          o.vkGetPhysicalDeviceSurfacePresentModesKHR_modes ≠ VK_SUCCESS) then
        (false, Report "Internal error: Cannot query physical device surface present modes!" w2)
      else
        let found : VkPresentModeKHR × Bool :=
          if w2.vsync then (.VK_PRESENT_MODE_FIFO_KHR, true)
          else present_mode_search o.surface_present_modes (w2.present_mode, false)
        let w3 := { w2 with
          present_mode := if !found.2 then .VK_PRESENT_MODE_FIFO_KHR else found.1 }
        if o.vkCreateSwapchainKHR ≠ VK_SUCCESS then
          (false, Report "Internal error: Cannot create Vulkan swapchain!" w3)
        else if o.vkGetSwapchainImagesKHR_count ≠ VK_SUCCESS then
          (false, Report "Internal error: Cannot query Vulkan swapchain images!" w3)
        else
          let w4 := { w3 with vk_swapchain_images_size := o.device_image_count }
          if o.vkGetSwapchainImagesKHR_images ≠ VK_SUCCESS then
            (false, Report "Internal error: Cannot query Vulkan swapchain images!" w4)
          else
            let w5 := { w4 with vk_swapchain_image_views_size := o.device_image_count }
            if (List.range o.device_image_count).all
                (fun i => o.vkCreateImageView i == VK_SUCCESS) then
              (true, { w5 with should_reconstruct := false })
            else
              (false, Report "Internal error: Cannot create Vulkan swapchain image views!" w5)

/-- The answers of the device to one call of `RecreateWindowSizeDependantResources`. The
helpers that only create device objects answer with one flag each. -/
structure RecreateOutcome where
  ReCreateSwapchain : ReCreateSwapchainOutcome
  screenshot_image_created : Bool
  screenshot_buffer_created : Bool
  CreateFramebuffers : Bool
  vkAllocateCommandBuffers : VkResult
  frame_semaphores_created : Bool
  frame_fences_created : Bool

/-- The function `WindowImpl::ReCreateScreenshotResources()`. Its opening loop spins while a
screenshot is being written by the worker thread and can only be left after the worker has
stored `WAITING_EVENT_REPORT`; the embedding takes that exit. -/
def ReCreateScreenshotResources (o : RecreateOutcome) (w : WindowImpl σ) :
    Bool × WindowImpl σ :=
  let w1 :=
    if w.screenshot_state = .WAITING_FILE_WRITE then
      { w with screenshot_state := .WAITING_EVENT_REPORT }
    else w
  if !o.screenshot_image_created then
    (false, { Report
      "Internal error: Cannot create internal screenshot image, screenshots disabled!" w1 with
      screenshot_state := .IDLE_ERROR })
  else if !o.screenshot_buffer_created then
    (false, { Report
      "Internal error: Cannot create internal screenshot buffer, screenshots disabled!" w1 with
      screenshot_state := .IDLE_ERROR })
  else (true, w1)

/-- The function `WindowImpl::AllocateCommandBuffers()`. -/
def AllocateCommandBuffers (o : RecreateOutcome) (w : WindowImpl σ) : Bool × WindowImpl σ :=
  let w1 := { w with vk_render_command_buffers_size := w.swapchain_image_count }
  if o.vkAllocateCommandBuffers ≠ VK_SUCCESS then
    (false, Report "Internal error: Cannot allocate window Vulkan command buffers!" w1)
  else (true, w1)

/-- The function `WindowImpl::CreateFrameSynchronizationPrimitives()`: one semaphore and one
fence per swapchain image; the fences are only reached when every semaphore was created. -/
def CreateFrameSynchronizationPrimitives (o : RecreateOutcome) (w : WindowImpl σ) :
    Bool × WindowImpl σ :=
  let w1 := { w with vk_submit_to_present_semaphores_size := w.swapchain_image_count }
  if !o.frame_semaphores_created then
    (false, Report "Internal error: Cannot create frame synchronization semaphores!" w1)
  else
    let w2 := { w1 with vk_gpu_to_cpu_frame_fences_size := w1.swapchain_image_count }
    if !o.frame_fences_created then
      (false, Report "Internal error: Cannot create frame synchronization fences!" w2)
    else (true, w2)

/-- The resize of `render_target_texture_dependencies` to the image count: slots past the new
size are dropped, new slots are empty. -/
def resize_dependencies (n : Nat) (deps : List (List RenderTargetTextureDependencyInfo)) :
    List (List RenderTargetTextureDependencyInfo) :=
  deps.take n ++ List.replicate (n - deps.length) []

/-- The function `WindowImpl::RecreateWindowSizeDependantResources()`. -/
def RecreateWindowSizeDependantResources (ops : RenderTargetOps σ) (o : RecreateOutcome)
    (w : WindowImpl σ) : Bool × WindowImpl σ :=
  let w0 := Report "Begin recreating window resources." w
  let s := ReCreateSwapchain ops o.ReCreateSwapchain w0
  if !s.1 then (false, s.2)
  else
    let w1 := { s.2 with
      render_target_texture_dependencies :=
        resize_dependencies s.2.swapchain_image_count s.2.render_target_texture_dependencies }
    let w2 := (ReCreateScreenshotResources o w1).2
    let w3 := { w2 with vk_framebuffers_size := w2.swapchain_image_count }
    if !o.CreateFramebuffers then (false, w3)
    else
      let c :=
        if w3.vk_render_command_buffers_size ≠ w3.swapchain_image_count then
          AllocateCommandBuffers o w3
        else (true, w3)
      if !c.1 then (false, c.2)
      else
        let p :=
          if c.2.vk_submit_to_present_semaphores_size ≠ c.2.swapchain_image_count ∨
              c.2.vk_gpu_to_cpu_frame_fences_size ≠ c.2.swapchain_image_count then
            CreateFrameSynchronizationPrimitives o c.2
          else (true, c.2)
        if !p.1 then (false, p.2)
        else
          (true, Report "Done recreating window resources."
            { p.2 with should_reconstruct := false })

/-! ## Acquiring the next swapchain image (Window.cpp 1183-1284) -/

/-- The answers of the device to one run of the lambda `TryAcquireAndWaitAvailable`.
`written_image_index` is the index `vkAcquireNextImageKHR` stores, if it stores one; the
variable it stores to starts as `UINT32_MAX`. -/
structure TryAcquireOutcome where
  vkAcquireNextImageKHR : VkResult
  written_image_index : Option Nat
  vkWaitForFences : VkResult
  vkResetFences : VkResult

/-- The local struct `TryAcquireResult` of `AcquireImage`. -/
structure TryAcquireResult where
  new_image : Nat
  vk_result : VkResult
  deriving DecidableEq, Repr

/-- The lambda `TryAcquireAndWaitAvailable` of `AcquireImage`: acquire, and on success or
partial success wait for and reset the acquire fence. -/
def TryAcquireAndWaitAvailable (o : TryAcquireOutcome) (w : WindowImpl σ) :
    TryAcquireResult × WindowImpl σ :=
  let new_image_index := o.written_image_index.getD UINT32_MAX
  let acquire_result := o.vkAcquireNextImageKHR
  let w1 := emit (.vkAcquireNextImageKHR acquire_result new_image_index) w
  if acquire_result ≥ VK_SUCCESS then
    let w2 := emit (.vkWaitForFences .vk_acquire_image_fence o.vkWaitForFences) w1
    if o.vkWaitForFences ≠ VK_SUCCESS then
      ({ new_image := UINT32_MAX, vk_result := acquire_result },
        Report "Internal error: Cannot acquire next swapchain image, error waiting for fence!" w2)
    else
      let w3 := emit (.vkResetFences .vk_acquire_image_fence o.vkResetFences) w2
      if o.vkResetFences ≠ VK_SUCCESS then
        ({ new_image := UINT32_MAX, vk_result := acquire_result },
          Report
            "Internal error: Cannot acquire next swapchain image, error resetting fence!" w3)
      else ({ new_image := new_image_index, vk_result := acquire_result }, w3)
  else ({ new_image := new_image_index, vk_result := acquire_result }, w1)

/-- The answers of the device to one call of `AcquireImage`: the first attempt, the rebuild
and the second attempt (the last two are only consulted when the code gets there). -/
structure AcquireImageOutcome where
  first : TryAcquireOutcome
  RecreateWindowSizeDependantResources : RecreateOutcome
  retry : TryAcquireOutcome

/-- The function `vk2d::_internal::AcquireImage( impl, ... )`. The `default:` label of its
switch asserts and then falls out of the switch to `return false`. -/
def AcquireImage (ops : RenderTargetOps σ) (o : AcquireImageOutcome) (w : WindowImpl σ) :
    Bool × WindowImpl σ :=
  let result := TryAcquireAndWaitAvailable o.first w
  if result.1.vk_result = VK_SUCCESS then
    (true, { result.2 with next_image := result.1.new_image })
  else if result.1.vk_result = VK_SUBOPTIMAL_KHR then
    let w1 := Report
      "Acquired suboptimal swapchain image, continuing and recreating swapchain next frame."
      result.2
    (true, { w1 with next_image := result.1.new_image, should_reconstruct := true })
  else if result.1.vk_result = VK_ERROR_OUT_OF_DATE_KHR then
    let w1 := Report
      "Could not acquire swapchain image, out of date swapchain, trying to recreate swapchain now."
      result.2
    let rebuilt := RecreateWindowSizeDependantResources ops
      o.RecreateWindowSizeDependantResources w1
    if !rebuilt.1 then
      (false, Report
        "Internal error: Cannot recreate window resources after resizing window!" rebuilt.2)
    else
      let retry_result := TryAcquireAndWaitAvailable o.retry rebuilt.2
      if retry_result.1.vk_result = VK_SUCCESS then
        let w2 := Report
          "Successfully recreated swapchain and aquired swapchain image after recreating swapchain."
          retry_result.2
        (true, { w2 with next_image := retry_result.1.new_image })
      else
        (false, Report
          "Error trying to get swapchain image after swapchain recreation. Aborting now!"
          retry_result.2)
  else
    (false, emit (.assertion_failed "0 && Unhandled case.") result.2)

/-! ## `BeginRender` and `EndRender` (Window.cpp 1286-1823) -/

/-- The answers of the device to one call of `WindowImpl::BeginRender`, one record per step
that talks to the device. -/
structure BeginRenderOutcome where
  RecreateWindowSizeDependantResources : RecreateOutcome
  AcquireImage : AcquireImageOutcome
  SynchronizeFrame : SynchronizeFrameOutcome
  vkBeginCommandBuffer : VkResult

/-- The function `WindowImpl::BeginRender()`. Commands recorded into the command buffer after
`vkBeginCommandBuffer` (viewport, scissor, line width, descriptor set, render pass) cannot fail
and change no member but `previous_line_width`. -/
def BeginRender (ops : RenderTargetOps σ) (o : BeginRenderOutcome) (w : WindowImpl σ) :
    Bool × WindowImpl σ :=
  if w.is_iconified then (true, w)
  else if w.next_render_call_function ≠ .BEGIN then
    (false, Report "'Window::BeginRender()' Called twice in a row!" w)
  else
    let w1 := { w with next_render_call_function := .END }
    let rebuilt :=
      if w1.should_reconstruct then
        RecreateWindowSizeDependantResources ops o.RecreateWindowSizeDependantResources w1
      else (true, w1)
    if !rebuilt.1 then
      (false, Report
        "Internal error: Cannot recreate window resources after resizing window!" rebuilt.2)
    else
      let acquired := AcquireImage ops o.AcquireImage rebuilt.2
      if !acquired.1 then
        (false, Report "Internal error: Cannot acquire next swapchain image!" acquired.2)
      else
        let synced :=
          if acquired.2.next_image = acquired.2.previous_image then
            SynchronizeFrame ops o.SynchronizeFrame acquired.2
          else (true, acquired.2)
        if !synced.1 then
          (false, Report
            "Internal error: Cannot synchronize frame, cannot output to window!" synced.2)
        else
          let w2 := emit
            (.vkBeginCommandBuffer (.vk_render_command_buffers synced.2.next_image)
              o.vkBeginCommandBuffer) synced.2
          if o.vkBeginCommandBuffer ≠ VK_SUCCESS then
            (false, Report
              "Internal error: Cannot record primary render command buffer!" w2)
          else (true, { w2 with previous_line_width := 1 })

/-- The answers of the device, and of the helpers that record transfer commands, to one call
of `WindowImpl::EndRender`. `present_result` is the value `Present` leaves in the variable. -/
structure EndRenderOutcome where
  vkEndCommandBuffer_render : VkResult
  SynchronizeFrame : SynchronizeFrameOutcome
  vkBeginCommandBuffer_transfer : VkResult
  CmdUpdateFrameData : Bool
  CmdUploadMeshDataToGPU : Bool
  vkEndCommandBuffer_transfer : VkResult
  Submit : VkResult
  Present : VkResult
  present_result : VkResult

/-- The list `graphics_queue_submit_infos` after the loop over the collector: the transfer
and then the render submission of every collected render target. -/
def collected_submit_infos (collector : RenderTargetTextureRenderCollector) :
    List VkSubmitInfo :=
  collector.flatMap (fun c => [c.vk_transfer_submit_info, c.vk_render_submit_info])

/-- The vector `render_wait_for_semaphores` of `EndRender`. -/
def render_wait_for_semaphores (ops : RenderTargetOps σ) (w : WindowImpl σ) :
    List VkSemaphore :=
  [VkSemaphore.vk_transfer_semaphore] ++
    (dependencies_of w w.next_image).map (fun d => ops.GetAllCompleteSemaphore d w.render_targets)

/-- The vector `render_wait_for_semaphore_timeline_values` of `EndRender`. -/
def render_wait_for_semaphore_timeline_values (ops : RenderTargetOps σ) (w : WindowImpl σ) :
    List Nat :=
  [1] ++ (dependencies_of w w.next_image).map (fun d => ops.GetRenderCounter d w.render_targets)

/-- The vector `render_wait_for_pipeline_stages` of `EndRender`. -/
def render_wait_for_pipeline_stages (w : WindowImpl σ) : List VkPipelineStageFlags :=
  [VK_PIPELINE_STAGE_VERTEX_INPUT_BIT ||| VK_PIPELINE_STAGE_VERTEX_SHADER_BIT] ++
    (dependencies_of w w.next_image).map (fun _ => VK_PIPELINE_STAGE_ALL_COMMANDS_BIT)

/-- The submission `window_transfer_submit_info` of `EndRender`. -/
def window_transfer_submit_info : VkSubmitInfo :=
  { pWaitSemaphores := []
    pWaitDstStageMask := []
    pWaitSemaphoreValues := []
    pCommandBuffers := [.vk_transfer_command_buffer]
    pSignalSemaphores := [.vk_transfer_semaphore]
    pSignalSemaphoreValues := [] }

/-- The submission `window_render_submit_info` of `EndRender`, with its timeline values. -/
def window_render_submit_info (ops : RenderTargetOps σ) (w : WindowImpl σ) : VkSubmitInfo :=
  { pWaitSemaphores := render_wait_for_semaphores ops w
    pWaitDstStageMask := render_wait_for_pipeline_stages w
    pWaitSemaphoreValues := render_wait_for_semaphore_timeline_values ops w
    pCommandBuffers := [.vk_render_command_buffers w.next_image]
    pSignalSemaphores := [.vk_submit_to_present_semaphores w.next_image]
    pSignalSemaphoreValues := [1] }

/-- The block "Present swapchain image" of `EndRender` and the assignments that close the
function (Window.cpp 1787-1823): a present that reports an out of date or suboptimal swapchain
only marks the swapchain for reconstruction, any other failure ends the function before the
frame is recorded as the previous one. -/
def EndRender_present (o : EndRenderOutcome) (w : WindowImpl σ) : Bool × WindowImpl σ :=
  let w5 := emit
    (.Present (.vk_submit_to_present_semaphores w.next_image) w.next_image
      o.Present o.present_result) w
  let presented : Bool × WindowImpl σ :=
    if o.Present ≠ VK_SUCCESS ∨ o.present_result ≠ VK_SUCCESS then
      if o.Present = VK_ERROR_OUT_OF_DATE_KHR ∨ o.present_result = VK_ERROR_OUT_OF_DATE_KHR ∨
          o.Present = VK_SUBOPTIMAL_KHR ∨ o.present_result = VK_SUBOPTIMAL_KHR then
        (true, { w5 with should_reconstruct := true })
      else
        (false, Report "Internal error: Cannot present render results to window!" w5)
    else (true, w5)
  if !presented.1 then (false, presented.2)
  else
    (true, { presented.2 with
      previous_image := presented.2.next_image
      previous_frame_need_synchronization := true
      previous_pipeline_settings := none
      previous_sampler := none
      previous_texture := none
      previous_line_width := 0 })

/-- The block "Submit renders" of `EndRender` (Window.cpp 1686-1785), followed by the
present: commit the tracked render targets, build the list of submissions and the wait
information of the window render submission, check the assertion on the sizes, submit with
the frame fence of the current slot, and notify the tracked render targets. -/
def EndRender_submit (ops : RenderTargetOps σ) (o : EndRenderOutcome) (w : WindowImpl σ) :
    Bool × WindowImpl σ :=
  let committed := CommitRenderTargetTextureRender ops [] w
  if !committed.1 then
    (false, Report "Internal error: Cannot commit render target textures for rendering!"
      (AbortRenderTargetTextureRender ops committed.2.2))
  else
    let w1 := committed.2.2
    let graphics_queue_submit_infos :=
      collected_submit_infos committed.2.1 ++
        [window_transfer_submit_info, window_render_submit_info ops w1]
    let w2 :=
      if (render_wait_for_semaphores ops w1).length =
            (render_wait_for_semaphore_timeline_values ops w1).length ∧
          (render_wait_for_semaphores ops w1).length =
            (render_wait_for_pipeline_stages w1).length then w1
      else emit (.assertion_failed "std::size( render_wait_for_semaphores ) == ...") w1
    let w3 := emit
      (.Submit graphics_queue_submit_infos (.vk_gpu_to_cpu_frame_fences w2.next_image) o.Submit)
      w2
    if o.Submit ≠ VK_SUCCESS then
      (false, Report
        "Internal error: Cannot submit frame end pre compute graphics command buffers!"
        (AbortRenderTargetTextureRender ops w3))
    else EndRender_present o (ConfirmRenderTargetTextureRenderSubmission ops w3)

/-- The blocks of `EndRender` between the alternation check and "Submit renders"
(Window.cpp 1454-1684): close the render command buffer, synchronise the previous frame and
record the transfer command buffer. Commands recorded into the render command buffer before
`vkEndCommandBuffer` (end of the render pass, the screenshot copy) cannot fail; of the
screenshot block only the two member writes remain. The flag says whether `EndRender` goes
on to submit. -/
def EndRender_record (ops : RenderTargetOps σ) (o : EndRenderOutcome) (w : WindowImpl σ) :
    Bool × WindowImpl σ :=
  let w2 :=
    if w.screenshot_state = .REQUESTED then
      { w with screenshot_state := .WAITING_RENDER, screenshot_swapchain_id := w.next_image }
    else w
  let w3 := emit
    (.vkEndCommandBuffer (.vk_render_command_buffers w2.next_image)
      o.vkEndCommandBuffer_render) w2
  if o.vkEndCommandBuffer_render ≠ VK_SUCCESS then
    (false, Report "Internal error: Cannot compile primary render command buffer!" w3)
  else
    let synced := SynchronizeFrame ops o.SynchronizeFrame w3
    if !synced.1 then
      (false, Report
        "Internal error: Cannot synchronize frame, cannot output to window!" synced.2)
    else
      let w4 := emit
        (.vkBeginCommandBuffer .vk_transfer_command_buffer o.vkBeginCommandBuffer_transfer)
        synced.2
      if o.vkBeginCommandBuffer_transfer ≠ VK_SUCCESS then
        (false, Report
          "Internal error: Cannot record mesh to GPU transfer command buffer!" w4)
      else if !o.CmdUpdateFrameData then
        (false, Report
          "Internal error: Cannot record commands to transfer FrameData to GPU!" w4)
      else if !o.CmdUploadMeshDataToGPU then
        (false, Report
          "Internal error: Cannot record commands to transfer mesh data to GPU!" w4)
      else
        let w5 := emit
          (.vkEndCommandBuffer .vk_transfer_command_buffer o.vkEndCommandBuffer_transfer) w4
        if o.vkEndCommandBuffer_transfer ≠ VK_SUCCESS then
          (false, Report
            "Internal error: Cannot compile mesh to GPU transfer command buffer!" w5)
        else (true, w5)

/-- The function `WindowImpl::EndRender()`: the iconified shortcut and the alternation check,
then the recording blocks, then the submission and the present. -/
def EndRender (ops : RenderTargetOps σ) (o : EndRenderOutcome) (w : WindowImpl σ) :
    Bool × WindowImpl σ :=
  if w.is_iconified then (true, w)
  else if w.next_render_call_function ≠ .END then
    (false, Report "'Window::EndRender()' Called twice in a row!" w)
  else
    let recorded := EndRender_record ops o { w with next_render_call_function := .BEGIN }
    if !recorded.1 then (false, recorded.2)
    else EndRender_submit ops o recorded.2

/-- Whether the outcome of a present ends `EndRender` with a failure: it is not a success and
it is neither out of date nor suboptimal. -/
def present_failed (o : EndRenderOutcome) : Prop :=
  (o.Present ≠ VK_SUCCESS ∨ o.present_result ≠ VK_SUCCESS) ∧
    ¬ (o.Present = VK_ERROR_OUT_OF_DATE_KHR ∨ o.present_result = VK_ERROR_OUT_OF_DATE_KHR ∨
      o.Present = VK_SUBOPTIMAL_KHR ∨ o.present_result = VK_SUBOPTIMAL_KHR)

/-- The result of the recording blocks of an accepted `EndRender`: whether the function goes
on to "Submit renders", and the state in which it does. -/
def EndRender_recorded (ops : RenderTargetOps σ) (o : EndRenderOutcome) (w : WindowImpl σ) :
    Bool × WindowImpl σ :=
  EndRender_record ops o { w with next_render_call_function := .BEGIN }

/-- The list of submissions `EndRender` hands to the queue from the state reached after the
commits, with the collector the commits filled. -/
def graphics_queue_submit_infos (ops : RenderTargetOps σ)
    (collector : RenderTargetTextureRenderCollector) (w : WindowImpl σ) : List VkSubmitInfo :=
  collected_submit_infos collector ++
    [window_transfer_submit_info, window_render_submit_info ops w]

/-! ## Draw calls (Window.cpp 2194-2577, 3905-4064) -/

/-- The parts of `InstanceImpl` the draw calls ask for. Its member functions are not among the
sources, so what they return is a field each. -/
structure InstanceImpl where
  GetDefaultTexture : Texture
  GetDefaultSampler : Nat
  GetCompatibleGraphicsShaderModules : Bool → Bool → Nat → Nat

/-- The answers other objects give during one draw call: the textures about their data and
layers, the samplers about their border colour, the mesh buffer about the push of the mesh
(`push_result.success`). -/
structure DrawOutcome where
  IsTextureDataReady : Texture → Bool
  GetLayerCount : Texture → Nat
  IsAnyBorderColorEnabled : Nat → Bool
  CmdPushMesh : Bool

/-- The function `WindowImpl::CmdBindGraphicsPipelineIfDifferent`. -/
def CmdBindGraphicsPipelineIfDifferent (command_buffer : VkCommandBuffer)
    (pipeline_settings : GraphicsPipelineSettings) (w : WindowImpl σ) : WindowImpl σ :=
  if w.previous_pipeline_settings ≠ some pipeline_settings then
    { emit (.vkCmdBindPipeline command_buffer pipeline_settings) w with
      previous_pipeline_settings := some pipeline_settings }
  else w

/-- The function `WindowImpl::CmdBindSamplerIfDifferent`. The descriptor set of a sampler
is created on first use; only the bind is represented. -/
def CmdBindSamplerIfDifferent (command_buffer : VkCommandBuffer) (sampler : Nat)
    (w : WindowImpl σ) : WindowImpl σ :=
  if some sampler ≠ w.previous_sampler then
    { emit (.vkCmdBindDescriptorSets command_buffer (.sampler_descriptor_sets sampler)) w with
      previous_sampler := some sampler }
  else w

/-- The function `WindowImpl::CmdBindTextureIfDifferent`. The descriptor set of a texture
is created on first use; only the bind is represented. -/
def CmdBindTextureIfDifferent (command_buffer : VkCommandBuffer) (texture : Texture)
    (w : WindowImpl σ) : WindowImpl σ :=
  if some texture ≠ w.previous_texture then
    { emit (.vkCmdBindDescriptorSets command_buffer (.texture_descriptor_sets texture)) w with
      previous_texture := some texture }
  else w

/-- The function `WindowImpl::CmdSetLineWidthIfDifferent`. -/
def CmdSetLineWidthIfDifferent (command_buffer : VkCommandBuffer) (line_width : ℚ)
    (w : WindowImpl σ) : WindowImpl σ :=
  if w.previous_line_width ≠ line_width then
    { emit (.vkCmdSetLineWidth command_buffer line_width) w with
      previous_line_width := line_width }
  else w

/-- The function `WindowImpl::DrawTriangleList` on raw indices. The mesh data enters by the
sizes of its vectors; a null `texture` or `sampler` pointer is no value. The push constants
written before the draw command are not represented. -/
def DrawTriangleList (ops : RenderTargetOps σ) (vk2d_instance : InstanceImpl) (o : DrawOutcome)
    (raw_indices_size vertices_size texture_layer_weights_size transformations_size : Nat)
    (filled : Bool) (texture : Option Texture) (sampler : Option Nat) (w : WindowImpl σ) :
    WindowImpl σ :=
  if w.is_iconified then w
  else
    let command_buffer := VkCommandBuffer.vk_render_command_buffers w.next_image
    let index_count := raw_indices_size % 2 ^ 32
    let texture1 :=
      match texture with
      | none => vk2d_instance.GetDefaultTexture
      | some given => given
    let texture2 :=
      if !o.IsTextureDataReady texture1 then vk2d_instance.GetDefaultTexture else texture1
    let sampler1 :=
      match sampler with
      | none => vk2d_instance.GetDefaultSampler
      | some given => given
    let w1 := CheckAndAddRenderTargetTextureDependency ops texture2 w
    let multitextured : Bool :=
      decide (o.GetLayerCount texture2 > 1) &&
        decide (texture_layer_weights_size ≥ (o.GetLayerCount texture2 * vertices_size) % 2 ^ 64)
    let graphics_shader_programs :=
      vk2d_instance.GetCompatibleGraphicsShaderModules multitextured
        (o.IsAnyBorderColorEnabled sampler1) 3
    let pipeline_settings : GraphicsPipelineSettings :=
      { primitive_topology := .VK_PRIMITIVE_TOPOLOGY_TRIANGLE_LIST
        polygon_mode := if filled then .VK_POLYGON_MODE_FILL else .VK_POLYGON_MODE_LINE
        shader_programs := graphics_shader_programs }
    let w2 := CmdBindGraphicsPipelineIfDifferent command_buffer pipeline_settings w1
    let w3 := CmdBindSamplerIfDifferent command_buffer sampler1 w2
    let w4 := CmdBindTextureIfDifferent command_buffer texture2 w3
    if o.CmdPushMesh then
      emit (.vkCmdDrawIndexed command_buffer index_count (transformations_size % 2 ^ 32)) w4
    else Report "Internal error: Cannot push mesh into mesh render queue!" w4

/-- The function `WindowImpl::DrawLineList` on raw indices. -/
def DrawLineList (ops : RenderTargetOps σ) (vk2d_instance : InstanceImpl) (o : DrawOutcome)
    (raw_indices_size vertices_size texture_layer_weights_size transformations_size : Nat)
    (texture : Option Texture) (sampler : Option Nat) (line_width : ℚ) (w : WindowImpl σ) :
    WindowImpl σ :=
  if w.is_iconified then w
  else
    let command_buffer := VkCommandBuffer.vk_render_command_buffers w.next_image
    let index_count := raw_indices_size % 2 ^ 32
    let texture1 :=
      match texture with
      | none => vk2d_instance.GetDefaultTexture
      | some given => given
    let texture2 :=
      if !o.IsTextureDataReady texture1 then vk2d_instance.GetDefaultTexture else texture1
    let sampler1 :=
      match sampler with
      | none => vk2d_instance.GetDefaultSampler
      | some given => given
    let w1 := CheckAndAddRenderTargetTextureDependency ops texture2 w
    let multitextured : Bool :=
      decide (o.GetLayerCount texture2 > 1) &&
        decide (texture_layer_weights_size ≥ (o.GetLayerCount texture2 * vertices_size) % 2 ^ 64)
    let graphics_shader_programs :=
      vk2d_instance.GetCompatibleGraphicsShaderModules multitextured
        (o.IsAnyBorderColorEnabled sampler1) 2
    let pipeline_settings : GraphicsPipelineSettings :=
      { primitive_topology := .VK_PRIMITIVE_TOPOLOGY_LINE_LIST
        polygon_mode := .VK_POLYGON_MODE_LINE
        shader_programs := graphics_shader_programs }
    let w2 := CmdBindGraphicsPipelineIfDifferent command_buffer pipeline_settings w1
    let w20 := CmdSetLineWidthIfDifferent command_buffer line_width w2
    let w3 := CmdBindSamplerIfDifferent command_buffer sampler1 w20
    let w4 := CmdBindTextureIfDifferent command_buffer texture2 w3
    if o.CmdPushMesh then
      emit (.vkCmdDrawIndexed command_buffer index_count (transformations_size % 2 ^ 32)) w4
    else Report "Internal error: Cannot push mesh into mesh render queue!" w4

/-- The function `WindowImpl::DrawPointList`. -/
def DrawPointList (ops : RenderTargetOps σ) (vk2d_instance : InstanceImpl) (o : DrawOutcome)
    (vertices_size texture_layer_weights_size transformations_size : Nat)
    (texture : Option Texture) (sampler : Option Nat) (w : WindowImpl σ) : WindowImpl σ :=
  if w.is_iconified then w
  else
    let command_buffer := VkCommandBuffer.vk_render_command_buffers w.next_image
    let vertex_count := vertices_size % 2 ^ 32
    let texture1 :=
      match texture with
      | none => vk2d_instance.GetDefaultTexture
      | some given => given
    let texture2 :=
      if !o.IsTextureDataReady texture1 then vk2d_instance.GetDefaultTexture else texture1
    let sampler1 :=
      match sampler with
      | none => vk2d_instance.GetDefaultSampler
      | some given => given
    let w1 := CheckAndAddRenderTargetTextureDependency ops texture2 w
    let multitextured : Bool :=
      decide (o.GetLayerCount texture2 > 1) &&
        decide (texture_layer_weights_size ≥ (o.GetLayerCount texture2 * vertices_size) % 2 ^ 64)
    let graphics_shader_programs :=
      vk2d_instance.GetCompatibleGraphicsShaderModules multitextured
        (o.IsAnyBorderColorEnabled sampler1) 1
    let pipeline_settings : GraphicsPipelineSettings :=
      { primitive_topology := .VK_PRIMITIVE_TOPOLOGY_POINT_LIST
        polygon_mode := .VK_POLYGON_MODE_POINT
        shader_programs := graphics_shader_programs }
    let w2 := CmdBindGraphicsPipelineIfDifferent command_buffer pipeline_settings w1
    let w3 := CmdBindSamplerIfDifferent command_buffer sampler1 w2
    let w4 := CmdBindTextureIfDifferent command_buffer texture2 w3
    if o.CmdPushMesh then
      emit (.vkCmdDraw command_buffer vertex_count (transformations_size % 2 ^ 32)) w4
    else Report "Internal error: Cannot push mesh into mesh render queue!" w4

/-! ## Screenshot requests, events and resize notifications
(Window.cpp 780-870, 1825-1913, 2052-2060, 2636-2745) -/

/-- The function `WindowImpl::TakeScreenshotToFile( save_path, include_alpha )`. -/
def TakeScreenshotToFile (save_path : String) (include_alpha : Bool) (w : WindowImpl σ) :
    WindowImpl σ :=
  if w.screenshot_state = .IDLE then
    { w with
      screenshot_save_path := save_path
      screenshot_state := .REQUESTED
      screenshot_alpha := include_alpha }
  else
    Report "Screenshot request ignored: Previous screenshot has not yet been processed." w

/-- The function `WindowImpl::TakeScreenshotToData( include_alpha )`. -/
def TakeScreenshotToData (include_alpha : Bool) (w : WindowImpl σ) : WindowImpl σ :=
  if w.screenshot_state = .IDLE then
    { w with
      screenshot_save_path := ""
      screenshot_state := .REQUESTED
      screenshot_alpha := include_alpha }
  else
    Report "Screenshot request ignored: Previous screenshot has not yet been processed." w

/-- What the libraries answer while the `ScreenshotSaverTask` runs: the extension
`std::filesystem::path::extension` finds in the save path, and whether the image writer
succeeds. -/
structure ScreenshotSaverOutcome where
  extension : String
  stbi_write_success : Bool

/-- The call operator of `ScreenshotSaverTask`, run by a worker thread: write the texels to
the file, with three channels per texel when `screenshot_alpha` is off, store the result for
the event and hand the screenshot over with `WAITING_EVENT_REPORT`. -/
def ScreenshotSaverTask (o : ScreenshotSaverOutcome) (w : WindowImpl σ) : WindowImpl σ :=
  let w0 :=
    if w.screenshot_state = .WAITING_FILE_WRITE then w
    else emit (.assertion_failed "window->screenshot_state == WAITING_FILE_WRITE") w
  let pixel_channels := if !w0.screenshot_alpha then 3 else 4
  let known := [".png", ".bmp", ".tga", ".jpg", ".jpeg"].contains o.extension
  let w1 :=
    if known then w0
    else Report "Screenshot extension was not known, saving screenshot as .png" w0
  let path := if known then w0.screenshot_save_path else w0.screenshot_save_path ++ ".png"
  let w2 := emit (.stbi_write path pixel_channels o.stbi_write_success) w1
  let w3 :=
    if o.stbi_write_success then
      { w2 with
        screenshot_event_error := false
        screenshot_event_message := "Screenshot successfully saved at: " ++ path }
    else
      { Report ("Cannot save screenshot: '" ++ path ++ "'") w2 with
        screenshot_event_error := true
        screenshot_event_message := "Cannot save screenshot '" ++ path ++ "'" }
  { w3 with screenshot_state := .WAITING_EVENT_REPORT }

/-- The function `WindowImpl::DisableEvents( disable_events )`. -/
def DisableEvents (disable_events : Bool) (w : WindowImpl σ) : WindowImpl σ :=
  if disable_events then { w with event_handler := none }
  else { w with event_handler := w.create_info_event_handler }

/-- The function `WindowImpl::AreEventsDisabled()`, which returns `!!event_handler`. -/
def AreEventsDisabled (w : WindowImpl σ) : Bool :=
  !!w.event_handler.isSome

/-- The conversion `uint32_t( x )` of an `int`. -/
def uint32_t (x : Int) : Nat :=
  (x % 2 ^ 32).toNat

/-- The callback `glfwWindowSizeCallback( glfwWindow, x, y )`. -/
def glfwWindowSizeCallback (x y : Int) (w : WindowImpl σ) : WindowImpl σ :=
  let w1 := { w with extent := (uint32_t x, uint32_t y), should_reconstruct := true }
  if w1.event_handler.isSome then emit (.EventWindowSize (uint32_t x, uint32_t y)) w1 else w1

/-- The callback `glfwFramebufferSizeCallback( glfwWindow, x, y )`. -/
def glfwFramebufferSizeCallback (x y : Int) (w : WindowImpl σ) : WindowImpl σ :=
  let w1 := { w with extent := (uint32_t x, uint32_t y), should_reconstruct := true }
  if w1.event_handler.isSome then emit (.EventWindowSize (uint32_t x, uint32_t y)) w1 else w1

/-- The callback `glfwWindowIconifyCallback( glfwWindow, iconify )`: restoring the window also
marks the swapchain for reconstruction. -/
def glfwWindowIconifyCallback (iconify : Int) (w : WindowImpl σ) : WindowImpl σ :=
  let w1 :=
    if iconify ≠ 0 then { w with is_iconified := true }
    else { w with is_iconified := false, should_reconstruct := true }
  if w1.event_handler.isSome then emit (.EventWindowIconify (decide (iconify ≠ 0))) w1 else w1

/-- The function `WindowImpl::SetSize( new_size )`. -/
def SetSize (new_size : Nat × Nat) (w : WindowImpl σ) : WindowImpl σ :=
  { w with extent := (new_size.1 % 2 ^ 32, new_size.2 % 2 ^ 32), should_reconstruct := true }

/-! ## Sequences of calls -/

/-- One call made by the application, with the answers the device gives during it. -/
inductive Call
  | BeginRender (o : BeginRenderOutcome)
  | EndRender (o : EndRenderOutcome)
  | CheckAndAddRenderTargetTextureDependency (texture : Texture)
  | TakeScreenshotToFile (save_path : String) (include_alpha : Bool)
  | TakeScreenshotToData (include_alpha : Bool)
  | ScreenshotSaverTask (o : ScreenshotSaverOutcome)
  | DisableEvents (disable_events : Bool)

/-- Make one call. The thread pool runs a `ScreenshotSaverTask` only after `SynchronizeFrame`
has scheduled it, and the task ends by leaving `WAITING_FILE_WRITE`, so the task runs only in
that state. -/
def step (ops : RenderTargetOps σ) (w : WindowImpl σ) : Call → WindowImpl σ
  | .BeginRender o => (BeginRender ops o w).2
  | .EndRender o => (EndRender ops o w).2
  | .CheckAndAddRenderTargetTextureDependency texture =>
    CheckAndAddRenderTargetTextureDependency ops texture w
  | .TakeScreenshotToFile save_path include_alpha =>
    TakeScreenshotToFile save_path include_alpha w
  | .TakeScreenshotToData include_alpha => TakeScreenshotToData include_alpha w
  | .ScreenshotSaverTask o =>
    if w.screenshot_state = .WAITING_FILE_WRITE then ScreenshotSaverTask o w else w
  | .DisableEvents disable_events => DisableEvents disable_events w

/-- Make a sequence of calls, first to last. -/
def run (ops : RenderTargetOps σ) (w : WindowImpl σ) (calls : List Call) : WindowImpl σ :=
  calls.foldl (step ops) w

/-- Register the textures of a series of draw calls with the tracker, first to last. -/
def reference_all (ops : RenderTargetOps σ) (textures : List Texture) (w : WindowImpl σ) :
    WindowImpl σ :=
  textures.foldl (fun state texture => CheckAndAddRenderTargetTextureDependency ops texture state) w

/-- The effects appended to the trace on the way from `w` to `w1`. -/
def trace_since (w w1 : WindowImpl σ) : List Effect :=
  w1.trace.drop w.trace.length

/-- The render targets whose commit was invoked, one entry per invocation, in order. -/
def committed_targets : List Effect → List Nat
  | [] => []
  | .CommitRenderTargetTextureRender d _ :: rest => d.render_target :: committed_targets rest
  | _ :: rest => committed_targets rest

/-- The render targets a list of handles refers to. -/
def targets_of (l : List RenderTargetTextureDependencyInfo) : List Nat :=
  l.map (fun d => d.render_target)

/-! ## Reading traces -/

/-- Whether an effect is an acquire attempt. -/
def is_acquire_attempt : Effect → Bool
  | .vkAcquireNextImageKHR _ _ => true
  | _ => false

/-- Whether an effect is the report that opens `RecreateWindowSizeDependantResources`. -/
def is_rebuild_start : Effect → Bool
  | .Report message => message == "Begin recreating window resources."
  | _ => false

/-- Whether an effect is a queue submission, a present, or the notification that follows a
successful submission. -/
def is_submission_effect : Effect → Bool
  | .Submit _ _ _ => true
  | .Present _ _ _ _ => true
  | .ConfirmRenderTargetTextureRenderSubmission _ => true
  | _ => false

/-- Whether an effect is a wait for the frame fence of the given slot. -/
def is_frame_fence_wait (slot : Nat) : Effect → Bool
  | .vkWaitForFences (.vk_gpu_to_cpu_frame_fences s) _ => s == slot
  | _ => false

/-- Whether an effect begins the recording of a render command buffer. -/
def is_render_recording_start : Effect → Bool
  | .vkBeginCommandBuffer (.vk_render_command_buffers _) _ => true
  | _ => false

/-- Whether an effect is one of the steps of the frame protocol: an acquire attempt, the
start of a rebuild, the start of the recording of a render command buffer, a submission, a
present or the notification of a submission. -/
def is_frame_step (e : Effect) : Bool :=
  is_acquire_attempt e || is_rebuild_start e || is_render_recording_start e ||
    is_submission_effect e

/-- The trace `after` continues the trace `before` without any step of the frame protocol. -/
def quiet_extension (before after : List Effect) : Prop :=
  ∃ delta, after = before ++ delta ∧ ∀ e ∈ delta, is_frame_step e = false

/-- The members that say where the window is in the frame protocol are the same in both
states: the iconified flag, whose turn it is, and the current and previous slot. -/
def same_frame_position (w w1 : WindowImpl σ) : Prop :=
  w1.is_iconified = w.is_iconified ∧
    w1.next_render_call_function = w.next_render_call_function ∧
    w1.next_image = w.next_image ∧ w1.previous_image = w.previous_image

/-- The number of acquire attempts in a trace. -/
def acquire_attempts (trace : List Effect) : Nat :=
  trace.countP is_acquire_attempt

/-- The number of calls of `RecreateWindowSizeDependantResources` in a trace. -/
def rebuilds (trace : List Effect) : Nat :=
  trace.countP is_rebuild_start

/-- The slots with a queue submission that has not been confirmed finished, after a trace
that started with the slots `pending`: a successful submission with the frame fence of a
slot makes the slot pending, a successful wait for that fence ends it. -/
def pending_slots : List Effect → List Nat → List Nat
  | [], pending => pending
  | .Submit _ (.vk_gpu_to_cpu_frame_fences slot) result :: rest, pending =>
    pending_slots rest (if result = VK_SUCCESS then slot :: pending else pending)
  | .vkWaitForFences (.vk_gpu_to_cpu_frame_fences slot) result :: rest, pending =>
    pending_slots rest (if result = VK_SUCCESS then pending.filter (fun s => s != slot) else pending)
  | _ :: rest, pending => pending_slots rest pending

/-- No reuse before completion, as a check of a trace that started with the slots `pending`:
whenever recording of the render command buffer of a slot begins, no earlier successful
submission with the frame fence of that slot is still waiting for its successful fence
wait. -/
def no_reuse_before_completion : List Effect → List Nat → Bool
  | [], _ => true
  | .vkBeginCommandBuffer (.vk_render_command_buffers slot) result :: rest, pending =>
    !pending.contains slot &&
      no_reuse_before_completion rest
        (pending_slots [.vkBeginCommandBuffer (.vk_render_command_buffers slot) result] pending)
  | e :: rest, pending => no_reuse_before_completion rest (pending_slots [e] pending)

end FrameLifecycle

/-! ## The older window implementation (Source/VK2D/WindowImpl.cpp 162-267, 611-722) -/

namespace VK2D

/-- The members of the older `WindowImpl` that acquiring an image reads or writes. Vectors of
device handles are represented by their sizes, `report_function` by whether it is set. -/
structure WindowImpl where
  report_function : Bool
  vsync : Bool
  next_render_call_function : NextRenderCallFunction
  recreate_swapchain : Bool
  next_image : Nat
  previous_image : Nat
  previous_frame_need_synchronization : Bool
  extent : Nat × Nat
  surface_capabilities : VkSurfaceCapabilitiesKHR
  present_mode : VkPresentModeKHR
  swapchain_image_count : Nat
  swapchain_images_size : Nat
  swapchain_image_views_size : Nat
  framebuffers_size : Nat
  render_command_buffers_size : Nat
  submit_to_present_semaphores_size : Nat
  gpu_to_cpu_frame_fences_size : Nat
  trace : List Effect

/-- Append one effect to the trace. -/
def emit (e : Effect) (data : WindowImpl) : WindowImpl :=
  { data with trace := data.trace ++ [e] }

/-- The statement `if( report_function ) report_function( severity, message )`. -/
def report (message : String) (data : WindowImpl) : WindowImpl :=
  if data.report_function then emit (.Report message) data else data

/-- The answers of the device to one call of the older `SynchronizeFrame`. The wait has no
timeout (`UINT64_MAX`): no value means that it does not return. -/
structure SynchronizeFrameOutcome where
  vkWaitForFences : Option VkResult
  vkResetFences : VkResult

/-- The function `WindowImpl::SynchronizeFrame()` of the older implementation. No value
means that the call does not return. -/
def SynchronizeFrame (o : SynchronizeFrameOutcome) (data : WindowImpl) :
    Option (Bool × WindowImpl) :=
  if data.previous_frame_need_synchronization then
    match o.vkWaitForFences with
    | none => none
    | some wait_result =>
      let data1 := emit
        (.vkWaitForFences (.vk_gpu_to_cpu_frame_fences data.previous_image) wait_result) data
      if wait_result ≠ VK_SUCCESS then some (false, report "Error synchronizing frame!" data1)
      else
        let data2 := emit
          (.vkResetFences (.vk_gpu_to_cpu_frame_fences data.previous_image) o.vkResetFences)
          data1
        if o.vkResetFences ≠ VK_SUCCESS then
          some (false, report "Error synchronizing frame!" data2)
        else some (true, { data2 with previous_frame_need_synchronization := false })
  else some (true, data)

/-- The answers of the device to one call of the older `RecreateResourcesAfterResizing`. -/
structure RecreateOutcome where
  SynchronizeFrame : SynchronizeFrameOutcome
  queried_surface_capabilities : VkSurfaceCapabilitiesKHR
  surface_present_modes : List VkPresentModeKHR
  vkCreateSwapchainKHR : VkResult
  device_image_count : Nat
  vkCreateImageView : Nat → VkResult
  CreateFramebuffers : Bool
  vkAllocateCommandBuffers : VkResult
  frame_semaphores_created : Bool
  frame_fences_created : Bool

/-- The function `WindowImpl::CreateSwapchain()` of the older implementation. -/
def CreateSwapchain (o : RecreateOutcome) (data : WindowImpl) : Option (Bool × WindowImpl) :=
  match SynchronizeFrame o.SynchronizeFrame data with
  | none => none
  | some (false, data1) => some (false, data1)
  | some (true, data1) =>
    let data2 := { data1 with
      swapchain_image_count :=
        requested_swapchain_image_count data1.vsync data1.surface_capabilities
      surface_capabilities := o.queried_surface_capabilities
      extent := o.queried_surface_capabilities.currentExtent }
    let found : VkPresentModeKHR × Bool :=
      if data2.vsync then (.VK_PRESENT_MODE_FIFO_KHR, true)
      else present_mode_search o.surface_present_modes (data2.present_mode, false)
    let data3 := { data2 with
      present_mode := if !found.2 then .VK_PRESENT_MODE_FIFO_KHR else found.1 }
    if o.vkCreateSwapchainKHR ≠ VK_SUCCESS then
      some (false, report "Cannot create vulkan swapchain!" data3)
    else
      let data4 := { data3 with
        swapchain_images_size := o.device_image_count
        swapchain_image_views_size := o.device_image_count }
      if (List.range o.device_image_count).all
          (fun i => o.vkCreateImageView i == VK_SUCCESS) then
        some (true, data4)
      else some (false, report "Cannot create image views for swapchain!" data4)

/-- The function `WindowImpl::AllocateCommandBuffers()` of the older implementation. -/
def AllocateCommandBuffers (o : RecreateOutcome) (data : WindowImpl) : Bool × WindowImpl :=
  let data1 := { data with render_command_buffers_size := data.swapchain_image_count }
  if o.vkAllocateCommandBuffers ≠ VK_SUCCESS then
    (false, report "Cannot allocate command buffers!" data1)
  else (true, data1)

/-- The function `WindowImpl::CreateFrameSynchronizationPrimitives()` of the older
implementation. -/
def CreateFrameSynchronizationPrimitives (o : RecreateOutcome) (data : WindowImpl) :
    Bool × WindowImpl :=
  let data1 := { data with submit_to_present_semaphores_size := data.swapchain_image_count }
  if !o.frame_semaphores_created then
    (false, report "Cannot create synchronization semaphores!" data1)
  else
    let data2 := { data1 with gpu_to_cpu_frame_fences_size := data1.swapchain_image_count }
    if !o.frame_fences_created then
      (false, report "Cannot create synchronization fences!" data2)
    else (true, data2)

/-- The function `WindowImpl::RecreateResourcesAfterResizing()`. -/
def RecreateResourcesAfterResizing (o : RecreateOutcome) (data : WindowImpl) :
    Option (Bool × WindowImpl) :=
  match CreateSwapchain o data with
  | none => none
  | some (false, data1) => some (false, data1)
  | some (true, data1) =>
    let data2 := { data1 with framebuffers_size := data1.swapchain_image_count }
    if !o.CreateFramebuffers then some (false, report "Cannot create framebuffers!" data2)
    else
      let c :=
        if data2.render_command_buffers_size ≠ data2.swapchain_image_count then
          AllocateCommandBuffers o data2
        else (true, data2)
      if !c.1 then some (false, c.2)
      else
        let p :=
          if c.2.submit_to_present_semaphores_size ≠ c.2.swapchain_image_count ∨
              c.2.gpu_to_cpu_frame_fences_size ≠ c.2.swapchain_image_count then
            CreateFrameSynchronizationPrimitives o c.2
          else (true, c.2)
        if !p.1 then some (false, p.2)
        else some (true, { p.2 with recreate_swapchain := false })

/-- The answers of the device to one activation of `AquireImage`. The acquire writes
`next_image` when it stores an index; the wait for the acquire fence has no timeout and no
value means that it does not return; the result of the wait and of the reset are not looked
at by the code. -/
structure AquireImageOutcome where
  vkAcquireNextImageKHR : VkResult
  written_image_index : Option Nat
  RecreateResourcesAfterResizing : RecreateOutcome
  vkWaitForFences : Option VkResult
  vkResetFences : VkResult

/-- The statements that close `AquireImage`: wait for the acquire fence, reset it, return
true. -/
def AquireImage_wait (o : AquireImageOutcome) (data : WindowImpl) :
    Option (Bool × WindowImpl) :=
  match o.vkWaitForFences with
  | none => none
  | some wait_result =>
    some (true,
      emit (.vkResetFences .vk_acquire_image_fence o.vkResetFences)
        (emit (.vkWaitForFences .vk_acquire_image_fence wait_result) data))

/-- The function `AquireImage( data, ..., nested_counter )` of the older implementation. The
list holds the answers of the device to the successive activations, the outermost first; an
activation without answers does not return, and no value means that the call does not
return. The `if` around the nested call has an empty body, so the value the nested call
returns is dropped. -/
def AquireImage : List AquireImageOutcome → Nat → WindowImpl → Option (Bool × WindowImpl)
  | [], _, _ => none
  | o :: nested, nested_counter, data =>
    let data1 := emit
      (.vkAcquireNextImageKHR o.vkAcquireNextImageKHR
        (o.written_image_index.getD data.next_image))
      { data with next_image := o.written_image_index.getD data.next_image }
    if o.vkAcquireNextImageKHR ≠ VK_SUCCESS then
      if o.vkAcquireNextImageKHR = VK_SUBOPTIMAL_KHR then
        AquireImage_wait o { data1 with recreate_swapchain := true }
      else if o.vkAcquireNextImageKHR = VK_ERROR_OUT_OF_DATE_KHR then
        if nested_counter ≠ 0 then
          some (false, report "Cannot aquire a swapchain image after retry!" data1)
        else
          match RecreateResourcesAfterResizing o.RecreateResourcesAfterResizing data1 with
          | none => none
          | some (false, data2) => some (false, report "Cannot recreate swapchain!" data2)
          | some (true, data2) =>
            match AquireImage nested (nested_counter + 1) data2 with
            | none => none
            | some (_, data3) => AquireImage_wait o data3
      else some (false, report "Cannot aquire next image!" data1)
    else AquireImage_wait o data1

/-- The answers of the device to one call of the older `WindowImpl::BeginRender`. -/
structure BeginRenderOutcome where
  RecreateResourcesAfterResizing : RecreateOutcome
  AquireImage : List AquireImageOutcome
  SynchronizeFrame : SynchronizeFrameOutcome
  vkBeginCommandBuffer : VkResult

/-- The function `WindowImpl::BeginRender()` of the older implementation. The commands
recorded after `vkBeginCommandBuffer` cannot fail and change no member. -/
def BeginRender (o : BeginRenderOutcome) (data : WindowImpl) : Option (Bool × WindowImpl) :=
  if data.next_render_call_function ≠ .BEGIN then
    some (false, report "BeginRender() Called twice in a row!" data)
  else
    let data1 := { data with next_render_call_function := .END }
    let rebuilt : Option (Bool × WindowImpl) :=
      if data1.recreate_swapchain then
        RecreateResourcesAfterResizing o.RecreateResourcesAfterResizing data1
      else some (true, data1)
    match rebuilt with
    | none => none
    | some (false, data2) => some (false, report "Cannot recreate swapchain!" data2)
    | some (true, data2) =>
      match AquireImage o.AquireImage 0 data2 with
      | none => none
      | some (false, data3) => some (false, report "Cannot aquire next swapchain image!" data3)
      | some (true, data3) =>
        let synced : Option (Bool × WindowImpl) :=
          if data3.next_image = data3.previous_image then
            SynchronizeFrame o.SynchronizeFrame data3
          else some (true, data3)
        match synced with
        | none => none
        | some (false, data4) => some (false, data4)
        | some (true, data4) =>
          let data5 := emit
            (.vkBeginCommandBuffer (.vk_render_command_buffers data4.next_image)
              o.vkBeginCommandBuffer) data4
          if o.vkBeginCommandBuffer ≠ VK_SUCCESS then
            some (false, report "Cannot begin recording command buffer!" data5)
          else some (true, data5)

end VK2D

/-! ## A collaborator and a window for evaluating the definitions -/

/-- A small stand-in for the render target objects, used to evaluate the definitions on
concrete inputs: the state counts the commits made so far, the commit of a render target
fails exactly when `failing` says so, and a successful commit adds one entry to the collector
whose render submission signals the semaphore of the target with the new count. -/
def sample_ops (failing : Nat → Bool) : RenderTargetOps Nat where
  GetCurrentSwapBuffer := fun _ _ => 0
  CommitRenderTargetTextureRender := fun d collector count =>
    if failing d.render_target then (false, collector, count)
    else
      (true,
        collector ++
          [{ vk_transfer_submit_info :=
               { pWaitSemaphores := [], pWaitDstStageMask := [], pWaitSemaphoreValues := []
                 pCommandBuffers := [.of_render_target (2 * d.render_target)]
                 pSignalSemaphores := [], pSignalSemaphoreValues := [] }
             vk_render_submit_info :=
               { pWaitSemaphores := [], pWaitDstStageMask := [], pWaitSemaphoreValues := []
                 pCommandBuffers := [.of_render_target (2 * d.render_target + 1)]
                 pSignalSemaphores := [.of_render_target d.render_target]
                 pSignalSemaphoreValues := [count + 1] } }],
        count + 1)
  ConfirmRenderTargetTextureRenderSubmission := fun _ count => count
  ConfirmRenderTargetTextureRenderFinished := fun _ count => count
  AbortRenderTargetTextureRender := fun _ count => count
  GetAllCompleteSemaphore := fun d _ => .of_render_target d.render_target
  GetRenderCounter := fun _ count => count

/-- A window with two swapchain images (vsync on) between two frames: nothing is tracked,
nothing is pending and the trace is empty. -/
def sample_window : WindowImpl Nat where
  vsync := true
  create_info_event_handler := some 1
  event_handler := some 1
  is_iconified := false
  should_reconstruct := false
  next_render_call_function := .BEGIN
  next_image := 0
  previous_image := 0
  previous_frame_need_synchronization := false
  extent := (2, 1)
  surface_capabilities := { minImageCount := 2, maxImageCount := 8, currentExtent := (2, 1) }
  present_mode := .VK_PRESENT_MODE_FIFO_KHR
  swapchain_image_count := 2
  vk_swapchain_images_size := 2
  vk_swapchain_image_views_size := 2
  vk_framebuffers_size := 2
  vk_render_command_buffers_size := 2
  vk_submit_to_present_semaphores_size := 2
  vk_gpu_to_cpu_frame_fences_size := 2
  render_target_texture_dependencies := [[], []]
  screenshot_state := .IDLE
  screenshot_swapchain_id := 0
  screenshot_save_path := ""
  screenshot_alpha := false
  screenshot_save_data := { size := (0, 0), data := [] }
  screenshot_event_error := false
  screenshot_event_message := ""
  previous_pipeline_settings := none
  previous_sampler := none
  previous_texture := none
  previous_line_width := 0
  render_targets := 0
  trace := []

/-- Answers for `SynchronizeFrame` in which every device call succeeds. -/
def sample_sync : SynchronizeFrameOutcome where
  vkWaitForFences := VK_SUCCESS
  vkResetFences := VK_SUCCESS
  mapped_data := some []

/-- Answers for `SynchronizeFrame` in which the wait for the fence times out. -/
def sample_timeout : SynchronizeFrameOutcome where
  vkWaitForFences := VK_TIMEOUT
  vkResetFences := VK_SUCCESS
  mapped_data := some []

/-- The sample window after a frame that drew with render target 7 into slot 0 and was
submitted: the frame is pending and its handle is still tracked. -/
def sample_pending_window : WindowImpl Nat :=
  { sample_window with
    previous_frame_need_synchronization := true
    render_target_texture_dependencies := [[{ render_target := 7, swap_buffer_index := 0 }], []] }

/-- The sample window while a frame is recorded into slot 0 whose draws referenced the render
targets 1 and 2. -/
def sample_recording_window : WindowImpl Nat :=
  { sample_window with
    next_render_call_function := .END
    render_target_texture_dependencies :=
      [[{ render_target := 1, swap_buffer_index := 0 },
        { render_target := 2, swap_buffer_index := 0 }], []] }

/-- Answers for a rebuild in which every device call succeeds and the device keeps two
images. -/
def sample_recreate : RecreateOutcome where
  ReCreateSwapchain :=
    { SynchronizeFrame := sample_sync
      vkGetPhysicalDeviceSurfaceCapabilitiesKHR := VK_SUCCESS
      queried_surface_capabilities := { minImageCount := 2, maxImageCount := 8, currentExtent := (2, 1) }
      vkGetPhysicalDeviceSurfacePresentModesKHR_count := VK_SUCCESS
      vkGetPhysicalDeviceSurfacePresentModesKHR_modes := VK_SUCCESS
      surface_present_modes := [.VK_PRESENT_MODE_FIFO_KHR]
      vkCreateSwapchainKHR := VK_SUCCESS
      vkGetSwapchainImagesKHR_count := VK_SUCCESS
      vkGetSwapchainImagesKHR_images := VK_SUCCESS
      device_image_count := 2
      vkCreateImageView := fun _ => VK_SUCCESS }
  screenshot_image_created := true
  screenshot_buffer_created := true
  CreateFramebuffers := true
  vkAllocateCommandBuffers := VK_SUCCESS
  frame_semaphores_created := true
  frame_fences_created := true

/-- Answers for one `TryAcquireAndWaitAvailable` that reports `result` and stores `index`. -/
def sample_try_acquire (result : VkResult) (index : Nat) : TryAcquireOutcome where
  vkAcquireNextImageKHR := result
  written_image_index := some index
  vkWaitForFences := VK_SUCCESS
  vkResetFences := VK_SUCCESS

/-- Answers for an `AcquireImage` whose first attempt finds the swapchain out of date, whose
rebuild succeeds and whose second attempt hands out image 1. -/
def sample_out_of_date_acquire : AcquireImageOutcome where
  first :=
    { vkAcquireNextImageKHR := VK_ERROR_OUT_OF_DATE_KHR
      written_image_index := none
      vkWaitForFences := VK_SUCCESS
      vkResetFences := VK_SUCCESS }
  RecreateWindowSizeDependantResources := sample_recreate
  retry := sample_try_acquire VK_SUCCESS 1

/-- Answers for a `BeginRender` in which every device call succeeds and the device hands out
the image `index`. -/
def sample_begin (index : Nat) : BeginRenderOutcome where
  RecreateWindowSizeDependantResources := sample_recreate
  AcquireImage :=
    { first := sample_try_acquire VK_SUCCESS index
      RecreateWindowSizeDependantResources := sample_recreate
      retry := sample_try_acquire VK_SUCCESS index }
  SynchronizeFrame := sample_sync
  vkBeginCommandBuffer := VK_SUCCESS

/-- Answers for an `EndRender` in which every step before the present succeeds and the
present returns `present` (with the same value as per-swapchain result). -/
def sample_end (present : VkResult) : EndRenderOutcome where
  vkEndCommandBuffer_render := VK_SUCCESS
  SynchronizeFrame := sample_sync
  vkBeginCommandBuffer_transfer := VK_SUCCESS
  CmdUpdateFrameData := true
  CmdUploadMeshDataToGPU := true
  vkEndCommandBuffer_transfer := VK_SUCCESS
  Submit := VK_SUCCESS
  Present := present
  present_result := present

/-- Answers for an `AcquireImage` whose first attempt finds the device lost and stores no
index. -/
def sample_device_lost_acquire : AcquireImageOutcome where
  first :=
    { vkAcquireNextImageKHR := VK_ERROR_DEVICE_LOST
      written_image_index := none
      vkWaitForFences := VK_SUCCESS
      vkResetFences := VK_SUCCESS }
  RecreateWindowSizeDependantResources := sample_recreate
  retry := sample_try_acquire VK_SUCCESS 1

/-- Whether an effect is a call of `EventScreenshot`. -/
def is_EventScreenshot : Effect → Bool
  | .EventScreenshot _ _ _ _ => true
  | _ => false

/-- Two texels with different values in the alpha channel, neither of them opaque. -/
def sample_texels : List Color8 :=
  [{ r := 10, g := 20, b := 30, a := 0 }, { r := 1, g := 2, b := 3, a := 128 }]

/-- Answers for a `BeginRender` in which every device call succeeds, the device hands out the
image `index`, and mapping the screenshot buffer gives `sample_texels`. -/
def sample_begin_mapping (index : Nat) : BeginRenderOutcome where
  RecreateWindowSizeDependantResources := sample_recreate
  AcquireImage :=
    { first := sample_try_acquire VK_SUCCESS index
      RecreateWindowSizeDependantResources := sample_recreate
      retry := sample_try_acquire VK_SUCCESS index }
  SynchronizeFrame :=
    { vkWaitForFences := VK_SUCCESS
      vkResetFences := VK_SUCCESS
      mapped_data := some sample_texels }
  vkBeginCommandBuffer := VK_SUCCESS

section ScreenshotReading
variable {σ : Type}

/-- The number of calls of `EventScreenshot` in a trace. -/
def screenshot_deliveries (trace : List Effect) : Nat :=
  trace.countP is_EventScreenshot

/-- One when a screenshot request is on its way through the window, from `REQUESTED` to
`WAITING_EVENT_REPORT`, and zero when the window is `IDLE` or `IDLE_ERROR`. -/
def screenshot_in_progress (w : WindowImpl σ) : Nat :=
  if w.screenshot_state = .IDLE ∨ w.screenshot_state = .IDLE_ERROR then 0 else 1

/-- From `w` to `w1` every call of `EventScreenshot` ends a request that was in progress:
deliveries and the request in progress together do not grow. -/
def screenshot_progress (w w1 : WindowImpl σ) : Prop :=
  screenshot_deliveries w1.trace + screenshot_in_progress w1 ≤
    screenshot_deliveries w.trace + screenshot_in_progress w

/-- The per-draw cached state is the same in both states. -/
def same_draw_cache (w w1 : WindowImpl σ) : Prop :=
  w1.previous_pipeline_settings = w.previous_pipeline_settings ∧
    w1.previous_sampler = w.previous_sampler ∧
    w1.previous_texture = w.previous_texture ∧
    w1.previous_line_width = w.previous_line_width

/-- What the helpers of the frame lifecycle carry over from `w` to `w1`: the per-draw cached
state, and the account of screenshot requests and deliveries. -/
def carried (w w1 : WindowImpl σ) : Prop :=
  same_draw_cache w w1 ∧ screenshot_progress w w1

/-- Whether a call is a screenshot request. -/
def is_screenshot_request : Call → Bool
  | .TakeScreenshotToFile _ _ => true
  | .TakeScreenshotToData _ => true
  | _ => false

/-- The number of screenshot requests in a sequence of calls that find the window `IDLE`,
which are the requests the window accepts. -/
def accepted_screenshot_requests (ops : RenderTargetOps σ) :
    WindowImpl σ → List Call → Nat
  | _, [] => 0
  | w, call :: rest =>
    (if is_screenshot_request call = true ∧ w.screenshot_state = .IDLE then 1 else 0) +
      accepted_screenshot_requests ops (step ops w call) rest

end ScreenshotReading

/-- Following the wording of the specification: the texture a draw call binds is the default
texture of the instance when the texture pointer is null or when the given texture says that
its data is not ready, and the given texture otherwise. -/
def spec_bound_texture (vk2d_instance : InstanceImpl) (o : DrawOutcome)
    (texture : Option Texture) : Texture :=
  match texture with
  | none => vk2d_instance.GetDefaultTexture
  | some given => if o.IsTextureDataReady given then given else vk2d_instance.GetDefaultTexture

/-- Following the wording of the specification: the sampler a draw call binds is the default
sampler of the instance when the sampler pointer is null, and the given sampler otherwise. -/
def spec_bound_sampler (vk2d_instance : InstanceImpl) (sampler : Option Nat) : Nat :=
  match sampler with
  | none => vk2d_instance.GetDefaultSampler
  | some given => given

/-- The bind commands of one draw call: a bind is recorded for each of pipeline, sampler and
texture that differs from the cached one. -/
def draw_binds (command_buffer : VkCommandBuffer)
    (pipeline_settings : GraphicsPipelineSettings) (sampler : Nat) (texture : Texture)
    (previous_pipeline_settings : Option GraphicsPipelineSettings)
    (previous_sampler : Option Nat) (previous_texture : Option Texture) : List Effect :=
  (if previous_pipeline_settings = some pipeline_settings then []
    else [.vkCmdBindPipeline command_buffer pipeline_settings]) ++
  (if previous_sampler = some sampler then []
    else [.vkCmdBindDescriptorSets command_buffer (.sampler_descriptor_sets sampler)]) ++
  (if previous_texture = some texture then []
    else [.vkCmdBindDescriptorSets command_buffer (.texture_descriptor_sets texture)])

/-- An instance whose default texture is the texture resource 0 and whose default sampler
is the sampler 0. -/
def sample_instance_impl : InstanceImpl where
  GetDefaultTexture := { texture_impl := .TextureResourceImpl 0 }
  GetDefaultSampler := 0
  GetCompatibleGraphicsShaderModules := fun multitextured border vertices =>
    (if multitextured then 8 else 0) + (if border then 4 else 0) + vertices

/-- Answers for a draw call during which only the render target 7 has no data ready, every
texture has one layer, no sampler has a border colour and the mesh is pushed. -/
def sample_draw : DrawOutcome where
  IsTextureDataReady := fun texture => texture.texture_impl != .RenderTargetTextureImpl 7
  GetLayerCount := fun _ => 1
  IsAnyBorderColorEnabled := fun _ => false
  CmdPushMesh := true

/-- Answers for an `EndRender` in which closing the render command buffer fails. -/
def sample_end_failing : EndRenderOutcome :=
  { sample_end VK_SUCCESS with vkEndCommandBuffer_render := VK_ERROR_OUT_OF_HOST_MEMORY }

/-- The sample window while a frame is recorded into slot 0, after one `DrawTriangleList`
with the default texture and the default sampler. -/
def sample_drawn_window : WindowImpl Nat :=
  DrawTriangleList (sample_ops (fun _ => false)) sample_instance_impl sample_draw 3 3 0 1 true
    none none sample_recording_window

namespace VK2D

/-- A window of the older implementation with two swapchain images between two frames:
the previous frame, on slot 1, has been synchronised. -/
def sample_window : WindowImpl where
  report_function := true
  vsync := true
  next_render_call_function := .BEGIN
  recreate_swapchain := false
  next_image := 1
  previous_image := 1
  previous_frame_need_synchronization := false
  extent := (2, 1)
  surface_capabilities := { minImageCount := 2, maxImageCount := 8, currentExtent := (2, 1) }
  present_mode := .VK_PRESENT_MODE_FIFO_KHR
  swapchain_image_count := 2
  swapchain_images_size := 2
  swapchain_image_views_size := 2
  framebuffers_size := 2
  render_command_buffers_size := 2
  submit_to_present_semaphores_size := 2
  gpu_to_cpu_frame_fences_size := 2
  trace := []

/-- Answers for a rebuild of the older implementation in which every device call
succeeds. -/
def sample_recreate : RecreateOutcome where
  SynchronizeFrame := { vkWaitForFences := some VK_SUCCESS, vkResetFences := VK_SUCCESS }
  queried_surface_capabilities := { minImageCount := 2, maxImageCount := 8, currentExtent := (2, 1) }
  surface_present_modes := [.VK_PRESENT_MODE_FIFO_KHR]
  vkCreateSwapchainKHR := VK_SUCCESS
  device_image_count := 2
  vkCreateImageView := fun _ => VK_SUCCESS
  CreateFramebuffers := true
  vkAllocateCommandBuffers := VK_SUCCESS
  frame_semaphores_created := true
  frame_fences_created := true

/-- Answers for one activation of `AquireImage` that finds the swapchain out of date and
stores no index; `wait` is what the wait for the acquire fence does, if the code gets there. -/
def sample_out_of_date (wait : Option VkResult) : AquireImageOutcome where
  vkAcquireNextImageKHR := VK_ERROR_OUT_OF_DATE_KHR
  written_image_index := none
  RecreateResourcesAfterResizing := sample_recreate
  vkWaitForFences := wait
  vkResetFences := VK_SUCCESS

/-- Answers for a `BeginRender` of the older implementation in which the swapchain is out of
date at the first acquire attempt and again at the retry. -/
def sample_begin_out_of_date (wait : Option VkResult) : BeginRenderOutcome where
  RecreateResourcesAfterResizing := sample_recreate
  AquireImage := [sample_out_of_date wait, sample_out_of_date wait]
  SynchronizeFrame := { vkWaitForFences := some VK_SUCCESS, vkResetFences := VK_SUCCESS }
  vkBeginCommandBuffer := VK_SUCCESS

end VK2D

/-! ## Rectangles (`Include/Types/Rect2.hpp`) -/

/-- The class template `vk2d::Vector2Base<T>`, as far as `Rect2Base` looks into it. -/
structure Vector2Base (T : Type) where
  x : T
  y : T
  deriving DecidableEq, Repr

/-- The class template `vk2d::Rect2Base<T>`. -/
structure Rect2Base (T : Type) where
  top_left : Vector2Base T
  bottom_right : Vector2Base T
  deriving DecidableEq, Repr

/-- What one call of `Rect2Base<T>::GetOrganized()` leaves behind: the object it was called on,
the local variable `ret` when control reaches the closing brace of the body, and the operand
of the `return` statement that ended the call, or no value when control flows off the end of
the body. -/
structure GetOrganizedResult (T : Type) where
  this : Rect2Base T
  ret : Rect2Base T
  returned : Option (Rect2Base T)
  deriving DecidableEq, Repr

/-- The function `Rect2Base<T>::GetOrganized()`: copy the rectangle, swap the two x coordinates
when the right one is smaller, swap the two y coordinates when the bottom one is smaller. The
body ends after the second `if`; it has no `return` statement. -/
def Rect2Base.GetOrganized {T : Type} [LT T] [DecidableRel (fun a b : T => a < b)]
    (this : Rect2Base T) : GetOrganizedResult T :=
  let ret := this
  let ret :=
    if ret.bottom_right.x < ret.top_left.x then
      { top_left := { ret.top_left with x := ret.bottom_right.x }
        bottom_right := { ret.bottom_right with x := ret.top_left.x } }
    else ret
  let ret :=
    if ret.bottom_right.y < ret.top_left.y then
      { top_left := { ret.top_left with y := ret.bottom_right.y }
        bottom_right := { ret.bottom_right with y := ret.top_left.y } }
    else ret
  { this := this, ret := ret, returned := none }

/-! ## Cursors (Window.cpp 524-612, 4163-4262) -/

/-- The size in bytes of one texel, `sizeof( vk2d::Color8 )`: four channels of one byte, which
is also what the `memcpy` of the four-channel image loaded by `stbi_load` into a vector of
`x * y` texels relies on (Window.cpp 4149-4152). -/
def sizeof_Color8 : Nat := 4

/-- The members of `CursorImpl` that its member functions write. The member `instance` is left
out: the constructors assign the parameter `instance` to itself. A null `cursor` is no
value. -/
structure CursorImpl where
  pixel_data : List Color8
  cursor : Option Nat
  hotSpot : Int × Int
  extent : Nat × Nat
  is_good : Bool
  deriving DecidableEq, Repr

/-- Modelled from the spec: the declaration of `CursorImpl` with the initialisers of its
members is not among the sources. A freshly allocated object is taken to hold no texels, a
null cursor, zero hot spot and extent, and `is_good == false`, which is what the early
returns of the constructor rely on. -/
def CursorImpl.declared : CursorImpl :=
  { pixel_data := [], cursor := none, hotSpot := (0, 0), extent := (0, 0), is_good := false }

/-- What the outside answers while a `CursorImpl` is constructed: the handle
`glfwCreateCursor` returns (no value for a null pointer), and the texels the memory behind the
storage of `image_data` holds, which a `memcpy` that reads past the end of the vector gets to
see. -/
structure CursorImplOutcome where
  glfwCreateCursor : Option Nat
  past_image_data : Nat → Color8

/-- The call `vector.resize( count )` on a vector of texels: elements past the new size are
dropped, new elements are value-initialised. -/
def resize_texels (count : Nat) (texels : List Color8) : List Color8 :=
  texels.take count ++ List.replicate (count - texels.length) { r := 0, g := 0, b := 0, a := 0 }

/-- The call `std::memcpy( destination.data(), source.data(), byte_count )` between the
storage of two vectors of texels, for a byte count that is a multiple of the texel size: the
texel `i` of the destination becomes the texel `i` of the source, and behind the end of the
source whatever the memory holds there. -/
def memcpy_texels (destination source : List Color8) (past_source : Nat → Color8)
    (byte_count : Nat) : List Color8 :=
  (List.range destination.length).map (fun i =>
    if i < byte_count / sizeof_Color8 then
      if i < source.length then source.getD i (past_source 0)
      else past_source (i - source.length)
    else destination.getD i (past_source 0))

/-- The constructor `CursorImpl::CursorImpl( instance, image_size, image_data, hot_spot )`.
The products are computed in `size_t`. The reports change no member. -/
def CursorImpl_CursorImpl (o : CursorImplOutcome) (image_size : Nat × Nat)
    (image_data : List Color8) (hot_spot : Int × Int) : CursorImpl :=
  let this := CursorImpl.declared
  if image_size.1 * image_size.2 % 2 ^ 64 ≠ image_data.length then this
  else
    let this1 := { this with
      pixel_data :=
        resize_texels (image_size.1 * image_size.2 * sizeof_Color8 % 2 ^ 64) this.pixel_data }
    let this2 := { this1 with
      pixel_data :=
        memcpy_texels this1.pixel_data image_data o.past_image_data
          (this1.pixel_data.length * sizeof_Color8 % 2 ^ 64) }
    let this3 := { this2 with cursor := o.glfwCreateCursor }
    if this3.cursor.isSome then
      { this3 with hotSpot := hot_spot, extent := image_size, is_good := true }
    else this3

/-- The function `CursorImpl::IsGood()`. -/
def CursorImpl.IsGood (this : CursorImpl) : Bool :=
  this.is_good

/-- The function `CursorImpl::GetTexelData()`. -/
def CursorImpl.GetTexelData (this : CursorImpl) : List Color8 :=
  this.pixel_data

/-- The function `CursorImpl::GetSize()`. -/
def CursorImpl.GetSize (this : CursorImpl) : Nat × Nat :=
  (this.extent.1, this.extent.2)

/-- The function `CursorImpl::GetHotSpot()`. -/
def CursorImpl.GetHotSpot (this : CursorImpl) : Int × Int :=
  (this.hotSpot.1, this.hotSpot.2)

/-- The class `vk2d::Cursor`: a pointer to its implementation, no value when it is null. -/
structure Cursor where
  impl : Option CursorImpl
  deriving DecidableEq, Repr

/-- The constructor `Cursor::Cursor( instance, image_size, image_data, hot_spot )`: an
implementation that is not good is dropped. -/
def Cursor_Cursor (o : CursorImplOutcome) (image_size : Nat × Nat) (image_data : List Color8)
    (hot_spot : Int × Int) : Cursor :=
  let impl := CursorImpl_CursorImpl o image_size image_data hot_spot
  if !impl.IsGood then { impl := none } else { impl := some impl }

/-- The function `Cursor::IsGood()`, which returns `!!impl`. -/
def Cursor.IsGood (this : Cursor) : Bool :=
  !!this.impl.isSome

/-- The function `Cursor::GetSize()`; calling it through a null `impl` gives no value. -/
def Cursor.GetSize (this : Cursor) : Option (Nat × Nat) :=
  this.impl.map CursorImpl.GetSize

/-- The function `Cursor::GetHotSpot()`; calling it through a null `impl` gives no value. -/
def Cursor.GetHotSpot (this : Cursor) : Option (Int × Int) :=
  this.impl.map CursorImpl.GetHotSpot

/-- The function `Cursor::GetTexelData()`; calling it through a null `impl` gives no value. -/
def Cursor.GetTexelData (this : Cursor) : Option (List Color8) :=
  this.impl.map CursorImpl.GetTexelData

/-- The copy constructor `Cursor::Cursor( Cursor & other )`: the implementation is built anew
from what the getters of the implementation of `other` return. Copying from a cursor with a
null `impl` gives no value. -/
def Cursor_Cursor_copy (o : CursorImplOutcome) (other : Cursor) : Option Cursor :=
  match other.impl with
  | none => none
  | some other_impl =>
    let impl := CursorImpl_CursorImpl o other_impl.GetSize other_impl.GetTexelData
      other_impl.GetHotSpot
    some (if !impl.IsGood then { impl := none } else { impl := some impl })

/-- The copy assignment `Cursor::operator=( Cursor & other )`, which replaces `impl` in the
same way and returns the object assigned to. -/
def Cursor_operator_assign (o : CursorImplOutcome) (_this other : Cursor) : Option Cursor :=
  match other.impl with
  | none => none
  | some other_impl =>
    let impl := CursorImpl_CursorImpl o other_impl.GetSize other_impl.GetTexelData
      other_impl.GetHotSpot
    some (if !impl.IsGood then { impl := none } else { impl := some impl })

/-! ## The fence (`Source/Types/Synchronization.cpp`) -/

/-- The class `vk2d::_internal::Fence`: the atomic flag `is_set`. The mutex and the condition
variable hold no data. -/
structure Fence where
  is_set : Bool
  deriving DecidableEq, Repr

/-- The largest value of `std::chrono::nanoseconds`, a signed count of 64 bits. -/
def nanoseconds_max : Int := 2 ^ 63 - 1

/-- The largest value of `std::chrono::steady_clock::time_point`, in nanoseconds. -/
def time_point_max : Int := 2 ^ 63 - 1

/-- The value a signed sum of 64 bits has on a two's complement machine. -/
def int64_t (x : Int) : Int :=
  (x + 2 ^ 63) % 2 ^ 64 - 2 ^ 63

/-- The function `Fence::Set()`. -/
def Fence.Set (this : Fence) : Fence :=
  { this with is_set := true }

/-- The function `Fence::IsSet()`. -/
def Fence.IsSet (this : Fence) : Bool :=
  this.is_set

/-- The function `Fence::Wait( time_point timeout )` when no other thread touches the fence.
The list holds what `steady_clock::now()` reads after each return of `condition.wait_until`;
when the list runs out the thread is still blocked in the wait, and the call has given no
value. -/
def Fence.Wait_time_point (this : Fence) (timeout : Int) : List Int → Option Bool
  | [] => if !this.is_set then none else some true
  | now :: later =>
    if !this.is_set then
      if now ≥ timeout then some this.is_set
      else Fence.Wait_time_point this timeout later
    else some true

/-- The function `Fence::Wait( nanoseconds timeout )`; `now` is what `steady_clock::now()`
reads when the deadline is computed. -/
def Fence.Wait_nanoseconds (this : Fence) (timeout : Int) (now : Int) (readings : List Int) :
    Option Bool :=
  if timeout = nanoseconds_max then this.Wait_time_point time_point_max readings
  else this.Wait_time_point (int64_t (now + timeout)) readings

/-- One call on a fence, with what the clock reads during it. -/
inductive FenceCall
  | Set
  | IsSet
  | Wait_nanoseconds (timeout : Int) (now : Int) (readings : List Int)
  | Wait_time_point (timeout : Int) (readings : List Int)

/-- The fence after one call: only `Set` writes `is_set`, the other functions load it. -/
def Fence.step (this : Fence) : FenceCall → Fence
  | .Set => this.Set
  | .IsSet => this
  | .Wait_nanoseconds _ _ _ => this
  | .Wait_time_point _ _ => this

/-! ## Reading the selection of the present mode and the image count -/

/-- Following the wording of the specification: with vsync the present mode is FIFO; without
vsync it is MAILBOX if the supported list contains MAILBOX, otherwise IMMEDIATE if the list
contains IMMEDIATE, otherwise FIFO. -/
def spec_present_mode (vsync : Bool) (surface_present_modes : List VkPresentModeKHR) :
    VkPresentModeKHR :=
  if vsync then .VK_PRESENT_MODE_FIFO_KHR
  else if .VK_PRESENT_MODE_MAILBOX_KHR ∈ surface_present_modes then .VK_PRESENT_MODE_MAILBOX_KHR
  else if .VK_PRESENT_MODE_IMMEDIATE_KHR ∈ surface_present_modes then
    .VK_PRESENT_MODE_IMMEDIATE_KHR
  else .VK_PRESENT_MODE_FIFO_KHR

/-- Answers for a rebuild in which every device call succeeds, without the present mode
queries of a window with vsync being consulted, and the supported present modes are as
given. -/
def sample_recreate_modes (surface_present_modes : List VkPresentModeKHR) : RecreateOutcome :=
  { sample_recreate with
    ReCreateSwapchain :=
      { sample_recreate.ReCreateSwapchain with surface_present_modes := surface_present_modes } }

/-- Answers for a rebuild in which every device call succeeds and the device creates three
images, one more than the two the window asks for as the minimum. -/
def sample_recreate_three_images : RecreateOutcome :=
  { sample_recreate with
    ReCreateSwapchain := { sample_recreate.ReCreateSwapchain with device_image_count := 3 } }

/-- Answers for an `AcquireImage` whose first attempt acquires the image 1 with `VK_SUCCESS`
and whose wait for the acquire fence then fails with a lost device. -/
def sample_fence_wait_failing_acquire : AcquireImageOutcome where
  first :=
    { vkAcquireNextImageKHR := VK_SUCCESS
      written_image_index := some 1
      vkWaitForFences := VK_ERROR_DEVICE_LOST
      vkResetFences := VK_SUCCESS }
  RecreateWindowSizeDependantResources := sample_recreate
  retry := sample_try_acquire VK_SUCCESS 1

/-- Answers for a `BeginRender` in which the wait for the acquire fence fails and every other
device call succeeds. -/
def sample_begin_fence_wait_failing : BeginRenderOutcome :=
  { sample_begin 1 with AcquireImage := sample_fence_wait_failing_acquire }

/-- The render target 8 as a texture; its data is ready under `sample_draw`. -/
def sample_render_target_texture : Texture :=
  { texture_impl := .RenderTargetTextureImpl 8 }

/-- The sample window after a first frame into slot 0 that drew one triangle list with the
render target 8 as its texture and whose present failed with `VK_ERROR_SURFACE_LOST_KHR`. -/
def sample_window_after_failed_present : WindowImpl Nat :=
  (EndRender (sample_ops (fun _ => false)) (sample_end VK_ERROR_SURFACE_LOST_KHR)
    (DrawTriangleList (sample_ops (fun _ => false)) sample_instance_impl sample_draw 3 3 0 1 true
      (some sample_render_target_texture) none
      (BeginRender (sample_ops (fun _ => false)) (sample_begin 0) sample_window).2)).2

/-- The sample window, iconified. -/
def sample_iconified_window : WindowImpl Nat :=
  { sample_window with is_iconified := true }

/-- Answers for the construction of a cursor: the window system creates the cursor, and the
memory behind the texels handed in holds opaque white. -/
def sample_cursor_outcome : CursorImplOutcome where
  glfwCreateCursor := some 1
  past_image_data := fun _ => { r := 255, g := 255, b := 255, a := 255 }

/-- From `w` to `w1` the image count, the lengths of the arrays of swapchain images and image
views and the number of slots of the tracker are unchanged. -/
def same_image_counts {σ : Type} (w w1 : WindowImpl σ) : Prop :=
  w1.swapchain_image_count = w.swapchain_image_count ∧
    w1.vk_swapchain_images_size = w.vk_swapchain_images_size ∧
    w1.vk_swapchain_image_views_size = w.vk_swapchain_image_views_size ∧
    w1.render_target_texture_dependencies.length = w.render_target_texture_dependencies.length

/-- Answers for a `BeginRender` that rebuilds first, in which every device call succeeds, the
device creates three images and hands out the third of them, the image 2. -/
def sample_begin_three_images : BeginRenderOutcome :=
  { sample_begin 2 with RecreateWindowSizeDependantResources := sample_recreate_three_images }

/-- Whether an effect is a wait for, or a reset of, a fence. -/
def is_fence_call : Effect → Bool
  | .vkWaitForFences _ _ => true
  | .vkResetFences _ _ => true
  | _ => false

/-- The trace `after` continues the trace `before` without a wait for or a reset of a
fence. -/
def fence_free_extension (before after : List Effect) : Prop :=
  ∃ delta, after = before ++ delta ∧ ∀ e ∈ delta, is_fence_call e = false

/-- Answers for an `AcquireImage` whose first attempt finds the swapchain out of date, whose
rebuild succeeds and whose second attempt acquires the image 1 with `VK_SUCCESS`, after which
the wait for the acquire fence fails with a lost device. -/
def sample_retry_fence_wait_failing_acquire : AcquireImageOutcome where
  first :=
    { vkAcquireNextImageKHR := VK_ERROR_OUT_OF_DATE_KHR
      written_image_index := none
      vkWaitForFences := VK_SUCCESS
      vkResetFences := VK_SUCCESS }
  RecreateWindowSizeDependantResources := sample_recreate
  retry :=
    { vkAcquireNextImageKHR := VK_SUCCESS
      written_image_index := some 1
      vkWaitForFences := VK_ERROR_DEVICE_LOST
      vkResetFences := VK_SUCCESS }

/-! ## Facts about the tracker -/

section TrackerFacts

variable {σ : Type}

theorem getD_set_nil (l : List (List RenderTargetTextureDependencyInfo)) (i : Nat) :
    (l.set i []).getD i [] = [] := by
  by_cases h : i < l.length <;> simp [List.getD, List.getElem?_set, h]

theorem getD_set_ne (l : List (List RenderTargetTextureDependencyInfo)) (i j : Nat)
    (v : List RenderTargetTextureDependencyInfo) (h : j ≠ i) :
    (l.set i v).getD j [] = l.getD j [] := by
  simp [List.getD, List.getElem?_set, Ne.symm h]

theorem getD_set_same (l : List (List RenderTargetTextureDependencyInfo)) (i : Nat)
    (v : List RenderTargetTextureDependencyInfo) (h : i < l.length) :
    (l.set i v).getD i [] = v := by
  simp [List.getD, List.getElem?_set, h]

theorem notify_each_eq (notify : RenderTargetTextureDependencyInfo → σ → σ)
    (effect : RenderTargetTextureDependencyInfo → Effect)
    (l : List RenderTargetTextureDependencyInfo) (w : WindowImpl σ) :
    notify_each notify effect l w =
      { w with
        render_targets := l.foldl (fun targets d => notify d targets) w.render_targets
        trace := w.trace ++ l.map effect } := by
  induction l generalizing w with
  | nil => simp [notify_each]
  | cons d rest ih => simp [notify_each, ih, emit]

theorem HandleScreenshotEvent_frame (w : WindowImpl σ) :
    HandleScreenshotEvent w =
      { w with
        screenshot_save_path := ""
        screenshot_event_error := false
        screenshot_event_message := ""
        screenshot_state := .IDLE
        trace := (HandleScreenshotEvent w).trace } := by
  unfold HandleScreenshotEvent
  simp only [emit]
  repeat' first | rfl | split

theorem SynchronizeFrame_screenshot_frame (o : SynchronizeFrameOutcome) (w : WindowImpl σ) :
    SynchronizeFrame_screenshot o w =
      { w with
        screenshot_save_path := (SynchronizeFrame_screenshot o w).screenshot_save_path
        screenshot_save_data := (SynchronizeFrame_screenshot o w).screenshot_save_data
        screenshot_event_error := (SynchronizeFrame_screenshot o w).screenshot_event_error
        screenshot_event_message := (SynchronizeFrame_screenshot o w).screenshot_event_message
        screenshot_state := (SynchronizeFrame_screenshot o w).screenshot_state
        trace := (SynchronizeFrame_screenshot o w).trace } := by
  unfold SynchronizeFrame_screenshot HandleScreenshotEvent
  simp only [Report, emit]
  repeat' first | rfl | split

theorem trace_since_append (w w1 : WindowImpl σ) (delta : List Effect)
    (h : w1.trace = w.trace ++ delta) : trace_since w w1 = delta := by
  simp [trace_since, h]

theorem SynchronizeFrame_success_dependencies (ops : RenderTargetOps σ)
    (o : SynchronizeFrameOutcome) (w : WindowImpl σ)
    (hflag : w.previous_frame_need_synchronization = true)
    (hok : (SynchronizeFrame ops o w).1 = true) :
    dependencies_of (SynchronizeFrame ops o w).2 w.previous_image = [] := by
  unfold SynchronizeFrame at hok ⊢
  simp only [hflag, if_true] at hok ⊢
  split at hok
  · simp at hok
  · split at hok
    · simp at hok
    · split at hok
      · simp at hok
      · rename_i h1 h2 h3
        simp only [h1, h2, h3, if_false]
        unfold dependencies_of
        show ((SynchronizeFrame_screenshot o _).render_target_texture_dependencies).getD _ _ = _
        rw [SynchronizeFrame_screenshot_frame]
        simp only [emit, ConfirmRenderTargetTextureRenderFinished, notify_each_eq]
        exact getD_set_nil _ _

/-- C10: `ConfirmRenderTargetTextureRenderFinished( i )` notifies every handle tracked for
slot `i` once, in order, empties slot `i` and leaves every other slot as it was;
`ConfirmRenderTargetTextureRenderSubmission` notifies every handle tracked for the current slot
once and leaves all tracked lists as they were; and a `SynchronizeFrame` that succeeds while the
previous frame is pending leaves the tracked list of `previous_image` empty. -/
theorem confirm_notifications_fan_out (ops : RenderTargetOps σ) (o : SynchronizeFrameOutcome)
    (i : Nat) (w : WindowImpl σ) :
    (trace_since w (ConfirmRenderTargetTextureRenderFinished ops i w) =
        (dependencies_of w i).map Effect.ConfirmRenderTargetTextureRenderFinished) ∧
      dependencies_of (ConfirmRenderTargetTextureRenderFinished ops i w) i = [] ∧
      (∀ j, j ≠ i →
        dependencies_of (ConfirmRenderTargetTextureRenderFinished ops i w) j =
          dependencies_of w j) ∧
      (trace_since w (ConfirmRenderTargetTextureRenderSubmission ops w) =
        (dependencies_of w w.next_image).map Effect.ConfirmRenderTargetTextureRenderSubmission) ∧
      (ConfirmRenderTargetTextureRenderSubmission ops w).render_target_texture_dependencies =
        w.render_target_texture_dependencies ∧
      (w.previous_frame_need_synchronization = true → (SynchronizeFrame ops o w).1 = true →
        dependencies_of (SynchronizeFrame ops o w).2 w.previous_image = []) := by
  refine ⟨?_, ?_, ?_, ?_, ?_, SynchronizeFrame_success_dependencies ops o w⟩
  · apply trace_since_append
    simp [ConfirmRenderTargetTextureRenderFinished, notify_each_eq]
  · simp only [ConfirmRenderTargetTextureRenderFinished, notify_each_eq, dependencies_of]
    exact getD_set_nil _ _
  · intro j hj
    simp only [ConfirmRenderTargetTextureRenderFinished, notify_each_eq, dependencies_of]
    exact getD_set_ne _ _ _ _ hj
  · apply trace_since_append
    simp [ConfirmRenderTargetTextureRenderSubmission, notify_each_eq]
  · simp [ConfirmRenderTargetTextureRenderSubmission, notify_each_eq]
theorem commit_loop_frame (ops : RenderTargetOps σ)
    (l : List RenderTargetTextureDependencyInfo) (collector : RenderTargetTextureRenderCollector)
    (w : WindowImpl σ) :
    (CommitRenderTargetTextureRender_loop ops l collector w).2.2 =
      { w with
        render_targets := (CommitRenderTargetTextureRender_loop ops l collector w).2.2.render_targets
        trace := (CommitRenderTargetTextureRender_loop ops l collector w).2.2.trace } := by
  induction l generalizing w collector with
  | nil => simp [CommitRenderTargetTextureRender_loop]
  | cons d rest ih =>
    simp only [CommitRenderTargetTextureRender_loop]
    split
    · simp [emit]
    · rw [ih]; simp [emit]

theorem commit_loop_trace (ops : RenderTargetOps σ)
    (l : List RenderTargetTextureDependencyInfo) (collector : RenderTargetTextureRenderCollector)
    (w : WindowImpl σ) :
    ((CommitRenderTargetTextureRender_loop ops l collector w).1 = true ∧
      (CommitRenderTargetTextureRender_loop ops l collector w).2.2.trace =
        w.trace ++ l.map (fun d => Effect.CommitRenderTargetTextureRender d true)) ∨
    ((CommitRenderTargetTextureRender_loop ops l collector w).1 = false ∧
      ∃ pre d post, l = pre ++ d :: post ∧
        (CommitRenderTargetTextureRender_loop ops l collector w).2.2.trace =
          w.trace ++ pre.map (fun d => Effect.CommitRenderTargetTextureRender d true) ++
            [Effect.CommitRenderTargetTextureRender d false]) := by
  induction l generalizing w collector with
  | nil => simp [CommitRenderTargetTextureRender_loop]
  | cons d rest ih =>
    simp only [CommitRenderTargetTextureRender_loop]
    split
    · rename_i h
      right
      refine ⟨rfl, [], d, rest, rfl, ?_⟩
      simp at h
      simp [emit, h]
    · rename_i h
      simp at h
      rcases ih (ops.CommitRenderTargetTextureRender d collector w.render_targets).2.1
        (emit (.CommitRenderTargetTextureRender d
          (ops.CommitRenderTargetTextureRender d collector w.render_targets).1)
          { w with render_targets := (ops.CommitRenderTargetTextureRender d collector w.render_targets).2.2 }) with
        ⟨h1, h2⟩ | ⟨h1, pre, d1, post, h2, h3⟩
      · left
        refine ⟨h1, ?_⟩
        rw [h2]; simp [emit, h]
      · right
        refine ⟨h1, d :: pre, d1, post, by simp [h2], ?_⟩
        rw [h3]; simp [emit, h]

theorem CheckAndAdd_eq (ops : RenderTargetOps σ) (texture : Texture) (w : WindowImpl σ) :
    CheckAndAddRenderTargetTextureDependency ops texture w =
      match dynamic_cast_RenderTargetTextureImpl texture.texture_impl with
      | none => w
      | some render_target =>
        if render_target ∈ targets_of (dependencies_of w w.next_image) then w
        else
          { w with
            render_target_texture_dependencies :=
              w.render_target_texture_dependencies.set w.next_image
                (dependencies_of w w.next_image ++
                  [GetDependencyInfo ops render_target w.render_targets]) } := by
  unfold CheckAndAddRenderTargetTextureDependency
  split
  · rfl
  · rename_i rt _
    by_cases h : rt ∈ targets_of (dependencies_of w w.next_image)
    · have h1 : (dependencies_of w w.next_image).any (fun d => rt == d.render_target) = true := by
        simp only [targets_of, List.mem_map] at h
        obtain ⟨d, hd, hrt⟩ := h
        exact List.any_eq_true.mpr ⟨d, hd, by simp [hrt]⟩
      simp [h, h1]
    · have h1 : (dependencies_of w w.next_image).any (fun d => rt == d.render_target) = false := by
        apply Bool.eq_false_iff.mpr
        intro hany
        obtain ⟨d, hd, hrt⟩ := List.any_eq_true.mp hany
        exact h (List.mem_map.mpr ⟨d, hd, (by simpa using hrt : rt = d.render_target).symm⟩)
      simp [h, h1]

theorem CheckAndAdd_next_image (ops : RenderTargetOps σ) (texture : Texture) (w : WindowImpl σ) :
    (CheckAndAddRenderTargetTextureDependency ops texture w).next_image = w.next_image := by
  rw [CheckAndAdd_eq]; split
  · rfl
  · split <;> rfl

theorem CheckAndAdd_length (ops : RenderTargetOps σ) (texture : Texture) (w : WindowImpl σ) :
    (CheckAndAddRenderTargetTextureDependency ops texture w).render_target_texture_dependencies.length
      = w.render_target_texture_dependencies.length := by
  rw [CheckAndAdd_eq]; split
  · rfl
  · split
    · rfl
    · simp

/-- The render targets tracked for the current slot after one registration. -/
theorem CheckAndAdd_targets (ops : RenderTargetOps σ) (texture : Texture) (w : WindowImpl σ)
    (hslot : w.next_image < w.render_target_texture_dependencies.length) :
    targets_of (dependencies_of (CheckAndAddRenderTargetTextureDependency ops texture w)
        w.next_image) =
      match dynamic_cast_RenderTargetTextureImpl texture.texture_impl with
      | none => targets_of (dependencies_of w w.next_image)
      | some render_target =>
        if render_target ∈ targets_of (dependencies_of w w.next_image) then
          targets_of (dependencies_of w w.next_image)
        else targets_of (dependencies_of w w.next_image) ++ [render_target] := by
  rw [CheckAndAdd_eq]
  split
  · rfl
  · split
    · rfl
    · simp only [dependencies_of]
      rw [getD_set_same _ _ _ hslot]
      simp [targets_of, GetDependencyInfo]

theorem CheckAndAdd_nodup (ops : RenderTargetOps σ) (texture : Texture) (w : WindowImpl σ)
    (hslot : w.next_image < w.render_target_texture_dependencies.length)
    (hnodup : (targets_of (dependencies_of w w.next_image)).Nodup) :
    (targets_of (dependencies_of (CheckAndAddRenderTargetTextureDependency ops texture w)
        w.next_image)).Nodup := by
  rw [CheckAndAdd_targets ops texture w hslot]
  split
  · exact hnodup
  · split
    · exact hnodup
    · rename_i h
      rw [List.nodup_append]
      refine ⟨hnodup, by simp, ?_⟩
      intro a ha hb
      simp at hb
      exact h (hb ▸ ha)

theorem reference_all_spec (ops : RenderTargetOps σ) (textures : List Texture) (w : WindowImpl σ)
    (hslot : w.next_image < w.render_target_texture_dependencies.length)
    (hnodup : (targets_of (dependencies_of w w.next_image)).Nodup) :
    (reference_all ops textures w).next_image = w.next_image ∧
      (targets_of (dependencies_of (reference_all ops textures w) w.next_image)).Nodup ∧
      ∀ rt, rt ∈ targets_of (dependencies_of (reference_all ops textures w) w.next_image) ↔
        (rt ∈ targets_of (dependencies_of w w.next_image) ∨
          ∃ t ∈ textures, dynamic_cast_RenderTargetTextureImpl t.texture_impl = some rt) := by
  induction textures generalizing w with
  | nil => simp [reference_all, hnodup]
  | cons t rest ih =>
    have hn := CheckAndAdd_next_image ops t w
    have hl := CheckAndAdd_length ops t w
    have hd := CheckAndAdd_nodup ops t w hslot hnodup
    have ht := CheckAndAdd_targets ops t w hslot
    obtain ⟨i1, i2, i3⟩ := ih (CheckAndAddRenderTargetTextureDependency ops t w)
      (by rw [hn, hl]; exact hslot) (by rw [hn]; exact hd)
    simp only [reference_all, List.foldl_cons] at i1 i2 i3 ⊢
    rw [hn] at i1 i2 i3
    refine ⟨i1, i2, ?_⟩
    intro rt
    rw [i3 rt, ht]
    cases hc : dynamic_cast_RenderTargetTextureImpl t.texture_impl with
    | none =>
      simp only [List.mem_cons]
      constructor
      · rintro (h | ⟨t1, h1, h2⟩)
        · exact Or.inl h
        · exact Or.inr ⟨t1, Or.inr h1, h2⟩
      · rintro (h | ⟨t1, h1 | h1, h2⟩)
        · exact Or.inl h
        · subst h1; rw [hc] at h2; cases h2
        · exact Or.inr ⟨t1, h1, h2⟩
    | some a =>
      simp only [List.mem_cons]
      by_cases hmem : a ∈ targets_of (dependencies_of w w.next_image)
      · simp only [hmem, if_true]
        constructor
        · rintro (h | ⟨t1, h1, h2⟩)
          · exact Or.inl h
          · exact Or.inr ⟨t1, Or.inr h1, h2⟩
        · rintro (h | ⟨t1, h1 | h1, h2⟩)
          · exact Or.inl h
          · subst h1; rw [hc] at h2; cases h2; exact Or.inl hmem
          · exact Or.inr ⟨t1, h1, h2⟩
      · simp only [hmem, if_false, List.mem_append, List.mem_singleton]
        constructor
        · rintro ((h | h) | ⟨t1, h1, h2⟩)
          · exact Or.inl h
          · exact Or.inr ⟨t, Or.inl rfl, by rw [hc, h]⟩
          · exact Or.inr ⟨t1, Or.inr h1, h2⟩
        · rintro (h | ⟨t1, h1 | h1, h2⟩)
          · exact Or.inl (Or.inl h)
          · subst h1; rw [hc] at h2; cases h2; exact Or.inl (Or.inr rfl)
          · exact Or.inr ⟨t1, h1, h2⟩




theorem committed_targets_append (a b : List Effect) :
    committed_targets (a ++ b) = committed_targets a ++ committed_targets b := by
  induction a with
  | nil => rfl
  | cons e rest ih => cases e <;> simp [committed_targets, ih]

theorem committed_targets_map (l : List RenderTargetTextureDependencyInfo) (success : Bool) :
    committed_targets (l.map (fun d => Effect.CommitRenderTargetTextureRender d success)) =
      targets_of l := by
  induction l with
  | nil => rfl
  | cons d rest ih => simp [committed_targets, targets_of] at ih ⊢; exact ih

/-- The commits invoked by `CommitRenderTargetTextureRender` are those of a beginning of the
tracked list of the current slot, and of the whole list when it returns true. -/
theorem Commit_committed_targets (ops : RenderTargetOps σ)
    (collector : RenderTargetTextureRenderCollector) (w : WindowImpl σ) :
    ((CommitRenderTargetTextureRender ops collector w).1 = true ∧
      committed_targets (trace_since w (CommitRenderTargetTextureRender ops collector w).2.2) =
        targets_of (dependencies_of w w.next_image)) ∨
    ((CommitRenderTargetTextureRender ops collector w).1 = false ∧
      ∃ pre d post, dependencies_of w w.next_image = pre ++ d :: post ∧
        committed_targets (trace_since w (CommitRenderTargetTextureRender ops collector w).2.2) =
          targets_of (pre ++ [d])) := by
  unfold CommitRenderTargetTextureRender
  rcases commit_loop_trace ops (dependencies_of w w.next_image) collector w with
    ⟨h1, h2⟩ | ⟨h1, pre, d, post, h2, h3⟩
  · left
    refine ⟨h1, ?_⟩
    rw [trace_since_append _ _ _ h2, committed_targets_map]
  · right
    refine ⟨h1, pre, d, post, h2, ?_⟩
    rw [List.append_assoc] at h3
    rw [trace_since_append _ _ _ h3, committed_targets_append, committed_targets_map]
    simp [committed_targets, targets_of]

/-- C4 (amended): `CheckAndAddRenderTargetTextureDependency` leaves the window unchanged when
the texture is not a render target or when a handle for the same render target is tracked for
the current slot, and otherwise pushes exactly one handle to the back of the current slot. So
a slot without duplicates stays without duplicates however many draws reference a target, and
`CommitRenderTargetTextureRender` invokes the commit of every render target at most once, and
exactly once for every referenced render target when it returns true. -/
theorem at_most_one_commit_per_frame (ops : RenderTargetOps σ) (w : WindowImpl σ)
    (textures : List Texture) (collector : RenderTargetTextureRenderCollector)
    (hslot : w.next_image < w.render_target_texture_dependencies.length)
    (hnodup : (targets_of (dependencies_of w w.next_image)).Nodup) :
    (∀ texture, dynamic_cast_RenderTargetTextureImpl texture.texture_impl = none →
        CheckAndAddRenderTargetTextureDependency ops texture w = w) ∧
      (∀ texture rt, dynamic_cast_RenderTargetTextureImpl texture.texture_impl = some rt →
        rt ∈ targets_of (dependencies_of w w.next_image) →
        CheckAndAddRenderTargetTextureDependency ops texture w = w) ∧
      (∀ texture rt, dynamic_cast_RenderTargetTextureImpl texture.texture_impl = some rt →
        rt ∉ targets_of (dependencies_of w w.next_image) →
        CheckAndAddRenderTargetTextureDependency ops texture w =
            { w with
              render_target_texture_dependencies :=
                w.render_target_texture_dependencies.set w.next_image
                  (dependencies_of w w.next_image ++
                    [GetDependencyInfo ops rt w.render_targets]) } ∧
          dependencies_of (CheckAndAddRenderTargetTextureDependency ops texture w) w.next_image =
            dependencies_of w w.next_image ++ [GetDependencyInfo ops rt w.render_targets]) ∧
      (targets_of (dependencies_of (reference_all ops textures w) w.next_image)).Nodup ∧
      (∀ rt,
        (committed_targets (trace_since (reference_all ops textures w)
          (CommitRenderTargetTextureRender ops collector (reference_all ops textures w)).2.2)).count
            rt ≤ 1) ∧
      ((CommitRenderTargetTextureRender ops collector (reference_all ops textures w)).1 = true →
        ∀ rt, (rt ∈ targets_of (dependencies_of w w.next_image) ∨
            ∃ t ∈ textures, dynamic_cast_RenderTargetTextureImpl t.texture_impl = some rt) →
          (committed_targets (trace_since (reference_all ops textures w)
            (CommitRenderTargetTextureRender ops collector (reference_all ops textures w)).2.2)).count
              rt = 1) := by
  obtain ⟨hn, hd, hm⟩ := reference_all_spec ops textures w hslot hnodup
  refine ⟨?_, ?_, ?_, hd, ?_, ?_⟩
  · intro texture h
    rw [CheckAndAdd_eq, h]
  · intro texture rt h hmem
    rw [CheckAndAdd_eq, h]
    simp [hmem]
  · intro texture rt h hmem
    have h1 : CheckAndAddRenderTargetTextureDependency ops texture w =
        { w with
          render_target_texture_dependencies :=
            w.render_target_texture_dependencies.set w.next_image
              (dependencies_of w w.next_image ++
                [GetDependencyInfo ops rt w.render_targets]) } := by
      rw [CheckAndAdd_eq, h]
      simp [hmem]
    refine ⟨h1, ?_⟩
    rw [h1]
    exact getD_set_same _ _ _ hslot
  · intro rt
    rcases Commit_committed_targets ops collector (reference_all ops textures w) with
      ⟨_, h2⟩ | ⟨_, pre, d, post, h2, h3⟩
    · rw [h2, hn]
      exact List.nodup_iff_count_le_one.mp hd rt
    · rw [h3]
      rw [hn] at h2
      have hsub : (targets_of (pre ++ [d])).Sublist
          (targets_of (dependencies_of (reference_all ops textures w) w.next_image)) := by
        rw [h2]
        unfold targets_of
        apply List.Sublist.map
        simp
      exact List.nodup_iff_count_le_one.mp (hd.sublist hsub) rt
  · intro hok rt href
    rcases Commit_committed_targets ops collector (reference_all ops textures w) with
      ⟨_, h2⟩ | ⟨h1, _⟩
    · rw [h2, hn]
      exact List.count_eq_one_of_mem hd ((hm rt).mpr href)
    · rw [hok] at h1; cases h1

theorem at_most_one_commit_per_frame_witness :
    sample_window.next_image < sample_window.render_target_texture_dependencies.length ∧
      (targets_of (dependencies_of
        (reference_all (sample_ops (fun _ => false))
          [{ texture_impl := .RenderTargetTextureImpl 7 }, { texture_impl := .TextureResourceImpl 3 },
            { texture_impl := .RenderTargetTextureImpl 7 }] sample_window)
        sample_window.next_image)).Nodup :=
  ⟨by decide,
    (at_most_one_commit_per_frame (sample_ops (fun _ => false)) sample_window
      [{ texture_impl := .RenderTargetTextureImpl 7 }, { texture_impl := .TextureResourceImpl 3 },
        { texture_impl := .RenderTargetTextureImpl 7 }] []
      (by decide) (by decide)).2.2.2.1⟩

/-- C4 as stated fails: with render targets 1 and 2 referenced while drawing to the slot and
the commit of 1 failing, `CommitRenderTargetTextureRender` returns false and the commit of the
referenced render target 2 is invoked zero times, not once. -/
theorem commit_exactly_once_counterexample :
    dynamic_cast_RenderTargetTextureImpl
        (Texture.mk (.RenderTargetTextureImpl 2)).texture_impl = some 2 ∧
      (CommitRenderTargetTextureRender (sample_ops (fun rt => rt == 1)) []
        (reference_all (sample_ops (fun rt => rt == 1))
          [{ texture_impl := .RenderTargetTextureImpl 1 },
            { texture_impl := .RenderTargetTextureImpl 2 }] sample_window)).1 = false ∧
      (committed_targets (trace_since
        (reference_all (sample_ops (fun rt => rt == 1))
          [{ texture_impl := .RenderTargetTextureImpl 1 },
            { texture_impl := .RenderTargetTextureImpl 2 }] sample_window)
        (CommitRenderTargetTextureRender (sample_ops (fun rt => rt == 1)) []
          (reference_all (sample_ops (fun rt => rt == 1))
            [{ texture_impl := .RenderTargetTextureImpl 1 },
              { texture_impl := .RenderTargetTextureImpl 2 }] sample_window)).2.2)).count 2 = 0 := by
  decide

end TrackerFacts

section TraceFacts
variable {σ : Type}

theorem quiet_extension.refl (t : List Effect) : quiet_extension t t :=
  ⟨[], by simp, by simp⟩

theorem quiet_extension.trans {a b c : List Effect} (h1 : quiet_extension a b)
    (h2 : quiet_extension b c) : quiet_extension a c := by
  obtain ⟨d1, e1, q1⟩ := h1
  obtain ⟨d2, e2, q2⟩ := h2
  refine ⟨d1 ++ d2, by rw [e2, e1, List.append_assoc], ?_⟩
  intro e he
  rcases List.mem_append.mp he with h | h
  · exact q1 e h
  · exact q2 e h

theorem quiet_extension.append {a b : List Effect} (h : quiet_extension a b) (l : List Effect)
    (hl : ∀ e ∈ l, is_frame_step e = false) : quiet_extension a (b ++ l) :=
  h.trans ⟨l, rfl, hl⟩

theorem quiet_extension.snoc {a b : List Effect} (h : quiet_extension a b) (e : Effect)
    (he : is_frame_step e = false) : quiet_extension a (b ++ [e]) :=
  h.append [e] (by simpa using he)

theorem quiet_extension.countP {a b : List Effect} (h : quiet_extension a b)
    (p : Effect → Bool) (hp : ∀ e, is_frame_step e = false → p e = false) :
    b.countP p = a.countP p := by
  obtain ⟨d, e1, q⟩ := h
  rw [e1, List.countP_append]
  have : d.countP p = 0 := by
    rw [List.countP_eq_zero]
    intro e he
    simp [hp e (q e he)]
  omega

theorem quiet_map (effect : RenderTargetTextureDependencyInfo → Effect)
    (l : List RenderTargetTextureDependencyInfo) (h : ∀ d, is_frame_step (effect d) = false) :
    ∀ e ∈ l.map effect, is_frame_step e = false := by
  intro e he
  obtain ⟨d, _, rfl⟩ := List.mem_map.mp he
  exact h d

theorem HandleScreenshotEvent_quiet (w : WindowImpl σ) :
    quiet_extension w.trace (HandleScreenshotEvent w).trace := by
  unfold HandleScreenshotEvent
  lift_lets
  intro w0 w1
  have h0 : quiet_extension w.trace w0.trace := by
    simp only [w0]
    split_ifs
    · exact quiet_extension.refl _
    · exact (quiet_extension.refl _).snoc _ rfl
  have h1 : quiet_extension w0.trace w1.trace := by
    simp only [w1]
    split_ifs
    · exact (quiet_extension.refl _).snoc _ rfl
    · exact (quiet_extension.refl _).snoc _ rfl
    · exact quiet_extension.refl _
  exact h0.trans h1

theorem SynchronizeFrame_screenshot_quiet (o : SynchronizeFrameOutcome) (w : WindowImpl σ) :
    quiet_extension w.trace (SynchronizeFrame_screenshot o w).trace := by
  unfold SynchronizeFrame_screenshot
  lift_lets
  intro texel_count w0 w00 w1
  have h1 : quiet_extension w.trace w1.trace := by
    simp only [w1]
    cases o.mapped_data <;> simp only [] <;> split_ifs <;>
      first
        | exact quiet_extension.refl _
        | exact (quiet_extension.refl _).snoc _ rfl
  split_ifs
  · exact h1.trans (HandleScreenshotEvent_quiet w1)
  · exact h1

theorem ConfirmFinished_trace (ops : RenderTargetOps σ) (i : Nat) (w : WindowImpl σ) :
    (ConfirmRenderTargetTextureRenderFinished ops i w).trace =
      w.trace ++ (dependencies_of w i).map Effect.ConfirmRenderTargetTextureRenderFinished := by
  simp [ConfirmRenderTargetTextureRenderFinished, notify_each_eq]

theorem SynchronizeFrame_quiet (ops : RenderTargetOps σ) (o : SynchronizeFrameOutcome)
    (w : WindowImpl σ) :
    quiet_extension w.trace (SynchronizeFrame ops o w).2.trace := by
  unfold SynchronizeFrame
  lift_lets
  intro w1 w2 w3 w4
  have h1 : quiet_extension w.trace w1.trace := (quiet_extension.refl _).snoc _ rfl
  have h2 : quiet_extension w1.trace w2.trace := by
    simp only [w2, ConfirmFinished_trace]
    exact (quiet_extension.refl _).append _ (quiet_map _ _ (fun _ => rfl))
  have h3 : quiet_extension w2.trace w3.trace := (quiet_extension.refl _).snoc _ rfl
  have h4 : quiet_extension w3.trace w4.trace := SynchronizeFrame_screenshot_quiet o w3
  split_ifs
  · exact h1.snoc _ rfl
  · exact h1.snoc _ rfl
  · exact ((h1.trans h2).trans h3).snoc _ rfl
  · exact ((h1.trans h2).trans h3).trans h4
  · exact quiet_extension.refl _
end TraceFacts

section RebuildFacts
variable {σ : Type}
theorem ReCreateSwapchain_quiet (ops : RenderTargetOps σ) (o : ReCreateSwapchainOutcome)
    (w : WindowImpl σ) :
    quiet_extension w.trace (ReCreateSwapchain ops o w).2.trace := by
  unfold ReCreateSwapchain
  lift_lets
  intro s src w1 w2 found w3 w4 w5
  have hs : quiet_extension w.trace s.2.trace := SynchronizeFrame_quiet ops _ w
  split_ifs <;> first | exact hs | exact hs.snoc _ rfl

theorem ReCreateScreenshotResources_quiet (o : RecreateOutcome) (w : WindowImpl σ) :
    quiet_extension w.trace (ReCreateScreenshotResources o w).2.trace := by
  unfold ReCreateScreenshotResources
  lift_lets
  intro w1
  have h1 : quiet_extension w.trace w1.trace := by
    simp only [w1]
    split_ifs <;> exact quiet_extension.refl _
  split_ifs <;> first | exact h1 | exact h1.snoc _ rfl

theorem AllocateCommandBuffers_quiet (o : RecreateOutcome) (w : WindowImpl σ) :
    quiet_extension w.trace (AllocateCommandBuffers o w).2.trace := by
  unfold AllocateCommandBuffers
  lift_lets
  intro w1
  split_ifs <;>
    first | exact quiet_extension.refl _ | exact (quiet_extension.refl _).snoc _ rfl

theorem CreateFrameSynchronizationPrimitives_quiet (o : RecreateOutcome) (w : WindowImpl σ) :
    quiet_extension w.trace (CreateFrameSynchronizationPrimitives o w).2.trace := by
  unfold CreateFrameSynchronizationPrimitives
  lift_lets
  intro w1 w2
  split_ifs <;>
    first | exact quiet_extension.refl _ | exact (quiet_extension.refl _).snoc _ rfl

/-- After its opening report, a rebuild makes no step of the frame protocol. -/
theorem Recreate_quiet (ops : RenderTargetOps σ) (o : RecreateOutcome) (w : WindowImpl σ) :
    quiet_extension (w.trace ++ [.Report "Begin recreating window resources."])
      (RecreateWindowSizeDependantResources ops o w).2.trace := by
  unfold RecreateWindowSizeDependantResources
  lift_lets
  intro w0 s src1 w1 w2 w3 c p src2
  have hs : quiet_extension w0.trace s.2.trace := ReCreateSwapchain_quiet ops _ w0
  have h2 : quiet_extension w1.trace w2.trace := ReCreateScreenshotResources_quiet o w1
  have h3 : quiet_extension w0.trace w3.trace := hs.trans h2
  have hc : quiet_extension w3.trace c.2.trace := by
    simp only [c]
    split_ifs
    · exact AllocateCommandBuffers_quiet o w3
    · exact quiet_extension.refl _
  have hp : quiet_extension c.2.trace p.2.trace := by
    simp only [p]
    split_ifs
    · exact CreateFrameSynchronizationPrimitives_quiet o c.2
    · exact quiet_extension.refl _
  split_ifs
  · exact hs
  · exact h3
  · exact h3.trans hc
  · exact (h3.trans hc).trans hp
  · exact ((h3.trans hc).trans hp).snoc _ rfl

/-- One acquire attempt: the acquire itself, then no further step of the frame protocol. -/
theorem TryAcquire_quiet (o : TryAcquireOutcome) (w : WindowImpl σ) :
    quiet_extension
      (w.trace ++ [.vkAcquireNextImageKHR o.vkAcquireNextImageKHR
        (o.written_image_index.getD UINT32_MAX)])
      (TryAcquireAndWaitAvailable o w).2.trace := by
  unfold TryAcquireAndWaitAvailable
  lift_lets
  intro new_image_index acquire_result w1 w2 w3
  have h1 : quiet_extension w1.trace w2.trace := (quiet_extension.refl _).snoc _ rfl
  have h2 : quiet_extension w1.trace w3.trace := h1.snoc _ rfl
  split_ifs <;>
    first | exact quiet_extension.refl _ | exact h1 | exact h2 | exact h1.snoc _ rfl |
      exact h2.snoc _ rfl

theorem TryAcquire_vk_result (o : TryAcquireOutcome) (w : WindowImpl σ) :
    (TryAcquireAndWaitAvailable o w).1.vk_result = o.vkAcquireNextImageKHR := by
  unfold TryAcquireAndWaitAvailable
  lift_lets
  intros
  split_ifs <;> rfl

theorem EndRender_record_quiet (ops : RenderTargetOps σ) (o : EndRenderOutcome)
    (w : WindowImpl σ) :
    quiet_extension w.trace (EndRender_record ops o w).2.trace := by
  unfold EndRender_record
  lift_lets
  intro w2 w3 synced w4 w5
  have h2 : w2.trace = w.trace := by
    simp only [w2]
    split_ifs <;> rfl
  have h3 : quiet_extension w.trace w3.trace := by
    have : quiet_extension w2.trace w3.trace := (quiet_extension.refl _).snoc _ rfl
    rwa [h2] at this
  have hs : quiet_extension w.trace synced.2.trace := h3.trans (SynchronizeFrame_quiet ops _ w3)
  have h4 : quiet_extension w.trace w4.trace := hs.snoc _ rfl
  have h5 : quiet_extension w.trace w5.trace := h4.snoc _ rfl
  split_ifs <;>
    first | exact h5 | exact h3.snoc _ rfl | exact hs.snoc _ rfl | exact h4.snoc _ rfl |
      exact h5.snoc _ rfl
end RebuildFacts

section AcquireFacts
variable {σ : Type}

theorem not_acquire_of_not_frame_step (e : Effect) (h : is_frame_step e = false) :
    is_acquire_attempt e = false := by
  simp only [is_frame_step, Bool.or_eq_false_iff] at h
  exact h.1.1.1

theorem not_rebuild_of_not_frame_step (e : Effect) (h : is_frame_step e = false) :
    is_rebuild_start e = false := by
  simp only [is_frame_step, Bool.or_eq_false_iff] at h
  exact h.1.1.2

/-- Counting acquire attempts and rebuilds across a continuation of the trace that makes no
step of the frame protocol. -/
theorem counts_of_quiet {a b : List Effect} (h : quiet_extension a b) :
    acquire_attempts b = acquire_attempts a ∧ rebuilds b = rebuilds a :=
  ⟨h.countP _ not_acquire_of_not_frame_step, h.countP _ not_rebuild_of_not_frame_step⟩

theorem counts_snoc (t : List Effect) (e : Effect) :
    acquire_attempts (t ++ [e]) = acquire_attempts t + (if is_acquire_attempt e then 1 else 0) ∧
      rebuilds (t ++ [e]) = rebuilds t + (if is_rebuild_start e then 1 else 0) := by
  simp [acquire_attempts, rebuilds, List.countP_append, List.countP_cons]

theorem TryAcquire_counts (o : TryAcquireOutcome) (w : WindowImpl σ) :
    acquire_attempts (TryAcquireAndWaitAvailable o w).2.trace = acquire_attempts w.trace + 1 ∧
      rebuilds (TryAcquireAndWaitAvailable o w).2.trace = rebuilds w.trace := by
  have h := counts_of_quiet (TryAcquire_quiet o w)
  have h1 := counts_snoc w.trace
    (.vkAcquireNextImageKHR o.vkAcquireNextImageKHR (o.written_image_index.getD UINT32_MAX))
  simp only [is_acquire_attempt, is_rebuild_start, if_true] at h1
  exact ⟨h.1.trans h1.1, h.2.trans (by simpa using h1.2)⟩

theorem Recreate_counts (ops : RenderTargetOps σ) (o : RecreateOutcome) (w : WindowImpl σ) :
    acquire_attempts (RecreateWindowSizeDependantResources ops o w).2.trace =
        acquire_attempts w.trace ∧
      rebuilds (RecreateWindowSizeDependantResources ops o w).2.trace = rebuilds w.trace + 1 := by
  have h := counts_of_quiet (Recreate_quiet ops o w)
  have h1 := counts_snoc w.trace (.Report "Begin recreating window resources.")
  have e1 : is_acquire_attempt (.Report "Begin recreating window resources.") = false := rfl
  have e2 : is_rebuild_start (.Report "Begin recreating window resources.") = true := by decide
  rw [e1, e2] at h1
  exact ⟨h.1.trans (by simpa using h1.1), h.2.trans (by simpa using h1.2)⟩

/-- A report that is not the opening report of a rebuild changes neither count. -/
theorem counts_Report (message : String) (w : WindowImpl σ)
    (h : is_rebuild_start (.Report message) = false) :
    acquire_attempts (Report message w).trace = acquire_attempts w.trace ∧
      rebuilds (Report message w).trace = rebuilds w.trace := by
  have h1 := counts_snoc w.trace (.Report message)
  have e1 : is_acquire_attempt (.Report message) = false := rfl
  rw [e1, h] at h1
  exact ⟨by simpa using h1.1, by simpa using h1.2⟩

/-- The attempts and rebuilds of `AcquireImage`: there are never more than two acquire attempts
and never more than one rebuild. When the first attempt reports `VK_ERROR_OUT_OF_DATE_KHR`,
`RecreateWindowSizeDependantResources` is called exactly once; if it fails the function returns
false after the single attempt; otherwise exactly one more attempt is made, and the function
returns true when the retry reports `VK_SUCCESS`, with `next_image` set to the member
`new_image` of what the lambda returned for the retry, and false when the retry reports
anything else, out of date in particular. -/
theorem AcquireImage_rebuilds_and_retries_once (ops : RenderTargetOps σ)
    (o : AcquireImageOutcome) (w : WindowImpl σ) :
    acquire_attempts (AcquireImage ops o w).2.trace ≤ acquire_attempts w.trace + 2 ∧
      rebuilds (AcquireImage ops o w).2.trace ≤ rebuilds w.trace + 1 ∧
      (o.first.vkAcquireNextImageKHR = VK_ERROR_OUT_OF_DATE_KHR →
        rebuilds (AcquireImage ops o w).2.trace = rebuilds w.trace + 1 ∧
        ((RecreateWindowSizeDependantResources ops o.RecreateWindowSizeDependantResources
            (Report
              "Could not acquire swapchain image, out of date swapchain, trying to recreate swapchain now."
              (TryAcquireAndWaitAvailable o.first w).2)).1 = false →
          (AcquireImage ops o w).1 = false ∧
            acquire_attempts (AcquireImage ops o w).2.trace = acquire_attempts w.trace + 1) ∧
        ((RecreateWindowSizeDependantResources ops o.RecreateWindowSizeDependantResources
            (Report
              "Could not acquire swapchain image, out of date swapchain, trying to recreate swapchain now."
              (TryAcquireAndWaitAvailable o.first w).2)).1 = true →
          acquire_attempts (AcquireImage ops o w).2.trace = acquire_attempts w.trace + 2 ∧
            (o.retry.vkAcquireNextImageKHR = VK_SUCCESS →
              (AcquireImage ops o w).1 = true ∧
                (AcquireImage ops o w).2.next_image =
                  (TryAcquireAndWaitAvailable o.retry
                    (RecreateWindowSizeDependantResources ops
                      o.RecreateWindowSizeDependantResources
                      (Report
                        "Could not acquire swapchain image, out of date swapchain, trying to recreate swapchain now."
                        (TryAcquireAndWaitAvailable o.first w).2)).2).1.new_image) ∧
            (o.retry.vkAcquireNextImageKHR ≠ VK_SUCCESS → (AcquireImage ops o w).1 = false) ∧
            (o.retry.vkAcquireNextImageKHR = VK_ERROR_OUT_OF_DATE_KHR →
              (AcquireImage ops o w).1 = false))) := by
  unfold AcquireImage
  lift_lets
  intro result w1 src1 w2 rebuilt retry_result w3
  have hr := TryAcquire_vk_result o.first w
  have hrr := TryAcquire_vk_result o.retry rebuilt.2
  have c1 : acquire_attempts result.2.trace = acquire_attempts w.trace + 1 ∧
      rebuilds result.2.trace = rebuilds w.trace := TryAcquire_counts o.first w
  have c2 : acquire_attempts w2.trace = acquire_attempts result.2.trace ∧
      rebuilds w2.trace = rebuilds result.2.trace := counts_Report _ result.2 (by decide)
  have c3 : acquire_attempts rebuilt.2.trace = acquire_attempts w2.trace ∧
      rebuilds rebuilt.2.trace = rebuilds w2.trace + 1 :=
    Recreate_counts ops o.RecreateWindowSizeDependantResources w2
  have c4 : acquire_attempts retry_result.2.trace = acquire_attempts rebuilt.2.trace + 1 ∧
      rebuilds retry_result.2.trace = rebuilds rebuilt.2.trace :=
    TryAcquire_counts o.retry rebuilt.2
  have c5 : acquire_attempts src1.trace = acquire_attempts result.2.trace ∧
      rebuilds src1.trace = rebuilds result.2.trace := counts_Report _ result.2 (by decide)
  have c6 : acquire_attempts (emit (.assertion_failed "0 && Unhandled case.") result.2).trace =
        acquire_attempts result.2.trace ∧
      rebuilds (emit (.assertion_failed "0 && Unhandled case.") result.2).trace =
        rebuilds result.2.trace := by
    have h1 := counts_snoc result.2.trace (.assertion_failed "0 && Unhandled case.")
    exact ⟨by simpa [is_acquire_attempt] using h1.1, by simpa [is_rebuild_start] using h1.2⟩
  have c7 : acquire_attempts
        (Report "Internal error: Cannot recreate window resources after resizing window!"
          rebuilt.2).trace = acquire_attempts rebuilt.2.trace ∧
      rebuilds
        (Report "Internal error: Cannot recreate window resources after resizing window!"
          rebuilt.2).trace = rebuilds rebuilt.2.trace := counts_Report _ rebuilt.2 (by decide)
  have c8 : acquire_attempts w3.trace = acquire_attempts retry_result.2.trace ∧
      rebuilds w3.trace = rebuilds retry_result.2.trace :=
    counts_Report _ retry_result.2 (by decide)
  have c9 : acquire_attempts
        (Report "Error trying to get swapchain image after swapchain recreation. Aborting now!"
          retry_result.2).trace = acquire_attempts retry_result.2.trace ∧
      rebuilds
        (Report "Error trying to get swapchain image after swapchain recreation. Aborting now!"
          retry_result.2).trace = rebuilds retry_result.2.trace :=
    counts_Report _ retry_result.2 (by decide)
  -- the five ways out of the function, each with its two counts
  have out_success : acquire_attempts result.2.trace = acquire_attempts w.trace + 1 ∧
      rebuilds result.2.trace = rebuilds w.trace := c1
  have out_suboptimal : acquire_attempts src1.trace = acquire_attempts w.trace + 1 ∧
      rebuilds src1.trace = rebuilds w.trace := ⟨c5.1.trans c1.1, c5.2.trans c1.2⟩
  have out_default :
      acquire_attempts (emit (.assertion_failed "0 && Unhandled case.") result.2).trace =
        acquire_attempts w.trace + 1 ∧
      rebuilds (emit (.assertion_failed "0 && Unhandled case.") result.2).trace =
        rebuilds w.trace := ⟨c6.1.trans c1.1, c6.2.trans c1.2⟩
  have out_rebuild_failed : acquire_attempts
        (Report "Internal error: Cannot recreate window resources after resizing window!"
          rebuilt.2).trace = acquire_attempts w.trace + 1 ∧
      rebuilds
        (Report "Internal error: Cannot recreate window resources after resizing window!"
          rebuilt.2).trace = rebuilds w.trace + 1 := by
    refine ⟨c7.1.trans (c3.1.trans (c2.1.trans c1.1)), c7.2.trans ?_⟩
    rw [c3.2, c2.2, c1.2]
  have out_retry_success : acquire_attempts w3.trace = acquire_attempts w.trace + 2 ∧
      rebuilds w3.trace = rebuilds w.trace + 1 := by
    refine ⟨c8.1.trans ?_, c8.2.trans ?_⟩
    · rw [c4.1, c3.1, c2.1, c1.1]
    · rw [c4.2, c3.2, c2.2, c1.2]
  have out_retry_failed : acquire_attempts
        (Report "Error trying to get swapchain image after swapchain recreation. Aborting now!"
          retry_result.2).trace = acquire_attempts w.trace + 2 ∧
      rebuilds
        (Report "Error trying to get swapchain image after swapchain recreation. Aborting now!"
          retry_result.2).trace = rebuilds w.trace + 1 := by
    refine ⟨c9.1.trans ?_, c9.2.trans ?_⟩
    · rw [c4.1, c3.1, c2.1, c1.1]
    · rw [c4.2, c3.2, c2.2, c1.2]
  refine ⟨?_, ?_, fun hood => ?_⟩
  · split_ifs
    · exact le_of_eq_of_le out_success.1 (by omega)
    · exact le_of_eq_of_le out_suboptimal.1 (by omega)
    · exact le_of_eq_of_le out_rebuild_failed.1 (by omega)
    · exact le_of_eq out_retry_success.1
    · exact le_of_eq out_retry_failed.1
    · exact le_of_eq_of_le out_default.1 (by omega)
  · split_ifs
    · exact le_of_eq_of_le out_success.2 (by omega)
    · exact le_of_eq_of_le out_suboptimal.2 (by omega)
    · exact le_of_eq out_rebuild_failed.2
    · exact le_of_eq out_retry_success.2
    · exact le_of_eq out_retry_failed.2
    · exact le_of_eq_of_le out_default.2 (by omega)
  · have n1 : ¬ result.1.vk_result = VK_SUCCESS := by
      rw [show result.1.vk_result = o.first.vkAcquireNextImageKHR from hr, hood]; decide
    have n2 : ¬ result.1.vk_result = VK_SUBOPTIMAL_KHR := by
      rw [show result.1.vk_result = o.first.vkAcquireNextImageKHR from hr, hood]; decide
    have n3 : result.1.vk_result = VK_ERROR_OUT_OF_DATE_KHR := hr.trans hood
    rw [if_neg n1, if_neg n2, if_pos n3]
    refine ⟨?_, ?_, ?_⟩
    · split_ifs
      · exact out_rebuild_failed.2
      · exact out_retry_success.2
      · exact out_retry_failed.2
    · intro hfail
      have hfail2 : (!rebuilt.1) = true := by
        rw [show rebuilt.1 = false from hfail]; rfl
      rw [if_pos hfail2]
      exact ⟨rfl, out_rebuild_failed.1⟩
    · intro hok
      have hok2 : ¬ (!rebuilt.1) = true := by
        rw [show rebuilt.1 = true from hok]; decide
      rw [if_neg hok2]
      refine ⟨?_, ?_, ?_, ?_⟩
      · split_ifs
        · exact out_retry_success.1
        · exact out_retry_failed.1
      · intro hs
        have hs2 : retry_result.1.vk_result = VK_SUCCESS := hrr.trans hs
        rw [if_pos hs2]
        exact ⟨rfl, rfl⟩
      · intro hs
        have hs2 : ¬ retry_result.1.vk_result = VK_SUCCESS := fun h => hs (hrr.symm.trans h)
        rw [if_neg hs2]
      · intro hs
        have hs2 : ¬ retry_result.1.vk_result = VK_SUCCESS := by
          rw [show retry_result.1.vk_result = o.retry.vkAcquireNextImageKHR from hrr, hs]; decide
        rw [if_neg hs2]
end AcquireFacts

section FenceFreeFacts
variable {σ : Type}

theorem fence_free_same (t : List Effect) : fence_free_extension t t :=
  ⟨[], by simp, by simp⟩

theorem fence_free_chain {a b c : List Effect} (h1 : fence_free_extension a b)
    (h2 : fence_free_extension b c) : fence_free_extension a c := by
  obtain ⟨d1, e1, q1⟩ := h1
  obtain ⟨d2, e2, q2⟩ := h2
  refine ⟨d1 ++ d2, by rw [e2, e1, List.append_assoc], ?_⟩
  intro e he
  rcases List.mem_append.mp he with h | h
  · exact q1 e h
  · exact q2 e h

theorem fence_free_snoc {a b : List Effect} (h : fence_free_extension a b) (e : Effect)
    (he : is_fence_call e = false) : fence_free_extension a (b ++ [e]) :=
  fence_free_chain h ⟨[e], rfl, by simpa using he⟩

theorem HandleScreenshotEvent_fence_free (w : WindowImpl σ) :
    fence_free_extension w.trace (HandleScreenshotEvent w).trace := by
  unfold HandleScreenshotEvent
  lift_lets
  intro w0 w1
  have h0 : fence_free_extension w.trace w0.trace := by
    simp only [w0]
    split_ifs
    · exact fence_free_same _
    · exact fence_free_snoc (fence_free_same _) _ rfl
  have h1 : fence_free_extension w0.trace w1.trace := by
    simp only [w1]
    split_ifs
    · exact fence_free_snoc (fence_free_same _) _ rfl
    · exact fence_free_snoc (fence_free_same _) _ rfl
    · exact fence_free_same _
  exact fence_free_chain h0 h1

theorem SynchronizeFrame_screenshot_fence_free (o : SynchronizeFrameOutcome)
    (w : WindowImpl σ) :
    fence_free_extension w.trace (SynchronizeFrame_screenshot o w).trace := by
  unfold SynchronizeFrame_screenshot
  lift_lets
  intro texel_count w0 w00 w1
  have h1 : fence_free_extension w.trace w1.trace := by
    simp only [w1]
    cases o.mapped_data <;> simp only [] <;> split_ifs <;>
      first
        | exact fence_free_same _
        | exact fence_free_snoc (fence_free_same _) _ rfl
  split_ifs
  · exact fence_free_chain h1 (HandleScreenshotEvent_fence_free w1)
  · exact h1

end FenceFreeFacts

section SynchronizeFacts
variable {σ : Type}

theorem ConfirmFinished_frame (ops : RenderTargetOps σ) (i : Nat) (w : WindowImpl σ) :
    ConfirmRenderTargetTextureRenderFinished ops i w =
      { w with
        render_target_texture_dependencies := w.render_target_texture_dependencies.set i []
        render_targets :=
          (dependencies_of w i).foldl
            (fun targets d => ops.ConfirmRenderTargetTextureRenderFinished d targets)
            w.render_targets
        trace := w.trace ++
          (dependencies_of w i).map Effect.ConfirmRenderTargetTextureRenderFinished } := by
  simp [ConfirmRenderTargetTextureRenderFinished, notify_each_eq]

theorem SynchronizeFrame_screenshot_flag (o : SynchronizeFrameOutcome) (w : WindowImpl σ) :
    (SynchronizeFrame_screenshot o w).previous_frame_need_synchronization =
      w.previous_frame_need_synchronization := by
  rw [SynchronizeFrame_screenshot_frame]

/-- C8: `SynchronizeFrame` with the flag `previous_frame_need_synchronization` clear returns
true and changes nothing, trace included. With the flag set it returns true exactly when both
the wait for and the reset of the fence succeed; then the flag is clear and any further call
changes nothing; when it returns false (a timeout of the wait in particular, or any other
error of the wait or the reset) the flag is still set. The fence is
`vk_gpu_to_cpu_frame_fences[ previous_image ]`: with the flag set the call first waits for
this fence; when the wait times out or fails the state afterwards is the state before with
this wait and one report added to the trace, and no reset is made; when the wait succeeds the
trace goes on with the notifications of the render targets tracked for `previous_image` and
with the reset of the same fence, followed by one report when the reset fails, and by no
further wait for or reset of any fence when it succeeds. -/
theorem SynchronizeFrame_contract (ops : RenderTargetOps σ) (o : SynchronizeFrameOutcome)
    (w : WindowImpl σ) :
    (w.previous_frame_need_synchronization = false → SynchronizeFrame ops o w = (true, w)) ∧
      (w.previous_frame_need_synchronization = true →
        ((SynchronizeFrame ops o w).1 = true ↔
          o.vkWaitForFences = VK_SUCCESS ∧ o.vkResetFences = VK_SUCCESS) ∧
        ((SynchronizeFrame ops o w).1 = true →
          (SynchronizeFrame ops o w).2.previous_frame_need_synchronization = false ∧
            ∀ o2, SynchronizeFrame ops o2 (SynchronizeFrame ops o w).2 =
              (true, (SynchronizeFrame ops o w).2)) ∧
        ((SynchronizeFrame ops o w).1 = false →
          (SynchronizeFrame ops o w).2.previous_frame_need_synchronization = true) ∧
        (o.vkWaitForFences = VK_TIMEOUT → (SynchronizeFrame ops o w).1 = false) ∧
        (o.vkWaitForFences = VK_TIMEOUT →
          SynchronizeFrame ops o w =
            (false, Report "Internal error: Timeout synchronizing frame."
              (emit (.vkWaitForFences (.vk_gpu_to_cpu_frame_fences w.previous_image)
                o.vkWaitForFences) w))) ∧
        (o.vkWaitForFences ≠ VK_TIMEOUT → o.vkWaitForFences ≠ VK_SUCCESS →
          SynchronizeFrame ops o w =
            (false, Report "Internal error: Cannot properly synchronize frame."
              (emit (.vkWaitForFences (.vk_gpu_to_cpu_frame_fences w.previous_image)
                o.vkWaitForFences) w))) ∧
        (o.vkWaitForFences = VK_SUCCESS → o.vkResetFences ≠ VK_SUCCESS →
          (SynchronizeFrame ops o w).2.trace =
            w.trace ++
              [.vkWaitForFences (.vk_gpu_to_cpu_frame_fences w.previous_image)
                o.vkWaitForFences] ++
              (dependencies_of w w.previous_image).map
                Effect.ConfirmRenderTargetTextureRenderFinished ++
              [.vkResetFences (.vk_gpu_to_cpu_frame_fences w.previous_image) o.vkResetFences] ++
              [.Report "Internal error: Cannot properly synchronize frame."]) ∧
        (o.vkWaitForFences = VK_SUCCESS → o.vkResetFences = VK_SUCCESS →
          fence_free_extension
            (w.trace ++
              [.vkWaitForFences (.vk_gpu_to_cpu_frame_fences w.previous_image)
                o.vkWaitForFences] ++
              (dependencies_of w w.previous_image).map
                Effect.ConfirmRenderTargetTextureRenderFinished ++
              [.vkResetFences (.vk_gpu_to_cpu_frame_fences w.previous_image) o.vkResetFences])
            (SynchronizeFrame ops o w).2.trace)) := by
  have idle : ∀ (o1 : SynchronizeFrameOutcome) (v : WindowImpl σ),
      v.previous_frame_need_synchronization = false → SynchronizeFrame ops o1 v = (true, v) := by
    intro o1 v hv
    unfold SynchronizeFrame
    simp [hv]
  refine ⟨idle o w, fun hflag => ?_⟩
  have ne_timeout : VK_TIMEOUT ≠ VK_SUCCESS := by decide
  unfold SynchronizeFrame
  rw [if_pos hflag]
  lift_lets
  intro w1 w2 w3 w4
  have f2 : w2.previous_frame_need_synchronization = true := by
    simp only [w2]
    rw [ConfirmFinished_frame]
    exact hflag
  have p2 : w2.previous_image = w.previous_image := by
    simp only [w2]
    rw [ConfirmFinished_frame]
    rfl
  have t2 : w2.trace =
      w.trace ++
        [.vkWaitForFences (.vk_gpu_to_cpu_frame_fences w.previous_image) o.vkWaitForFences] ++
        (dependencies_of w w.previous_image).map
          Effect.ConfirmRenderTargetTextureRenderFinished := by
    simp only [w2]
    rw [ConfirmFinished_trace]
    rfl
  have t3 : w3.trace =
      w.trace ++
        [.vkWaitForFences (.vk_gpu_to_cpu_frame_fences w.previous_image) o.vkWaitForFences] ++
        (dependencies_of w w.previous_image).map
          Effect.ConfirmRenderTargetTextureRenderFinished ++
        [.vkResetFences (.vk_gpu_to_cpu_frame_fences w.previous_image) o.vkResetFences] := by
    simp only [w3, emit]
    rw [t2, p2]
  have t4 : fence_free_extension w3.trace w4.trace :=
    SynchronizeFrame_screenshot_fence_free o w3
  by_cases h1 : o.vkWaitForFences = VK_TIMEOUT
  · rw [if_pos h1]
    refine ⟨?_, ?_, fun _ => hflag, fun _ => rfl, fun _ => rfl, fun h => absurd h1 h,
      fun h => absurd (h1.symm.trans h) ne_timeout,
      fun h => absurd (h1.symm.trans h) ne_timeout⟩
    · constructor
      · intro h; simp at h
      · intro h; rw [h.1] at h1; simp at h1
    · intro h; simp at h
  · rw [if_neg h1]
    by_cases h2 : o.vkWaitForFences ≠ VK_SUCCESS
    · rw [if_pos h2]
      refine ⟨?_, ?_, fun _ => hflag, fun h => absurd h h1, fun h => absurd h h1,
        fun _ _ => rfl, fun h => absurd h h2, fun h => absurd h h2⟩
      · constructor
        · intro h; simp at h
        · intro h; exact absurd h.1 h2
      · intro h; simp at h
    · rw [if_neg h2]
      by_cases h3 : o.vkResetFences ≠ VK_SUCCESS
      · rw [if_pos h3]
        refine ⟨?_, ?_, fun _ => f2, fun h => absurd h h1, fun h => absurd h h1,
          fun _ h => absurd h h2, fun _ _ => ?_, fun _ h => absurd h h3⟩
        · constructor
          · intro h; simp at h
          · intro h; exact absurd h.2 h3
        · intro h; simp at h
        · show (Report "Internal error: Cannot properly synchronize frame." w3).trace = _
          simp only [Report, emit]
          rw [t3]
      · rw [if_neg h3]
        refine ⟨?_, fun _ => ⟨rfl, fun o2 => idle o2 _ rfl⟩, fun h => ?_,
          fun h => absurd h h1, fun h => absurd h h1, fun _ h => absurd h h2,
          fun _ h => absurd (not_not.mp h3) h, fun _ _ => ?_⟩
        · constructor
          · intro _; exact ⟨not_not.mp h2, not_not.mp h3⟩
          · intro _; rfl
        · simp at h
        · rw [← t3]
          exact t4

theorem SynchronizeFrame_contract_witness :
    sample_pending_window.previous_frame_need_synchronization = true ∧
      (SynchronizeFrame (sample_ops (fun _ => false)) sample_timeout sample_pending_window).1 =
        false ∧
      (SynchronizeFrame (sample_ops (fun _ => false)) sample_timeout
        sample_pending_window).2.trace =
        [.vkWaitForFences (.vk_gpu_to_cpu_frame_fences 0) VK_TIMEOUT,
          .Report "Internal error: Timeout synchronizing frame."] :=
  have h := (SynchronizeFrame_contract (sample_ops (fun _ => false)) sample_timeout
    sample_pending_window).2 rfl
  ⟨rfl, h.2.2.2.1 rfl, by rw [h.2.2.2.2.1 rfl]; rfl⟩
end SynchronizeFacts

section PositionFacts
variable {σ : Type}

theorem same_frame_position.same (w : WindowImpl σ) : same_frame_position w w :=
  ⟨rfl, rfl, rfl, rfl⟩

theorem same_frame_position.chain {a b c : WindowImpl σ} (h1 : same_frame_position a b)
    (h2 : same_frame_position b c) : same_frame_position a c :=
  ⟨h2.1.trans h1.1, h2.2.1.trans h1.2.1, h2.2.2.1.trans h1.2.2.1, h2.2.2.2.trans h1.2.2.2⟩

theorem notify_each_position (notify : RenderTargetTextureDependencyInfo → σ → σ)
    (effect : RenderTargetTextureDependencyInfo → Effect)
    (l : List RenderTargetTextureDependencyInfo) (w : WindowImpl σ) :
    same_frame_position w (notify_each notify effect l w) := by
  rw [notify_each_eq]
  exact ⟨rfl, rfl, rfl, rfl⟩

theorem ConfirmFinished_position (ops : RenderTargetOps σ) (i : Nat) (w : WindowImpl σ) :
    same_frame_position w (ConfirmRenderTargetTextureRenderFinished ops i w) := by
  rw [ConfirmFinished_frame]
  exact ⟨rfl, rfl, rfl, rfl⟩

theorem SynchronizeFrame_screenshot_position (o : SynchronizeFrameOutcome) (w : WindowImpl σ) :
    same_frame_position w (SynchronizeFrame_screenshot o w) := by
  rw [SynchronizeFrame_screenshot_frame]
  exact ⟨rfl, rfl, rfl, rfl⟩

theorem SynchronizeFrame_position (ops : RenderTargetOps σ) (o : SynchronizeFrameOutcome)
    (w : WindowImpl σ) : same_frame_position w (SynchronizeFrame ops o w).2 := by
  unfold SynchronizeFrame
  lift_lets
  intro w1 w2 w3 w4
  have h1 : same_frame_position w w1 := ⟨rfl, rfl, rfl, rfl⟩
  have h2 : same_frame_position w w2 := ConfirmFinished_position ops _ w1
  have h3 : same_frame_position w w3 := h2
  have h4 : same_frame_position w w4 := h3.chain (SynchronizeFrame_screenshot_position o w3)
  split_ifs <;> first | exact same_frame_position.same _ | exact h1 | exact h3 | exact h4

theorem ReCreateSwapchain_position (ops : RenderTargetOps σ) (o : ReCreateSwapchainOutcome)
    (w : WindowImpl σ) : same_frame_position w (ReCreateSwapchain ops o w).2 := by
  unfold ReCreateSwapchain
  lift_lets
  intro s src w1 w2 found w3 w4 w5
  have hs : same_frame_position w s.2 := SynchronizeFrame_position ops _ w
  split_ifs <;> exact hs

theorem ReCreateScreenshotResources_position (o : RecreateOutcome) (w : WindowImpl σ) :
    same_frame_position w (ReCreateScreenshotResources o w).2 := by
  unfold ReCreateScreenshotResources
  lift_lets
  intro w1
  have h1 : same_frame_position w w1 := by
    simp only [w1]
    split_ifs <;> exact ⟨rfl, rfl, rfl, rfl⟩
  split_ifs <;> exact h1

theorem AllocateCommandBuffers_position (o : RecreateOutcome) (w : WindowImpl σ) :
    same_frame_position w (AllocateCommandBuffers o w).2 := by
  unfold AllocateCommandBuffers
  lift_lets
  intro w1
  split_ifs <;> exact ⟨rfl, rfl, rfl, rfl⟩

theorem CreateFrameSynchronizationPrimitives_position (o : RecreateOutcome)
    (w : WindowImpl σ) :
    same_frame_position w (CreateFrameSynchronizationPrimitives o w).2 := by
  unfold CreateFrameSynchronizationPrimitives
  lift_lets
  intro w1 w2
  split_ifs <;> exact ⟨rfl, rfl, rfl, rfl⟩

theorem Recreate_position (ops : RenderTargetOps σ) (o : RecreateOutcome) (w : WindowImpl σ) :
    same_frame_position w (RecreateWindowSizeDependantResources ops o w).2 := by
  unfold RecreateWindowSizeDependantResources
  lift_lets
  intro w0 s src1 w1 w2 w3 c p src2
  have hs : same_frame_position w s.2 := ReCreateSwapchain_position ops _ w0
  have h1 : same_frame_position w w1 := hs
  have h2 : same_frame_position w w2 := h1.chain (ReCreateScreenshotResources_position o w1)
  have h3 : same_frame_position w w3 := h2
  have hc : same_frame_position w c.2 := by
    simp only [c]
    split_ifs
    · exact h3.chain (AllocateCommandBuffers_position o w3)
    · exact h3
  have hp : same_frame_position w p.2 := by
    simp only [p]
    split_ifs
    · exact hc.chain (CreateFrameSynchronizationPrimitives_position o c.2)
    · exact hc
  split_ifs <;> first | exact hs | exact h3 | exact hc | exact hp

end PositionFacts

section PositionFacts2
variable {σ : Type}

theorem TryAcquire_position (o : TryAcquireOutcome) (w : WindowImpl σ) :
    same_frame_position w (TryAcquireAndWaitAvailable o w).2 := by
  unfold TryAcquireAndWaitAvailable
  lift_lets
  intro new_image_index acquire_result w1 w2 w3
  have h1 : same_frame_position w w1 := ⟨rfl, rfl, rfl, rfl⟩
  have h2 : same_frame_position w1 w2 := ⟨rfl, rfl, rfl, rfl⟩
  have h3 : same_frame_position w2 w3 := ⟨rfl, rfl, rfl, rfl⟩
  split_ifs
  · exact h1.chain h2
  · exact (h1.chain h2).chain h3
  · exact (h1.chain h2).chain h3
  · exact h1

/-- Acquiring an image changes the current slot and nothing else of the frame position. -/
theorem AcquireImage_position (ops : RenderTargetOps σ) (o : AcquireImageOutcome)
    (w : WindowImpl σ) :
    (AcquireImage ops o w).2.is_iconified = w.is_iconified ∧
      (AcquireImage ops o w).2.next_render_call_function = w.next_render_call_function ∧
      (AcquireImage ops o w).2.previous_image = w.previous_image := by
  unfold AcquireImage
  lift_lets
  intro result w1 src1 w2 rebuilt retry_result w3
  have h1 : same_frame_position w result.2 := TryAcquire_position o.first w
  have h2 : same_frame_position w rebuilt.2 :=
    h1.chain (Recreate_position ops o.RecreateWindowSizeDependantResources w2)
  have h3 : same_frame_position w retry_result.2 :=
    h2.chain (TryAcquire_position o.retry rebuilt.2)
  split_ifs
  · exact ⟨h1.1, h1.2.1, h1.2.2.2⟩
  · exact ⟨h1.1, h1.2.1, h1.2.2.2⟩
  · exact ⟨h2.1, h2.2.1, h2.2.2.2⟩
  · exact ⟨h3.1, h3.2.1, h3.2.2.2⟩
  · exact ⟨h3.1, h3.2.1, h3.2.2.2⟩
  · exact ⟨h1.1, h1.2.1, h1.2.2.2⟩
end PositionFacts2

section EndRenderFacts
variable {σ : Type}

theorem emit_position (e : Effect) (w : WindowImpl σ) : same_frame_position w (emit e w) :=
  ⟨rfl, rfl, rfl, rfl⟩

theorem Report_position (message : String) (w : WindowImpl σ) :
    same_frame_position w (Report message w) :=
  ⟨rfl, rfl, rfl, rfl⟩

theorem EndRender_record_position (ops : RenderTargetOps σ) (o : EndRenderOutcome)
    (w : WindowImpl σ) : same_frame_position w (EndRender_record ops o w).2 := by
  unfold EndRender_record
  lift_lets
  intro w2 w3 synced w4 w5
  have h2 : same_frame_position w w2 := by
    simp only [w2]
    split_ifs <;> exact ⟨rfl, rfl, rfl, rfl⟩
  have h3 : same_frame_position w w3 := h2.chain (emit_position _ w2)
  have hs : same_frame_position w synced.2 := h3.chain (SynchronizeFrame_position ops _ w3)
  have h4 : same_frame_position w w4 := hs.chain (emit_position _ synced.2)
  have h5 : same_frame_position w w5 := h4.chain (emit_position _ w4)
  clear_value w2 w3 synced w4 w5
  split_ifs
  · exact h3.chain (Report_position _ w3)
  · exact hs.chain (Report_position _ synced.2)
  · exact h4.chain (Report_position _ w4)
  · exact h4.chain (Report_position _ w4)
  · exact h4.chain (Report_position _ w4)
  · exact h5.chain (Report_position _ w5)
  · exact h5

theorem Commit_frame (ops : RenderTargetOps σ) (collector : RenderTargetTextureRenderCollector)
    (w : WindowImpl σ) :
    (CommitRenderTargetTextureRender ops collector w).2.2 =
      { w with
        render_targets := (CommitRenderTargetTextureRender ops collector w).2.2.render_targets
        trace := (CommitRenderTargetTextureRender ops collector w).2.2.trace } :=
  commit_loop_frame ops _ collector w

theorem Abort_frame (ops : RenderTargetOps σ) (w : WindowImpl σ) :
    AbortRenderTargetTextureRender ops w =
      { w with
        render_target_texture_dependencies :=
          w.render_target_texture_dependencies.set w.next_image []
        render_targets :=
          (dependencies_of w w.next_image).foldl
            (fun targets d => ops.AbortRenderTargetTextureRender d targets) w.render_targets
        trace := w.trace ++
          (dependencies_of w w.next_image).map Effect.AbortRenderTargetTextureRender } := by
  simp [AbortRenderTargetTextureRender, notify_each_eq]

theorem ConfirmSubmission_frame (ops : RenderTargetOps σ) (w : WindowImpl σ) :
    ConfirmRenderTargetTextureRenderSubmission ops w =
      { w with
        render_targets :=
          (dependencies_of w w.next_image).foldl
            (fun targets d => ops.ConfirmRenderTargetTextureRenderSubmission d targets)
            w.render_targets
        trace := w.trace ++
          (dependencies_of w w.next_image).map
            Effect.ConfirmRenderTargetTextureRenderSubmission } := by
  simp [ConfirmRenderTargetTextureRenderSubmission, notify_each_eq]

/-- The three vectors of wait information built by `EndRender` have one entry for the
transfer semaphore and one per tracked handle, so the assertion on their sizes holds. -/
theorem render_wait_lengths (ops : RenderTargetOps σ) (w : WindowImpl σ) :
    (render_wait_for_semaphores ops w).length = 1 + (dependencies_of w w.next_image).length ∧
      (render_wait_for_semaphore_timeline_values ops w).length =
        1 + (dependencies_of w w.next_image).length ∧
      (render_wait_for_pipeline_stages w).length =
        1 + (dependencies_of w w.next_image).length := by
  simp [render_wait_for_semaphores, render_wait_for_semaphore_timeline_values,
    render_wait_for_pipeline_stages, Nat.add_comm]

/-- The state in which `EndRender` submits: the state after the commits, since the size
assertion never fails. -/
theorem EndRender_submit_eq (ops : RenderTargetOps σ) (o : EndRenderOutcome)
    (w : WindowImpl σ) :
    EndRender_submit ops o w =
      if (CommitRenderTargetTextureRender ops [] w).1 = false then
        (false, Report "Internal error: Cannot commit render target textures for rendering!"
          (AbortRenderTargetTextureRender ops (CommitRenderTargetTextureRender ops [] w).2.2))
      else if o.Submit ≠ VK_SUCCESS then
        (false, Report
          "Internal error: Cannot submit frame end pre compute graphics command buffers!"
          (AbortRenderTargetTextureRender ops
            (emit (.Submit
              (collected_submit_infos (CommitRenderTargetTextureRender ops [] w).2.1 ++
                [window_transfer_submit_info,
                  window_render_submit_info ops (CommitRenderTargetTextureRender ops [] w).2.2])
              (.vk_gpu_to_cpu_frame_fences
                (CommitRenderTargetTextureRender ops [] w).2.2.next_image) o.Submit)
              (CommitRenderTargetTextureRender ops [] w).2.2)))
      else
        EndRender_present o
          (ConfirmRenderTargetTextureRenderSubmission ops
            (emit (.Submit
              (collected_submit_infos (CommitRenderTargetTextureRender ops [] w).2.1 ++
                [window_transfer_submit_info,
                  window_render_submit_info ops (CommitRenderTargetTextureRender ops [] w).2.2])
              (.vk_gpu_to_cpu_frame_fences
                (CommitRenderTargetTextureRender ops [] w).2.2.next_image) o.Submit)
              (CommitRenderTargetTextureRender ops [] w).2.2)) := by
  unfold EndRender_submit
  lift_lets
  intro committed w1 infos w2 w3
  have hw2 : w2 = w1 := by
    simp only [w2]
    have hl := render_wait_lengths ops w1
    rw [if_pos ⟨hl.1.trans hl.2.1.symm, hl.1.trans hl.2.2.symm⟩]
  by_cases hc : committed.1 = false
  · have hc2 : (!committed.1) = true := by rw [hc]; rfl
    rw [if_pos hc2, if_pos hc]
  · have hc2 : ¬ (!committed.1) = true := by
      intro h
      apply hc
      simpa using h
    rw [if_neg hc2, if_neg hc]
    have hw3 : w3 = emit (.Submit infos (.vk_gpu_to_cpu_frame_fences w1.next_image) o.Submit)
        w1 := by
      simp only [w3]
      rw [hw2]
    rw [hw3]
end EndRenderFacts

section AlternationFacts
variable {σ : Type}

/-- An accepted `BeginRender` leaves the turn with `EndRender`, however it ends. -/
theorem BeginRender_accepted_turn (ops : RenderTargetOps σ) (o : BeginRenderOutcome)
    (w : WindowImpl σ) (hicon : w.is_iconified = false)
    (hturn : w.next_render_call_function = .BEGIN) :
    (BeginRender ops o w).2.is_iconified = false ∧
      (BeginRender ops o w).2.next_render_call_function = .END := by
  unfold BeginRender
  have c1 : ¬ w.is_iconified = true := by rw [hicon]; decide
  have c2 : ¬ w.next_render_call_function ≠ .BEGIN := by rw [hturn]; decide
  rw [if_neg c1, if_neg c2]
  lift_lets
  intro w1 rebuilt acquired synced w2
  have h1 : w1.is_iconified = false ∧ w1.next_render_call_function = .END := ⟨hicon, rfl⟩
  have hr : rebuilt.2.is_iconified = false ∧ rebuilt.2.next_render_call_function = .END := by
    simp only [rebuilt]
    split_ifs
    · have h := Recreate_position ops o.RecreateWindowSizeDependantResources w1
      exact ⟨h.1.trans h1.1, h.2.1.trans h1.2⟩
    · exact h1
  have ha : acquired.2.is_iconified = false ∧ acquired.2.next_render_call_function = .END := by
    have h := AcquireImage_position ops o.AcquireImage rebuilt.2
    exact ⟨h.1.trans hr.1, h.2.1.trans hr.2⟩
  have hs : synced.2.is_iconified = false ∧ synced.2.next_render_call_function = .END := by
    simp only [synced]
    split_ifs
    · have h := SynchronizeFrame_position ops o.SynchronizeFrame acquired.2
      exact ⟨h.1.trans ha.1, h.2.1.trans ha.2⟩
    · exact ha
  have h2 : w2.is_iconified = false ∧ w2.next_render_call_function = .END := hs
  clear_value w1 rebuilt acquired synced w2
  split_ifs
  · exact hr
  · exact ha
  · exact hs
  · exact h2
  · exact h2

/-- The frame position after the block that submits and presents: everything but the
previous slot is as before. -/
theorem EndRender_present_turn (o : EndRenderOutcome) (w : WindowImpl σ) :
    (EndRender_present o w).2.is_iconified = w.is_iconified ∧
      (EndRender_present o w).2.next_render_call_function = w.next_render_call_function ∧
      (EndRender_present o w).2.next_image = w.next_image := by
  unfold EndRender_present
  lift_lets
  intro w5 presented
  have h5 : same_frame_position w w5 := emit_position _ w
  have hp : same_frame_position w presented.2 := by
    simp only [presented]
    split_ifs
    · exact h5.chain ⟨rfl, rfl, rfl, rfl⟩
    · exact h5.chain (Report_position _ w5)
    · exact h5
  clear_value w5 presented
  split_ifs
  · exact ⟨hp.1, hp.2.1, hp.2.2.1⟩
  · exact ⟨hp.1, hp.2.1, hp.2.2.1⟩

theorem same_frame_position.turn {a b : WindowImpl σ} (h : same_frame_position a b) :
    b.is_iconified = a.is_iconified ∧
      b.next_render_call_function = a.next_render_call_function ∧
      b.next_image = a.next_image :=
  ⟨h.1, h.2.1, h.2.2.1⟩

theorem Commit_position (ops : RenderTargetOps σ)
    (collector : RenderTargetTextureRenderCollector) (w : WindowImpl σ) :
    same_frame_position w (CommitRenderTargetTextureRender ops collector w).2.2 := by
  rw [Commit_frame]
  exact ⟨rfl, rfl, rfl, rfl⟩

theorem Abort_position (ops : RenderTargetOps σ) (w : WindowImpl σ) :
    same_frame_position w (AbortRenderTargetTextureRender ops w) := by
  rw [Abort_frame]
  exact ⟨rfl, rfl, rfl, rfl⟩

theorem ConfirmSubmission_position (ops : RenderTargetOps σ) (w : WindowImpl σ) :
    same_frame_position w (ConfirmRenderTargetTextureRenderSubmission ops w) := by
  rw [ConfirmSubmission_frame]
  exact ⟨rfl, rfl, rfl, rfl⟩

theorem EndRender_submit_turn (ops : RenderTargetOps σ) (o : EndRenderOutcome)
    (w : WindowImpl σ) :
    (EndRender_submit ops o w).2.is_iconified = w.is_iconified ∧
      (EndRender_submit ops o w).2.next_render_call_function = w.next_render_call_function ∧
      (EndRender_submit ops o w).2.next_image = w.next_image := by
  rw [EndRender_submit_eq]
  have hc := Commit_position ops [] w
  generalize CommitRenderTargetTextureRender ops [] w = c at hc
  split_ifs
  · exact (hc.chain ((Abort_position ops c.2.2).chain (Report_position _ _))).turn
  · exact (hc.chain ((emit_position _ c.2.2).chain
      ((Abort_position ops _).chain (Report_position _ _)))).turn
  · have h := hc.chain ((emit_position (.Submit
          (collected_submit_infos c.2.1 ++
            [window_transfer_submit_info, window_render_submit_info ops c.2.2])
          (.vk_gpu_to_cpu_frame_fences c.2.2.next_image) o.Submit) c.2.2).chain
        (ConfirmSubmission_position ops _))
    have hp := EndRender_present_turn o
      (ConfirmRenderTargetTextureRenderSubmission ops
        (emit (.Submit
          (collected_submit_infos c.2.1 ++
            [window_transfer_submit_info, window_render_submit_info ops c.2.2])
          (.vk_gpu_to_cpu_frame_fences c.2.2.next_image) o.Submit) c.2.2))
    exact ⟨hp.1.trans h.1, hp.2.1.trans h.2.1, hp.2.2.trans h.2.2.1⟩

/-- An accepted `EndRender` leaves the turn with `BeginRender`, however it ends. -/
theorem EndRender_accepted_turn (ops : RenderTargetOps σ) (o : EndRenderOutcome)
    (w : WindowImpl σ) (hicon : w.is_iconified = false)
    (hturn : w.next_render_call_function = .END) :
    (EndRender ops o w).2.is_iconified = false ∧
      (EndRender ops o w).2.next_render_call_function = .BEGIN ∧
      (EndRender ops o w).2.next_image = w.next_image := by
  unfold EndRender
  have c1 : ¬ w.is_iconified = true := by rw [hicon]; decide
  have c2 : ¬ w.next_render_call_function ≠ .END := by rw [hturn]; decide
  rw [if_neg c1, if_neg c2]
  lift_lets
  intro recorded
  have hr : same_frame_position { w with next_render_call_function := .BEGIN } recorded.2 :=
    EndRender_record_position ops o _
  have hs := EndRender_submit_turn ops o recorded.2
  clear_value recorded
  split_ifs
  · exact ⟨hr.1.trans hicon, hr.2.1, hr.2.2.1⟩
  · exact ⟨hs.1.trans (hr.1.trans hicon), hs.2.1.trans hr.2.1, hs.2.2.trans hr.2.2.1⟩

/-- C3: on a window that is not iconified, a `BeginRender` when it is the turn of
`EndRender` and an `EndRender` when it is the turn of `BeginRender` return false and change
nothing but the trace, to which they add one report: no member of the frame state changes and
nothing is submitted or presented. The turn is the record of the last accepted call: after an
accepted `BeginRender` it is the turn of `EndRender`, after an accepted `EndRender` that of
`BeginRender`, however the call ended. -/
theorem rejected_call_changes_nothing (ops : RenderTargetOps σ) (ob : BeginRenderOutcome)
    (oe : EndRenderOutcome) (w : WindowImpl σ) (hicon : w.is_iconified = false) :
    (w.next_render_call_function = .END →
        BeginRender ops ob w =
          (false, { w with
            trace := w.trace ++ [.Report "'Window::BeginRender()' Called twice in a row!"] })) ∧
      (w.next_render_call_function = .BEGIN →
        EndRender ops oe w =
          (false, { w with
            trace := w.trace ++ [.Report "'Window::EndRender()' Called twice in a row!"] })) ∧
      (w.next_render_call_function = .BEGIN →
        (BeginRender ops ob w).2.is_iconified = false ∧
          (BeginRender ops ob w).2.next_render_call_function = .END) ∧
      (w.next_render_call_function = .END →
        (EndRender ops oe w).2.is_iconified = false ∧
          (EndRender ops oe w).2.next_render_call_function = .BEGIN) := by
  have c1 : ¬ w.is_iconified = true := by rw [hicon]; decide
  refine ⟨fun h => ?_, fun h => ?_, fun h => BeginRender_accepted_turn ops ob w hicon h,
    fun h => ?_⟩
  · unfold BeginRender
    have c2 : w.next_render_call_function ≠ .BEGIN := by rw [h]; decide
    rw [if_neg c1, if_pos c2]
    rfl
  · unfold EndRender
    have c2 : w.next_render_call_function ≠ .END := by rw [h]; decide
    rw [if_neg c1, if_pos c2]
    rfl
  · have e := EndRender_accepted_turn ops oe w hicon h
    exact ⟨e.1, e.2.1⟩

theorem rejected_call_changes_nothing_witness :
    sample_window.is_iconified = false ∧
      (EndRender (sample_ops (fun _ => false)) (sample_end VK_SUCCESS) sample_window).1 = false :=
  ⟨rfl, congrArg Prod.fst
    ((rejected_call_changes_nothing (sample_ops (fun _ => false)) (sample_begin 0)
      (sample_end VK_SUCCESS) sample_window rfl).2.1 rfl)⟩
end AlternationFacts

section SubmitFacts
variable {σ : Type}

theorem EndRender_present_spec (o : EndRenderOutcome) (w : WindowImpl σ) :
    ((EndRender_present o w).1 = false ↔ present_failed o) ∧
      ((EndRender_present o w).1 = true →
        (EndRender_present o w).2.previous_image = w.next_image ∧
          (EndRender_present o w).2.previous_frame_need_synchronization = true ∧
          (EndRender_present o w).2.trace =
            w.trace ++ [.Present (.vk_submit_to_present_semaphores w.next_image) w.next_image
              o.Present o.present_result]) ∧
      ((EndRender_present o w).1 = false →
        (EndRender_present o w).2.previous_image = w.previous_image ∧
          (EndRender_present o w).2.previous_frame_need_synchronization =
            w.previous_frame_need_synchronization ∧
          (EndRender_present o w).2.trace =
            w.trace ++ [.Present (.vk_submit_to_present_semaphores w.next_image) w.next_image
              o.Present o.present_result,
              .Report "Internal error: Cannot present render results to window!"]) := by
  unfold EndRender_present present_failed
  lift_lets
  intro w5 presented
  by_cases h1 : o.Present ≠ VK_SUCCESS ∨ o.present_result ≠ VK_SUCCESS
  · by_cases h2 : o.Present = VK_ERROR_OUT_OF_DATE_KHR ∨
        o.present_result = VK_ERROR_OUT_OF_DATE_KHR ∨
        o.Present = VK_SUBOPTIMAL_KHR ∨ o.present_result = VK_SUBOPTIMAL_KHR
    · have hp : presented = (true, { w5 with should_reconstruct := true }) := by
        simp only [presented]
        rw [if_pos h1, if_pos h2]
      rw [hp]
      refine ⟨⟨fun h => ?_, fun h => absurd h2 h.2⟩, fun _ => ⟨rfl, rfl, rfl⟩, fun h => ?_⟩
      · simp at h
      · simp at h
    · have hp : presented =
          (false, Report "Internal error: Cannot present render results to window!" w5) := by
        simp only [presented]
        rw [if_pos h1, if_neg h2]
      rw [hp]
      refine ⟨⟨fun _ => ⟨h1, h2⟩, fun _ => rfl⟩, fun h => ?_, fun _ => ⟨rfl, rfl, ?_⟩⟩
      · simp at h
      · show (w.trace ++ [_]) ++ [_] = _
        rw [List.append_assoc]
        rfl
  · have hp : presented = (true, w5) := by
      simp only [presented]
      rw [if_neg h1]
    rw [hp]
    refine ⟨⟨fun h => ?_, fun h => absurd h.1 h1⟩, fun _ => ⟨rfl, rfl, rfl⟩, fun h => ?_⟩
    · simp at h
    · simp at h


theorem EndRender_accepted_eq (ops : RenderTargetOps σ) (o : EndRenderOutcome)
    (w : WindowImpl σ) (hicon : w.is_iconified = false)
    (hturn : w.next_render_call_function = .END) :
    EndRender ops o w =
      if (EndRender_recorded ops o w).1 = true then
        EndRender_submit ops o (EndRender_recorded ops o w).2
      else (false, (EndRender_recorded ops o w).2) := by
  unfold EndRender EndRender_recorded
  have c1 : ¬ w.is_iconified = true := by rw [hicon]; decide
  have c2 : ¬ w.next_render_call_function ≠ .END := by rw [hturn]; decide
  rw [if_neg c1, if_neg c2]
  generalize EndRender_record ops o { w with next_render_call_function := .BEGIN } = r
  obtain ⟨b, s⟩ := r
  cases b <;> rfl

/-- What `EndRender` does from the state in which it commits, by the outcome of the commits
and of the submission. -/
theorem EndRender_submit_cases (ops : RenderTargetOps σ) (o : EndRenderOutcome)
    (w : WindowImpl σ) :
    ((CommitRenderTargetTextureRender ops [] w).1 = false →
        EndRender_submit ops o w =
          (false, Report "Internal error: Cannot commit render target textures for rendering!"
            (AbortRenderTargetTextureRender ops
              (CommitRenderTargetTextureRender ops [] w).2.2))) ∧
      ((CommitRenderTargetTextureRender ops [] w).1 = true → o.Submit ≠ VK_SUCCESS →
        EndRender_submit ops o w =
          (false, Report
            "Internal error: Cannot submit frame end pre compute graphics command buffers!"
            (AbortRenderTargetTextureRender ops
              (emit (.Submit
                (graphics_queue_submit_infos ops (CommitRenderTargetTextureRender ops [] w).2.1
                  (CommitRenderTargetTextureRender ops [] w).2.2)
                (.vk_gpu_to_cpu_frame_fences
                  (CommitRenderTargetTextureRender ops [] w).2.2.next_image) o.Submit)
                (CommitRenderTargetTextureRender ops [] w).2.2)))) ∧
      ((CommitRenderTargetTextureRender ops [] w).1 = true → o.Submit = VK_SUCCESS →
        EndRender_submit ops o w =
          EndRender_present o
            (ConfirmRenderTargetTextureRenderSubmission ops
              (emit (.Submit
                (graphics_queue_submit_infos ops (CommitRenderTargetTextureRender ops [] w).2.1
                  (CommitRenderTargetTextureRender ops [] w).2.2)
                (.vk_gpu_to_cpu_frame_fences
                  (CommitRenderTargetTextureRender ops [] w).2.2.next_image) o.Submit)
                (CommitRenderTargetTextureRender ops [] w).2.2))) := by
  rw [EndRender_submit_eq]
  unfold graphics_queue_submit_infos
  generalize CommitRenderTargetTextureRender ops [] w = c
  refine ⟨fun h => ?_, fun h hs => ?_, fun h hs => ?_⟩
  · rw [if_pos h]
  · have h1 : ¬ c.1 = false := by rw [h]; decide
    rw [if_neg h1, if_pos hs]
  · have h1 : ¬ c.1 = false := by rw [h]; decide
    have h2 : ¬ o.Submit ≠ VK_SUCCESS := not_not.mpr hs
    rw [if_neg h1, if_neg h2]
end SubmitFacts

section EndRenderClaims
variable {σ : Type}

/-- An `EndRender` that returns true on a window that is not iconified was accepted, recorded,
committed, submitted and presented. -/
theorem EndRender_true_path (ops : RenderTargetOps σ) (o : EndRenderOutcome)
    (w : WindowImpl σ) (hicon : w.is_iconified = false) (hok : (EndRender ops o w).1 = true) :
    w.next_render_call_function = .END ∧ (EndRender_recorded ops o w).1 = true ∧
      (CommitRenderTargetTextureRender ops [] (EndRender_recorded ops o w).2).1 = true ∧
      o.Submit = VK_SUCCESS ∧
      EndRender ops o w =
        EndRender_present o
          (ConfirmRenderTargetTextureRenderSubmission ops
            (emit (.Submit
              (graphics_queue_submit_infos ops
                (CommitRenderTargetTextureRender ops [] (EndRender_recorded ops o w).2).2.1
                (CommitRenderTargetTextureRender ops [] (EndRender_recorded ops o w).2).2.2)
              (.vk_gpu_to_cpu_frame_fences
                (CommitRenderTargetTextureRender ops []
                  (EndRender_recorded ops o w).2).2.2.next_image) o.Submit)
              (CommitRenderTargetTextureRender ops [] (EndRender_recorded ops o w).2).2.2)) := by
  have hturn : w.next_render_call_function = .END := by
    by_contra hne
    have c1 : ¬ w.is_iconified = true := by rw [hicon]; decide
    unfold EndRender at hok
    rw [if_neg c1, if_pos hne] at hok
    simp at hok
  have e := EndRender_accepted_eq ops o w hicon hturn
  have hrec : (EndRender_recorded ops o w).1 = true := by
    by_contra hne
    rw [e, if_neg hne] at hok
    simp at hok
  rw [if_pos hrec] at e
  obtain ⟨k1, k2, k3⟩ := EndRender_submit_cases ops o (EndRender_recorded ops o w).2
  have hcommit : (CommitRenderTargetTextureRender ops [] (EndRender_recorded ops o w).2).1 =
      true := by
    by_contra hne
    have hf : (CommitRenderTargetTextureRender ops [] (EndRender_recorded ops o w).2).1 =
        false := by simpa using hne
    rw [e, k1 hf] at hok
    simp at hok
  have hsubmit : o.Submit = VK_SUCCESS := by
    by_contra hne
    rw [e, k2 hcommit hne] at hok
    simp at hok
  exact ⟨hturn, hrec, hcommit, hsubmit, e.trans (k3 hcommit hsubmit)⟩
end EndRenderClaims

section EndRenderClaims2
variable {σ : Type}

/-- The commits leave the tracked lists alone. -/
theorem Commit_dependencies (ops : RenderTargetOps σ)
    (collector : RenderTargetTextureRenderCollector) (w : WindowImpl σ) (slot : Nat) :
    dependencies_of (CommitRenderTargetTextureRender ops collector w).2.2 slot =
      dependencies_of w slot := by
  unfold dependencies_of
  rw [Commit_frame]

theorem EndRender_recorded_position (ops : RenderTargetOps σ) (o : EndRenderOutcome)
    (w : WindowImpl σ) :
    (EndRender_recorded ops o w).2.is_iconified = w.is_iconified ∧
      (EndRender_recorded ops o w).2.next_image = w.next_image ∧
      (EndRender_recorded ops o w).2.previous_image = w.previous_image := by
  have p : same_frame_position { w with next_render_call_function := .BEGIN }
      (EndRender_recorded ops o w).2 := EndRender_record_position ops o _
  exact ⟨p.1, p.2.2.1, p.2.2.2⟩

theorem EndRender_recorded_quiet (ops : RenderTargetOps σ) (o : EndRenderOutcome)
    (w : WindowImpl σ) : quiet_extension w.trace (EndRender_recorded ops o w).2.trace :=
  EndRender_record_quiet ops o { w with next_render_call_function := .BEGIN }

/-- An accepted `EndRender` whose commits succeed hands its list of submissions to the queue
right after the commits, with the frame fence of the current slot. -/
theorem EndRender_submits (ops : RenderTargetOps σ) (o : EndRenderOutcome) (w : WindowImpl σ)
    (hicon : w.is_iconified = false) (hturn : w.next_render_call_function = .END)
    (hrec : (EndRender_recorded ops o w).1 = true)
    (hcommit : (CommitRenderTargetTextureRender ops [] (EndRender_recorded ops o w).2).1 = true) :
    ∃ rest,
      (EndRender ops o w).2.trace =
        (CommitRenderTargetTextureRender ops [] (EndRender_recorded ops o w).2).2.2.trace ++
          [.Submit
            (graphics_queue_submit_infos ops
              (CommitRenderTargetTextureRender ops [] (EndRender_recorded ops o w).2).2.1
              (CommitRenderTargetTextureRender ops [] (EndRender_recorded ops o w).2).2.2)
            (.vk_gpu_to_cpu_frame_fences w.next_image) o.Submit] ++ rest := by
  have e := EndRender_accepted_eq ops o w hicon hturn
  rw [if_pos hrec] at e
  obtain ⟨_, k2, k3⟩ := EndRender_submit_cases ops o (EndRender_recorded ops o w).2
  have hslot : (CommitRenderTargetTextureRender ops []
      (EndRender_recorded ops o w).2).2.2.next_image = w.next_image :=
    (Commit_position ops [] _).2.2.1.trans (EndRender_recorded_position ops o w).2.1
  by_cases hs : o.Submit = VK_SUCCESS
  · have e2 := e.trans (k3 hcommit hs)
    rw [hslot] at e2
    rw [e2]
    cases hp : (EndRender_present o
      (ConfirmRenderTargetTextureRenderSubmission ops
        (emit (.Submit
          (graphics_queue_submit_infos ops
            (CommitRenderTargetTextureRender ops [] (EndRender_recorded ops o w).2).2.1
            (CommitRenderTargetTextureRender ops [] (EndRender_recorded ops o w).2).2.2)
          (.vk_gpu_to_cpu_frame_fences w.next_image) o.Submit)
          (CommitRenderTargetTextureRender ops [] (EndRender_recorded ops o w).2).2.2))).1
    · obtain ⟨_, _, q3⟩ := (EndRender_present_spec o _).2.2 hp
      rw [q3, ConfirmSubmission_frame]
      simp only [emit]
      exact ⟨_, by rw [List.append_assoc, List.append_assoc]⟩
    · obtain ⟨_, _, q3⟩ := (EndRender_present_spec o _).2.1 hp
      rw [q3, ConfirmSubmission_frame]
      simp only [emit]
      exact ⟨_, by rw [List.append_assoc, List.append_assoc]⟩
  · have e2 := e.trans (k2 hcommit hs)
    rw [hslot] at e2
    rw [e2]
    simp only [Report, emit, Abort_frame]
    exact ⟨_, by rw [List.append_assoc, List.append_assoc]⟩
end EndRenderClaims2

section EndRenderClaims3
variable {σ : Type}

theorem not_frame_step_Commit (l : List RenderTargetTextureDependencyInfo) (success : Bool) :
    ∀ e ∈ l.map (fun d => Effect.CommitRenderTargetTextureRender d success),
      is_frame_step e = false :=
  quiet_map _ l (fun _ => rfl)

/-- C5: when an accepted `EndRender` reaches the commits and the commit of a tracked render
target fails, `EndRender` returns false; the commits invoked are those of the handles before
the failing one and the failing one, none after it; every tracked handle of the slot is then
aborted and the tracked list of the slot is left empty; and the whole call makes no step of
the frame protocol: no submission, no present, no notification of a submission. -/
theorem commit_failure_aborts_frame (ops : RenderTargetOps σ) (o : EndRenderOutcome)
    (w : WindowImpl σ) (hicon : w.is_iconified = false)
    (hturn : w.next_render_call_function = .END)
    (hrec : (EndRender_recorded ops o w).1 = true)
    (hfail : (CommitRenderTargetTextureRender ops [] (EndRender_recorded ops o w).2).1 = false) :
    (EndRender ops o w).1 = false ∧
      (∃ pre d post,
        dependencies_of (EndRender_recorded ops o w).2 w.next_image = pre ++ d :: post ∧
        (EndRender ops o w).2.trace =
          (EndRender_recorded ops o w).2.trace ++
            pre.map (fun c => Effect.CommitRenderTargetTextureRender c true) ++
            [.CommitRenderTargetTextureRender d false] ++
            (dependencies_of (EndRender_recorded ops o w).2 w.next_image).map
              Effect.AbortRenderTargetTextureRender ++
            [.Report "Internal error: Cannot commit render target textures for rendering!"]) ∧
      dependencies_of (EndRender ops o w).2 (EndRender ops o w).2.next_image = [] ∧
      quiet_extension w.trace (EndRender ops o w).2.trace := by
  have e := EndRender_accepted_eq ops o w hicon hturn
  rw [if_pos hrec] at e
  have e2 := e.trans ((EndRender_submit_cases ops o (EndRender_recorded ops o w).2).1 hfail)
  have hR := (EndRender_recorded_position ops o w).2.1
  have hslot : (CommitRenderTargetTextureRender ops []
      (EndRender_recorded ops o w).2).2.2.next_image = w.next_image :=
    (Commit_position ops [] _).2.2.1.trans hR
  have hdeps := Commit_dependencies ops [] (EndRender_recorded ops o w).2 w.next_image
  have htrace : (EndRender ops o w).2.trace =
      (CommitRenderTargetTextureRender ops [] (EndRender_recorded ops o w).2).2.2.trace ++
        (dependencies_of (EndRender_recorded ops o w).2 w.next_image).map
          Effect.AbortRenderTargetTextureRender ++
        [.Report "Internal error: Cannot commit render target textures for rendering!"] := by
    rw [e2]
    simp only [Report, emit, Abort_frame]
    rw [hslot, hdeps]
  have hcommits : ∃ pre d post,
      dependencies_of (EndRender_recorded ops o w).2 w.next_image = pre ++ d :: post ∧
      (CommitRenderTargetTextureRender ops [] (EndRender_recorded ops o w).2).2.2.trace =
        (EndRender_recorded ops o w).2.trace ++
          pre.map (fun c => Effect.CommitRenderTargetTextureRender c true) ++
          [.CommitRenderTargetTextureRender d false] := by
    have h := commit_loop_trace ops
      (dependencies_of (EndRender_recorded ops o w).2 (EndRender_recorded ops o w).2.next_image)
      [] (EndRender_recorded ops o w).2
    rw [hR] at h
    rcases h with ⟨h1, _⟩ | ⟨_, pre, d, post, h2, h3⟩
    · have hf : (CommitRenderTargetTextureRender_loop ops
          (dependencies_of (EndRender_recorded ops o w).2 w.next_image) []
          (EndRender_recorded ops o w).2).1 = false := by
        have := hfail
        unfold CommitRenderTargetTextureRender at this
        rw [hR] at this
        exact this
      rw [hf] at h1
      simp at h1
    · refine ⟨pre, d, post, h2, ?_⟩
      unfold CommitRenderTargetTextureRender
      rw [hR]
      exact h3
  obtain ⟨pre, d, post, hsplit, hct⟩ := hcommits
  refine ⟨by rw [e2], ⟨pre, d, post, hsplit, by rw [htrace, hct]⟩, ?_, ?_⟩
  · rw [e2]
    simp only [Report, emit, Abort_frame, dependencies_of]
    exact getD_set_nil _ _
  · rw [htrace, hct]
    have q1 := (EndRender_recorded_quiet ops o w).append _ (not_frame_step_Commit pre true)
    have q2 := q1.snoc (.CommitRenderTargetTextureRender d false) rfl
    have q3 := q2.append
      ((dependencies_of (EndRender_recorded ops o w).2 w.next_image).map
        Effect.AbortRenderTargetTextureRender)
      (quiet_map Effect.AbortRenderTargetTextureRender _ (fun _ => rfl))
    exact q3.snoc
      (.Report "Internal error: Cannot commit render target textures for rendering!") rfl

theorem commit_failure_aborts_frame_witness :
    sample_recording_window.is_iconified = false ∧
      sample_recording_window.next_render_call_function = .END ∧
      (EndRender_recorded (sample_ops (fun rt => rt == 2)) (sample_end VK_SUCCESS)
        sample_recording_window).1 = true ∧
      (CommitRenderTargetTextureRender (sample_ops (fun rt => rt == 2)) []
        (EndRender_recorded (sample_ops (fun rt => rt == 2)) (sample_end VK_SUCCESS)
          sample_recording_window).2).1 = false ∧
      (EndRender (sample_ops (fun rt => rt == 2)) (sample_end VK_SUCCESS)
        sample_recording_window).1 = false :=
  ⟨rfl, rfl, by decide, by decide,
    (commit_failure_aborts_frame (sample_ops (fun rt => rt == 2)) (sample_end VK_SUCCESS)
      sample_recording_window rfl rfl (by decide) (by decide)).1⟩
end EndRenderClaims3

section EndRenderClaims4
variable {σ : Type}

theorem collected_submit_infos_length (collector : RenderTargetTextureRenderCollector) :
    (collected_submit_infos collector).length = 2 * collector.length := by
  induction collector with
  | nil => rfl
  | cons c rest ih =>
    simp only [collected_submit_infos, List.flatMap_cons, List.length_append, List.length_cons,
      List.length_nil] at ih ⊢
    omega

/-- C6: when an accepted `EndRender` reaches the submission, the window render submission
is the last entry of the submitted list and waits for the transfer semaphore with value 1
followed, for every handle tracked for the slot in list order, by the semaphore and the render
counter the render target gives for that handle after the commits; the stage masks follow the
same order; each of the three vectors has one entry more than there are tracked handles, so the
assertion on their sizes holds; and with a tracked list without duplicates every referenced
render target has exactly one entry. -/
theorem window_render_submission_waits (ops : RenderTargetOps σ) (o : EndRenderOutcome)
    (w : WindowImpl σ) (hicon : w.is_iconified = false)
    (hturn : w.next_render_call_function = .END)
    (hrec : (EndRender_recorded ops o w).1 = true)
    (hcommit : (CommitRenderTargetTextureRender ops [] (EndRender_recorded ops o w).2).1 = true) :
    (∃ rest,
      (EndRender ops o w).2.trace =
        (CommitRenderTargetTextureRender ops [] (EndRender_recorded ops o w).2).2.2.trace ++
          [.Submit
            (collected_submit_infos
                (CommitRenderTargetTextureRender ops [] (EndRender_recorded ops o w).2).2.1 ++
              [window_transfer_submit_info,
                window_render_submit_info ops
                  (CommitRenderTargetTextureRender ops []
                    (EndRender_recorded ops o w).2).2.2])
            (.vk_gpu_to_cpu_frame_fences w.next_image) o.Submit] ++ rest) ∧
      (window_render_submit_info ops
          (CommitRenderTargetTextureRender ops []
            (EndRender_recorded ops o w).2).2.2).pWaitSemaphores =
        .vk_transfer_semaphore ::
          (dependencies_of (EndRender_recorded ops o w).2 w.next_image).map
            (fun d => ops.GetAllCompleteSemaphore d
              (CommitRenderTargetTextureRender ops []
                (EndRender_recorded ops o w).2).2.2.render_targets) ∧
      (window_render_submit_info ops
          (CommitRenderTargetTextureRender ops []
            (EndRender_recorded ops o w).2).2.2).pWaitSemaphoreValues =
        1 ::
          (dependencies_of (EndRender_recorded ops o w).2 w.next_image).map
            (fun d => ops.GetRenderCounter d
              (CommitRenderTargetTextureRender ops []
                (EndRender_recorded ops o w).2).2.2.render_targets) ∧
      (window_render_submit_info ops
          (CommitRenderTargetTextureRender ops []
            (EndRender_recorded ops o w).2).2.2).pWaitDstStageMask =
        (VK_PIPELINE_STAGE_VERTEX_INPUT_BIT ||| VK_PIPELINE_STAGE_VERTEX_SHADER_BIT) ::
          (dependencies_of (EndRender_recorded ops o w).2 w.next_image).map
            (fun _ => VK_PIPELINE_STAGE_ALL_COMMANDS_BIT) ∧
      (window_render_submit_info ops
          (CommitRenderTargetTextureRender ops []
            (EndRender_recorded ops o w).2).2.2).pWaitSemaphores.length =
        1 + (dependencies_of (EndRender_recorded ops o w).2 w.next_image).length ∧
      (window_render_submit_info ops
          (CommitRenderTargetTextureRender ops []
            (EndRender_recorded ops o w).2).2.2).pWaitSemaphoreValues.length =
        1 + (dependencies_of (EndRender_recorded ops o w).2 w.next_image).length ∧
      (window_render_submit_info ops
          (CommitRenderTargetTextureRender ops []
            (EndRender_recorded ops o w).2).2.2).pWaitDstStageMask.length =
        1 + (dependencies_of (EndRender_recorded ops o w).2 w.next_image).length ∧
      ((targets_of (dependencies_of (EndRender_recorded ops o w).2 w.next_image)).Nodup →
        ∀ rt ∈ targets_of (dependencies_of (EndRender_recorded ops o w).2 w.next_image),
          (targets_of (dependencies_of (EndRender_recorded ops o w).2 w.next_image)).count rt =
            1) := by
  have hR := (EndRender_recorded_position ops o w).2.1
  have hslot : (CommitRenderTargetTextureRender ops []
      (EndRender_recorded ops o w).2).2.2.next_image = w.next_image :=
    (Commit_position ops [] _).2.2.1.trans hR
  have hdeps : dependencies_of
      (CommitRenderTargetTextureRender ops [] (EndRender_recorded ops o w).2).2.2
      (CommitRenderTargetTextureRender ops [] (EndRender_recorded ops o w).2).2.2.next_image =
      dependencies_of (EndRender_recorded ops o w).2 w.next_image := by
    rw [hslot]
    exact Commit_dependencies ops [] _ _
  have hl := render_wait_lengths ops
    (CommitRenderTargetTextureRender ops [] (EndRender_recorded ops o w).2).2.2
  rw [hdeps] at hl
  refine ⟨EndRender_submits ops o w hicon hturn hrec hcommit, ?_, ?_, ?_, hl.1, hl.2.1,
    hl.2.2, fun hn rt hrt => List.count_eq_one_of_mem hn hrt⟩
  · show render_wait_for_semaphores ops _ = _
    unfold render_wait_for_semaphores
    rw [hdeps]
    rfl
  · show render_wait_for_semaphore_timeline_values ops _ = _
    unfold render_wait_for_semaphore_timeline_values
    rw [hdeps]
    rfl
  · show render_wait_for_pipeline_stages _ = _
    unfold render_wait_for_pipeline_stages
    rw [hdeps]
    rfl

/-- C7: when an accepted `EndRender` reaches the submission, the list it submits with the
frame fence of the current slot is, in order, the transfer and then the render submission of
every collector entry, the window transfer submission (no waits, signals the transfer
semaphore) and the window render submission (signals the present semaphore of the slot); its
length is twice the size of the collector plus two, so one collector entry puts exactly two
submissions before those of the window. -/
theorem EndRender_submission_list (ops : RenderTargetOps σ) (o : EndRenderOutcome)
    (w : WindowImpl σ) (hicon : w.is_iconified = false)
    (hturn : w.next_render_call_function = .END)
    (hrec : (EndRender_recorded ops o w).1 = true)
    (hcommit : (CommitRenderTargetTextureRender ops [] (EndRender_recorded ops o w).2).1 = true) :
    (∃ rest,
      (EndRender ops o w).2.trace =
        (CommitRenderTargetTextureRender ops [] (EndRender_recorded ops o w).2).2.2.trace ++
          [.Submit
            (graphics_queue_submit_infos ops
              (CommitRenderTargetTextureRender ops [] (EndRender_recorded ops o w).2).2.1
              (CommitRenderTargetTextureRender ops [] (EndRender_recorded ops o w).2).2.2)
            (.vk_gpu_to_cpu_frame_fences w.next_image) o.Submit] ++ rest) ∧
      graphics_queue_submit_infos ops
          (CommitRenderTargetTextureRender ops [] (EndRender_recorded ops o w).2).2.1
          (CommitRenderTargetTextureRender ops [] (EndRender_recorded ops o w).2).2.2 =
        (CommitRenderTargetTextureRender ops [] (EndRender_recorded ops o w).2).2.1.flatMap
            (fun c => [c.vk_transfer_submit_info, c.vk_render_submit_info]) ++
          [window_transfer_submit_info,
            window_render_submit_info ops
              (CommitRenderTargetTextureRender ops [] (EndRender_recorded ops o w).2).2.2] ∧
      (graphics_queue_submit_infos ops
          (CommitRenderTargetTextureRender ops [] (EndRender_recorded ops o w).2).2.1
          (CommitRenderTargetTextureRender ops [] (EndRender_recorded ops o w).2).2.2).length =
        2 * (CommitRenderTargetTextureRender ops []
          (EndRender_recorded ops o w).2).2.1.length + 2 ∧
      (window_transfer_submit_info.pWaitSemaphores = [] ∧
        window_transfer_submit_info.pSignalSemaphores = [.vk_transfer_semaphore]) ∧
      (window_render_submit_info ops
          (CommitRenderTargetTextureRender ops []
            (EndRender_recorded ops o w).2).2.2).pSignalSemaphores =
        [.vk_submit_to_present_semaphores w.next_image] ∧
      (∀ c, (CommitRenderTargetTextureRender ops [] (EndRender_recorded ops o w).2).2.1 = [c] →
        graphics_queue_submit_infos ops
            (CommitRenderTargetTextureRender ops [] (EndRender_recorded ops o w).2).2.1
            (CommitRenderTargetTextureRender ops [] (EndRender_recorded ops o w).2).2.2 =
          [c.vk_transfer_submit_info, c.vk_render_submit_info, window_transfer_submit_info,
            window_render_submit_info ops
              (CommitRenderTargetTextureRender ops []
                (EndRender_recorded ops o w).2).2.2]) := by
  have hR := (EndRender_recorded_position ops o w).2.1
  have hslot : (CommitRenderTargetTextureRender ops []
      (EndRender_recorded ops o w).2).2.2.next_image = w.next_image :=
    (Commit_position ops [] _).2.2.1.trans hR
  refine ⟨EndRender_submits ops o w hicon hturn hrec hcommit, rfl, ?_, ⟨rfl, rfl⟩, ?_, ?_⟩
  · unfold graphics_queue_submit_infos
    rw [List.length_append, collected_submit_infos_length]
    rfl
  · show [VkSemaphore.vk_submit_to_present_semaphores _] = _
    rw [hslot]
  · intro c hc
    unfold graphics_queue_submit_infos
    rw [hc]
    rfl

theorem window_render_submission_waits_witness :
    sample_recording_window.is_iconified = false ∧
      (window_render_submit_info (sample_ops (fun _ => false))
        (CommitRenderTargetTextureRender (sample_ops (fun _ => false)) []
          (EndRender_recorded (sample_ops (fun _ => false)) (sample_end VK_SUCCESS)
            sample_recording_window).2).2.2).pWaitSemaphoreValues.length = 1 + 2 :=
  ⟨rfl,
    (window_render_submission_waits (sample_ops (fun _ => false)) (sample_end VK_SUCCESS)
      sample_recording_window rfl rfl (by decide) (by decide)).2.2.2.2.2.1⟩

theorem EndRender_submission_list_witness :
    sample_recording_window.next_render_call_function = .END ∧
      (graphics_queue_submit_infos (sample_ops (fun _ => false))
        (CommitRenderTargetTextureRender (sample_ops (fun _ => false)) []
          (EndRender_recorded (sample_ops (fun _ => false)) (sample_end VK_SUCCESS)
            sample_recording_window).2).2.1
        (CommitRenderTargetTextureRender (sample_ops (fun _ => false)) []
          (EndRender_recorded (sample_ops (fun _ => false)) (sample_end VK_SUCCESS)
            sample_recording_window).2).2.2).length = 2 * 2 + 2 :=
  ⟨rfl,
    (EndRender_submission_list (sample_ops (fun _ => false)) (sample_end VK_SUCCESS)
      sample_recording_window rfl rfl (by decide) (by decide)).2.2.1⟩
end EndRenderClaims4

section EndRenderClaims5

/-- C9: an `EndRender` on a window that is not iconified that returns true leaves
`previous_image` equal to the slot it submitted, which is still `next_image`, and leaves
`previous_frame_need_synchronization` set; the call adds to the trace one successful submission
with the frame fence of that slot, and nothing it does after that submission is a wait for a
fence. -/
theorem EndRender_success_defers_wait (ops : RenderTargetOps σ) (o : EndRenderOutcome)
    (w : WindowImpl σ) (hicon : w.is_iconified = false) (hok : (EndRender ops o w).1 = true) :
    (EndRender ops o w).2.previous_image = w.next_image ∧
      (EndRender ops o w).2.next_image = w.next_image ∧
      (EndRender ops o w).2.previous_frame_need_synchronization = true ∧
      ∃ before infos after,
        (EndRender ops o w).2.trace =
          w.trace ++ before ++
            [.Submit infos (.vk_gpu_to_cpu_frame_fences w.next_image) VK_SUCCESS] ++ after ∧
        ∀ e ∈ after, ∀ fence result, e ≠ .vkWaitForFences fence result := by
  obtain ⟨hturn, hrec, hcommit, hsubmit, e⟩ := EndRender_true_path ops o w hicon hok
  have hn := (EndRender_accepted_turn ops o w hicon hturn).2.2
  have p1 : same_frame_position { w with next_render_call_function := .BEGIN }
      (EndRender_recorded ops o w).2 := EndRender_record_position ops o _
  have p2 := Commit_position ops [] (EndRender_recorded ops o w).2
  have hslot : (CommitRenderTargetTextureRender ops []
      (EndRender_recorded ops o w).2).2.2.next_image = w.next_image :=
    p2.2.2.1.trans p1.2.2.1
  rw [hslot, hsubmit] at e
  rw [e] at hok
  obtain ⟨q1, q2, q3⟩ := (EndRender_present_spec o _).2.1 hok
  have p3 := ConfirmSubmission_position ops
    (emit (.Submit
      (graphics_queue_submit_infos ops
        (CommitRenderTargetTextureRender ops [] (EndRender_recorded ops o w).2).2.1
        (CommitRenderTargetTextureRender ops [] (EndRender_recorded ops o w).2).2.2)
      (.vk_gpu_to_cpu_frame_fences w.next_image) VK_SUCCESS)
      (CommitRenderTargetTextureRender ops [] (EndRender_recorded ops o w).2).2.2)
  obtain ⟨delta, hdelta, _⟩ := EndRender_recorded_quiet ops o w
  have htrace : (CommitRenderTargetTextureRender ops []
      (EndRender_recorded ops o w).2).2.2.trace =
      w.trace ++ (delta ++ (dependencies_of (EndRender_recorded ops o w).2
        (EndRender_recorded ops o w).2.next_image).map
          (fun d => Effect.CommitRenderTargetTextureRender d true)) := by
    rcases commit_loop_trace ops (dependencies_of (EndRender_recorded ops o w).2
      (EndRender_recorded ops o w).2.next_image) [] (EndRender_recorded ops o w).2 with
      ⟨_, h2⟩ | ⟨h1, _⟩
    · exact h2.trans (by rw [hdelta, List.append_assoc])
    · exact absurd (h1.symm.trans hcommit) (by decide)
  refine ⟨?_, hn, ?_, ?_⟩
  · rw [e, q1]
    exact p3.2.2.1.trans hslot
  · rw [e]; exact q2
  · refine ⟨delta ++ (dependencies_of (EndRender_recorded ops o w).2
        (EndRender_recorded ops o w).2.next_image).map
          (fun d => Effect.CommitRenderTargetTextureRender d true),
      graphics_queue_submit_infos ops
        (CommitRenderTargetTextureRender ops [] (EndRender_recorded ops o w).2).2.1
        (CommitRenderTargetTextureRender ops [] (EndRender_recorded ops o w).2).2.2,
      (dependencies_of (CommitRenderTargetTextureRender ops []
          (EndRender_recorded ops o w).2).2.2 w.next_image).map
          Effect.ConfirmRenderTargetTextureRenderSubmission ++
        [.Present (.vk_submit_to_present_semaphores w.next_image) w.next_image
          o.Present o.present_result], ?_, ?_⟩
    · rw [e, q3, ConfirmSubmission_frame]
      simp only [emit, dependencies_of]
      rw [hslot, htrace]
      simp only [List.append_assoc]
      rfl
    · intro ev hev fence result
      rcases List.mem_append.mp hev with h | h
      · obtain ⟨d, _, rfl⟩ := List.mem_map.mp h
        exact fun hh => Effect.noConfusion hh
      · rw [List.mem_singleton] at h
        rw [h]
        exact fun hh => Effect.noConfusion hh

theorem EndRender_success_defers_wait_witness :
    sample_recording_window.is_iconified = false ∧
      (EndRender (sample_ops (fun _ => false)) (sample_end VK_SUCCESS)
        sample_recording_window).1 = true ∧
      (EndRender (sample_ops (fun _ => false)) (sample_end VK_SUCCESS)
        sample_recording_window).2.previous_frame_need_synchronization = true :=
  ⟨rfl, by decide,
    (EndRender_success_defers_wait (sample_ops (fun _ => false)) (sample_end VK_SUCCESS)
      sample_recording_window rfl (by decide)).2.2.1⟩

/-- C1, evaluated: on the first frame of a window the present fails with
`VK_ERROR_SURFACE_LOST_KHR` after slot 0 was submitted; `EndRender` returns false without
recording the slot as the previous one, and the next `BeginRender`, handed slot 0 again, begins
recording its command buffer although the submission was never waited for. -/
theorem reuse_before_completion_after_failed_present :
    (EndRender (sample_ops (fun _ => false)) (sample_end VK_ERROR_SURFACE_LOST_KHR)
        (BeginRender (sample_ops (fun _ => false)) (sample_begin 0) sample_window).2).1 = false ∧
      (run (sample_ops (fun _ => false)) sample_window
        [.BeginRender (sample_begin 0), .EndRender (sample_end VK_ERROR_SURFACE_LOST_KHR),
          .BeginRender (sample_begin 0)]).trace =
        (run (sample_ops (fun _ => false)) sample_window
          [.BeginRender (sample_begin 0),
            .EndRender (sample_end VK_ERROR_SURFACE_LOST_KHR)]).trace ++
          [.vkAcquireNextImageKHR VK_SUCCESS 0,
            .vkWaitForFences .vk_acquire_image_fence VK_SUCCESS,
            .vkResetFences .vk_acquire_image_fence VK_SUCCESS,
            .vkBeginCommandBuffer (.vk_render_command_buffers 0) VK_SUCCESS] ∧
      pending_slots
        (run (sample_ops (fun _ => false)) sample_window
          [.BeginRender (sample_begin 0),
            .EndRender (sample_end VK_ERROR_SURFACE_LOST_KHR)]).trace [] = [0] ∧
      no_reuse_before_completion
        (run (sample_ops (fun _ => false)) sample_window
          [.BeginRender (sample_begin 0), .EndRender (sample_end VK_ERROR_SURFACE_LOST_KHR),
            .BeginRender (sample_begin 0)]).trace [] = false := by
  decide
end EndRenderClaims5

section PresentClaims
variable {σ : Type}

/-- A present that reports an out of date or suboptimal swapchain, in its return value or in
the result of the swapchain, marks the swapchain for reconstruction and closes the frame as a
successful one. -/
theorem EndRender_present_stale (o : EndRenderOutcome) (w : WindowImpl σ)
    (hstale : o.Present = VK_ERROR_OUT_OF_DATE_KHR ∨
      o.present_result = VK_ERROR_OUT_OF_DATE_KHR ∨
      o.Present = VK_SUBOPTIMAL_KHR ∨ o.present_result = VK_SUBOPTIMAL_KHR) :
    (EndRender_present o w).1 = true ∧ (EndRender_present o w).2.should_reconstruct = true ∧
      (EndRender_present o w).2.previous_image = w.next_image := by
  have h1 : o.Present ≠ VK_SUCCESS ∨ o.present_result ≠ VK_SUCCESS := by
    rcases hstale with h | h | h | h
    · left; rw [h]; decide
    · right; rw [h]; decide
    · left; rw [h]; decide
    · right; rw [h]; decide
  unfold EndRender_present
  lift_lets
  intro w5 presented
  have hp : presented = (true, { w5 with should_reconstruct := true }) := by
    simp only [presented]
    rw [if_pos h1, if_pos hstale]
  rw [hp]
  exact ⟨rfl, rfl, rfl⟩

/-- C11: in an accepted `EndRender` that reaches the submission, a failed submission is
followed by the abort of every tracked render target and a report, and by nothing else, so no
present is issued, the tracked list of the slot is left empty and the result is false; a
successful submission is followed by the notification of every tracked render target and
then by the present. A present that reports `VK_ERROR_OUT_OF_DATE_KHR` or `VK_SUBOPTIMAL_KHR`
in its return value or in the result of the swapchain sets `should_reconstruct` and
`EndRender` returns true with the slot recorded as `previous_image`; a present that succeeds
in both returns true; every other outcome of the present makes `EndRender` return false. -/
theorem EndRender_submission_then_present (ops : RenderTargetOps σ) (o : EndRenderOutcome)
    (w : WindowImpl σ) (hicon : w.is_iconified = false)
    (hturn : w.next_render_call_function = .END)
    (hrec : (EndRender_recorded ops o w).1 = true)
    (hcommit : (CommitRenderTargetTextureRender ops [] (EndRender_recorded ops o w).2).1 =
      true) :
    (o.Submit ≠ VK_SUCCESS →
      (EndRender ops o w).1 = false ∧
        (EndRender ops o w).2.trace =
          (CommitRenderTargetTextureRender ops [] (EndRender_recorded ops o w).2).2.2.trace ++
            [.Submit
              (graphics_queue_submit_infos ops
                (CommitRenderTargetTextureRender ops [] (EndRender_recorded ops o w).2).2.1
                (CommitRenderTargetTextureRender ops [] (EndRender_recorded ops o w).2).2.2)
              (.vk_gpu_to_cpu_frame_fences w.next_image) o.Submit] ++
            (dependencies_of (EndRender_recorded ops o w).2 w.next_image).map
              Effect.AbortRenderTargetTextureRender ++
            [.Report
              "Internal error: Cannot submit frame end pre compute graphics command buffers!"] ∧
        dependencies_of (EndRender ops o w).2 w.next_image = []) ∧
      (o.Submit = VK_SUCCESS →
        (∃ rest,
          (EndRender ops o w).2.trace =
            (CommitRenderTargetTextureRender ops [] (EndRender_recorded ops o w).2).2.2.trace ++
              [.Submit
                (graphics_queue_submit_infos ops
                  (CommitRenderTargetTextureRender ops [] (EndRender_recorded ops o w).2).2.1
                  (CommitRenderTargetTextureRender ops [] (EndRender_recorded ops o w).2).2.2)
                (.vk_gpu_to_cpu_frame_fences w.next_image) o.Submit] ++
              (dependencies_of (EndRender_recorded ops o w).2 w.next_image).map
                Effect.ConfirmRenderTargetTextureRenderSubmission ++
              [.Present (.vk_submit_to_present_semaphores w.next_image) w.next_image
                o.Present o.present_result] ++ rest ∧
            (rest = [] ∨
              rest = [.Report "Internal error: Cannot present render results to window!"])) ∧
          (o.Present = VK_ERROR_OUT_OF_DATE_KHR ∨ o.present_result = VK_ERROR_OUT_OF_DATE_KHR ∨
              o.Present = VK_SUBOPTIMAL_KHR ∨ o.present_result = VK_SUBOPTIMAL_KHR →
            (EndRender ops o w).1 = true ∧ (EndRender ops o w).2.should_reconstruct = true ∧
              (EndRender ops o w).2.previous_image = w.next_image) ∧
          (o.Present = VK_SUCCESS ∧ o.present_result = VK_SUCCESS →
            (EndRender ops o w).1 = true ∧
              (EndRender ops o w).2.previous_image = w.next_image) ∧
          (present_failed o → (EndRender ops o w).1 = false)) := by
  have e := EndRender_accepted_eq ops o w hicon hturn
  rw [if_pos hrec] at e
  obtain ⟨_, k2, k3⟩ := EndRender_submit_cases ops o (EndRender_recorded ops o w).2
  have hR := (EndRender_recorded_position ops o w).2.1
  have hslot : (CommitRenderTargetTextureRender ops []
      (EndRender_recorded ops o w).2).2.2.next_image = w.next_image :=
    (Commit_position ops [] _).2.2.1.trans hR
  have hdeps := Commit_dependencies ops [] (EndRender_recorded ops o w).2 w.next_image
  refine ⟨fun hs => ?_, fun hs => ?_⟩
  · have e2 := e.trans (k2 hcommit hs)
    rw [hslot] at e2
    refine ⟨by rw [e2], ?_, ?_⟩
    · rw [e2]
      simp only [Report, emit, Abort_frame, dependencies_of]
      rw [hslot]
      simp only [dependencies_of] at hdeps
      rw [hdeps]
    · rw [e2]
      simp only [Report, emit, Abort_frame, dependencies_of]
      rw [hslot]
      exact getD_set_nil _ _
  · have e2 := e.trans (k3 hcommit hs)
    rw [hslot] at e2
    have hn : (ConfirmRenderTargetTextureRenderSubmission ops
        (emit (.Submit
          (graphics_queue_submit_infos ops
            (CommitRenderTargetTextureRender ops [] (EndRender_recorded ops o w).2).2.1
            (CommitRenderTargetTextureRender ops [] (EndRender_recorded ops o w).2).2.2)
          (.vk_gpu_to_cpu_frame_fences w.next_image) o.Submit)
          (CommitRenderTargetTextureRender ops []
            (EndRender_recorded ops o w).2).2.2)).next_image = w.next_image :=
      (ConfirmSubmission_position ops _).2.2.1.trans hslot
    have ht : (ConfirmRenderTargetTextureRenderSubmission ops
        (emit (.Submit
          (graphics_queue_submit_infos ops
            (CommitRenderTargetTextureRender ops [] (EndRender_recorded ops o w).2).2.1
            (CommitRenderTargetTextureRender ops [] (EndRender_recorded ops o w).2).2.2)
          (.vk_gpu_to_cpu_frame_fences w.next_image) o.Submit)
          (CommitRenderTargetTextureRender ops []
            (EndRender_recorded ops o w).2).2.2)).trace =
        (CommitRenderTargetTextureRender ops [] (EndRender_recorded ops o w).2).2.2.trace ++
          [.Submit
            (graphics_queue_submit_infos ops
              (CommitRenderTargetTextureRender ops [] (EndRender_recorded ops o w).2).2.1
              (CommitRenderTargetTextureRender ops [] (EndRender_recorded ops o w).2).2.2)
            (.vk_gpu_to_cpu_frame_fences w.next_image) o.Submit] ++
          (dependencies_of (EndRender_recorded ops o w).2 w.next_image).map
            Effect.ConfirmRenderTargetTextureRenderSubmission := by
      rw [ConfirmSubmission_frame]
      simp only [emit, dependencies_of]
      rw [hslot]
      simp only [dependencies_of] at hdeps
      rw [hdeps]
    generalize ConfirmRenderTargetTextureRenderSubmission ops
        (emit (.Submit
          (graphics_queue_submit_infos ops
            (CommitRenderTargetTextureRender ops [] (EndRender_recorded ops o w).2).2.1
            (CommitRenderTargetTextureRender ops [] (EndRender_recorded ops o w).2).2.2)
          (.vk_gpu_to_cpu_frame_fences w.next_image) o.Submit)
          (CommitRenderTargetTextureRender ops []
            (EndRender_recorded ops o w).2).2.2) = v at e2 hn ht
    obtain ⟨p1, p2, p3⟩ := EndRender_present_spec o v
    rw [hn] at p2 p3
    refine ⟨?_, fun hstale => ?_, fun hok => ?_, fun hf => ?_⟩
    · rw [e2]
      cases hb : (EndRender_present o v).1
      · exact ⟨_, by rw [(p3 hb).2.2, ht]; simp, Or.inr rfl⟩
      · exact ⟨[], by rw [(p2 hb).2.2, ht]; simp, Or.inl rfl⟩
    · rw [e2]
      have h := EndRender_present_stale o v hstale
      exact ⟨h.1, h.2.1, h.2.2.trans hn⟩
    · rw [e2]
      have hb : (EndRender_present o v).1 = true := by
        by_contra hne
        have hf : present_failed o := p1.mp (by simpa using hne)
        rcases hf.1 with h | h
        · exact h hok.1
        · exact h hok.2
      exact ⟨hb, (p2 hb).1⟩
    · rw [e2]
      exact p1.mpr hf

theorem EndRender_submission_then_present_witness :
    sample_recording_window.is_iconified = false ∧
      (EndRender (sample_ops (fun _ => false)) (sample_end VK_SUBOPTIMAL_KHR)
        sample_recording_window).2.should_reconstruct = true :=
  ⟨rfl,
    ((EndRender_submission_then_present (sample_ops (fun _ => false))
      (sample_end VK_SUBOPTIMAL_KHR) sample_recording_window rfl rfl (by decide)
      (by decide)).2 rfl).2.1 (Or.inr (Or.inr (Or.inl rfl))) |>.2.1⟩
end PresentClaims

section AbortClaims
variable {σ : Type}

theorem set_nil_again (l : List (List RenderTargetTextureDependencyInfo)) (i : Nat) :
    (l.set i []).set i [] = l.set i [] := by
  simp

/-- C14: `AbortRenderTargetTextureRender` leaves the tracked list of the current slot empty,
whatever the render targets answer and whatever state they are in; a second call adds no
notification to the trace and returns the very same state; and a
`CommitRenderTargetTextureRender` made right afterwards, with any collector, returns true and
leaves the collector and the state as they are. -/
theorem abort_is_idempotent (ops : RenderTargetOps σ) (w : WindowImpl σ) :
    (AbortRenderTargetTextureRender ops w).next_image = w.next_image ∧
      dependencies_of (AbortRenderTargetTextureRender ops w) w.next_image = [] ∧
      AbortRenderTargetTextureRender ops (AbortRenderTargetTextureRender ops w) =
        AbortRenderTargetTextureRender ops w ∧
      trace_since (AbortRenderTargetTextureRender ops w)
        (AbortRenderTargetTextureRender ops (AbortRenderTargetTextureRender ops w)) = [] ∧
      ∀ collector : RenderTargetTextureRenderCollector,
        CommitRenderTargetTextureRender ops collector (AbortRenderTargetTextureRender ops w) =
          (true, collector, AbortRenderTargetTextureRender ops w) := by
  have hn : (AbortRenderTargetTextureRender ops w).next_image = w.next_image := by
    rw [Abort_frame]
  have hd : dependencies_of (AbortRenderTargetTextureRender ops w) w.next_image = [] := by
    rw [Abort_frame]
    exact getD_set_nil _ _
  have hd2 : dependencies_of (AbortRenderTargetTextureRender ops w)
      (AbortRenderTargetTextureRender ops w).next_image = [] := by
    rw [hn]; exact hd
  have hdeps : (AbortRenderTargetTextureRender ops w).render_target_texture_dependencies =
      w.render_target_texture_dependencies.set w.next_image [] := by
    rw [Abort_frame]
  have hset : (AbortRenderTargetTextureRender ops w).render_target_texture_dependencies.set
      (AbortRenderTargetTextureRender ops w).next_image [] =
      (AbortRenderTargetTextureRender ops w).render_target_texture_dependencies := by
    rw [hn, hdeps, set_nil_again]
  have h2 : AbortRenderTargetTextureRender ops (AbortRenderTargetTextureRender ops w) =
      AbortRenderTargetTextureRender ops w := by
    rw [Abort_frame ops (AbortRenderTargetTextureRender ops w), hd2, hset]
    simp only [List.foldl_nil, List.map_nil, List.append_nil]
  refine ⟨hn, hd, h2, ?_, ?_⟩
  · rw [h2]
    simp [trace_since]
  · intro collector
    unfold CommitRenderTargetTextureRender
    rw [hd2]
    rfl
end AbortClaims

section AcquireDefaultClaims
variable {σ : Type}

/-- C16, as the code has it: when the first acquire attempt reports anything but
`VK_SUCCESS`, `VK_SUBOPTIMAL_KHR` and `VK_ERROR_OUT_OF_DATE_KHR`, `AcquireImage` returns false
with `next_image` untouched, without a second attempt and without a rebuild, but it gets there
through the `default:` label, whose `assert( 0 && "Unhandled case." )` fails: the failed
assertion is the last entry of the trace. -/
theorem AcquireImage_unhandled_result_asserts (ops : RenderTargetOps σ)
    (o : AcquireImageOutcome) (w : WindowImpl σ)
    (h1 : o.first.vkAcquireNextImageKHR ≠ VK_SUCCESS)
    (h2 : o.first.vkAcquireNextImageKHR ≠ VK_SUBOPTIMAL_KHR)
    (h3 : o.first.vkAcquireNextImageKHR ≠ VK_ERROR_OUT_OF_DATE_KHR) :
    (AcquireImage ops o w).1 = false ∧
      (AcquireImage ops o w).2.next_image = w.next_image ∧
      acquire_attempts (AcquireImage ops o w).2.trace = acquire_attempts w.trace + 1 ∧
      rebuilds (AcquireImage ops o w).2.trace = rebuilds w.trace ∧
      (AcquireImage ops o w).2.trace =
        (TryAcquireAndWaitAvailable o.first w).2.trace ++
          [.assertion_failed "0 && Unhandled case."] := by
  have hr := TryAcquire_vk_result o.first w
  have hp := TryAcquire_position o.first w
  have hc := TryAcquire_counts o.first w
  have e : AcquireImage ops o w =
      (false, emit (.assertion_failed "0 && Unhandled case.")
        (TryAcquireAndWaitAvailable o.first w).2) := by
    unfold AcquireImage
    lift_lets
    intro result w1 src1 w2 rebuilt retry_result w3
    have c1 : ¬ result.1.vk_result = VK_SUCCESS := by rw [hr]; exact h1
    have c2 : ¬ result.1.vk_result = VK_SUBOPTIMAL_KHR := by rw [hr]; exact h2
    have c3 : ¬ result.1.vk_result = VK_ERROR_OUT_OF_DATE_KHR := by rw [hr]; exact h3
    rw [if_neg c1, if_neg c2, if_neg c3]
  generalize TryAcquireAndWaitAvailable o.first w = r at e hp hc
  rw [e]
  have hs := counts_snoc r.2.trace (.assertion_failed "0 && Unhandled case.")
  refine ⟨rfl, hp.2.2.1, ?_, ?_, rfl⟩
  · exact (by simpa [is_acquire_attempt] using hs.1 :
      acquire_attempts (r.2.trace ++ [.assertion_failed "0 && Unhandled case."]) =
        acquire_attempts r.2.trace).trans hc.1
  · exact (by simpa [is_rebuild_start] using hs.2 :
      rebuilds (r.2.trace ++ [.assertion_failed "0 && Unhandled case."]) =
        rebuilds r.2.trace).trans hc.2

theorem AcquireImage_unhandled_result_asserts_witness :
    (AcquireImage (sample_ops (fun _ => false)) sample_device_lost_acquire sample_window).1 =
        false ∧
      (AcquireImage (sample_ops (fun _ => false)) sample_device_lost_acquire
        sample_window).2.trace =
        [.vkAcquireNextImageKHR VK_ERROR_DEVICE_LOST UINT32_MAX,
          .assertion_failed "0 && Unhandled case."] :=
  ⟨(AcquireImage_unhandled_result_asserts (sample_ops (fun _ => false))
      sample_device_lost_acquire sample_window (by decide) (by decide) (by decide)).1,
    (AcquireImage_unhandled_result_asserts (sample_ops (fun _ => false))
      sample_device_lost_acquire sample_window (by decide) (by decide) (by decide)).2.2.2.2⟩
end AcquireDefaultClaims

section EventClaims
variable {σ : Type}

/-- C20, as the code has it: `AreEventsDisabled` returns `!!event_handler`, so after
`DisableEvents( true )` it returns false, and after `DisableEvents( false )` on a window that
was created with an event handler it returns true: the opposite of what the documentation of
`Window::AreEventsDisabled` promises. -/
theorem AreEventsDisabled_is_inverted (w : WindowImpl σ) :
    AreEventsDisabled (DisableEvents true w) = false ∧
      (w.create_info_event_handler.isSome = true →
        AreEventsDisabled (DisableEvents false w) = true) ∧
      AreEventsDisabled w = w.event_handler.isSome := by
  refine ⟨by simp [AreEventsDisabled, DisableEvents], fun h => ?_, by simp [AreEventsDisabled]⟩
  simp [AreEventsDisabled, DisableEvents, h]

theorem AreEventsDisabled_is_inverted_witness :
    AreEventsDisabled (DisableEvents true sample_window) = false ∧
      AreEventsDisabled (DisableEvents false sample_window) = true :=
  ⟨(AreEventsDisabled_is_inverted sample_window).1,
    (AreEventsDisabled_is_inverted sample_window).2.1 rfl⟩
end EventClaims

section ResizeClaims
variable {σ : Type}

theorem quiet_extension.extends_trace {a b : List Effect} (h : quiet_extension a b) : a <+: b := by
  obtain ⟨d, e, _⟩ := h
  exact ⟨d, e.symm⟩

theorem resize_dependencies_length (n : Nat)
    (deps : List (List RenderTargetTextureDependencyInfo)) :
    (resize_dependencies n deps).length = n := by
  simp only [resize_dependencies, List.length_append, List.length_take, List.length_replicate]
  omega

/-- The members `RecreateWindowSizeDependantResources` sizes the tracker by. -/
theorem ReCreateScreenshotResources_tracker (o : RecreateOutcome) (w : WindowImpl σ) :
    (ReCreateScreenshotResources o w).2.render_target_texture_dependencies =
        w.render_target_texture_dependencies ∧
      (ReCreateScreenshotResources o w).2.swapchain_image_count = w.swapchain_image_count := by
  unfold ReCreateScreenshotResources
  lift_lets
  intro w1
  have h1 : w1.render_target_texture_dependencies = w.render_target_texture_dependencies ∧
      w1.swapchain_image_count = w.swapchain_image_count := by
    simp only [w1]
    split_ifs <;> exact ⟨rfl, rfl⟩
  clear_value w1
  split_ifs <;> exact h1

theorem AllocateCommandBuffers_tracker (o : RecreateOutcome) (w : WindowImpl σ) :
    (AllocateCommandBuffers o w).2.render_target_texture_dependencies =
        w.render_target_texture_dependencies ∧
      (AllocateCommandBuffers o w).2.swapchain_image_count = w.swapchain_image_count := by
  unfold AllocateCommandBuffers
  lift_lets
  intro w1
  split_ifs <;> exact ⟨rfl, rfl⟩

theorem CreateFrameSynchronizationPrimitives_tracker (o : RecreateOutcome) (w : WindowImpl σ) :
    (CreateFrameSynchronizationPrimitives o w).2.render_target_texture_dependencies =
        w.render_target_texture_dependencies ∧
      (CreateFrameSynchronizationPrimitives o w).2.swapchain_image_count =
        w.swapchain_image_count := by
  unfold CreateFrameSynchronizationPrimitives
  lift_lets
  intro w1 w2
  split_ifs <;> exact ⟨rfl, rfl⟩

/-- A successful rebuild clears `should_reconstruct` and leaves the tracker with one slot per
swapchain image. -/
theorem Recreate_success (ops : RenderTargetOps σ) (o : RecreateOutcome) (w : WindowImpl σ)
    (h : (RecreateWindowSizeDependantResources ops o w).1 = true) :
    (RecreateWindowSizeDependantResources ops o w).2.should_reconstruct = false ∧
      (RecreateWindowSizeDependantResources ops o w).2.render_target_texture_dependencies.length =
        (RecreateWindowSizeDependantResources ops o w).2.swapchain_image_count := by
  revert h
  unfold RecreateWindowSizeDependantResources
  lift_lets
  intro w0 s src1 w1 w2 w3 c p src2
  have h1 : w1.render_target_texture_dependencies.length = w1.swapchain_image_count :=
    resize_dependencies_length _ _
  have h2 : w2.render_target_texture_dependencies.length = w2.swapchain_image_count := by
    have t := ReCreateScreenshotResources_tracker o w1
    exact (congrArg List.length t.1).trans (h1.trans t.2.symm)
  have h3 : w3.render_target_texture_dependencies.length = w3.swapchain_image_count := h2
  have hc : c.2.render_target_texture_dependencies.length = c.2.swapchain_image_count := by
    simp only [c]
    split_ifs
    · have t := AllocateCommandBuffers_tracker o w3
      exact (congrArg List.length t.1).trans (h3.trans t.2.symm)
    · exact h3
  have hp : p.2.render_target_texture_dependencies.length = p.2.swapchain_image_count := by
    simp only [p]
    split_ifs
    · have t := CreateFrameSynchronizationPrimitives_tracker o c.2
      exact (congrArg List.length t.1).trans (hc.trans t.2.symm)
    · exact hc
  have hp2 : src2.render_target_texture_dependencies.length = src2.swapchain_image_count := hp
  intro h
  clear_value w0 s src1 w1 w2 w3 c p src2
  split_ifs at h ⊢
  exact ⟨rfl, hp2⟩

theorem emit_extends (e : Effect) (w : WindowImpl σ) : w.trace <+: (emit e w).trace :=
  List.prefix_append _ _

theorem Report_extends (message : String) (w : WindowImpl σ) :
    w.trace <+: (Report message w).trace :=
  List.prefix_append _ _

/-- The first thing `AcquireImage` adds to the trace is its first acquire attempt. -/
theorem AcquireImage_first_attempt (ops : RenderTargetOps σ) (o : AcquireImageOutcome)
    (w : WindowImpl σ) :
    w.trace ++ [.vkAcquireNextImageKHR o.first.vkAcquireNextImageKHR
        (o.first.written_image_index.getD UINT32_MAX)] <+:
      (AcquireImage ops o w).2.trace := by
  unfold AcquireImage
  lift_lets
  intro result w1 src1 w2 rebuilt retry_result w3
  have p1 : w.trace ++ [.vkAcquireNextImageKHR o.first.vkAcquireNextImageKHR
      (o.first.written_image_index.getD UINT32_MAX)] <+: result.2.trace :=
    (TryAcquire_quiet o.first w).extends_trace
  have q0 : w.trace ++ [.vkAcquireNextImageKHR o.first.vkAcquireNextImageKHR
      (o.first.written_image_index.getD UINT32_MAX)] <+: w1.trace := p1
  have q1 : result.2.trace <+: src1.trace := Report_extends _ _
  have q2 : result.2.trace <+: w2.trace := Report_extends _ _
  have q3 : w2.trace <+: rebuilt.2.trace :=
    (List.prefix_append _ _).trans
      (Recreate_quiet ops o.RecreateWindowSizeDependantResources w2).extends_trace
  have q4 : rebuilt.2.trace <+: retry_result.2.trace :=
    (List.prefix_append _ _).trans (TryAcquire_quiet o.retry rebuilt.2).extends_trace
  have q5 : retry_result.2.trace <+: w3.trace := Report_extends _ _
  have r1 : w.trace ++ [.vkAcquireNextImageKHR o.first.vkAcquireNextImageKHR
      (o.first.written_image_index.getD UINT32_MAX)] <+: src1.trace := p1.trans q1
  have r3 : w.trace ++ [.vkAcquireNextImageKHR o.first.vkAcquireNextImageKHR
      (o.first.written_image_index.getD UINT32_MAX)] <+: rebuilt.2.trace :=
    (p1.trans q2).trans q3
  have r4 : w.trace ++ [.vkAcquireNextImageKHR o.first.vkAcquireNextImageKHR
      (o.first.written_image_index.getD UINT32_MAX)] <+: retry_result.2.trace := r3.trans q4
  have r5 : w.trace ++ [.vkAcquireNextImageKHR o.first.vkAcquireNextImageKHR
      (o.first.written_image_index.getD UINT32_MAX)] <+: w3.trace := r4.trans q5
  clear_value result w1 src1 w2 rebuilt retry_result w3
  split_ifs
  · exact q0
  · exact r1
  · exact r3.trans (Report_extends _ _)
  · exact r5
  · exact r4.trans (Report_extends _ _)
  · exact p1.trans (emit_extends _ _)

/-- What an accepted `BeginRender` does after the rebuild: the trace it leaves continues the
trace of `AcquireImage`, called in the state the rebuild left. -/
theorem BeginRender_after_rebuild (ops : RenderTargetOps σ) (o : BeginRenderOutcome)
    (w : WindowImpl σ) (hicon : w.is_iconified = false)
    (hturn : w.next_render_call_function = .BEGIN) (hflag : w.should_reconstruct = true) :
    ((RecreateWindowSizeDependantResources ops o.RecreateWindowSizeDependantResources
        { w with next_render_call_function := .END }).1 = false →
      BeginRender ops o w =
        (false, Report "Internal error: Cannot recreate window resources after resizing window!"
          (RecreateWindowSizeDependantResources ops o.RecreateWindowSizeDependantResources
            { w with next_render_call_function := .END }).2)) ∧
      ((RecreateWindowSizeDependantResources ops o.RecreateWindowSizeDependantResources
        { w with next_render_call_function := .END }).1 = true →
        (AcquireImage ops o.AcquireImage
          (RecreateWindowSizeDependantResources ops o.RecreateWindowSizeDependantResources
            { w with next_render_call_function := .END }).2).2.trace <+:
          (BeginRender ops o w).2.trace) := by
  have c1 : ¬ w.is_iconified = true := by rw [hicon]; decide
  have c2 : ¬ w.next_render_call_function ≠ .BEGIN := by rw [hturn]; decide
  unfold BeginRender
  rw [if_neg c1, if_neg c2]
  lift_lets
  intro w1 rebuilt acquired synced w2
  have hr : rebuilt = RecreateWindowSizeDependantResources ops
      o.RecreateWindowSizeDependantResources w1 := by
    simp only [rebuilt]
    rw [if_pos (show w1.should_reconstruct = true from hflag)]
  have hs : acquired.2.trace <+: synced.2.trace := by
    simp only [synced]
    split_ifs
    · exact (SynchronizeFrame_quiet ops o.SynchronizeFrame acquired.2).extends_trace
    · exact List.prefix_refl _
  have h2 : acquired.2.trace <+: w2.trace := hs.trans (emit_extends _ _)
  have ha : acquired = AcquireImage ops o.AcquireImage rebuilt.2 := rfl
  clear_value synced w2
  rw [← hr, ← ha]
  clear_value rebuilt acquired
  refine ⟨fun hf => ?_, fun ht => ?_⟩
  · rw [if_pos (by rw [hf]; rfl)]
  · rw [if_neg (by rw [ht]; decide)]
    split_ifs
    · exact Report_extends _ _
    · exact hs.trans (Report_extends _ _)
    · exact h2.trans (Report_extends _ _)
    · exact h2

/-- C13: each resize notification (`glfwWindowSizeCallback`, `glfwFramebufferSizeCallback`,
`SetSize`) sets `should_reconstruct` and moves nothing in the frame protocol. A `BeginRender`
on a window that is not iconified, whose turn it is and that finds the flag set first calls
`RecreateWindowSizeDependantResources`, before any acquire attempt. If the rebuild fails,
`BeginRender` returns false and has made no acquire attempt. If it succeeds, the state in
which `AcquireImage` is called has `should_reconstruct` clear and a tracker with exactly
`swapchain_image_count` slots, and the first acquire attempt follows the rebuild in the
trace. -/
theorem resize_rebuilds_before_acquire (ops : RenderTargetOps σ) (o : BeginRenderOutcome)
    (w : WindowImpl σ) (hicon : w.is_iconified = false)
    (hturn : w.next_render_call_function = .BEGIN) (hflag : w.should_reconstruct = true) :
    (∀ (v : WindowImpl σ) (x y : Int),
        (glfwWindowSizeCallback x y v).should_reconstruct = true ∧
          same_frame_position v (glfwWindowSizeCallback x y v) ∧
          (glfwFramebufferSizeCallback x y v).should_reconstruct = true ∧
          same_frame_position v (glfwFramebufferSizeCallback x y v)) ∧
      (∀ (v : WindowImpl σ) (new_size : Nat × Nat),
        (SetSize new_size v).should_reconstruct = true ∧
          same_frame_position v (SetSize new_size v)) ∧
      (∃ delta,
        (RecreateWindowSizeDependantResources ops o.RecreateWindowSizeDependantResources
            { w with next_render_call_function := .END }).2.trace =
          w.trace ++ [.Report "Begin recreating window resources."] ++ delta ∧
        acquire_attempts delta = 0) ∧
      ((RecreateWindowSizeDependantResources ops o.RecreateWindowSizeDependantResources
          { w with next_render_call_function := .END }).1 = false →
        (BeginRender ops o w).1 = false ∧
          acquire_attempts (BeginRender ops o w).2.trace = acquire_attempts w.trace) ∧
      ((RecreateWindowSizeDependantResources ops o.RecreateWindowSizeDependantResources
          { w with next_render_call_function := .END }).1 = true →
        (RecreateWindowSizeDependantResources ops o.RecreateWindowSizeDependantResources
            { w with next_render_call_function := .END }).2.should_reconstruct = false ∧
          (RecreateWindowSizeDependantResources ops o.RecreateWindowSizeDependantResources
            { w with next_render_call_function := .END }).2.render_target_texture_dependencies.length =
            (RecreateWindowSizeDependantResources ops o.RecreateWindowSizeDependantResources
              { w with next_render_call_function := .END }).2.swapchain_image_count ∧
          ∃ rest,
            (BeginRender ops o w).2.trace =
              (RecreateWindowSizeDependantResources ops o.RecreateWindowSizeDependantResources
                { w with next_render_call_function := .END }).2.trace ++
                [.vkAcquireNextImageKHR o.AcquireImage.first.vkAcquireNextImageKHR
                  (o.AcquireImage.first.written_image_index.getD UINT32_MAX)] ++ rest) := by
  obtain ⟨b1, b2⟩ := BeginRender_after_rebuild ops o w hicon hturn hflag
  have hq := Recreate_quiet ops o.RecreateWindowSizeDependantResources
    { w with next_render_call_function := .END }
  have hc := Recreate_counts ops o.RecreateWindowSizeDependantResources
    { w with next_render_call_function := .END }
  refine ⟨fun v x y => ?_, fun v new_size => ⟨rfl, rfl, rfl, rfl, rfl⟩, ?_, fun hf => ?_,
    fun ht => ?_⟩
  · refine ⟨?_, ?_, ?_, ?_⟩
    · unfold glfwWindowSizeCallback
      lift_lets
      intro w1
      split_ifs <;> rfl
    · unfold glfwWindowSizeCallback
      lift_lets
      intro w1
      split_ifs <;> exact ⟨rfl, rfl, rfl, rfl⟩
    · unfold glfwFramebufferSizeCallback
      lift_lets
      intro w1
      split_ifs <;> rfl
    · unfold glfwFramebufferSizeCallback
      lift_lets
      intro w1
      split_ifs <;> exact ⟨rfl, rfl, rfl, rfl⟩
  · obtain ⟨delta, e, q⟩ := hq
    refine ⟨delta, e, ?_⟩
    unfold acquire_attempts
    rw [List.countP_eq_zero]
    intro x hx
    rw [not_acquire_of_not_frame_step x (q x hx)]
    decide
  · rw [b1 hf]
    refine ⟨rfl, ?_⟩
    exact (counts_Report _ _ (by decide)).1.trans hc.1
  · obtain ⟨h1, h2⟩ := Recreate_success ops o.RecreateWindowSizeDependantResources _ ht
    refine ⟨h1, h2, ?_⟩
    obtain ⟨rest, e⟩ := (AcquireImage_first_attempt ops o.AcquireImage _).trans (b2 ht)
    exact ⟨rest, e.symm⟩

theorem resize_rebuilds_before_acquire_witness :
    (SetSize (4, 3) sample_window).is_iconified = false ∧
      (SetSize (4, 3) sample_window).should_reconstruct = true ∧
      (RecreateWindowSizeDependantResources (sample_ops (fun _ => false)) sample_recreate
        { SetSize (4, 3) sample_window with next_render_call_function := .END }).2.should_reconstruct
        = false :=
  ⟨rfl, rfl,
    ((resize_rebuilds_before_acquire (sample_ops (fun _ => false)) (sample_begin 0)
      (SetSize (4, 3) sample_window) rfl rfl rfl).2.2.2.2 (by decide)).1⟩
end ResizeClaims

section ScreenshotAlphaClaims
variable {σ : Type}

set_option maxRecDepth 100000 in
/-- C19, evaluated: a screenshot is requested with `TakeScreenshotToData( false )` on the
sample window, the frame is rendered into slot 0 and the next `BeginRender` on slot 0 waits
for it and maps the screenshot buffer, which holds two texels with alpha 0 and 128. The one
`EventScreenshot` of the trace carries these texels with alpha 0 and 128, not 255: the pixel
data delivered is the data delivered for `TakeScreenshotToData( true )`. -/
theorem screenshot_data_keeps_rendered_alpha :
    (TakeScreenshotToData false sample_window).screenshot_alpha = false ∧
      (run (sample_ops (fun _ => false)) sample_window
        [.TakeScreenshotToData false, .BeginRender (sample_begin 0),
          .EndRender (sample_end VK_SUCCESS),
          .BeginRender (sample_begin_mapping 0)]).trace.filter is_EventScreenshot =
        [.EventScreenshot ""
          { size := (2, 1)
            data := [{ r := 10, g := 20, b := 30, a := 0 }, { r := 1, g := 2, b := 3, a := 128 }] }
          true ""] ∧
      (run (sample_ops (fun _ => false)) sample_window
        [.TakeScreenshotToData true, .BeginRender (sample_begin 0),
          .EndRender (sample_end VK_SUCCESS),
          .BeginRender (sample_begin_mapping 0)]).trace.filter is_EventScreenshot =
        [.EventScreenshot ""
          { size := (2, 1)
            data := [{ r := 10, g := 20, b := 30, a := 0 }, { r := 1, g := 2, b := 3, a := 128 }] }
          true ""] := by
  decide
end ScreenshotAlphaClaims

section DrawClaims
variable {σ : Type}

theorem CmdBindGraphicsPipelineIfDifferent_eq (command_buffer : VkCommandBuffer)
    (pipeline_settings : GraphicsPipelineSettings) (w : WindowImpl σ) :
    CmdBindGraphicsPipelineIfDifferent command_buffer pipeline_settings w =
      { w with
        previous_pipeline_settings := some pipeline_settings
        trace := w.trace ++
          (if w.previous_pipeline_settings = some pipeline_settings then []
            else [.vkCmdBindPipeline command_buffer pipeline_settings]) } := by
  unfold CmdBindGraphicsPipelineIfDifferent
  by_cases h : w.previous_pipeline_settings = some pipeline_settings
  · rw [if_neg (not_not.mpr h), if_pos h, List.append_nil, ← h]
  · rw [if_pos h, if_neg h]
    rfl

theorem CmdBindSamplerIfDifferent_eq (command_buffer : VkCommandBuffer) (sampler : Nat)
    (w : WindowImpl σ) :
    CmdBindSamplerIfDifferent command_buffer sampler w =
      { w with
        previous_sampler := some sampler
        trace := w.trace ++
          (if w.previous_sampler = some sampler then []
            else [.vkCmdBindDescriptorSets command_buffer (.sampler_descriptor_sets sampler)]) } := by
  unfold CmdBindSamplerIfDifferent
  by_cases h : w.previous_sampler = some sampler
  · rw [if_neg (not_not.mpr h.symm), if_pos h, List.append_nil, ← h]
  · rw [if_pos (fun e => h e.symm), if_neg h]
    rfl

theorem CmdBindTextureIfDifferent_eq (command_buffer : VkCommandBuffer) (texture : Texture)
    (w : WindowImpl σ) :
    CmdBindTextureIfDifferent command_buffer texture w =
      { w with
        previous_texture := some texture
        trace := w.trace ++
          (if w.previous_texture = some texture then []
            else [.vkCmdBindDescriptorSets command_buffer (.texture_descriptor_sets texture)]) } := by
  unfold CmdBindTextureIfDifferent
  by_cases h : w.previous_texture = some texture
  · rw [if_neg (not_not.mpr h.symm), if_pos h, List.append_nil, ← h]
  · rw [if_pos (fun e => h e.symm), if_neg h]
    rfl

theorem CmdSetLineWidthIfDifferent_eq (command_buffer : VkCommandBuffer) (line_width : ℚ)
    (w : WindowImpl σ) :
    CmdSetLineWidthIfDifferent command_buffer line_width w =
      { w with
        previous_line_width := line_width
        trace := w.trace ++
          (if w.previous_line_width = line_width then []
            else [.vkCmdSetLineWidth command_buffer line_width]) } := by
  unfold CmdSetLineWidthIfDifferent
  by_cases h : w.previous_line_width = line_width
  · rw [if_neg (not_not.mpr h), if_pos h, List.append_nil, ← h]
  · rw [if_pos h, if_neg h]
    rfl

theorem CheckAndAdd_frame (ops : RenderTargetOps σ) (texture : Texture) (w : WindowImpl σ) :
    CheckAndAddRenderTargetTextureDependency ops texture w =
      { w with
        render_target_texture_dependencies :=
          (CheckAndAddRenderTargetTextureDependency ops texture w).render_target_texture_dependencies } := by
  unfold CheckAndAddRenderTargetTextureDependency
  repeat' first | rfl | split
end DrawClaims

section DrawClaims2
variable {σ : Type}

/-- The texture the draw calls select is the one the specification describes. -/
theorem bound_texture_eq (vk2d_instance : InstanceImpl) (o : DrawOutcome)
    (texture : Option Texture) :
    (if (!o.IsTextureDataReady
          (match texture with
          | none => vk2d_instance.GetDefaultTexture
          | some given => given)) = true then vk2d_instance.GetDefaultTexture
      else
        match texture with
        | none => vk2d_instance.GetDefaultTexture
        | some given => given) = spec_bound_texture vk2d_instance o texture := by
  cases texture with
  | none => simp [spec_bound_texture]
  | some given =>
    cases h : o.IsTextureDataReady given <;> simp [spec_bound_texture, h]

theorem bound_sampler_eq (vk2d_instance : InstanceImpl) (sampler : Option Nat) :
    (match sampler with
      | none => vk2d_instance.GetDefaultSampler
      | some given => given) = spec_bound_sampler vk2d_instance sampler := rfl

/-- The tracker step and the three binds every draw call makes, as one update of the state. -/
theorem bind_chain_eq (ops : RenderTargetOps σ) (command_buffer : VkCommandBuffer)
    (pipeline_settings : GraphicsPipelineSettings) (sampler : Nat) (texture : Texture)
    (w : WindowImpl σ) :
    CmdBindTextureIfDifferent command_buffer texture
        (CmdBindSamplerIfDifferent command_buffer sampler
          (CmdBindGraphicsPipelineIfDifferent command_buffer pipeline_settings
            (CheckAndAddRenderTargetTextureDependency ops texture w))) =
      { w with
        render_target_texture_dependencies :=
          (CheckAndAddRenderTargetTextureDependency ops texture w).render_target_texture_dependencies
        previous_pipeline_settings := some pipeline_settings
        previous_sampler := some sampler
        previous_texture := some texture
        trace := w.trace ++
          draw_binds command_buffer pipeline_settings sampler texture
            w.previous_pipeline_settings w.previous_sampler w.previous_texture } := by
  have h1 := CheckAndAdd_frame ops texture w
  generalize (CheckAndAddRenderTargetTextureDependency ops texture
    w).render_target_texture_dependencies = deps at h1
  generalize CheckAndAddRenderTargetTextureDependency ops texture w = w1 at h1
  subst h1
  have h2 := CmdBindGraphicsPipelineIfDifferent_eq command_buffer pipeline_settings
    { w with render_target_texture_dependencies := deps }
  generalize CmdBindGraphicsPipelineIfDifferent command_buffer pipeline_settings
    { w with render_target_texture_dependencies := deps } = w2 at h2
  subst h2
  rw [CmdBindSamplerIfDifferent_eq, CmdBindTextureIfDifferent_eq]
  simp only [draw_binds, List.append_assoc]

/-- The same for `DrawLineList`, which sets the line width between pipeline and sampler. -/
theorem bind_chain_line_eq (ops : RenderTargetOps σ) (command_buffer : VkCommandBuffer)
    (pipeline_settings : GraphicsPipelineSettings) (sampler : Nat) (texture : Texture)
    (line_width : ℚ) (w : WindowImpl σ) :
    CmdBindTextureIfDifferent command_buffer texture
        (CmdBindSamplerIfDifferent command_buffer sampler
          (CmdSetLineWidthIfDifferent command_buffer line_width
            (CmdBindGraphicsPipelineIfDifferent command_buffer pipeline_settings
              (CheckAndAddRenderTargetTextureDependency ops texture w)))) =
      { w with
        render_target_texture_dependencies :=
          (CheckAndAddRenderTargetTextureDependency ops texture w).render_target_texture_dependencies
        previous_pipeline_settings := some pipeline_settings
        previous_sampler := some sampler
        previous_texture := some texture
        previous_line_width := line_width
        trace := w.trace ++
          ((if w.previous_pipeline_settings = some pipeline_settings then []
            else [.vkCmdBindPipeline command_buffer pipeline_settings]) ++
          (if w.previous_line_width = line_width then []
            else [.vkCmdSetLineWidth command_buffer line_width]) ++
          (if w.previous_sampler = some sampler then []
            else [.vkCmdBindDescriptorSets command_buffer (.sampler_descriptor_sets sampler)]) ++
          (if w.previous_texture = some texture then []
            else [.vkCmdBindDescriptorSets command_buffer
              (.texture_descriptor_sets texture)])) } := by
  have h1 := CheckAndAdd_frame ops texture w
  generalize (CheckAndAddRenderTargetTextureDependency ops texture
    w).render_target_texture_dependencies = deps at h1
  generalize CheckAndAddRenderTargetTextureDependency ops texture w = w1 at h1
  subst h1
  have h2 := CmdBindGraphicsPipelineIfDifferent_eq command_buffer pipeline_settings
    { w with render_target_texture_dependencies := deps }
  generalize CmdBindGraphicsPipelineIfDifferent command_buffer pipeline_settings
    { w with render_target_texture_dependencies := deps } = w2 at h2
  subst h2
  rw [CmdSetLineWidthIfDifferent_eq]
  generalize hb1 : (if w.previous_pipeline_settings = some pipeline_settings then []
    else [Effect.vkCmdBindPipeline command_buffer pipeline_settings]) = b1
  generalize hb2 : (if w.previous_line_width = line_width then []
    else [Effect.vkCmdSetLineWidth command_buffer line_width]) = b2
  rw [CmdBindSamplerIfDifferent_eq, CmdBindTextureIfDifferent_eq]
  simp only [hb1, hb2, List.append_assoc]

/-- What `DrawTriangleList` does on a window that is not iconified. -/
theorem DrawTriangleList_eq (ops : RenderTargetOps σ) (vk2d_instance : InstanceImpl)
    (o : DrawOutcome)
    (raw_indices_size vertices_size texture_layer_weights_size transformations_size : Nat)
    (filled : Bool) (texture : Option Texture) (sampler : Option Nat) (w : WindowImpl σ)
    (hicon : w.is_iconified = false) :
    ∃ pipeline_settings : GraphicsPipelineSettings,
      DrawTriangleList ops vk2d_instance o raw_indices_size vertices_size
          texture_layer_weights_size transformations_size filled texture sampler w =
        { w with
          render_target_texture_dependencies :=
            (CheckAndAddRenderTargetTextureDependency ops
              (spec_bound_texture vk2d_instance o texture) w).render_target_texture_dependencies
          previous_pipeline_settings := some pipeline_settings
          previous_sampler := some (spec_bound_sampler vk2d_instance sampler)
          previous_texture := some (spec_bound_texture vk2d_instance o texture)
          trace := w.trace ++
            draw_binds (.vk_render_command_buffers w.next_image) pipeline_settings
              (spec_bound_sampler vk2d_instance sampler)
              (spec_bound_texture vk2d_instance o texture)
              w.previous_pipeline_settings w.previous_sampler w.previous_texture ++
            [if o.CmdPushMesh then
                .vkCmdDrawIndexed (.vk_render_command_buffers w.next_image)
                  (raw_indices_size % 2 ^ 32) (transformations_size % 2 ^ 32)
              else .Report "Internal error: Cannot push mesh into mesh render queue!"] } := by
  have c1 : ¬ w.is_iconified = true := by rw [hicon]; decide
  unfold DrawTriangleList
  rw [if_neg c1]
  lift_lets
  intro command_buffer index_count texture1 texture2 sampler1 w1 multitextured
    graphics_shader_programs pipeline_settings w2 w3 w4
  have hX : texture2 = spec_bound_texture vk2d_instance o texture :=
    bound_texture_eq vk2d_instance o texture
  have hS : sampler1 = spec_bound_sampler vk2d_instance sampler := rfl
  have h4 : w4 = _ := bind_chain_eq ops command_buffer pipeline_settings sampler1 texture2 w
  refine ⟨pipeline_settings, ?_⟩
  clear_value w4 pipeline_settings texture2 sampler1
  subst hX hS h4
  cases o.CmdPushMesh <;> rfl
/-- What `DrawLineList` does on a window that is not iconified. -/
theorem DrawLineList_eq (ops : RenderTargetOps σ) (vk2d_instance : InstanceImpl)
    (o : DrawOutcome)
    (raw_indices_size vertices_size texture_layer_weights_size transformations_size : Nat)
    (texture : Option Texture) (sampler : Option Nat) (line_width : ℚ) (w : WindowImpl σ)
    (hicon : w.is_iconified = false) :
    ∃ pipeline_settings : GraphicsPipelineSettings,
      DrawLineList ops vk2d_instance o raw_indices_size vertices_size
          texture_layer_weights_size transformations_size texture sampler line_width w =
        { w with
          render_target_texture_dependencies :=
            (CheckAndAddRenderTargetTextureDependency ops
              (spec_bound_texture vk2d_instance o texture) w).render_target_texture_dependencies
          previous_pipeline_settings := some pipeline_settings
          previous_sampler := some (spec_bound_sampler vk2d_instance sampler)
          previous_texture := some (spec_bound_texture vk2d_instance o texture)
          previous_line_width := line_width
          trace := w.trace ++
            ((if w.previous_pipeline_settings = some pipeline_settings then []
              else [.vkCmdBindPipeline (.vk_render_command_buffers w.next_image)
                pipeline_settings]) ++
            (if w.previous_line_width = line_width then []
              else [.vkCmdSetLineWidth (.vk_render_command_buffers w.next_image) line_width]) ++
            (if w.previous_sampler = some (spec_bound_sampler vk2d_instance sampler) then []
              else [.vkCmdBindDescriptorSets (.vk_render_command_buffers w.next_image)
                (.sampler_descriptor_sets (spec_bound_sampler vk2d_instance sampler))]) ++
            (if w.previous_texture = some (spec_bound_texture vk2d_instance o texture) then []
              else [.vkCmdBindDescriptorSets (.vk_render_command_buffers w.next_image)
                (.texture_descriptor_sets (spec_bound_texture vk2d_instance o texture))])) ++
            [if o.CmdPushMesh then
                .vkCmdDrawIndexed (.vk_render_command_buffers w.next_image)
                  (raw_indices_size % 2 ^ 32) (transformations_size % 2 ^ 32)
              else .Report "Internal error: Cannot push mesh into mesh render queue!"] } := by
  have c1 : ¬ w.is_iconified = true := by rw [hicon]; decide
  unfold DrawLineList
  rw [if_neg c1]
  lift_lets
  intro command_buffer index_count texture1 texture2 sampler1 w1 multitextured
    graphics_shader_programs pipeline_settings w2 w20 w3 w4
  have hX : texture2 = spec_bound_texture vk2d_instance o texture :=
    bound_texture_eq vk2d_instance o texture
  have hS : sampler1 = spec_bound_sampler vk2d_instance sampler := rfl
  have h4 : w4 = _ := bind_chain_line_eq ops command_buffer pipeline_settings sampler1 texture2 line_width w
  refine ⟨pipeline_settings, ?_⟩
  clear_value w4 pipeline_settings texture2 sampler1
  subst hX hS h4
  cases o.CmdPushMesh <;> rfl
/-- What `DrawPointList` does on a window that is not iconified. -/
theorem DrawPointList_eq (ops : RenderTargetOps σ) (vk2d_instance : InstanceImpl)
    (o : DrawOutcome)
    (vertices_size texture_layer_weights_size transformations_size : Nat)
    (texture : Option Texture) (sampler : Option Nat) (w : WindowImpl σ)
    (hicon : w.is_iconified = false) :
    ∃ pipeline_settings : GraphicsPipelineSettings,
      DrawPointList ops vk2d_instance o vertices_size
          texture_layer_weights_size transformations_size texture sampler w =
        { w with
          render_target_texture_dependencies :=
            (CheckAndAddRenderTargetTextureDependency ops
              (spec_bound_texture vk2d_instance o texture) w).render_target_texture_dependencies
          previous_pipeline_settings := some pipeline_settings
          previous_sampler := some (spec_bound_sampler vk2d_instance sampler)
          previous_texture := some (spec_bound_texture vk2d_instance o texture)
          trace := w.trace ++
            draw_binds (.vk_render_command_buffers w.next_image) pipeline_settings
              (spec_bound_sampler vk2d_instance sampler)
              (spec_bound_texture vk2d_instance o texture)
              w.previous_pipeline_settings w.previous_sampler w.previous_texture ++
            [if o.CmdPushMesh then
                .vkCmdDraw (.vk_render_command_buffers w.next_image)
                  (vertices_size % 2 ^ 32) (transformations_size % 2 ^ 32)
              else .Report "Internal error: Cannot push mesh into mesh render queue!"] } := by
  have c1 : ¬ w.is_iconified = true := by rw [hicon]; decide
  unfold DrawPointList
  rw [if_neg c1]
  lift_lets
  intro command_buffer vertex_count texture1 texture2 sampler1 w1 multitextured
    graphics_shader_programs pipeline_settings w2 w3 w4
  have hX : texture2 = spec_bound_texture vk2d_instance o texture :=
    bound_texture_eq vk2d_instance o texture
  have hS : sampler1 = spec_bound_sampler vk2d_instance sampler := rfl
  have h4 : w4 = _ := bind_chain_eq ops command_buffer pipeline_settings sampler1 texture2 w
  refine ⟨pipeline_settings, ?_⟩
  clear_value w4 pipeline_settings texture2 sampler1
  subst hX hS h4
  cases o.CmdPushMesh <;> rfl

/-- The tracker ignores a texture that is not a render target. -/
theorem CheckAndAdd_not_render_target (ops : RenderTargetOps σ) (texture : Texture)
    (w : WindowImpl σ)
    (h : dynamic_cast_RenderTargetTextureImpl texture.texture_impl = none) :
    CheckAndAddRenderTargetTextureDependency ops texture w = w := by
  unfold CheckAndAddRenderTargetTextureDependency
  rw [h]

/-- C18: on a window that is not iconified, `DrawTriangleList`, `DrawLineList` and
`DrawPointList` leave as bound texture (`previous_texture`) the default texture of the
instance when the texture pointer is null or the given texture says its data is not ready,
and the given texture otherwise, and as bound sampler the default sampler when the sampler
pointer is null; a bind is recorded for exactly those of pipeline, sampler and texture that
differ from the cached ones, with that texture and that sampler; the tracker is given the
texture that is bound; and every call goes on to push the mesh and to draw. So when the
default texture is not a render target, a render target whose data is not ready is not
tracked. -/
theorem draw_binds_ready_texture_or_default (ops : RenderTargetOps σ)
    (vk2d_instance : InstanceImpl) (o : DrawOutcome)
    (raw_indices_size vertices_size texture_layer_weights_size transformations_size : Nat)
    (filled : Bool) (texture : Option Texture) (sampler : Option Nat) (line_width : ℚ)
    (w : WindowImpl σ) (hicon : w.is_iconified = false) :
    (∃ pipeline_settings : GraphicsPipelineSettings,
      DrawTriangleList ops vk2d_instance o raw_indices_size vertices_size
          texture_layer_weights_size transformations_size filled texture sampler w =
        { w with
          render_target_texture_dependencies :=
            (CheckAndAddRenderTargetTextureDependency ops
              (spec_bound_texture vk2d_instance o texture) w).render_target_texture_dependencies
          previous_pipeline_settings := some pipeline_settings
          previous_sampler := some (spec_bound_sampler vk2d_instance sampler)
          previous_texture := some (spec_bound_texture vk2d_instance o texture)
          trace := w.trace ++
            draw_binds (.vk_render_command_buffers w.next_image) pipeline_settings
              (spec_bound_sampler vk2d_instance sampler)
              (spec_bound_texture vk2d_instance o texture)
              w.previous_pipeline_settings w.previous_sampler w.previous_texture ++
            [if o.CmdPushMesh then
                .vkCmdDrawIndexed (.vk_render_command_buffers w.next_image)
                  (raw_indices_size % 2 ^ 32) (transformations_size % 2 ^ 32)
              else .Report "Internal error: Cannot push mesh into mesh render queue!"] }) ∧
      (∃ pipeline_settings : GraphicsPipelineSettings,
        DrawLineList ops vk2d_instance o raw_indices_size vertices_size
            texture_layer_weights_size transformations_size texture sampler line_width w =
          { w with
            render_target_texture_dependencies :=
              (CheckAndAddRenderTargetTextureDependency ops
                (spec_bound_texture vk2d_instance o texture)
                w).render_target_texture_dependencies
            previous_pipeline_settings := some pipeline_settings
            previous_sampler := some (spec_bound_sampler vk2d_instance sampler)
            previous_texture := some (spec_bound_texture vk2d_instance o texture)
            previous_line_width := line_width
            trace := w.trace ++
              ((if w.previous_pipeline_settings = some pipeline_settings then []
                else [.vkCmdBindPipeline (.vk_render_command_buffers w.next_image)
                  pipeline_settings]) ++
              (if w.previous_line_width = line_width then []
                else [.vkCmdSetLineWidth (.vk_render_command_buffers w.next_image)
                  line_width]) ++
              (if w.previous_sampler = some (spec_bound_sampler vk2d_instance sampler) then []
                else [.vkCmdBindDescriptorSets (.vk_render_command_buffers w.next_image)
                  (.sampler_descriptor_sets (spec_bound_sampler vk2d_instance sampler))]) ++
              (if w.previous_texture = some (spec_bound_texture vk2d_instance o texture) then []
                else [.vkCmdBindDescriptorSets (.vk_render_command_buffers w.next_image)
                  (.texture_descriptor_sets (spec_bound_texture vk2d_instance o texture))])) ++
              [if o.CmdPushMesh then
                  .vkCmdDrawIndexed (.vk_render_command_buffers w.next_image)
                    (raw_indices_size % 2 ^ 32) (transformations_size % 2 ^ 32)
                else .Report "Internal error: Cannot push mesh into mesh render queue!"] }) ∧
      (∃ pipeline_settings : GraphicsPipelineSettings,
        DrawPointList ops vk2d_instance o vertices_size texture_layer_weights_size
            transformations_size texture sampler w =
          { w with
            render_target_texture_dependencies :=
              (CheckAndAddRenderTargetTextureDependency ops
                (spec_bound_texture vk2d_instance o texture)
                w).render_target_texture_dependencies
            previous_pipeline_settings := some pipeline_settings
            previous_sampler := some (spec_bound_sampler vk2d_instance sampler)
            previous_texture := some (spec_bound_texture vk2d_instance o texture)
            trace := w.trace ++
              draw_binds (.vk_render_command_buffers w.next_image) pipeline_settings
                (spec_bound_sampler vk2d_instance sampler)
                (spec_bound_texture vk2d_instance o texture)
                w.previous_pipeline_settings w.previous_sampler w.previous_texture ++
              [if o.CmdPushMesh then
                  .vkCmdDraw (.vk_render_command_buffers w.next_image)
                    (vertices_size % 2 ^ 32) (transformations_size % 2 ^ 32)
                else .Report "Internal error: Cannot push mesh into mesh render queue!"] }) ∧
      (dynamic_cast_RenderTargetTextureImpl vk2d_instance.GetDefaultTexture.texture_impl = none →
        spec_bound_texture vk2d_instance o texture = vk2d_instance.GetDefaultTexture →
        (DrawTriangleList ops vk2d_instance o raw_indices_size vertices_size
            texture_layer_weights_size transformations_size filled texture sampler
            w).render_target_texture_dependencies = w.render_target_texture_dependencies ∧
          (DrawLineList ops vk2d_instance o raw_indices_size vertices_size
            texture_layer_weights_size transformations_size texture sampler line_width
            w).render_target_texture_dependencies = w.render_target_texture_dependencies ∧
          (DrawPointList ops vk2d_instance o vertices_size texture_layer_weights_size
            transformations_size texture sampler
            w).render_target_texture_dependencies = w.render_target_texture_dependencies) := by
  have t := DrawTriangleList_eq ops vk2d_instance o raw_indices_size vertices_size
    texture_layer_weights_size transformations_size filled texture sampler w hicon
  have l := DrawLineList_eq ops vk2d_instance o raw_indices_size vertices_size
    texture_layer_weights_size transformations_size texture sampler line_width w hicon
  have p := DrawPointList_eq ops vk2d_instance o vertices_size
    texture_layer_weights_size transformations_size texture sampler w hicon
  refine ⟨t, l, p, fun hd hx => ?_⟩
  obtain ⟨_, et⟩ := t
  obtain ⟨_, el⟩ := l
  obtain ⟨_, ep⟩ := p
  rw [et, el, ep, hx, CheckAndAdd_not_render_target ops _ w hd]
  exact ⟨rfl, rfl, rfl⟩

theorem draw_binds_ready_texture_or_default_witness :
    sample_window.is_iconified = false ∧
      (DrawTriangleList (sample_ops (fun _ => false)) sample_instance_impl sample_draw 3 3 0 1
        true (some { texture_impl := .RenderTargetTextureImpl 7 }) none
        sample_window).render_target_texture_dependencies = [[], []] :=
  ⟨rfl,
    ((draw_binds_ready_texture_or_default (sample_ops (fun _ => false)) sample_instance_impl
      sample_draw 3 3 0 1 true (some { texture_impl := .RenderTargetTextureImpl 7 }) none 1
      sample_window rfl).2.2.2 rfl rfl).1⟩
end DrawClaims2

section CarriedFacts
variable {σ : Type}

theorem carried.stay (w : WindowImpl σ) : carried w w :=
  ⟨⟨rfl, rfl, rfl, rfl⟩, Nat.le_refl _⟩

theorem carried.andThen {a b c : WindowImpl σ} (h1 : carried a b) (h2 : carried b c) :
    carried a c :=
  ⟨⟨h2.1.1.trans h1.1.1, h2.1.2.1.trans h1.1.2.1, h2.1.2.2.1.trans h1.1.2.2.1,
    h2.1.2.2.2.trans h1.1.2.2.2⟩, Nat.le_trans h2.2 h1.2⟩

/-- A step that leaves the cached state and the screenshot state alone and adds no call of
`EventScreenshot` to the trace. -/
theorem carried_of_quiet {w w1 : WindowImpl σ} (hc : same_draw_cache w w1)
    (hs : w1.screenshot_state = w.screenshot_state) (delta : List Effect)
    (ht : w1.trace = w.trace ++ delta) (hd : ∀ e ∈ delta, is_EventScreenshot e = false) :
    carried w w1 := by
  refine ⟨hc, ?_⟩
  have h0 : delta.countP is_EventScreenshot = 0 := by
    rw [List.countP_eq_zero]
    intro e he
    rw [hd e he]
    decide
  unfold screenshot_progress screenshot_deliveries screenshot_in_progress
  rw [ht, hs, List.countP_append, h0]
  exact Nat.le_refl _

theorem carried_of_same {w w1 : WindowImpl σ} (hc : same_draw_cache w w1)
    (hs : w1.screenshot_state = w.screenshot_state) (ht : w1.trace = w.trace) :
    carried w w1 :=
  carried_of_quiet hc hs [] (by rw [ht, List.append_nil]) (by simp)

theorem emit_carried (e : Effect) (h : is_EventScreenshot e = false) (w : WindowImpl σ) :
    carried w (emit e w) :=
  carried_of_quiet ⟨rfl, rfl, rfl, rfl⟩ rfl [e] rfl (by simpa using h)

theorem Report_carried (message : String) (w : WindowImpl σ) : carried w (Report message w) :=
  emit_carried (.Report message) rfl w

theorem map_not_EventScreenshot (effect : RenderTargetTextureDependencyInfo → Effect)
    (l : List RenderTargetTextureDependencyInfo) (h : ∀ d, is_EventScreenshot (effect d) = false) :
    ∀ e ∈ l.map effect, is_EventScreenshot e = false := by
  intro e he
  obtain ⟨d, _, rfl⟩ := List.mem_map.mp he
  exact h d

theorem ConfirmFinished_carried (ops : RenderTargetOps σ) (i : Nat) (w : WindowImpl σ) :
    carried w (ConfirmRenderTargetTextureRenderFinished ops i w) := by
  rw [ConfirmFinished_frame]
  exact carried_of_quiet ⟨rfl, rfl, rfl, rfl⟩ rfl _ rfl
    (map_not_EventScreenshot _ _ (fun _ => rfl))

theorem Abort_carried (ops : RenderTargetOps σ) (w : WindowImpl σ) :
    carried w (AbortRenderTargetTextureRender ops w) := by
  rw [Abort_frame]
  exact carried_of_quiet ⟨rfl, rfl, rfl, rfl⟩ rfl _ rfl
    (map_not_EventScreenshot _ _ (fun _ => rfl))

theorem ConfirmSubmission_carried (ops : RenderTargetOps σ) (w : WindowImpl σ) :
    carried w (ConfirmRenderTargetTextureRenderSubmission ops w) := by
  rw [ConfirmSubmission_frame]
  exact carried_of_quiet ⟨rfl, rfl, rfl, rfl⟩ rfl _ rfl
    (map_not_EventScreenshot _ _ (fun _ => rfl))

theorem Commit_carried (ops : RenderTargetOps σ)
    (collector : RenderTargetTextureRenderCollector) (w : WindowImpl σ) :
    carried w (CommitRenderTargetTextureRender ops collector w).2.2 := by
  have hf := Commit_frame ops collector w
  have ht : ∃ delta, (CommitRenderTargetTextureRender ops collector w).2.2.trace =
      w.trace ++ delta ∧ ∀ e ∈ delta, is_EventScreenshot e = false := by
    unfold CommitRenderTargetTextureRender
    rcases commit_loop_trace ops (dependencies_of w w.next_image) collector w with
      ⟨_, h⟩ | ⟨_, pre, d, post, _, h⟩
    · exact ⟨_, h, map_not_EventScreenshot
        (fun d => Effect.CommitRenderTargetTextureRender d true) _ (fun _ => rfl)⟩
    · refine ⟨pre.map (fun d => Effect.CommitRenderTargetTextureRender d true) ++
        [Effect.CommitRenderTargetTextureRender d false], by rw [h, List.append_assoc], ?_⟩
      intro e he
      rcases List.mem_append.mp he with h1 | h1
      · exact map_not_EventScreenshot
          (fun d => Effect.CommitRenderTargetTextureRender d true) _ (fun _ => rfl) e h1
      · rw [List.mem_singleton] at h1
        rw [h1]
        rfl
  obtain ⟨delta, e1, e2⟩ := ht
  generalize CommitRenderTargetTextureRender ops collector w = c at hf e1
  rw [hf] at e1 ⊢
  exact carried_of_quiet ⟨rfl, rfl, rfl, rfl⟩ rfl delta e1 e2

/-- The report of a finished screenshot ends the request in progress. -/
theorem HandleScreenshotEvent_carried (w : WindowImpl σ)
    (h : w.screenshot_state = .WAITING_EVENT_REPORT) : carried w (HandleScreenshotEvent w) := by
  have hin : screenshot_in_progress w = 1 := by
    unfold screenshot_in_progress
    rw [h]
    decide
  have ht : screenshot_deliveries (HandleScreenshotEvent w).trace ≤
      screenshot_deliveries w.trace + 1 := by
    unfold HandleScreenshotEvent
    lift_lets
    intro w0 w1 
    have h0 : w0 = w := by
      simp only [w0]
      rw [if_pos h]
    have h1 : screenshot_deliveries w1.trace ≤ screenshot_deliveries w0.trace + 1 := by
      simp only [w1]
      split_ifs <;>
        simp [screenshot_deliveries, emit, List.countP_append, List.countP_cons,
          is_EventScreenshot]
    rw [h0] at h1
    exact h1
  rw [HandleScreenshotEvent_frame]
  refine ⟨⟨rfl, rfl, rfl, rfl⟩, ?_⟩
  unfold screenshot_progress
  rw [hin]
  have hz : screenshot_in_progress
      { w with
        screenshot_save_path := ""
        screenshot_event_error := false
        screenshot_event_message := ""
        screenshot_state := .IDLE
        trace := (HandleScreenshotEvent w).trace } = 0 := by
    simp [screenshot_in_progress]
  rw [hz]
  exact ht
end CarriedFacts

section CarriedFacts2
variable {σ : Type}

theorem screenshot_in_progress_le_one (w : WindowImpl σ) : screenshot_in_progress w ≤ 1 := by
  unfold screenshot_in_progress
  split_ifs <;> decide

theorem screenshot_in_progress_of_WAITING_RENDER (w : WindowImpl σ)
    (h : w.screenshot_state = .WAITING_RENDER) : screenshot_in_progress w = 1 := by
  unfold screenshot_in_progress
  rw [h]
  decide

/-- A step that adds no call of `EventScreenshot` and starts no request. -/
theorem carried_of_step {w w1 : WindowImpl σ} (hc : same_draw_cache w w1)
    (hs : screenshot_in_progress w1 ≤ screenshot_in_progress w) (delta : List Effect)
    (ht : w1.trace = w.trace ++ delta) (hd : ∀ e ∈ delta, is_EventScreenshot e = false) :
    carried w w1 := by
  refine ⟨hc, ?_⟩
  have h0 : delta.countP is_EventScreenshot = 0 := by
    rw [List.countP_eq_zero]
    intro e he
    rw [hd e he]
    decide
  unfold screenshot_progress screenshot_deliveries
  rw [ht, List.countP_append, h0]
  omega

theorem carried_of_update {w w1 : WindowImpl σ} (hc : same_draw_cache w w1)
    (hs : screenshot_in_progress w1 ≤ screenshot_in_progress w) (ht : w1.trace = w.trace) :
    carried w w1 :=
  carried_of_step hc hs [] (by rw [ht, List.append_nil]) (by simp)

theorem SynchronizeFrame_screenshot_carried (o : SynchronizeFrameOutcome) (w : WindowImpl σ) :
    carried w (SynchronizeFrame_screenshot o w) := by
  unfold SynchronizeFrame_screenshot
  lift_lets
  intro texel_count w0 w00 w1
  have h1 : carried w w1 := by
    simp only [w1]
    by_cases hcond : w.screenshot_state = .WAITING_RENDER ∧
        w.screenshot_swapchain_id = w.previous_image
    · rw [if_pos hcond]
      have hin := screenshot_in_progress_of_WAITING_RENDER w hcond.1
      cases o.mapped_data <;> simp only []
      · exact carried_of_step ⟨rfl, rfl, rfl, rfl⟩
          (by rw [hin]; exact screenshot_in_progress_le_one _)
          [.Report "Internal error: Cannot save screenshot, cannot map screenshot buffer memory!"]
          rfl (by simp [is_EventScreenshot])
      · split_ifs
        · exact carried_of_update ⟨rfl, rfl, rfl, rfl⟩
            (by rw [hin]; exact screenshot_in_progress_le_one _) rfl
        · exact carried_of_step ⟨rfl, rfl, rfl, rfl⟩
            (by rw [hin]; exact screenshot_in_progress_le_one _)
            [.ScheduleTask_ScreenshotSaverTask] rfl (by simp [is_EventScreenshot])
    · rw [if_neg hcond]
      exact carried.stay w
  clear_value w1
  split_ifs with h
  · exact h1.andThen (HandleScreenshotEvent_carried w1 h)
  · exact h1

theorem SynchronizeFrame_carried (ops : RenderTargetOps σ) (o : SynchronizeFrameOutcome)
    (w : WindowImpl σ) : carried w (SynchronizeFrame ops o w).2 := by
  unfold SynchronizeFrame
  lift_lets
  intro w1 w2 w3 w4
  have h1 : carried w w1 := emit_carried _ (by rfl) w
  have h2 : carried w w2 := h1.andThen (ConfirmFinished_carried ops _ w1)
  have h3 : carried w w3 := h2.andThen (emit_carried _ (by rfl) w2)
  have h4 : carried w w4 := h3.andThen (SynchronizeFrame_screenshot_carried o w3)
  clear_value w1 w2 w3 w4
  split_ifs
  · exact h1.andThen (Report_carried _ w1)
  · exact h1.andThen (Report_carried _ w1)
  · exact h3.andThen (Report_carried _ w3)
  · exact h4.andThen (carried_of_update ⟨rfl, rfl, rfl, rfl⟩ (Nat.le_refl _) rfl)
  · exact carried.stay w

theorem ReCreateSwapchain_carried (ops : RenderTargetOps σ) (o : ReCreateSwapchainOutcome)
    (w : WindowImpl σ) : carried w (ReCreateSwapchain ops o w).2 := by
  unfold ReCreateSwapchain
  lift_lets
  intro s src w1 w2 found w3 w4 w5
  have hs : carried w s.2 := SynchronizeFrame_carried ops _ w
  have h1 : carried w w1 := hs.andThen (carried_of_update ⟨rfl, rfl, rfl, rfl⟩ (Nat.le_refl _) rfl)
  have h2 : carried w w2 := h1.andThen (carried_of_update ⟨rfl, rfl, rfl, rfl⟩ (Nat.le_refl _) rfl)
  have h3 : carried w w3 := h2.andThen (carried_of_update ⟨rfl, rfl, rfl, rfl⟩ (Nat.le_refl _) rfl)
  have h4 : carried w w4 := h3.andThen (carried_of_update ⟨rfl, rfl, rfl, rfl⟩ (Nat.le_refl _) rfl)
  have h5 : carried w w5 := h4.andThen (carried_of_update ⟨rfl, rfl, rfl, rfl⟩ (Nat.le_refl _) rfl)
  clear_value s src w1 w2 found w3 w4 w5
  split_ifs
  · exact hs
  · exact h1.andThen (Report_carried _ w1)
  · exact h2.andThen (Report_carried _ w2)
  · exact h3.andThen (Report_carried _ w3)
  · exact h3.andThen (Report_carried _ w3)
  · exact h4.andThen (Report_carried _ w4)
  · exact h5.andThen (carried_of_update ⟨rfl, rfl, rfl, rfl⟩ (Nat.le_refl _) rfl)
  · exact h5.andThen (Report_carried _ w5)
end CarriedFacts2

section CarriedFacts3
variable {σ : Type}

theorem screenshot_in_progress_of_WAITING_FILE_WRITE (w : WindowImpl σ)
    (h : w.screenshot_state = .WAITING_FILE_WRITE) : screenshot_in_progress w = 1 := by
  unfold screenshot_in_progress
  rw [h]
  decide

theorem screenshot_in_progress_of_REQUESTED (w : WindowImpl σ)
    (h : w.screenshot_state = .REQUESTED) : screenshot_in_progress w = 1 := by
  unfold screenshot_in_progress
  rw [h]
  decide

theorem ReCreateScreenshotResources_carried (o : RecreateOutcome) (w : WindowImpl σ) :
    carried w (ReCreateScreenshotResources o w).2 := by
  unfold ReCreateScreenshotResources
  lift_lets
  intro w1
  have h1 : carried w w1 := by
    simp only [w1]
    split_ifs with h
    · exact carried_of_update ⟨rfl, rfl, rfl, rfl⟩
        (by rw [screenshot_in_progress_of_WAITING_FILE_WRITE w h]
            exact screenshot_in_progress_le_one _) rfl
    · exact carried.stay w
  clear_value w1
  split_ifs
  · exact h1.andThen (carried_of_step ⟨rfl, rfl, rfl, rfl⟩ (Nat.zero_le _)
      [.Report "Internal error: Cannot create internal screenshot image, screenshots disabled!"]
      rfl (by simp [is_EventScreenshot]))
  · exact h1.andThen (carried_of_step ⟨rfl, rfl, rfl, rfl⟩ (Nat.zero_le _)
      [.Report "Internal error: Cannot create internal screenshot buffer, screenshots disabled!"]
      rfl (by simp [is_EventScreenshot]))
  · exact h1

theorem AllocateCommandBuffers_carried (o : RecreateOutcome) (w : WindowImpl σ) :
    carried w (AllocateCommandBuffers o w).2 := by
  unfold AllocateCommandBuffers
  lift_lets
  intro w1
  have h1 : carried w w1 := carried_of_update ⟨rfl, rfl, rfl, rfl⟩ (Nat.le_refl _) rfl
  clear_value w1
  split_ifs
  · exact h1.andThen (Report_carried _ w1)
  · exact h1

theorem CreateFrameSynchronizationPrimitives_carried (o : RecreateOutcome)
    (w : WindowImpl σ) : carried w (CreateFrameSynchronizationPrimitives o w).2 := by
  unfold CreateFrameSynchronizationPrimitives
  lift_lets
  intro w1 w2
  have h1 : carried w w1 := carried_of_update ⟨rfl, rfl, rfl, rfl⟩ (Nat.le_refl _) rfl
  have h2 : carried w w2 := h1.andThen (carried_of_update ⟨rfl, rfl, rfl, rfl⟩ (Nat.le_refl _) rfl)
  clear_value w1 w2
  split_ifs
  · exact h1.andThen (Report_carried _ w1)
  · exact h2.andThen (Report_carried _ w2)
  · exact h2

theorem Recreate_carried (ops : RenderTargetOps σ) (o : RecreateOutcome) (w : WindowImpl σ) :
    carried w (RecreateWindowSizeDependantResources ops o w).2 := by
  unfold RecreateWindowSizeDependantResources
  lift_lets
  intro w0 s src1 w1 w2 w3 c p src2
  have h0 : carried w w0 := Report_carried _ w
  have hs : carried w s.2 := h0.andThen (ReCreateSwapchain_carried ops _ w0)
  have h1 : carried w w1 := hs.andThen (carried_of_update ⟨rfl, rfl, rfl, rfl⟩ (Nat.le_refl _) rfl)
  have h2 : carried w w2 := h1.andThen (ReCreateScreenshotResources_carried o w1)
  have h3 : carried w w3 := h2.andThen (carried_of_update ⟨rfl, rfl, rfl, rfl⟩ (Nat.le_refl _) rfl)
  have hc : carried w c.2 := by
    simp only [c]
    split_ifs
    · exact h3.andThen (AllocateCommandBuffers_carried o w3)
    · exact h3
  have hp : carried w p.2 := by
    simp only [p]
    split_ifs
    · exact hc.andThen (CreateFrameSynchronizationPrimitives_carried o c.2)
    · exact hc
  have hp2 : carried w src2 := hp
  clear_value w0 s src1 w1 w2 w3 c p src2
  split_ifs
  · exact hs
  · exact h3
  · exact hc
  · exact hp
  · exact hp2.andThen ((carried_of_update ⟨rfl, rfl, rfl, rfl⟩ (Nat.le_refl _) rfl).andThen
      (Report_carried _ _))

theorem TryAcquire_carried (o : TryAcquireOutcome) (w : WindowImpl σ) :
    carried w (TryAcquireAndWaitAvailable o w).2 := by
  unfold TryAcquireAndWaitAvailable
  lift_lets
  intro new_image_index acquire_result w1 w2 w3
  have h1 : carried w w1 := emit_carried _ (by rfl) w
  have h2 : carried w w2 := h1.andThen (emit_carried _ (by rfl) w1)
  have h3 : carried w w3 := h2.andThen (emit_carried _ (by rfl) w2)
  clear_value new_image_index acquire_result w1 w2 w3
  split_ifs
  · exact h2.andThen (Report_carried _ w2)
  · exact h3.andThen (Report_carried _ w3)
  · exact h3
  · exact h1

theorem AcquireImage_carried (ops : RenderTargetOps σ) (o : AcquireImageOutcome)
    (w : WindowImpl σ) : carried w (AcquireImage ops o w).2 := by
  unfold AcquireImage
  lift_lets
  intro result w1 src1 w2 rebuilt retry_result w3
  have h1 : carried w result.2 := TryAcquire_carried o.first w
  have h10 : carried w w1 := h1
  have hs1 : carried w src1 := h1.andThen (Report_carried _ _)
  have h2 : carried w w2 := h1.andThen (Report_carried _ _)
  have hr : carried w rebuilt.2 :=
    h2.andThen (Recreate_carried ops o.RecreateWindowSizeDependantResources w2)
  have ht : carried w retry_result.2 := hr.andThen (TryAcquire_carried o.retry rebuilt.2)
  have h3 : carried w w3 := ht.andThen (Report_carried _ _)
  clear_value result w1 src1 w2 rebuilt retry_result w3
  split_ifs
  · exact h10.andThen (carried_of_update ⟨rfl, rfl, rfl, rfl⟩ (Nat.le_refl _) rfl)
  · exact hs1.andThen (carried_of_update ⟨rfl, rfl, rfl, rfl⟩ (Nat.le_refl _) rfl)
  · exact hr.andThen (Report_carried _ _)
  · exact h3.andThen (carried_of_update ⟨rfl, rfl, rfl, rfl⟩ (Nat.le_refl _) rfl)
  · exact ht.andThen (Report_carried _ _)
  · exact h1.andThen (emit_carried _ (by rfl) _)

/-- `BeginRender` carries the cached pipeline, sampler and texture over, and the account of
screenshot requests; of the cached state it may only change the line width. -/
theorem BeginRender_carried (ops : RenderTargetOps σ) (o : BeginRenderOutcome)
    (w : WindowImpl σ) :
    (BeginRender ops o w).2.previous_pipeline_settings = w.previous_pipeline_settings ∧
      (BeginRender ops o w).2.previous_sampler = w.previous_sampler ∧
      (BeginRender ops o w).2.previous_texture = w.previous_texture ∧
      screenshot_progress w (BeginRender ops o w).2 := by
  have key : ∀ v : WindowImpl σ, carried w v →
      v.previous_pipeline_settings = w.previous_pipeline_settings ∧
        v.previous_sampler = w.previous_sampler ∧ v.previous_texture = w.previous_texture ∧
        screenshot_progress w v := fun v h => ⟨h.1.1, h.1.2.1, h.1.2.2.1, h.2⟩
  unfold BeginRender
  lift_lets
  intro w1 rebuilt acquired synced w2
  have h1 : carried w w1 := carried_of_update ⟨rfl, rfl, rfl, rfl⟩ (Nat.le_refl _) rfl
  have hr : carried w rebuilt.2 := by
    simp only [rebuilt]
    split_ifs
    · exact h1.andThen (Recreate_carried ops o.RecreateWindowSizeDependantResources w1)
    · exact h1
  have ha : carried w acquired.2 := hr.andThen (AcquireImage_carried ops o.AcquireImage rebuilt.2)
  have hs : carried w synced.2 := by
    simp only [synced]
    split_ifs
    · exact ha.andThen (SynchronizeFrame_carried ops o.SynchronizeFrame acquired.2)
    · exact ha
  have h2 : carried w w2 := hs.andThen (emit_carried _ (by rfl) synced.2)
  clear_value w1 rebuilt acquired synced w2
  split_ifs
  · exact key _ (carried.stay w)
  · exact key _ (Report_carried _ w)
  · exact key _ (hr.andThen (Report_carried _ _))
  · exact key _ (ha.andThen (Report_carried _ _))
  · exact key _ (hs.andThen (Report_carried _ _))
  · exact key _ (h2.andThen (Report_carried _ _))
  · exact ⟨h2.1.1, h2.1.2.1, h2.1.2.2.1, h2.2⟩

theorem EndRender_record_carried (ops : RenderTargetOps σ) (o : EndRenderOutcome)
    (w : WindowImpl σ) : carried w (EndRender_record ops o w).2 := by
  unfold EndRender_record
  lift_lets
  intro w2 w3 synced w4 w5
  have h2 : carried w w2 := by
    simp only [w2]
    split_ifs with h
    · exact carried_of_update ⟨rfl, rfl, rfl, rfl⟩
        (by rw [screenshot_in_progress_of_REQUESTED w h]
            exact screenshot_in_progress_le_one _) rfl
    · exact carried.stay w
  have h3 : carried w w3 := h2.andThen (emit_carried _ (by rfl) w2)
  have hs : carried w synced.2 := h3.andThen (SynchronizeFrame_carried ops _ w3)
  have h4 : carried w w4 := hs.andThen (emit_carried _ (by rfl) synced.2)
  have h5 : carried w w5 := h4.andThen (emit_carried _ (by rfl) w4)
  clear_value w2 w3 synced w4 w5
  split_ifs
  · exact h3.andThen (Report_carried _ w3)
  · exact hs.andThen (Report_carried _ synced.2)
  · exact h4.andThen (Report_carried _ w4)
  · exact h4.andThen (Report_carried _ w4)
  · exact h4.andThen (Report_carried _ w4)
  · exact h5.andThen (Report_carried _ w5)
  · exact h5
end CarriedFacts3

section CarriedFacts4
variable {σ : Type}

/-- The present and the closing assignments of `EndRender`: the cached state is reset when
the block returns true and untouched when it returns false. -/
theorem EndRender_present_carried (o : EndRenderOutcome) (w : WindowImpl σ) :
    screenshot_progress w (EndRender_present o w).2 ∧
      ((EndRender_present o w).1 = false → same_draw_cache w (EndRender_present o w).2) ∧
      ((EndRender_present o w).1 = true →
        (EndRender_present o w).2.previous_pipeline_settings = none ∧
          (EndRender_present o w).2.previous_sampler = none ∧
          (EndRender_present o w).2.previous_texture = none ∧
          (EndRender_present o w).2.previous_line_width = 0) := by
  unfold EndRender_present
  lift_lets
  intro w5 presented src
  have h5 : carried w w5 := emit_carried _ (by rfl) w
  have hp : carried w presented.2 := by
    simp only [presented]
    split_ifs
    · exact h5.andThen (carried_of_update ⟨rfl, rfl, rfl, rfl⟩ (Nat.le_refl _) rfl)
    · exact h5.andThen (Report_carried _ w5)
    · exact h5
  have hsrc : carried w src := hp
  clear_value w5 presented src
  by_cases hb : presented.1 = true
  · rw [if_neg (by rw [hb]; decide)]
    exact ⟨hsrc.2, fun h => by simp at h, fun _ => ⟨rfl, rfl, rfl, rfl⟩⟩
  · rw [if_pos (by simpa using hb)]
    exact ⟨hp.2, fun _ => hp.1, fun h => by simp at h⟩

theorem EndRender_submit_carried (ops : RenderTargetOps σ) (o : EndRenderOutcome)
    (w : WindowImpl σ) :
    screenshot_progress w (EndRender_submit ops o w).2 ∧
      ((EndRender_submit ops o w).1 = false → same_draw_cache w (EndRender_submit ops o w).2) ∧
      ((EndRender_submit ops o w).1 = true →
        (EndRender_submit ops o w).2.previous_pipeline_settings = none ∧
          (EndRender_submit ops o w).2.previous_sampler = none ∧
          (EndRender_submit ops o w).2.previous_texture = none ∧
          (EndRender_submit ops o w).2.previous_line_width = 0) := by
  rw [EndRender_submit_eq]
  have hc := Commit_carried ops [] w
  generalize CommitRenderTargetTextureRender ops [] w = c at hc
  split_ifs
  · have h := hc.andThen ((Abort_carried ops c.2.2).andThen
      (Report_carried "Internal error: Cannot commit render target textures for rendering!" _))
    exact ⟨h.2, fun _ => h.1, fun h0 => by simp at h0⟩
  · have h := hc.andThen ((emit_carried (.Submit
        (collected_submit_infos c.2.1 ++
          [window_transfer_submit_info, window_render_submit_info ops c.2.2])
        (.vk_gpu_to_cpu_frame_fences c.2.2.next_image) o.Submit) (by rfl) c.2.2).andThen
      ((Abort_carried ops _).andThen
        (Report_carried
          "Internal error: Cannot submit frame end pre compute graphics command buffers!" _)))
    exact ⟨h.2, fun _ => h.1, fun h0 => by simp at h0⟩
  · have h := hc.andThen ((emit_carried (.Submit
        (collected_submit_infos c.2.1 ++
          [window_transfer_submit_info, window_render_submit_info ops c.2.2])
        (.vk_gpu_to_cpu_frame_fences c.2.2.next_image) o.Submit) (by rfl) c.2.2).andThen
      (ConfirmSubmission_carried ops _))
    obtain ⟨p1, p2, p3⟩ := EndRender_present_carried o
      (ConfirmRenderTargetTextureRenderSubmission ops
        (emit (.Submit
          (collected_submit_infos c.2.1 ++
            [window_transfer_submit_info, window_render_submit_info ops c.2.2])
          (.vk_gpu_to_cpu_frame_fences c.2.2.next_image) o.Submit) c.2.2))
    exact ⟨Nat.le_trans p1 h.2, fun hf => (h.andThen ⟨p2 hf, p1⟩).1, p3⟩

/-- `EndRender` as a whole: every call keeps the account of screenshot requests; a call that
returns false leaves the cached state as it was; a call on a window that is not iconified
that returns true leaves it reset. -/
theorem EndRender_carried (ops : RenderTargetOps σ) (o : EndRenderOutcome)
    (w : WindowImpl σ) :
    screenshot_progress w (EndRender ops o w).2 ∧
      ((EndRender ops o w).1 = false → same_draw_cache w (EndRender ops o w).2) ∧
      (w.is_iconified = false → (EndRender ops o w).1 = true →
        (EndRender ops o w).2.previous_pipeline_settings = none ∧
          (EndRender ops o w).2.previous_sampler = none ∧
          (EndRender ops o w).2.previous_texture = none ∧
          (EndRender ops o w).2.previous_line_width = 0) := by
  unfold EndRender
  lift_lets
  intro recorded
  have h0 : carried w { w with next_render_call_function := .BEGIN } :=
    carried_of_update ⟨rfl, rfl, rfl, rfl⟩ (Nat.le_refl _) rfl
  have hr : carried w recorded.2 := h0.andThen (EndRender_record_carried ops o _)
  obtain ⟨s1, s2, s3⟩ := EndRender_submit_carried ops o recorded.2
  clear_value recorded
  split_ifs with c1 c2 c3
  · exact ⟨Nat.le_refl _, fun h => by simp at h, fun hi => by rw [hi] at c1; simp at c1⟩
  · have h := Report_carried "'Window::EndRender()' Called twice in a row!" w
    exact ⟨h.2, fun _ => h.1, fun _ h1 => by simp at h1⟩
  · exact ⟨hr.2, fun _ => hr.1, fun _ h1 => by simp at h1⟩
  · exact ⟨Nat.le_trans s1 hr.2, fun hf => (hr.andThen ⟨s2 hf, s1⟩).1, fun _ ht => s3 ht⟩
end CarriedFacts4

section DrawCacheClaims
variable {σ : Type}

theorem draw_binds_of_reset (command_buffer : VkCommandBuffer)
    (pipeline_settings : GraphicsPipelineSettings) (sampler : Nat) (texture : Texture) :
    draw_binds command_buffer pipeline_settings sampler texture none none none =
      [.vkCmdBindPipeline command_buffer pipeline_settings,
        .vkCmdBindDescriptorSets command_buffer (.sampler_descriptor_sets sampler),
        .vkCmdBindDescriptorSets command_buffer (.texture_descriptor_sets texture)] := by
  simp [draw_binds]

theorem binds_sublist (a b c last : Effect) (mid : List Effect) :
    List.Sublist [a, b, c] ([a] ++ mid ++ [b] ++ [c] ++ [last]) := by
  simp only [List.append_assoc, List.singleton_append]
  apply List.Sublist.cons₂
  exact (List.sublist_append_left [b, c] [last]).trans (List.sublist_append_right mid _)

/-- With the cached pipeline, sampler and texture reset, each draw call records a bind of its
pipeline, of its sampler and of its texture, in this order, before it draws. -/
theorem draw_after_reset_rebinds (ops : RenderTargetOps σ) (vk2d_instance : InstanceImpl)
    (o : DrawOutcome)
    (raw_indices_size vertices_size texture_layer_weights_size transformations_size : Nat)
    (filled : Bool) (texture : Option Texture) (sampler : Option Nat) (line_width : ℚ)
    (v : WindowImpl σ) (hicon : v.is_iconified = false)
    (h1 : v.previous_pipeline_settings = none) (h2 : v.previous_sampler = none)
    (h3 : v.previous_texture = none) :
    (∃ pipeline_settings,
      List.Sublist [.vkCmdBindPipeline (.vk_render_command_buffers v.next_image) pipeline_settings,
        .vkCmdBindDescriptorSets (.vk_render_command_buffers v.next_image)
          (.sampler_descriptor_sets (spec_bound_sampler vk2d_instance sampler)),
        .vkCmdBindDescriptorSets (.vk_render_command_buffers v.next_image)
          (.texture_descriptor_sets (spec_bound_texture vk2d_instance o texture))]
        (trace_since v
          (DrawTriangleList ops vk2d_instance o raw_indices_size vertices_size
            texture_layer_weights_size transformations_size filled texture sampler v))) ∧
      (∃ pipeline_settings,
        List.Sublist [.vkCmdBindPipeline (.vk_render_command_buffers v.next_image) pipeline_settings,
          .vkCmdBindDescriptorSets (.vk_render_command_buffers v.next_image)
            (.sampler_descriptor_sets (spec_bound_sampler vk2d_instance sampler)),
          .vkCmdBindDescriptorSets (.vk_render_command_buffers v.next_image)
            (.texture_descriptor_sets (spec_bound_texture vk2d_instance o texture))]
          (trace_since v
            (DrawLineList ops vk2d_instance o raw_indices_size vertices_size
              texture_layer_weights_size transformations_size texture sampler line_width v))) ∧
      (∃ pipeline_settings,
        List.Sublist [.vkCmdBindPipeline (.vk_render_command_buffers v.next_image) pipeline_settings,
          .vkCmdBindDescriptorSets (.vk_render_command_buffers v.next_image)
            (.sampler_descriptor_sets (spec_bound_sampler vk2d_instance sampler)),
          .vkCmdBindDescriptorSets (.vk_render_command_buffers v.next_image)
            (.texture_descriptor_sets (spec_bound_texture vk2d_instance o texture))]
          (trace_since v
            (DrawPointList ops vk2d_instance o vertices_size texture_layer_weights_size
              transformations_size texture sampler v))) := by
  obtain ⟨ps1, e1⟩ := DrawTriangleList_eq ops vk2d_instance o raw_indices_size vertices_size
    texture_layer_weights_size transformations_size filled texture sampler v hicon
  obtain ⟨ps2, e2⟩ := DrawLineList_eq ops vk2d_instance o raw_indices_size vertices_size
    texture_layer_weights_size transformations_size texture sampler line_width v hicon
  obtain ⟨ps3, e3⟩ := DrawPointList_eq ops vk2d_instance o vertices_size
    texture_layer_weights_size transformations_size texture sampler v hicon
  refine ⟨⟨ps1, ?_⟩, ⟨ps2, ?_⟩, ⟨ps3, ?_⟩⟩
  · rw [e1, h1, h2, h3, draw_binds_of_reset]
    rw [trace_since_append v _ _ (List.append_assoc _ _ _)]
    exact List.sublist_append_left _ _
  · rw [e2, h1, h2, h3]
    rw [trace_since_append v _ _ (List.append_assoc _ _ _)]
    have n1 : ¬ ((none : Option GraphicsPipelineSettings) = some ps2) := by simp
    have n2 : ¬ ((none : Option Nat) = some (spec_bound_sampler vk2d_instance sampler)) := by
      simp
    have n3 : ¬ ((none : Option Texture) = some (spec_bound_texture vk2d_instance o texture)) := by
      simp
    rw [if_neg n1, if_neg n2, if_neg n3]
    exact binds_sublist _ _ _ _ _
  · rw [e3, h1, h2, h3, draw_binds_of_reset]
    rw [trace_since_append v _ _ (List.append_assoc _ _ _)]
    exact List.sublist_append_left _ _

/-- C12 (amended): an `EndRender` on a window that is not iconified that returns true leaves
`previous_pipeline_settings`, `previous_sampler`, `previous_texture` and
`previous_line_width` reset to their empty values; the `BeginRender` that follows keeps
pipeline, sampler and texture reset, so that the first draw call of the next frame records a
bind of its pipeline, of its sampler and of its texture. -/
theorem EndRender_resets_draw_cache_on_success (ops : RenderTargetOps σ)
    (o : EndRenderOutcome) (w : WindowImpl σ) (hicon : w.is_iconified = false)
    (hok : (EndRender ops o w).1 = true) :
    (((EndRender ops o w).2.previous_pipeline_settings = none ∧
        (EndRender ops o w).2.previous_sampler = none ∧
        (EndRender ops o w).2.previous_texture = none ∧
        (EndRender ops o w).2.previous_line_width = 0) ∧
      ∀ (ob : BeginRenderOutcome) (vk2d_instance : InstanceImpl) (od : DrawOutcome)
        (raw_indices_size vertices_size texture_layer_weights_size transformations_size : Nat)
        (filled : Bool) (texture : Option Texture) (sampler : Option Nat) (line_width : ℚ),
        (∃ pipeline_settings,
          List.Sublist [.vkCmdBindPipeline
              (.vk_render_command_buffers
                (BeginRender ops ob (EndRender ops o w).2).2.next_image) pipeline_settings,
            .vkCmdBindDescriptorSets
              (.vk_render_command_buffers
                (BeginRender ops ob (EndRender ops o w).2).2.next_image)
              (.sampler_descriptor_sets (spec_bound_sampler vk2d_instance sampler)),
            .vkCmdBindDescriptorSets
              (.vk_render_command_buffers
                (BeginRender ops ob (EndRender ops o w).2).2.next_image)
              (.texture_descriptor_sets (spec_bound_texture vk2d_instance od texture))]
            (trace_since (BeginRender ops ob (EndRender ops o w).2).2
              (DrawTriangleList ops vk2d_instance od raw_indices_size vertices_size
                texture_layer_weights_size transformations_size filled texture sampler
                (BeginRender ops ob (EndRender ops o w).2).2))) ∧
        (∃ pipeline_settings,
          List.Sublist [.vkCmdBindPipeline
              (.vk_render_command_buffers
                (BeginRender ops ob (EndRender ops o w).2).2.next_image) pipeline_settings,
            .vkCmdBindDescriptorSets
              (.vk_render_command_buffers
                (BeginRender ops ob (EndRender ops o w).2).2.next_image)
              (.sampler_descriptor_sets (spec_bound_sampler vk2d_instance sampler)),
            .vkCmdBindDescriptorSets
              (.vk_render_command_buffers
                (BeginRender ops ob (EndRender ops o w).2).2.next_image)
              (.texture_descriptor_sets (spec_bound_texture vk2d_instance od texture))]
            (trace_since (BeginRender ops ob (EndRender ops o w).2).2
              (DrawLineList ops vk2d_instance od raw_indices_size vertices_size
                texture_layer_weights_size transformations_size texture sampler line_width
                (BeginRender ops ob (EndRender ops o w).2).2))) ∧
        (∃ pipeline_settings,
          List.Sublist [.vkCmdBindPipeline
              (.vk_render_command_buffers
                (BeginRender ops ob (EndRender ops o w).2).2.next_image) pipeline_settings,
            .vkCmdBindDescriptorSets
              (.vk_render_command_buffers
                (BeginRender ops ob (EndRender ops o w).2).2.next_image)
              (.sampler_descriptor_sets (spec_bound_sampler vk2d_instance sampler)),
            .vkCmdBindDescriptorSets
              (.vk_render_command_buffers
                (BeginRender ops ob (EndRender ops o w).2).2.next_image)
              (.texture_descriptor_sets (spec_bound_texture vk2d_instance od texture))]
            (trace_since (BeginRender ops ob (EndRender ops o w).2).2
              (DrawPointList ops vk2d_instance od vertices_size texture_layer_weights_size
                transformations_size texture sampler
                (BeginRender ops ob (EndRender ops o w).2).2)))) := by
  obtain ⟨_, _, kt⟩ := EndRender_carried ops o w
  have hreset := kt hicon hok
  refine ⟨hreset, ?_⟩
  intro ob vk2d_instance od raw_indices_size vertices_size texture_layer_weights_size
    transformations_size filled texture sampler line_width
  have hturn := (EndRender_true_path ops o w hicon hok).1
  have ht := EndRender_accepted_turn ops o w hicon hturn
  have hb := BeginRender_accepted_turn ops ob (EndRender ops o w).2 ht.1 ht.2.1
  have hc := BeginRender_carried ops ob (EndRender ops o w).2
  exact draw_after_reset_rebinds ops vk2d_instance od raw_indices_size vertices_size
    texture_layer_weights_size transformations_size filled texture sampler line_width _ hb.1
    (hc.1.trans hreset.1) (hc.2.1.trans hreset.2.1) (hc.2.2.1.trans hreset.2.2.1)

theorem EndRender_resets_draw_cache_on_success_witness :
    sample_drawn_window.is_iconified = false ∧
      (EndRender (sample_ops (fun _ => false)) (sample_end VK_SUCCESS)
        sample_drawn_window).2.previous_texture = none :=
  ⟨rfl,
    (EndRender_resets_draw_cache_on_success (sample_ops (fun _ => false))
      (sample_end VK_SUCCESS) sample_drawn_window rfl (by decide)).1.2.2.1⟩

set_option maxRecDepth 100000 in
/-- C12 as stated fails: the sample window has drawn with the default texture, so pipeline,
sampler and texture are cached; closing the render command buffer fails and `EndRender`,
past the alternation check, returns false with the three still cached, not reset. -/
theorem EndRender_failure_keeps_draw_cache :
    sample_drawn_window.is_iconified = false ∧
      sample_drawn_window.next_render_call_function = .END ∧
      (EndRender (sample_ops (fun _ => false)) sample_end_failing sample_drawn_window).1 =
        false ∧
      (EndRender (sample_ops (fun _ => false)) sample_end_failing
        sample_drawn_window).2.previous_texture =
        some { texture_impl := .TextureResourceImpl 0 } ∧
      (EndRender (sample_ops (fun _ => false)) sample_end_failing
        sample_drawn_window).2.previous_sampler = some 0 ∧
      (EndRender (sample_ops (fun _ => false)) sample_end_failing
        sample_drawn_window).2.previous_pipeline_settings =
        some { primitive_topology := .VK_PRIMITIVE_TOPOLOGY_TRIANGLE_LIST
               polygon_mode := .VK_POLYGON_MODE_FILL
               shader_programs := 3 } := by
  decide
end DrawCacheClaims

section ScreenshotClaims
variable {σ : Type}

theorem TakeScreenshotToFile_eq (save_path : String) (include_alpha : Bool)
    (w : WindowImpl σ) :
    (w.screenshot_state = .IDLE →
      TakeScreenshotToFile save_path include_alpha w =
        { w with
          screenshot_save_path := save_path
          screenshot_state := .REQUESTED
          screenshot_alpha := include_alpha }) ∧
      (w.screenshot_state ≠ .IDLE →
        TakeScreenshotToFile save_path include_alpha w =
          Report "Screenshot request ignored: Previous screenshot has not yet been processed."
            w) := by
  unfold TakeScreenshotToFile
  exact ⟨fun h => by rw [if_pos h], fun h => by rw [if_neg h]⟩

theorem TakeScreenshotToData_eq (include_alpha : Bool) (w : WindowImpl σ) :
    (w.screenshot_state = .IDLE →
      TakeScreenshotToData include_alpha w =
        { w with
          screenshot_save_path := ""
          screenshot_state := .REQUESTED
          screenshot_alpha := include_alpha }) ∧
      (w.screenshot_state ≠ .IDLE →
        TakeScreenshotToData include_alpha w =
          Report "Screenshot request ignored: Previous screenshot has not yet been processed."
            w) := by
  unfold TakeScreenshotToData
  exact ⟨fun h => by rw [if_pos h], fun h => by rw [if_neg h]⟩

/-- What `HandleScreenshotEvent` does when a screenshot is ready to be reported: with an event
handler installed it calls `EventScreenshot` once, with the save path of a file request or
the pixel data of a data request; without one it calls nothing; either way the window is
`IDLE` afterwards. -/
theorem HandleScreenshotEvent_delivery (w : WindowImpl σ)
    (h : w.screenshot_state = .WAITING_EVENT_REPORT) :
    (HandleScreenshotEvent w).screenshot_state = .IDLE ∧
      (HandleScreenshotEvent w).trace =
        w.trace ++
          (if w.event_handler.isSome then
            [if w.screenshot_save_path ≠ "" then
                .EventScreenshot w.screenshot_save_path { size := (0, 0), data := [] }
                  (!w.screenshot_event_error) w.screenshot_event_message
              else
                .EventScreenshot "" w.screenshot_save_data (!w.screenshot_event_error)
                  w.screenshot_event_message]
          else []) := by
  refine ⟨by rw [HandleScreenshotEvent_frame], ?_⟩
  unfold HandleScreenshotEvent
  rw [if_pos h]
  by_cases he : w.event_handler.isSome = true <;>
    by_cases hp : w.screenshot_save_path = "" <;> simp [emit, he, hp]

theorem ScreenshotSaverTask_carried (o : ScreenshotSaverOutcome) (w : WindowImpl σ)
    (h : w.screenshot_state = .WAITING_FILE_WRITE) : carried w (ScreenshotSaverTask o w) := by
  have hin := screenshot_in_progress_of_WAITING_FILE_WRITE w h
  unfold ScreenshotSaverTask
  rw [if_pos h]
  lift_lets
  intro w0 pixel_channels known w1 path w2 src w3
  have h0 : carried w w0 := carried.stay w
  have s0 : w0.screenshot_state = w.screenshot_state := rfl
  have h1 : carried w w1 := by
    simp only [w1]
    split_ifs
    · exact h0
    · exact h0.andThen (Report_carried _ w0)
  have s1 : w1.screenshot_state = w.screenshot_state := by
    simp only [w1]
    split_ifs <;> rfl
  have h2 : carried w w2 := h1.andThen (emit_carried _ (by rfl) w1)
  have s2 : w2.screenshot_state = w.screenshot_state := s1
  have hsrc : carried w src := h2.andThen (Report_carried _ w2)
  have ssrc : src.screenshot_state = w.screenshot_state := s2
  have h3 : carried w w3 := by
    simp only [w3]
    split_ifs
    · exact h2.andThen (carried_of_update ⟨rfl, rfl, rfl, rfl⟩ (Nat.le_refl _) rfl)
    · exact hsrc.andThen (carried_of_update ⟨rfl, rfl, rfl, rfl⟩ (Nat.le_refl _) rfl)
  have s3 : w3.screenshot_state = w.screenshot_state := by
    simp only [w3]
    split_ifs
    · exact s2
    · exact ssrc
  clear_value w0 pixel_channels known w1 path w2 src w3
  have hin3 : screenshot_in_progress w3 = 1 :=
    screenshot_in_progress_of_WAITING_FILE_WRITE w3 (s3.trans h)
  exact h3.andThen (carried_of_update ⟨rfl, rfl, rfl, rfl⟩
    (by rw [hin3]; exact screenshot_in_progress_le_one _) rfl)
end ScreenshotClaims

section ScreenshotClaims2
variable {σ : Type}

/-- One call adds at most one to deliveries plus request in progress, and only when it is a
screenshot request that finds the window `IDLE`. -/
theorem step_screenshot_account (ops : RenderTargetOps σ) (w : WindowImpl σ) (call : Call) :
    screenshot_deliveries (step ops w call).trace + screenshot_in_progress (step ops w call) ≤
      screenshot_deliveries w.trace + screenshot_in_progress w +
        (if is_screenshot_request call = true ∧ w.screenshot_state = .IDLE then 1 else 0) := by
  cases call with
  | BeginRender o =>
    have hn : ¬ (is_screenshot_request (.BeginRender o) = true ∧
        w.screenshot_state = .IDLE) := fun h => Bool.noConfusion h.1
    rw [if_neg hn]
    exact (BeginRender_carried ops o w).2.2.2
  | EndRender o =>
    have hn : ¬ (is_screenshot_request (.EndRender o) = true ∧
        w.screenshot_state = .IDLE) := fun h => Bool.noConfusion h.1
    rw [if_neg hn]
    exact (EndRender_carried ops o w).1
  | CheckAndAddRenderTargetTextureDependency texture =>
    have hn : ¬ (is_screenshot_request (.CheckAndAddRenderTargetTextureDependency texture) =
        true ∧ w.screenshot_state = .IDLE) := fun h => Bool.noConfusion h.1
    rw [if_neg hn]
    have e : step ops w (.CheckAndAddRenderTargetTextureDependency texture) =
        CheckAndAddRenderTargetTextureDependency ops texture w := rfl
    rw [e, CheckAndAdd_frame]
    exact Nat.le_refl _
  | TakeScreenshotToFile save_path include_alpha =>
    have e : step ops w (.TakeScreenshotToFile save_path include_alpha) =
        TakeScreenshotToFile save_path include_alpha w := rfl
    rw [e]
    by_cases hs : w.screenshot_state = .IDLE
    · rw [if_pos ⟨rfl, hs⟩, (TakeScreenshotToFile_eq save_path include_alpha w).1 hs]
      have hle := screenshot_in_progress_le_one
        { w with
          screenshot_save_path := save_path
          screenshot_state := .REQUESTED
          screenshot_alpha := include_alpha }
      show screenshot_deliveries w.trace + _ ≤ _
      omega
    · rw [if_neg (fun h => hs h.2), (TakeScreenshotToFile_eq save_path include_alpha w).2 hs]
      exact (Report_carried _ w).2
  | TakeScreenshotToData include_alpha =>
    have e : step ops w (.TakeScreenshotToData include_alpha) =
        TakeScreenshotToData include_alpha w := rfl
    rw [e]
    by_cases hs : w.screenshot_state = .IDLE
    · rw [if_pos ⟨rfl, hs⟩, (TakeScreenshotToData_eq include_alpha w).1 hs]
      have hle := screenshot_in_progress_le_one
        { w with
          screenshot_save_path := ""
          screenshot_state := .REQUESTED
          screenshot_alpha := include_alpha }
      show screenshot_deliveries w.trace + _ ≤ _
      omega
    · rw [if_neg (fun h => hs h.2), (TakeScreenshotToData_eq include_alpha w).2 hs]
      exact (Report_carried _ w).2
  | ScreenshotSaverTask o =>
    have hn : ¬ (is_screenshot_request (.ScreenshotSaverTask o) = true ∧
        w.screenshot_state = .IDLE) := fun h => Bool.noConfusion h.1
    rw [if_neg hn]
    have e : step ops w (.ScreenshotSaverTask o) =
        if w.screenshot_state = .WAITING_FILE_WRITE then ScreenshotSaverTask o w else w := rfl
    rw [e]
    split_ifs with h
    · exact (ScreenshotSaverTask_carried o w h).2
    · exact Nat.le_refl _
  | DisableEvents disable_events =>
    have hn : ¬ (is_screenshot_request (.DisableEvents disable_events) = true ∧
        w.screenshot_state = .IDLE) := fun h => Bool.noConfusion h.1
    rw [if_neg hn]
    have e : step ops w (.DisableEvents disable_events) = DisableEvents disable_events w := rfl
    rw [e]
    unfold DisableEvents
    split_ifs <;> exact Nat.le_refl _

theorem run_screenshot_account (ops : RenderTargetOps σ) (calls : List Call) :
    ∀ w : WindowImpl σ,
      screenshot_deliveries (run ops w calls).trace + screenshot_in_progress (run ops w calls) ≤
        screenshot_deliveries w.trace + screenshot_in_progress w +
          accepted_screenshot_requests ops w calls := by
  induction calls with
  | nil =>
    intro w
    exact Nat.le_refl _
  | cons call rest ih =>
    intro w
    have h1 := step_screenshot_account ops w call
    have h2 := ih (step ops w call)
    have e1 : run ops w (call :: rest) = run ops (step ops w call) rest := rfl
    have e2 : accepted_screenshot_requests ops w (call :: rest) =
        (if is_screenshot_request call = true ∧ w.screenshot_state = .IDLE then 1 else 0) +
          accepted_screenshot_requests ops (step ops w call) rest := rfl
    rw [e1, e2]
    omega

/-- C17 (amended): a call of `TakeScreenshotToFile` or `TakeScreenshotToData` is accepted
only when the window is `IDLE`; otherwise it is ignored with a report and changes nothing
else. In every sequence of calls the number of calls of `EventScreenshot`, plus one for a
request still in progress, never exceeds the number of accepted requests, so no accepted
request is delivered twice. The delivery is made by `HandleScreenshotEvent`: when an event
handler is installed it calls `EventScreenshot` once, with the save path of a file request and
with the pixel data of a data request, when none is installed it calls nothing, and either way
it returns the window to `IDLE`, where the next request is accepted. -/
theorem screenshot_request_delivered_at_most_once (ops : RenderTargetOps σ)
    (w : WindowImpl σ) (calls : List Call) :
    screenshot_deliveries (run ops w calls).trace + screenshot_in_progress (run ops w calls) ≤
        screenshot_deliveries w.trace + screenshot_in_progress w +
          accepted_screenshot_requests ops w calls ∧
      (∀ (v : WindowImpl σ) (save_path : String) (include_alpha : Bool),
        (v.screenshot_state = .IDLE →
          TakeScreenshotToFile save_path include_alpha v =
            { v with
              screenshot_save_path := save_path
              screenshot_state := .REQUESTED
              screenshot_alpha := include_alpha }) ∧
        (v.screenshot_state ≠ .IDLE →
          TakeScreenshotToFile save_path include_alpha v =
            Report "Screenshot request ignored: Previous screenshot has not yet been processed."
              v) ∧
        (v.screenshot_state = .IDLE →
          TakeScreenshotToData include_alpha v =
            { v with
              screenshot_save_path := ""
              screenshot_state := .REQUESTED
              screenshot_alpha := include_alpha }) ∧
        (v.screenshot_state ≠ .IDLE →
          TakeScreenshotToData include_alpha v =
            Report "Screenshot request ignored: Previous screenshot has not yet been processed."
              v)) ∧
      (∀ v : WindowImpl σ, v.screenshot_state = .WAITING_EVENT_REPORT →
        (HandleScreenshotEvent v).screenshot_state = .IDLE ∧
          (HandleScreenshotEvent v).trace =
            v.trace ++
              (if v.event_handler.isSome then
                [if v.screenshot_save_path ≠ "" then
                    .EventScreenshot v.screenshot_save_path { size := (0, 0), data := [] }
                      (!v.screenshot_event_error) v.screenshot_event_message
                  else
                    .EventScreenshot "" v.screenshot_save_data (!v.screenshot_event_error)
                      v.screenshot_event_message]
              else [])) :=
  ⟨run_screenshot_account ops calls w,
    fun v save_path include_alpha =>
      ⟨(TakeScreenshotToFile_eq save_path include_alpha v).1,
        (TakeScreenshotToFile_eq save_path include_alpha v).2,
        (TakeScreenshotToData_eq include_alpha v).1,
        (TakeScreenshotToData_eq include_alpha v).2⟩,
    fun v h => HandleScreenshotEvent_delivery v h⟩

theorem screenshot_request_delivered_at_most_once_witness :
    ({ sample_window with
        screenshot_state := .WAITING_EVENT_REPORT } : WindowImpl Nat).screenshot_state =
        .WAITING_EVENT_REPORT ∧
      (HandleScreenshotEvent
        { sample_window with screenshot_state := .WAITING_EVENT_REPORT }).trace =
        [.EventScreenshot "" { size := (0, 0), data := [] } true ""] :=
  ⟨rfl,
    ((screenshot_request_delivered_at_most_once (sample_ops (fun _ => false)) sample_window
      []).2.2 { sample_window with screenshot_state := .WAITING_EVENT_REPORT } rfl).2⟩

set_option maxRecDepth 100000 in
/-- C17 as stated fails. A second request made while the first is in progress is ignored:
after `TakeScreenshotToData` and `TakeScreenshotToFile` and the frames that serve a request,
`EventScreenshot` has been called once for the two calls, with pixel data and no path, and
the window is `IDLE` again. And a request served while events are disabled is never
delivered: no call of `EventScreenshot` for the one call, and the window is `IDLE` again. -/
theorem screenshot_request_not_delivered_once :
    (run (sample_ops (fun _ => false)) sample_window
        [.TakeScreenshotToData false, .TakeScreenshotToFile "shot.png" false,
          .BeginRender (sample_begin 0), .EndRender (sample_end VK_SUCCESS),
          .BeginRender (sample_begin_mapping 0)]).trace.filter is_EventScreenshot =
        [.EventScreenshot ""
          { size := (2, 1)
            data := [{ r := 10, g := 20, b := 30, a := 0 }, { r := 1, g := 2, b := 3, a := 128 }] }
          true ""] ∧
      (run (sample_ops (fun _ => false)) sample_window
        [.TakeScreenshotToData false, .TakeScreenshotToFile "shot.png" false,
          .BeginRender (sample_begin 0), .EndRender (sample_end VK_SUCCESS),
          .BeginRender (sample_begin_mapping 0)]).screenshot_state = .IDLE ∧
      (run (sample_ops (fun _ => false)) sample_window
        [.DisableEvents true, .TakeScreenshotToData false,
          .BeginRender (sample_begin 0), .EndRender (sample_end VK_SUCCESS),
          .BeginRender (sample_begin_mapping 0)]).trace.filter is_EventScreenshot = [] ∧
      (run (sample_ops (fun _ => false)) sample_window
        [.DisableEvents true, .TakeScreenshotToData false,
          .BeginRender (sample_begin 0), .EndRender (sample_end VK_SUCCESS),
          .BeginRender (sample_begin_mapping 0)]).screenshot_state = .IDLE := by
  decide
end ScreenshotClaims2

section OlderAcquireClaims

/-- The closing statements of the older `AquireImage`, when they return, return true. -/
theorem AquireImage_wait_returns_true (o : VK2D.AquireImageOutcome) (data : VK2D.WindowImpl)
    (r : Bool × VK2D.WindowImpl) (h : VK2D.AquireImage_wait o data = some r) : r.1 = true := by
  unfold VK2D.AquireImage_wait at h
  cases hw : o.vkWaitForFences with
  | none => rw [hw] at h; simp at h
  | some wait_result =>
    rw [hw] at h
    simp only [Option.some.injEq] at h
    rw [← h]

set_option maxRecDepth 100000 in
/-- C15, as the code has it: in the older `AquireImage` the value of the nested call is
dropped. When the first attempt reports `VK_ERROR_OUT_OF_DATE_KHR`, the rebuild succeeds and
the retry reports `VK_ERROR_OUT_OF_DATE_KHR` again, the retry gives up with a report, but the
outer call goes on to wait for the acquire fence and, if that wait returns, returns true: it
never returns false. On the sample window the two attempts store no index, the outer call
returns true when the wait returns and does not return when the wait does not, and
`BeginRender` returns true after it has begun to record the command buffer of slot 1, a slot
that was not acquired. -/
theorem AquireImage_drops_failed_retry :
    (∀ (o retry : VK2D.AquireImageOutcome) (rest : List VK2D.AquireImageOutcome)
        (data data2 : VK2D.WindowImpl) (r : Bool × VK2D.WindowImpl),
        o.vkAcquireNextImageKHR = VK_ERROR_OUT_OF_DATE_KHR →
        VK2D.RecreateResourcesAfterResizing o.RecreateResourcesAfterResizing
          (VK2D.emit
            (.vkAcquireNextImageKHR o.vkAcquireNextImageKHR
              (o.written_image_index.getD data.next_image))
            { data with next_image := o.written_image_index.getD data.next_image }) =
          some (true, data2) →
        retry.vkAcquireNextImageKHR = VK_ERROR_OUT_OF_DATE_KHR →
        VK2D.AquireImage (o :: retry :: rest) 0 data = some r → r.1 = true) ∧
      (VK2D.AquireImage
          [VK2D.sample_out_of_date (some VK_SUCCESS), VK2D.sample_out_of_date (some VK_SUCCESS)]
          0 VK2D.sample_window).map (fun r => (r.1, r.2.next_image, r.2.trace)) =
        some (true, 1,
          [.vkAcquireNextImageKHR VK_ERROR_OUT_OF_DATE_KHR 1,
            .vkAcquireNextImageKHR VK_ERROR_OUT_OF_DATE_KHR 1,
            .Report "Cannot aquire a swapchain image after retry!",
            .vkWaitForFences .vk_acquire_image_fence VK_SUCCESS,
            .vkResetFences .vk_acquire_image_fence VK_SUCCESS]) ∧
      (VK2D.AquireImage [VK2D.sample_out_of_date none, VK2D.sample_out_of_date none] 0
          VK2D.sample_window).isNone = true ∧
      (VK2D.BeginRender (VK2D.sample_begin_out_of_date (some VK_SUCCESS))
          VK2D.sample_window).map (fun r => (r.1, r.2.trace)) =
        some (true,
          [.vkAcquireNextImageKHR VK_ERROR_OUT_OF_DATE_KHR 1,
            .vkAcquireNextImageKHR VK_ERROR_OUT_OF_DATE_KHR 1,
            .Report "Cannot aquire a swapchain image after retry!",
            .vkWaitForFences .vk_acquire_image_fence VK_SUCCESS,
            .vkResetFences .vk_acquire_image_fence VK_SUCCESS,
            .vkBeginCommandBuffer (.vk_render_command_buffers 1) VK_SUCCESS]) := by
  refine ⟨?_, by decide, by decide, by decide⟩
  intro o retry rest data data2 r h1 h2 h3 h
  have n1 : o.vkAcquireNextImageKHR ≠ VK_SUCCESS := by rw [h1]; decide
  have n2 : ¬ o.vkAcquireNextImageKHR = VK_SUBOPTIMAL_KHR := by rw [h1]; decide
  have m1 : retry.vkAcquireNextImageKHR ≠ VK_SUCCESS := by rw [h3]; decide
  have m2 : ¬ retry.vkAcquireNextImageKHR = VK_SUBOPTIMAL_KHR := by rw [h3]; decide
  have m3 : (0 : Nat) + 1 ≠ 0 := by decide
  unfold VK2D.AquireImage at h
  simp only [] at h
  rw [if_pos n1, if_neg n2, if_pos h1, if_neg (by decide : ¬ (0 : Nat) ≠ 0), h2] at h
  simp only [] at h
  unfold VK2D.AquireImage at h
  simp only [] at h
  rw [if_pos m1, if_neg m2, if_pos h3, if_pos m3] at h
  simp only [] at h
  exact AquireImage_wait_returns_true o _ r h
end OlderAcquireClaims

section RectClaims

/-- C21: for every rectangle over a linearly ordered coordinate type, when control reaches the
end of the body of `GetOrganized()` the local copy `ret` is organized (its top left x and y
are the minimum, its bottom right x and y the maximum of the two coordinates of the
rectangle, an organized rectangle being copied unchanged) and the rectangle itself is
unchanged, but no `return` statement is ever reached: the call hands no rectangle back. -/
theorem GetOrganized_returns_nothing {T : Type} [LinearOrder T] (r : Rect2Base T) :
    r.GetOrganized.returned = none ∧
      r.GetOrganized.this = r ∧
      r.GetOrganized.ret.top_left.x = min r.top_left.x r.bottom_right.x ∧
      r.GetOrganized.ret.bottom_right.x = max r.top_left.x r.bottom_right.x ∧
      r.GetOrganized.ret.top_left.y = min r.top_left.y r.bottom_right.y ∧
      r.GetOrganized.ret.bottom_right.y = max r.top_left.y r.bottom_right.y ∧
      r.GetOrganized.ret.top_left.x ≤ r.GetOrganized.ret.bottom_right.x ∧
      r.GetOrganized.ret.top_left.y ≤ r.GetOrganized.ret.bottom_right.y ∧
      (r.top_left.x ≤ r.bottom_right.x → r.top_left.y ≤ r.bottom_right.y →
        r.GetOrganized.ret = r) := by
  obtain ⟨⟨x1, y1⟩, ⟨x2, y2⟩⟩ := r
  refine ⟨rfl, rfl, ?_⟩
  simp only [Rect2Base.GetOrganized]
  by_cases hx : x2 < x1 <;> by_cases hy : y2 < y1
  · simp [hx, hy, min_def, max_def, le_of_lt hx, le_of_lt hy, not_le.mpr hx, not_le.mpr hy]
  · simp [hx, hy, min_def, max_def, le_of_lt hx, not_lt.mp hy, not_le.mpr hx]
  · simp [hx, hy, min_def, max_def, not_lt.mp hx, le_of_lt hy, not_le.mpr hy]
  · simp [hx, hy, min_def, max_def, not_lt.mp hx, not_lt.mp hy]

end RectClaims

section CursorFacts

theorem resize_texels_nil_length (count : Nat) : (resize_texels count []).length = count := by
  simp [resize_texels]

theorem memcpy_texels_length (destination source : List Color8) (past_source : Nat → Color8)
    (byte_count : Nat) :
    (memcpy_texels destination source past_source byte_count).length = destination.length := by
  simp [memcpy_texels]

/-- The first texels of the destination of a `memcpy` are the source, when the byte count
covers the source and the destination has room for it. -/
theorem memcpy_texels_take (destination source : List Color8) (past_source : Nat → Color8)
    (byte_count : Nat) (h1 : source.length ≤ byte_count / sizeof_Color8)
    (h2 : source.length ≤ destination.length) :
    (memcpy_texels destination source past_source byte_count).take source.length = source := by
  apply List.ext_getElem
  · simp [memcpy_texels, h2]
  · intro i hi1 hi2
    have hi : i < source.length := hi2
    have hb : i < byte_count / sizeof_Color8 := lt_of_lt_of_le hi h1
    simp [memcpy_texels, List.getElem_take, hi, hb]

/-- A good implementation object passed the size check and holds four times as many texels
as the image has. -/
theorem CursorImpl_CursorImpl_good (o : CursorImplOutcome) (image_size : Nat × Nat)
    (image_data : List Color8) (hot_spot : Int × Int)
    (h : (CursorImpl_CursorImpl o image_size image_data hot_spot).is_good = true) :
    image_size.1 * image_size.2 % 2 ^ 64 = image_data.length ∧
      (CursorImpl_CursorImpl o image_size image_data hot_spot).extent = image_size ∧
      (CursorImpl_CursorImpl o image_size image_data hot_spot).hotSpot = hot_spot ∧
      (CursorImpl_CursorImpl o image_size image_data hot_spot).pixel_data =
        memcpy_texels
          (resize_texels (image_size.1 * image_size.2 * sizeof_Color8 % 2 ^ 64) [])
          image_data o.past_image_data
          (image_size.1 * image_size.2 * sizeof_Color8 % 2 ^ 64 * sizeof_Color8 % 2 ^ 64) := by
  revert h
  unfold CursorImpl_CursorImpl
  lift_lets
  intro this this1 this2 this3
  have e1 : this2.pixel_data =
      memcpy_texels
        (resize_texels (image_size.1 * image_size.2 * sizeof_Color8 % 2 ^ 64) [])
        image_data o.past_image_data
        (image_size.1 * image_size.2 * sizeof_Color8 % 2 ^ 64 * sizeof_Color8 % 2 ^ 64) := by
    simp only [this2, this1, this, CursorImpl.declared, resize_texels_nil_length]
  have e3 : this3.pixel_data = this2.pixel_data := rfl
  have g3 : this3.is_good = false := rfl
  have g0 : this.is_good = false := rfl
  clear_value this3 this2 this1 this
  split_ifs with hsize hcursor
  · intro h
    rw [g0] at h
    exact absurd h (by decide)
  · intro _
    exact ⟨not_not.mp hsize, rfl, rfl, e3.trans e1⟩
  · intro h
    rw [g3] at h
    exact absurd h (by decide)

/-- A good cursor holds a good implementation object. -/
theorem Cursor_Cursor_good (o : CursorImplOutcome) (image_size : Nat × Nat)
    (image_data : List Color8) (hot_spot : Int × Int)
    (h : (Cursor_Cursor o image_size image_data hot_spot).IsGood = true) :
    (Cursor_Cursor o image_size image_data hot_spot).impl =
        some (CursorImpl_CursorImpl o image_size image_data hot_spot) ∧
      (CursorImpl_CursorImpl o image_size image_data hot_spot).is_good = true := by
  revert h
  unfold Cursor_Cursor
  lift_lets
  intro impl
  unfold CursorImpl.IsGood
  cases hg : impl.is_good
  · simp [Cursor.IsGood]
  · simp

/-- Four times a positive count below `2 ^ 64`, computed in `size_t`, is not the count. -/
theorem size_t_four_times_ne (n : Nat) (h : n < 2 ^ 64) (hpos : 0 < n) :
    n * 4 % 2 ^ 64 ≠ n := by
  have hle : n ≤ n * 4 := Nat.le_mul_of_pos_right n (by decide)
  have h3 : n * 4 - n = n * 3 := by omega
  have hc : Nat.Coprime (2 ^ 64) 3 := by norm_num
  intro h0
  have hmod : n ≡ n * 4 [MOD 2 ^ 64] := by
    unfold Nat.ModEq
    rw [h0, Nat.mod_eq_of_lt h]
  have hd : 2 ^ 64 ∣ n * 4 - n := (Nat.modEq_iff_dvd' hle).mp hmod
  rw [h3] at hd
  have hn : 2 ^ 64 ∣ n := hc.dvd_of_dvd_mul_right hd
  exact absurd (Nat.le_of_dvd hpos hn) (not_le.mpr h)

theorem size_t_texel_bytes (n : Nat) (h : n * 16 < 2 ^ 64) :
    n * sizeof_Color8 % 2 ^ 64 = n * 4 ∧
      n * sizeof_Color8 % 2 ^ 64 * sizeof_Color8 % 2 ^ 64 = n * 16 ∧
      n ≤ n * 16 / sizeof_Color8 ∧ n ≤ n * 4 ∧ n * 4 = 4 * n ∧
      ∀ i, i < n * 4 → i < n * 16 / sizeof_Color8 := by
  have h4 : n * 4 < 2 ^ 64 := lt_of_le_of_lt (by omega) h
  have a1 : n * 4 * sizeof_Color8 = n * 16 := by simp only [sizeof_Color8]; omega
  have ed : n * 16 / sizeof_Color8 = n * 4 := by simp only [sizeof_Color8]; omega
  have a2 : n ≤ n * 4 := by omega
  have a3 : n * 4 = 4 * n := by omega
  have e4 : n * sizeof_Color8 % 2 ^ 64 = n * 4 := Nat.mod_eq_of_lt h4
  have e16 : n * 4 * sizeof_Color8 % 2 ^ 64 = n * 16 := by
    rw [a1]
    exact Nat.mod_eq_of_lt h
  refine ⟨e4, by rw [e4]; exact e16, by rw [ed]; exact a2, a2, a3, ?_⟩
  intro i hi
  rw [ed]
  exact hi

theorem uint32_product_lt (x y : Nat) (hx : x < 2 ^ 32) (hy : y < 2 ^ 32) : x * y < 2 ^ 64 := by
  calc x * y ≤ (2 ^ 32 - 1) * (2 ^ 32 - 1) :=
        Nat.mul_le_mul (Nat.le_pred_of_lt hx) (Nat.le_pred_of_lt hy)
    _ < 2 ^ 64 := by norm_num

end CursorFacts

section CursorClaims

/-- C22: a cursor that was created as good from an image of `x * y` texels passed the size
check (so a cursor whose `image_data` has another length is not created as good),
`GetSize()` returns `(x, y)` and `GetHotSpot()` the hot spot, but `GetTexelData()` returns
`x * y * sizeof( Color8 )` texels, four times as many as the size says: the first `x * y` of
them are `image_data`, the others are what the memory behind `image_data` held. For an image
with at least one texel the returned texels are therefore not `image_data`. -/
theorem Cursor_GetTexelData_is_four_times_too_long (o : CursorImplOutcome)
    (image_size : Nat × Nat) (image_data : List Color8) (hot_spot : Int × Int)
    (hx : image_size.1 < 2 ^ 32) (hy : image_size.2 < 2 ^ 32)
    (hgood : (Cursor_Cursor o image_size image_data hot_spot).IsGood = true) :
    image_data.length = image_size.1 * image_size.2 ∧
      (Cursor_Cursor o image_size image_data hot_spot).GetSize = some image_size ∧
      (Cursor_Cursor o image_size image_data hot_spot).GetHotSpot = some hot_spot ∧
      ∃ texels,
        (Cursor_Cursor o image_size image_data hot_spot).GetTexelData = some texels ∧
          texels.length = image_size.1 * image_size.2 * 4 % 2 ^ 64 ∧
          (image_size.1 * image_size.2 * 16 < 2 ^ 64 →
            texels.length = 4 * image_data.length ∧
              texels.take (image_size.1 * image_size.2) = image_data ∧
              ∀ i, image_data.length ≤ i → i < texels.length →
                texels.getD i { r := 0, g := 0, b := 0, a := 0 } =
                  o.past_image_data (i - image_data.length)) ∧
          (0 < image_size.1 * image_size.2 → texels ≠ image_data) := by
  obtain ⟨himpl, hg⟩ := Cursor_Cursor_good o image_size image_data hot_spot hgood
  obtain ⟨hsize, hextent, hhot, hdata⟩ :=
    CursorImpl_CursorImpl_good o image_size image_data hot_spot hg
  have hxy : image_size.1 * image_size.2 < 2 ^ 64 := uint32_product_lt _ _ hx hy
  have hlen : image_data.length = image_size.1 * image_size.2 := by
    rw [← hsize, Nat.mod_eq_of_lt hxy]
  have hl : (CursorImpl_CursorImpl o image_size image_data hot_spot).pixel_data.length =
      image_size.1 * image_size.2 * 4 % 2 ^ 64 := by
    rw [hdata, memcpy_texels_length, resize_texels_nil_length]
    rfl
  refine ⟨hlen, ?_, ?_, _, ?_, hl, ?_, ?_⟩
  · rw [Cursor.GetSize, himpl]
    exact congrArg some (by rw [CursorImpl.GetSize, hextent])
  · rw [Cursor.GetHotSpot, himpl]
    exact congrArg some (by rw [CursorImpl.GetHotSpot, hhot])
  · rw [Cursor.GetTexelData, himpl]
    rfl
  · intro hsmall
    obtain ⟨h4, h16, b1, b2, b3, b4⟩ := size_t_texel_bytes _ hsmall
    rw [hdata, h16, h4]
    refine ⟨?_, ?_, ?_⟩
    · rw [memcpy_texels_length, resize_texels_nil_length, hlen]
      exact b3
    · rw [← hlen]
      apply memcpy_texels_take
      · rw [hlen]
        exact b1
      · rw [resize_texels_nil_length, hlen]
        exact b2
    · intro i hi1 hi2
      rw [memcpy_texels_length, resize_texels_nil_length] at hi2
      have hb := b4 i hi2
      simp [memcpy_texels, resize_texels, hi2, hb, not_lt.mpr hi1]
  · intro hpos heq
    exact size_t_four_times_ne _ hxy hpos
      ((hl.symm.trans (congrArg List.length heq)).trans hlen)

end CursorClaims

section CursorClaims1

theorem Cursor_GetTexelData_is_four_times_too_long_witness :
    (Cursor_Cursor sample_cursor_outcome (2, 1) sample_texels (0, 0)).IsGood = true ∧
      (Cursor_Cursor sample_cursor_outcome (2, 1) sample_texels (0, 0)).GetSize = some (2, 1) ∧
      ∃ texels,
        (Cursor_Cursor sample_cursor_outcome (2, 1) sample_texels (0, 0)).GetTexelData =
            some texels ∧
          texels.length = 8 ∧ texels ≠ sample_texels := by
  obtain ⟨_, h1, _, texels, h2, h3, _, h4⟩ :=
    Cursor_GetTexelData_is_four_times_too_long sample_cursor_outcome (2, 1) sample_texels (0, 0)
      (by decide) (by decide) (by decide)
  exact ⟨by decide, h1, texels, h2, h3, h4 (by decide)⟩

end CursorClaims1

section CursorCopyClaims

/-- C29: copying a good cursor whose image has at least one texel, by the copy constructor or
by copy assignment, gives a cursor that is not good: the implementation is rebuilt from
`GetSize()` and `GetTexelData()` of the source, the texel data of the source is four times as
long as its size says, the size check of the constructor fails and the new implementation is
dropped. With `impl` null, `GetSize()`, `GetHotSpot()` and `GetTexelData()` of the copy have
no object to ask. -/
theorem Cursor_copy_of_good_cursor_is_not_good (o o1 : CursorImplOutcome)
    (image_size : Nat × Nat) (image_data : List Color8) (hot_spot : Int × Int) (this : Cursor)
    (hx : image_size.1 < 2 ^ 32) (hy : image_size.2 < 2 ^ 32)
    (hpos : 0 < image_size.1 * image_size.2)
    (hgood : (Cursor_Cursor o image_size image_data hot_spot).IsGood = true) :
    Cursor_Cursor_copy o1 (Cursor_Cursor o image_size image_data hot_spot) =
        some { impl := none } ∧
      Cursor_operator_assign o1 this (Cursor_Cursor o image_size image_data hot_spot) =
        some { impl := none } ∧
      Cursor.IsGood { impl := none } = false ∧
      Cursor.GetSize { impl := none } = none ∧
      Cursor.GetHotSpot { impl := none } = none ∧
      Cursor.GetTexelData { impl := none } = none := by
  obtain ⟨himpl, hg⟩ := Cursor_Cursor_good o image_size image_data hot_spot hgood
  obtain ⟨hsize, hextent, hhot, hdata⟩ :=
    CursorImpl_CursorImpl_good o image_size image_data hot_spot hg
  have hxy : image_size.1 * image_size.2 < 2 ^ 64 := uint32_product_lt _ _ hx hy
  have hl : (CursorImpl_CursorImpl o image_size image_data hot_spot).pixel_data.length =
      image_size.1 * image_size.2 * 4 % 2 ^ 64 := by
    rw [hdata, memcpy_texels_length, resize_texels_nil_length]
    rfl
  have hbad : (CursorImpl_CursorImpl o1
      (CursorImpl_CursorImpl o image_size image_data hot_spot).GetSize
      (CursorImpl_CursorImpl o image_size image_data hot_spot).GetTexelData
      (CursorImpl_CursorImpl o image_size image_data hot_spot).GetHotSpot).IsGood = false := by
    unfold CursorImpl.IsGood
    cases hc : (CursorImpl_CursorImpl o1
      (CursorImpl_CursorImpl o image_size image_data hot_spot).GetSize
      (CursorImpl_CursorImpl o image_size image_data hot_spot).GetTexelData
      (CursorImpl_CursorImpl o image_size image_data hot_spot).GetHotSpot).is_good
    · rfl
    · exfalso
      have h := (CursorImpl_CursorImpl_good o1 _ _ _ hc).1
      rw [CursorImpl.GetSize, CursorImpl.GetTexelData, hextent, hl,
        Nat.mod_eq_of_lt hxy] at h
      exact size_t_four_times_ne _ hxy hpos h.symm
  refine ⟨?_, ?_, rfl, rfl, rfl, rfl⟩
  · simp only [Cursor_Cursor_copy, himpl, hbad]
    rfl
  · simp only [Cursor_operator_assign, himpl, hbad]
    rfl

theorem Cursor_copy_of_good_cursor_is_not_good_witness :
    (Cursor_Cursor sample_cursor_outcome (2, 1) sample_texels (0, 0)).IsGood = true ∧
      (Cursor_Cursor_copy sample_cursor_outcome
        (Cursor_Cursor sample_cursor_outcome (2, 1) sample_texels (0, 0))).map Cursor.IsGood =
        some false :=
  ⟨by decide,
    by rw [(Cursor_copy_of_good_cursor_is_not_good sample_cursor_outcome sample_cursor_outcome
      (2, 1) sample_texels (0, 0) { impl := none } (by decide) (by decide) (by decide)
      (by decide)).1]; rfl⟩

end CursorCopyClaims

section FenceClaims

theorem Wait_time_point_of_set (this : Fence) (h : this.is_set = true) (timeout : Int)
    (readings : List Int) : this.Wait_time_point timeout readings = some true := by
  cases readings <;> simp [Fence.Wait_time_point, h]

theorem Fence_step_keeps_set (this : Fence) (h : this.is_set = true) (call : FenceCall) :
    (this.step call).is_set = true := by
  cases call <;> simp [Fence.step, Fence.Set, h]

theorem Fence_run_keeps_set (calls : List FenceCall) (this : Fence) (h : this.is_set = true) :
    (calls.foldl Fence.step this).is_set = true := by
  induction calls generalizing this with
  | nil => exact h
  | cons call rest ih => exact ih _ (Fence_step_keeps_set this h call)

/-- C23: used from one thread the fence is a one-shot latch. After `Set()`, `IsSet()` returns
true and both `Wait` overloads return true for every timeout without reading the clock once;
whatever calls follow a `Set()`, the fence stays set. On a fence that is not set, `Wait` with
a deadline that has passed when the clock is read after the wait returns false, for the
overload that takes a time point and for the overload that takes a duration that is not
positive. `Wait( nanoseconds::max() )` is `Wait( time_point::max() )`, whatever the clock
reads, and not a wait until the sum of the clock and the timeout. -/
theorem Fence_is_one_shot_latch (this : Fence) (timeout now : Int) (readings : List Int)
    (calls : List FenceCall) (first : Int) (later : List Int)
    (hunset : this.is_set = false) (hpassed : timeout ≤ first)
    (hsteady : now ≤ first) (hnow : -(2 ^ 63) ≤ now ∧ now < 2 ^ 63) :
    this.Set.IsSet = true ∧
      this.Set.Wait_time_point timeout readings = some true ∧
      this.Set.Wait_time_point timeout [] = some true ∧
      this.Set.Wait_nanoseconds timeout now readings = some true ∧
      this.Set.Wait_nanoseconds timeout now [] = some true ∧
      (calls.foldl Fence.step this.Set).IsSet = true ∧
      this.Wait_time_point timeout (first :: later) = some false ∧
      (∀ duration : Int, -(2 ^ 63) ≤ duration → duration ≤ 0 → -(2 ^ 63) ≤ now + duration →
        this.Wait_nanoseconds duration now (first :: later) = some false) ∧
      this.Wait_nanoseconds nanoseconds_max now readings =
        this.Wait_time_point time_point_max readings ∧
      this.Set.Wait_nanoseconds nanoseconds_max now readings =
        this.Set.Wait_time_point time_point_max readings := by
  have hs : this.Set.is_set = true := rfl
  refine ⟨rfl, Wait_time_point_of_set _ hs _ _, Wait_time_point_of_set _ hs _ _, ?_, ?_,
    Fence_run_keeps_set calls _ hs, ?_, ?_, ?_, ?_⟩
  · unfold Fence.Wait_nanoseconds
    split_ifs <;> exact Wait_time_point_of_set _ hs _ _
  · unfold Fence.Wait_nanoseconds
    split_ifs <;> exact Wait_time_point_of_set _ hs _ _
  · simp [Fence.Wait_time_point, hunset, hpassed]
  · intro duration hd1 hd2 hd3
    have hne : duration ≠ nanoseconds_max := by
      unfold nanoseconds_max
      omega
    have hlow : 0 ≤ now + duration + 2 ^ 63 := by omega
    have hhigh : now + duration + 2 ^ 63 < 2 ^ 64 := by omega
    have hsum : int64_t (now + duration) = now + duration := by
      unfold int64_t
      rw [Int.emod_eq_of_lt hlow hhigh]
      exact Int.add_sub_cancel _ _
    have hle : now + duration ≤ first := by omega
    simp [Fence.Wait_nanoseconds, hne, hsum, Fence.Wait_time_point, hunset, hle]
  · simp [Fence.Wait_nanoseconds]
  · simp [Fence.Wait_nanoseconds]

theorem Fence_is_one_shot_latch_witness :
    Fence.IsSet (Fence.Set { is_set := false }) = true ∧
      Fence.Wait_nanoseconds (Fence.Set { is_set := false }) 5 100 [] = some true ∧
      Fence.Wait_time_point { is_set := false } 90 [100] = some false ∧
      Fence.Wait_nanoseconds { is_set := false } (-10) 100 [100] = some false :=
  have h := Fence_is_one_shot_latch { is_set := false } 90 100 [] [.IsSet] 100 [] rfl
    (by decide) (by decide) (by decide)
  ⟨h.1, by decide, h.2.2.2.2.2.2.1, h.2.2.2.2.2.2.2.1 (-10) (by decide) (by decide) (by decide)⟩

end FenceClaims

section PresentModeFacts
variable {σ : Type}

/-- The loop over the supported present modes, read as a search: mailbox wins wherever it
stands, immediate is second, and otherwise the pair the loop started with is left. -/
theorem present_mode_search_eq (modes : List VkPresentModeKHR) (found : VkPresentModeKHR × Bool) :
    present_mode_search modes found =
      if .VK_PRESENT_MODE_MAILBOX_KHR ∈ modes then (.VK_PRESENT_MODE_MAILBOX_KHR, true)
      else if .VK_PRESENT_MODE_IMMEDIATE_KHR ∈ modes then (.VK_PRESENT_MODE_IMMEDIATE_KHR, true)
      else found := by
  induction modes generalizing found with
  | nil => simp [present_mode_search]
  | cons p rest ih =>
    unfold present_mode_search
    by_cases h1 : p = .VK_PRESENT_MODE_MAILBOX_KHR
    · simp [h1]
    · by_cases h2 : p = .VK_PRESENT_MODE_IMMEDIATE_KHR
      · subst h2
        rw [if_neg h1, if_pos rfl, ih]
        by_cases h3 : VkPresentModeKHR.VK_PRESENT_MODE_MAILBOX_KHR ∈ rest
        · simp [h3]
        · simp [h3]
      · rw [if_neg h1, if_neg h2, ih]
        have e1 : (VkPresentModeKHR.VK_PRESENT_MODE_MAILBOX_KHR ∈ p :: rest) ↔
            VkPresentModeKHR.VK_PRESENT_MODE_MAILBOX_KHR ∈ rest := by
          simp [Ne.symm h1]
        have e2 : (VkPresentModeKHR.VK_PRESENT_MODE_IMMEDIATE_KHR ∈ p :: rest) ↔
            VkPresentModeKHR.VK_PRESENT_MODE_IMMEDIATE_KHR ∈ rest := by
          simp [Ne.symm h2]
        simp only [e1, e2]

/-- What the block "Figure out present mode" leaves in `present_mode`. -/
theorem selected_present_mode_eq (vsync : Bool) (modes : List VkPresentModeKHR)
    (present_mode : VkPresentModeKHR) :
    (if !(if vsync then (VkPresentModeKHR.VK_PRESENT_MODE_FIFO_KHR, true)
          else present_mode_search modes (present_mode, false)).2
      then VkPresentModeKHR.VK_PRESENT_MODE_FIFO_KHR
      else (if vsync then (VkPresentModeKHR.VK_PRESENT_MODE_FIFO_KHR, true)
          else present_mode_search modes (present_mode, false)).1) =
      spec_present_mode vsync modes := by
  unfold spec_present_mode
  cases vsync
  · simp only [present_mode_search_eq, Bool.false_eq_true, if_false]
    by_cases h3 : VkPresentModeKHR.VK_PRESENT_MODE_MAILBOX_KHR ∈ modes
    · simp [h3]
    · by_cases h4 : VkPresentModeKHR.VK_PRESENT_MODE_IMMEDIATE_KHR ∈ modes
      · simp [h3, h4]
      · simp [h3, h4]
  · simp

/-- What `SynchronizeFrame` leaves alone of the members the swapchain is configured from. -/
theorem SynchronizeFrame_configuration (ops : RenderTargetOps σ) (o : SynchronizeFrameOutcome)
    (w : WindowImpl σ) :
    (SynchronizeFrame ops o w).2.vsync = w.vsync ∧
      (SynchronizeFrame ops o w).2.surface_capabilities = w.surface_capabilities ∧
      (SynchronizeFrame ops o w).2.present_mode = w.present_mode := by
  unfold SynchronizeFrame
  lift_lets
  intro w1 w2 w3 w4
  have h2 : w2.vsync = w.vsync ∧ w2.surface_capabilities = w.surface_capabilities ∧
      w2.present_mode = w.present_mode := by
    simp only [w2]
    rw [ConfirmFinished_frame]
    exact ⟨rfl, rfl, rfl⟩
  have h3 : w3.vsync = w.vsync ∧ w3.surface_capabilities = w.surface_capabilities ∧
      w3.present_mode = w.present_mode := h2
  have h4 : w4.vsync = w.vsync ∧ w4.surface_capabilities = w.surface_capabilities ∧
      w4.present_mode = w.present_mode := by
    simp only [w4]
    rw [SynchronizeFrame_screenshot_frame]
    exact h3
  clear_value w4 w3 w2
  split_ifs <;> first | exact ⟨rfl, rfl, rfl⟩ | exact h3 | exact h4


/-- What a successful `ReCreateSwapchain` leaves in the members the swapchain is configured
from and sized by. -/
theorem ReCreateSwapchain_success (ops : RenderTargetOps σ) (o : ReCreateSwapchainOutcome)
    (w : WindowImpl σ) (h : (ReCreateSwapchain ops o w).1 = true) :
    (ReCreateSwapchain ops o w).2.present_mode =
        spec_present_mode w.vsync o.surface_present_modes ∧
      (ReCreateSwapchain ops o w).2.swapchain_image_count =
        requested_swapchain_image_count w.vsync w.surface_capabilities ∧
      (ReCreateSwapchain ops o w).2.vk_swapchain_images_size = o.device_image_count ∧
      (ReCreateSwapchain ops o w).2.vk_swapchain_image_views_size = o.device_image_count := by
  revert h
  unfold ReCreateSwapchain
  lift_lets
  intro s src w1 w2 found w3 w4 w5
  have hs := SynchronizeFrame_configuration ops o.SynchronizeFrame w
  have h1 : w1.swapchain_image_count =
      requested_swapchain_image_count w.vsync w.surface_capabilities := by
    simp only [w1, s]
    rw [hs.1, hs.2.1]
  have hv : w2.vsync = w.vsync := hs.1
  have h3 : w3.present_mode = spec_present_mode w.vsync o.surface_present_modes := by
    simp only [w3, found]
    rw [selected_present_mode_eq, hv]
  have h5 : w5.present_mode = spec_present_mode w.vsync o.surface_present_modes ∧
      w5.swapchain_image_count =
        requested_swapchain_image_count w.vsync w.surface_capabilities ∧
      w5.vk_swapchain_images_size = o.device_image_count ∧
      w5.vk_swapchain_image_views_size = o.device_image_count := ⟨h3, h1, rfl, rfl⟩
  clear_value w5 w4 w3 found w2 w1 src s
  intro h
  split_ifs at h ⊢
  exact h5

theorem VK2D.report_vsync (message : String) (data : VK2D.WindowImpl) :
    (VK2D.report message data).vsync = data.vsync := by
  unfold VK2D.report
  split_ifs <;> rfl

theorem VK2D.SynchronizeFrame_vsync (o : VK2D.SynchronizeFrameOutcome) (data : VK2D.WindowImpl)
    (r : Bool × VK2D.WindowImpl) (h : VK2D.SynchronizeFrame o data = some r) :
    r.2.vsync = data.vsync := by
  revert h
  unfold VK2D.SynchronizeFrame
  intro h
  split at h
  · split at h
    · exact absurd h (by simp)
    · split_ifs at h <;> simp only [Option.some.injEq] at h <;> subst h <;>
        first | rfl | exact (VK2D.report_vsync _ _).trans rfl
  · simp only [Option.some.injEq] at h
    subst h
    rfl

/-- What a successful `CreateSwapchain` of the older implementation leaves in the present
mode. -/
theorem CreateSwapchain_success (o : VK2D.RecreateOutcome) (data : VK2D.WindowImpl)
    (h : (VK2D.CreateSwapchain o data).map Prod.fst = some true) :
    (VK2D.CreateSwapchain o data).map (fun r => r.2.present_mode) =
      some (spec_present_mode data.vsync o.surface_present_modes) := by
  revert h
  unfold VK2D.CreateSwapchain
  cases hs : VK2D.SynchronizeFrame o.SynchronizeFrame data with
  | none => simp
  | some r =>
    obtain ⟨b, data1⟩ := r
    have hv : data1.vsync = data.vsync := VK2D.SynchronizeFrame_vsync _ _ _ hs
    cases b
    · simp
    · simp only []
      intro h
      simp only [selected_present_mode_eq, hv] at h ⊢
      split_ifs at h ⊢
      · simp at h
      · rfl
      · simp at h

end PresentModeFacts

section PresentModeClaims
variable {σ : Type}

/-- C24: when `ReCreateSwapchain` returns true the present mode it selected is FIFO with vsync
and, without vsync, MAILBOX if the supported list contains MAILBOX wherever it stands,
otherwise IMMEDIATE if the list contains IMMEDIATE, otherwise FIFO; `CreateSwapchain` of the
older implementation selects the same mode. -/
theorem present_mode_selection (ops : RenderTargetOps σ) (o : ReCreateSwapchainOutcome)
    (w : WindowImpl σ) (older : VK2D.RecreateOutcome) (data : VK2D.WindowImpl)
    (h : (ReCreateSwapchain ops o w).1 = true)
    (holder : (VK2D.CreateSwapchain older data).map Prod.fst = some true) :
    (ReCreateSwapchain ops o w).2.present_mode =
        spec_present_mode w.vsync o.surface_present_modes ∧
      (VK2D.CreateSwapchain older data).map (fun r => r.2.present_mode) =
        some (spec_present_mode data.vsync older.surface_present_modes) ∧
      (∀ modes, spec_present_mode true modes = .VK_PRESENT_MODE_FIFO_KHR) ∧
      (∀ modes, .VK_PRESENT_MODE_MAILBOX_KHR ∈ modes →
        spec_present_mode false modes = .VK_PRESENT_MODE_MAILBOX_KHR) ∧
      (∀ modes, .VK_PRESENT_MODE_MAILBOX_KHR ∉ modes → .VK_PRESENT_MODE_IMMEDIATE_KHR ∈ modes →
        spec_present_mode false modes = .VK_PRESENT_MODE_IMMEDIATE_KHR) ∧
      (∀ modes, .VK_PRESENT_MODE_MAILBOX_KHR ∉ modes → .VK_PRESENT_MODE_IMMEDIATE_KHR ∉ modes →
        spec_present_mode false modes = .VK_PRESENT_MODE_FIFO_KHR) := by
  refine ⟨(ReCreateSwapchain_success ops o w h).1, CreateSwapchain_success older data holder,
    ?_, ?_, ?_, ?_⟩
  · intro modes
    simp [spec_present_mode]
  · intro modes h1
    simp [spec_present_mode, h1]
  · intro modes h1 h2
    simp [spec_present_mode, h1, h2]
  · intro modes h1 h2
    simp [spec_present_mode, h1, h2]

theorem present_mode_selection_witness :
    (ReCreateSwapchain (sample_ops (fun _ => false))
        (sample_recreate_modes [.VK_PRESENT_MODE_IMMEDIATE_KHR, .VK_PRESENT_MODE_FIFO_KHR,
          .VK_PRESENT_MODE_MAILBOX_KHR]).ReCreateSwapchain
        { sample_window with vsync := false }).1 = true ∧
      (ReCreateSwapchain (sample_ops (fun _ => false))
        (sample_recreate_modes [.VK_PRESENT_MODE_IMMEDIATE_KHR, .VK_PRESENT_MODE_FIFO_KHR,
          .VK_PRESENT_MODE_MAILBOX_KHR]).ReCreateSwapchain
        { sample_window with vsync := false }).2.present_mode = .VK_PRESENT_MODE_MAILBOX_KHR :=
  ⟨by decide,
    (present_mode_selection (sample_ops (fun _ => false))
      (sample_recreate_modes [.VK_PRESENT_MODE_IMMEDIATE_KHR, .VK_PRESENT_MODE_FIFO_KHR,
        .VK_PRESENT_MODE_MAILBOX_KHR]).ReCreateSwapchain
      { sample_window with vsync := false } VK2D.sample_recreate VK2D.sample_window
      (by decide) (by decide)).1.trans (by decide)⟩

end PresentModeClaims

section ImageCountFacts
variable {σ : Type}

theorem ReCreateScreenshotResources_image_counts (o : RecreateOutcome) (w : WindowImpl σ) :
    same_image_counts w (ReCreateScreenshotResources o w).2 := by
  unfold ReCreateScreenshotResources
  lift_lets
  intro w1
  have h1 : same_image_counts w w1 := by
    simp only [w1]
    split_ifs <;> exact ⟨rfl, rfl, rfl, rfl⟩
  clear_value w1
  split_ifs <;> exact h1

theorem AllocateCommandBuffers_image_counts (o : RecreateOutcome) (w : WindowImpl σ) :
    same_image_counts w (AllocateCommandBuffers o w).2 ∧
      (AllocateCommandBuffers o w).2.vk_framebuffers_size = w.vk_framebuffers_size ∧
      (AllocateCommandBuffers o w).2.vk_render_command_buffers_size =
        w.swapchain_image_count := by
  unfold AllocateCommandBuffers
  lift_lets
  intro w1
  split_ifs <;> exact ⟨⟨rfl, rfl, rfl, rfl⟩, rfl, rfl⟩

theorem CreateFrameSynchronizationPrimitives_image_counts (o : RecreateOutcome)
    (w : WindowImpl σ) (h : (CreateFrameSynchronizationPrimitives o w).1 = true) :
    same_image_counts w (CreateFrameSynchronizationPrimitives o w).2 ∧
      (CreateFrameSynchronizationPrimitives o w).2.vk_framebuffers_size =
        w.vk_framebuffers_size ∧
      (CreateFrameSynchronizationPrimitives o w).2.vk_render_command_buffers_size =
        w.vk_render_command_buffers_size ∧
      (CreateFrameSynchronizationPrimitives o w).2.vk_submit_to_present_semaphores_size =
        w.swapchain_image_count ∧
      (CreateFrameSynchronizationPrimitives o w).2.vk_gpu_to_cpu_frame_fences_size =
        w.swapchain_image_count := by
  revert h
  unfold CreateFrameSynchronizationPrimitives
  lift_lets
  intro w1 w2 h
  split_ifs at h ⊢
  exact ⟨⟨rfl, rfl, rfl, rfl⟩, rfl, rfl, rfl, rfl⟩

/-- After a successful rebuild every array of the frame slots has `swapchain_image_count`
elements, which is the count the window asked for from the capabilities it knew before the
call; the array of swapchain images has the number of elements the device reports. -/
theorem Recreate_image_counts (ops : RenderTargetOps σ) (o : RecreateOutcome) (w : WindowImpl σ)
    (h : (RecreateWindowSizeDependantResources ops o w).1 = true) :
    (RecreateWindowSizeDependantResources ops o w).2.swapchain_image_count =
        requested_swapchain_image_count w.vsync w.surface_capabilities ∧
      (RecreateWindowSizeDependantResources ops o w).2.vk_swapchain_images_size =
        o.ReCreateSwapchain.device_image_count ∧
      (RecreateWindowSizeDependantResources ops o w).2.vk_swapchain_image_views_size =
        o.ReCreateSwapchain.device_image_count ∧
      (RecreateWindowSizeDependantResources ops o w).2.vk_framebuffers_size =
        requested_swapchain_image_count w.vsync w.surface_capabilities ∧
      (RecreateWindowSizeDependantResources ops o w).2.vk_render_command_buffers_size =
        requested_swapchain_image_count w.vsync w.surface_capabilities ∧
      (RecreateWindowSizeDependantResources ops o w).2.vk_submit_to_present_semaphores_size =
        requested_swapchain_image_count w.vsync w.surface_capabilities ∧
      (RecreateWindowSizeDependantResources ops o w).2.vk_gpu_to_cpu_frame_fences_size =
        requested_swapchain_image_count w.vsync w.surface_capabilities ∧
      (RecreateWindowSizeDependantResources ops o w).2.render_target_texture_dependencies.length =
        requested_swapchain_image_count w.vsync w.surface_capabilities := by
  revert h
  unfold RecreateWindowSizeDependantResources
  lift_lets
  intro w0 s src1 w1 w2 w3 c p src2
  intro h
  by_cases hs : s.1 = true
  swap
  · exfalso
    have : (!s.1) = true := by simp [hs]
    rw [if_pos this] at h
    exact Bool.false_ne_true h
  have hsw := ReCreateSwapchain_success ops o.ReCreateSwapchain w0 hs
  generalize hn : requested_swapchain_image_count w.vsync w.surface_capabilities = n at *
  have hs1 : s.2.swapchain_image_count = n := hsw.2.1.trans hn
  have h1 : w1.swapchain_image_count = n ∧
      w1.vk_swapchain_images_size = o.ReCreateSwapchain.device_image_count ∧
      w1.vk_swapchain_image_views_size = o.ReCreateSwapchain.device_image_count ∧
      w1.render_target_texture_dependencies.length = n := by
    refine ⟨hs1, hsw.2.2.1, hsw.2.2.2, ?_⟩
    simp only [w1]
    rw [resize_dependencies_length]
    exact hs1
  have h2 : w2.swapchain_image_count = n ∧
      w2.vk_swapchain_images_size = o.ReCreateSwapchain.device_image_count ∧
      w2.vk_swapchain_image_views_size = o.ReCreateSwapchain.device_image_count ∧
      w2.render_target_texture_dependencies.length = n := by
    have t := ReCreateScreenshotResources_image_counts o w1
    exact ⟨t.1.trans h1.1, t.2.1.trans h1.2.1, t.2.2.1.trans h1.2.2.1, t.2.2.2.trans h1.2.2.2⟩
  have h3 : (w3.swapchain_image_count = n ∧
      w3.vk_swapchain_images_size = o.ReCreateSwapchain.device_image_count ∧
      w3.vk_swapchain_image_views_size = o.ReCreateSwapchain.device_image_count ∧
      w3.render_target_texture_dependencies.length = n) ∧ w3.vk_framebuffers_size = n :=
    ⟨h2, h2.1⟩
  have hc : ((c.2.swapchain_image_count = n ∧
      c.2.vk_swapchain_images_size = o.ReCreateSwapchain.device_image_count ∧
      c.2.vk_swapchain_image_views_size = o.ReCreateSwapchain.device_image_count ∧
      c.2.render_target_texture_dependencies.length = n) ∧ c.2.vk_framebuffers_size = n) ∧
      c.2.vk_render_command_buffers_size = n := by
    simp only [c]
    split_ifs with hcond
    · have t := AllocateCommandBuffers_image_counts o w3
      exact ⟨⟨⟨t.1.1.trans h3.1.1, t.1.2.1.trans h3.1.2.1, t.1.2.2.1.trans h3.1.2.2.1,
        t.1.2.2.2.trans h3.1.2.2.2⟩, t.2.1.trans h3.2⟩, t.2.2.trans h3.1.1⟩
    · exact ⟨h3, (not_not.mp hcond).trans h3.1.1⟩
  have hp : p.1 = true → (((p.2.swapchain_image_count = n ∧
      p.2.vk_swapchain_images_size = o.ReCreateSwapchain.device_image_count ∧
      p.2.vk_swapchain_image_views_size = o.ReCreateSwapchain.device_image_count ∧
      p.2.render_target_texture_dependencies.length = n) ∧ p.2.vk_framebuffers_size = n) ∧
      p.2.vk_render_command_buffers_size = n) ∧
      p.2.vk_submit_to_present_semaphores_size = n ∧
      p.2.vk_gpu_to_cpu_frame_fences_size = n := by
    simp only [p]
    split_ifs with hcond
    · intro hp1
      have t := CreateFrameSynchronizationPrimitives_image_counts o c.2 hp1
      exact ⟨⟨⟨⟨t.1.1.trans hc.1.1.1, t.1.2.1.trans hc.1.1.2.1, t.1.2.2.1.trans hc.1.1.2.2.1,
        t.1.2.2.2.trans hc.1.1.2.2.2⟩, t.2.1.trans hc.1.2⟩, t.2.2.1.trans hc.2⟩,
        t.2.2.2.1.trans hc.1.1.1, t.2.2.2.2.trans hc.1.1.1⟩
    · intro _
      have hcond2 := not_or.mp hcond
      exact ⟨hc, (not_not.mp hcond2.1).trans hc.1.1.1, (not_not.mp hcond2.2).trans hc.1.1.1⟩
  have hp2 : p.1 = true → (((src2.swapchain_image_count = n ∧
      src2.vk_swapchain_images_size = o.ReCreateSwapchain.device_image_count ∧
      src2.vk_swapchain_image_views_size = o.ReCreateSwapchain.device_image_count ∧
      src2.render_target_texture_dependencies.length = n) ∧ src2.vk_framebuffers_size = n) ∧
      src2.vk_render_command_buffers_size = n) ∧
      src2.vk_submit_to_present_semaphores_size = n ∧
      src2.vk_gpu_to_cpu_frame_fences_size = n := hp
  clear_value w0 s src1 w1 w2 w3 c p src2
  split_ifs at h ⊢ with a1 a2 a3 a4
  have hp1 : p.1 = true := by simpa using a4
  obtain ⟨⟨⟨⟨q1, q2, q3, q4⟩, q5⟩, q6⟩, q7, q8⟩ := hp2 hp1
  exact ⟨q1, q2, q3, q5, q6, q7, q8, q4⟩

end ImageCountFacts

section ImageCountClaims
variable {σ : Type}

/-- C26: after a successful rebuild the member `swapchain_image_count`, and with it the length
of every array of the frame slots, is the count the window asked for as the minimum, computed
from the capabilities it knew before the call, while `vk_swapchain_images` has the number of
elements the device reports. When the device creates more images than that minimum the member
is smaller than `vk_swapchain_images.size()`, and the index of the last image, which the
device can hand out, is outside every array of the frame slots. -/
theorem swapchain_image_count_is_requested_minimum (ops : RenderTargetOps σ)
    (o : RecreateOutcome) (w : WindowImpl σ)
    (h : (RecreateWindowSizeDependantResources ops o w).1 = true)
    (hmore : requested_swapchain_image_count w.vsync w.surface_capabilities <
      o.ReCreateSwapchain.device_image_count) :
    (RecreateWindowSizeDependantResources ops o w).2.swapchain_image_count =
        requested_swapchain_image_count w.vsync w.surface_capabilities ∧
      (RecreateWindowSizeDependantResources ops o w).2.vk_swapchain_images_size =
        o.ReCreateSwapchain.device_image_count ∧
      (RecreateWindowSizeDependantResources ops o w).2.swapchain_image_count <
        (RecreateWindowSizeDependantResources ops o w).2.vk_swapchain_images_size ∧
      ∃ index,
        index < (RecreateWindowSizeDependantResources ops o w).2.vk_swapchain_images_size ∧
          (RecreateWindowSizeDependantResources ops o w).2.vk_framebuffers_size ≤ index ∧
          (RecreateWindowSizeDependantResources ops o w).2.vk_render_command_buffers_size ≤
            index ∧
          (RecreateWindowSizeDependantResources ops o w).2.vk_gpu_to_cpu_frame_fences_size ≤
            index ∧
          (RecreateWindowSizeDependantResources ops o w).2.vk_submit_to_present_semaphores_size ≤
            index ∧
          (RecreateWindowSizeDependantResources ops o
            w).2.render_target_texture_dependencies.length ≤ index := by
  obtain ⟨h1, h2, _, h4, h5, h6, h7, h8⟩ := Recreate_image_counts ops o w h
  refine ⟨h1, h2, ?_, o.ReCreateSwapchain.device_image_count - 1, ?_, ?_, ?_, ?_, ?_, ?_⟩ <;>
    omega

theorem swapchain_image_count_is_requested_minimum_witness :
    (RecreateWindowSizeDependantResources (sample_ops (fun _ => false))
        sample_recreate_three_images sample_window).1 = true ∧
      (RecreateWindowSizeDependantResources (sample_ops (fun _ => false))
        sample_recreate_three_images sample_window).2.swapchain_image_count = 2 ∧
      (RecreateWindowSizeDependantResources (sample_ops (fun _ => false))
        sample_recreate_three_images sample_window).2.vk_swapchain_images_size = 3 ∧
      (BeginRender (sample_ops (fun _ => false)) sample_begin_three_images
        { sample_window with should_reconstruct := true }).1 = true ∧
      (BeginRender (sample_ops (fun _ => false)) sample_begin_three_images
        { sample_window with should_reconstruct := true }).2.next_image = 2 ∧
      (BeginRender (sample_ops (fun _ => false)) sample_begin_three_images
        { sample_window with should_reconstruct := true }).2.vk_render_command_buffers_size =
        2 :=
  have h := swapchain_image_count_is_requested_minimum (sample_ops (fun _ => false))
    sample_recreate_three_images sample_window (by decide) (by decide)
  ⟨by decide, h.1.trans (by decide), h.2.1, by decide, by decide, by decide⟩

end ImageCountClaims

section AcquireFenceClaims
variable {σ : Type}

/-- An attempt whose acquire succeeds or partly succeeds and whose wait for, or reset of, the
acquire fence fails reports the failure and returns `UINT32_MAX` together with the result of
the acquire. -/
theorem TryAcquire_fence_failure (o : TryAcquireOutcome) (w : WindowImpl σ)
    (hacq : o.vkAcquireNextImageKHR ≥ VK_SUCCESS)
    (hfail : o.vkWaitForFences ≠ VK_SUCCESS ∨ o.vkResetFences ≠ VK_SUCCESS) :
    (TryAcquireAndWaitAvailable o w).1 =
        { new_image := UINT32_MAX, vk_result := o.vkAcquireNextImageKHR } ∧
      ∃ message, Effect.Report message ∈ (TryAcquireAndWaitAvailable o w).2.trace ∧
        (message =
            "Internal error: Cannot acquire next swapchain image, error waiting for fence!" ∨
          message =
            "Internal error: Cannot acquire next swapchain image, error resetting fence!") := by
  unfold TryAcquireAndWaitAvailable
  lift_lets
  intro new_image_index acquire_result w1 w2 w3
  rw [if_pos hacq]
  by_cases hw : o.vkWaitForFences ≠ VK_SUCCESS
  · rw [if_pos hw]
    exact ⟨rfl, _, by simp [Report, emit], Or.inl rfl⟩
  · have hr : o.vkResetFences ≠ VK_SUCCESS := hfail.resolve_left hw
    rw [if_neg hw, if_pos hr]
    exact ⟨rfl, _, by simp [Report, emit], Or.inr rfl⟩

/-- With such a first attempt `AcquireImage` returns true and stores `UINT32_MAX` in
`next_image`. -/
theorem AcquireImage_fence_failure (ops : RenderTargetOps σ) (o : AcquireImageOutcome)
    (w : WindowImpl σ)
    (hacq : o.first.vkAcquireNextImageKHR = VK_SUCCESS ∨
      o.first.vkAcquireNextImageKHR = VK_SUBOPTIMAL_KHR)
    (hfail : o.first.vkWaitForFences ≠ VK_SUCCESS ∨ o.first.vkResetFences ≠ VK_SUCCESS) :
    (AcquireImage ops o w).1 = true ∧
      (AcquireImage ops o w).2.next_image = UINT32_MAX ∧
      ∃ message, Effect.Report message ∈ (AcquireImage ops o w).2.trace ∧
        (message =
            "Internal error: Cannot acquire next swapchain image, error waiting for fence!" ∨
          message =
            "Internal error: Cannot acquire next swapchain image, error resetting fence!") := by
  have hge : o.first.vkAcquireNextImageKHR ≥ VK_SUCCESS := by
    rcases hacq with h | h <;> first | (rw [h]; done) | (rw [h]; decide)
  obtain ⟨hres, message, hmem, hmessage⟩ := TryAcquire_fence_failure o.first w hge hfail
  unfold AcquireImage
  lift_lets
  intro result w1 src1 w2 rebuilt retry_result w3
  have hres1 : result.1.new_image = UINT32_MAX := by
    simp only [result]; rw [hres]
  have hres2 : result.1.vk_result = o.first.vkAcquireNextImageKHR := by
    simp only [result]; rw [hres]
  have hmem1 : Effect.Report message ∈ w1.trace := hmem
  have hmem2 : Effect.Report message ∈ src1.trace := List.mem_append_left _ hmem
  clear_value result w1 src1 w2 rebuilt retry_result w3
  rcases hacq with h | h
  · rw [if_pos (hres2.trans h)]
    exact ⟨rfl, hres1, message, hmem1, hmessage⟩
  · have n1 : ¬ result.1.vk_result = VK_SUCCESS := by rw [hres2, h]; decide
    rw [if_neg n1, if_pos (hres2.trans h)]
    exact ⟨rfl, hres1, message, hmem2, hmessage⟩

/-- C25: when the first acquire attempt returns `VK_SUCCESS` or `VK_SUBOPTIMAL_KHR` and the
wait for the acquire fence, or its reset, fails, `AcquireImage` reports that it cannot acquire
the next swapchain image and still returns true, with `next_image == UINT32_MAX`; a
`BeginRender` that gets this far without a rebuild then begins recording
`vk_render_command_buffers[ UINT32_MAX ]` and returns true when that call succeeds. -/
theorem AcquireImage_returns_true_with_invalid_image (ops : RenderTargetOps σ)
    (o : BeginRenderOutcome) (w : WindowImpl σ)
    (hacq : o.AcquireImage.first.vkAcquireNextImageKHR = VK_SUCCESS ∨
      o.AcquireImage.first.vkAcquireNextImageKHR = VK_SUBOPTIMAL_KHR)
    (hfail : o.AcquireImage.first.vkWaitForFences ≠ VK_SUCCESS ∨
      o.AcquireImage.first.vkResetFences ≠ VK_SUCCESS)
    (hicon : w.is_iconified = false) (hturn : w.next_render_call_function = .BEGIN)
    (hrec : w.should_reconstruct = false) (hprev : w.previous_image ≠ UINT32_MAX)
    (hbegin : o.vkBeginCommandBuffer = VK_SUCCESS) :
    (AcquireImage ops o.AcquireImage w).1 = true ∧
      (AcquireImage ops o.AcquireImage w).2.next_image = UINT32_MAX ∧
      (∃ message, Effect.Report message ∈ (AcquireImage ops o.AcquireImage w).2.trace ∧
        (message =
            "Internal error: Cannot acquire next swapchain image, error waiting for fence!" ∨
          message =
            "Internal error: Cannot acquire next swapchain image, error resetting fence!")) ∧
      (BeginRender ops o w).1 = true ∧
      (BeginRender ops o w).2.next_image = UINT32_MAX ∧
      (BeginRender ops o w).2.trace.getLast? =
        some (.vkBeginCommandBuffer (.vk_render_command_buffers UINT32_MAX) VK_SUCCESS) := by
  refine ⟨(AcquireImage_fence_failure ops o.AcquireImage w hacq hfail).1,
    (AcquireImage_fence_failure ops o.AcquireImage w hacq hfail).2.1,
    (AcquireImage_fence_failure ops o.AcquireImage w hacq hfail).2.2, ?_⟩
  unfold BeginRender
  have c1 : ¬ w.is_iconified = true := by rw [hicon]; decide
  have c2 : ¬ w.next_render_call_function ≠ .BEGIN := by rw [hturn]; decide
  rw [if_neg c1, if_neg c2]
  lift_lets
  intro w1 rebuilt acquired synced w2
  have hreb : rebuilt = (true, w1) := by
    have c3 : ¬ w1.should_reconstruct = true := by
      show ¬ w.should_reconstruct = true
      rw [hrec]; decide
    simp only [rebuilt]
    rw [if_neg c3]
  have ha := AcquireImage_fence_failure ops o.AcquireImage w1 hacq hfail
  have hp := (AcquireImage_position ops o.AcquireImage w1).2.2
  have ha1 : acquired.1 = true := by simp only [acquired]; rw [hreb]; exact ha.1
  have ha2 : acquired.2.next_image = UINT32_MAX := by
    simp only [acquired]; rw [hreb]; exact ha.2.1
  have ha3 : acquired.2.previous_image = w.previous_image := by
    simp only [acquired]; rw [hreb]; exact hp
  have hsync : synced = (true, acquired.2) := by
    have c4 : ¬ acquired.2.next_image = acquired.2.previous_image := by
      rw [ha2, ha3]; exact fun h => hprev h.symm
    simp only [synced]
    rw [if_neg c4]
  have h2 : w2.next_image = UINT32_MAX ∧
      w2.trace.getLast? =
        some (.vkBeginCommandBuffer (.vk_render_command_buffers UINT32_MAX) VK_SUCCESS) := by
    simp only [w2]
    rw [hsync, hbegin]
    refine ⟨ha2, ?_⟩
    rw [ha2]
    simp [emit]
  have hr1 : rebuilt.1 = true := by rw [hreb]
  have hs1 : synced.1 = true := by rw [hsync]
  clear_value w1 rebuilt acquired synced w2
  rw [hr1, ha1, hs1]
  simp only [Bool.not_true, Bool.false_eq_true, if_false, hbegin, ne_eq, not_true_eq_false]
  exact ⟨trivial, h2.1, h2.2⟩

theorem AcquireImage_returns_true_with_invalid_image_witness :
    (AcquireImage (sample_ops (fun _ => false)) sample_fence_wait_failing_acquire
        sample_window).1 = true ∧
      (BeginRender (sample_ops (fun _ => false)) sample_begin_fence_wait_failing
        sample_window).1 = true ∧
      (BeginRender (sample_ops (fun _ => false)) sample_begin_fence_wait_failing
        sample_window).2.next_image = 4294967295 ∧
      (BeginRender (sample_ops (fun _ => false)) sample_begin_fence_wait_failing
        sample_window).2.vk_render_command_buffers_size = 2 :=
  have h := AcquireImage_returns_true_with_invalid_image (sample_ops (fun _ => false))
    sample_begin_fence_wait_failing sample_window (Or.inl rfl) (Or.inl (by decide)) rfl rfl rfl
    (by decide) rfl
  ⟨h.1, h.2.2.2.1, h.2.2.2.2.1, rfl⟩

end AcquireFenceClaims

section IconifyClaims
variable {σ : Type}

/-- The iconify notification sets the iconified flag and leaves the turn alone. -/
theorem glfwWindowIconifyCallback_turn (iconify : Int) (w : WindowImpl σ) :
    (glfwWindowIconifyCallback iconify w).is_iconified = decide (iconify ≠ 0) ∧
      (glfwWindowIconifyCallback iconify w).next_render_call_function =
        w.next_render_call_function ∧
      w.trace <+: (glfwWindowIconifyCallback iconify w).trace := by
  unfold glfwWindowIconifyCallback
  lift_lets
  intro w1
  have h1 : w1.is_iconified = decide (iconify ≠ 0) ∧
      w1.next_render_call_function = w.next_render_call_function ∧ w1.trace = w.trace := by
    simp only [w1]
    split_ifs with h
    · exact ⟨by simp [h], rfl, rfl⟩
    · exact ⟨by simp [not_not.mp h], rfl, rfl⟩
  clear_value w1
  split_ifs
  · exact ⟨h1.1, h1.2.1, h1.2.2 ▸ emit_extends _ w1⟩
  · exact ⟨h1.1, h1.2.1, h1.2.2 ▸ List.prefix_refl _⟩

/-- C27: in a sequence that alternates `BeginRender` and `EndRender` a change of the
iconified flag between a `BeginRender` and its `EndRender` gets a call rejected by the
alternation check. A `BeginRender` on an iconified window returns true without taking its
turn, so that after the window is restored the `EndRender` that follows is rejected with
"Called twice in a row"; and when the window is iconified during a frame the `EndRender`
returns true without taking its turn, so that after the window is restored the next
`BeginRender` is rejected. This holds for every outcome of the device operations, so also when
all of them succeed, and neither rejected call reaches a device operation. -/
theorem iconify_between_calls_breaks_alternation (ops : RenderTargetOps σ)
    (b b1 : BeginRenderOutcome) (e : EndRenderOutcome) (w v : WindowImpl σ)
    (hw : w.is_iconified = true) (hwturn : w.next_render_call_function = .BEGIN)
    (hv : v.is_iconified = false) (hvturn : v.next_render_call_function = .BEGIN) :
    BeginRender ops b w = (true, w) ∧
      EndRender ops e (glfwWindowIconifyCallback 0 w) =
        (false, Report "'Window::EndRender()' Called twice in a row!"
          (glfwWindowIconifyCallback 0 w)) ∧
      EndRender ops e (glfwWindowIconifyCallback 1 (BeginRender ops b v).2) =
        (true, glfwWindowIconifyCallback 1 (BeginRender ops b v).2) ∧
      BeginRender ops b1
          (glfwWindowIconifyCallback 0 (glfwWindowIconifyCallback 1 (BeginRender ops b v).2)) =
        (false, Report "'Window::BeginRender()' Called twice in a row!"
          (glfwWindowIconifyCallback 0
            (glfwWindowIconifyCallback 1 (BeginRender ops b v).2))) := by
  have t0 := glfwWindowIconifyCallback_turn 0 w
  have hturn := (BeginRender_accepted_turn ops b v hv hvturn)
  have t1 := glfwWindowIconifyCallback_turn 1 (BeginRender ops b v).2
  have t2 := glfwWindowIconifyCallback_turn 0
    (glfwWindowIconifyCallback 1 (BeginRender ops b v).2)
  refine ⟨?_, ?_, ?_, ?_⟩
  · unfold BeginRender
    rw [if_pos hw]
  · unfold EndRender
    have c1 : ¬ (glfwWindowIconifyCallback 0 w).is_iconified = true := by
      rw [t0.1]; decide
    have c2 : (glfwWindowIconifyCallback 0 w).next_render_call_function ≠ .END := by
      rw [t0.2.1, hwturn]; decide
    rw [if_neg c1, if_pos c2]
  · unfold EndRender
    have c1 : (glfwWindowIconifyCallback 1 (BeginRender ops b v).2).is_iconified = true := by
      rw [t1.1]; decide
    rw [if_pos c1]
  · have c1 : ¬ (glfwWindowIconifyCallback 0
        (glfwWindowIconifyCallback 1 (BeginRender ops b v).2)).is_iconified = true := by
      rw [t2.1]; decide
    have c2 : (glfwWindowIconifyCallback 0
        (glfwWindowIconifyCallback 1 (BeginRender ops b v).2)).next_render_call_function ≠
          .BEGIN := by
      rw [t2.2.1, t1.2.1, hturn.2]; decide
    generalize glfwWindowIconifyCallback 0
      (glfwWindowIconifyCallback 1 (BeginRender ops b v).2) = x at c1 c2 ⊢
    unfold BeginRender
    rw [if_neg c1, if_pos c2]

theorem iconify_between_calls_breaks_alternation_witness :
    (BeginRender (sample_ops (fun _ => false)) (sample_begin 0) sample_iconified_window).1 =
        true ∧
      (EndRender (sample_ops (fun _ => false)) (sample_end VK_SUCCESS)
        (glfwWindowIconifyCallback 0
          (BeginRender (sample_ops (fun _ => false)) (sample_begin 0)
            sample_iconified_window).2)).1 = false ∧
      (EndRender (sample_ops (fun _ => false)) (sample_end VK_SUCCESS)
        (glfwWindowIconifyCallback 0
          (BeginRender (sample_ops (fun _ => false)) (sample_begin 0)
            sample_iconified_window).2)).2.trace =
        [.EventWindowIconify false, .Report "'Window::EndRender()' Called twice in a row!"] ∧
      (BeginRender (sample_ops (fun _ => false)) (sample_begin 0) sample_window).1 = true ∧
      (EndRender (sample_ops (fun _ => false)) (sample_end VK_SUCCESS)
        (glfwWindowIconifyCallback 1
          (BeginRender (sample_ops (fun _ => false)) (sample_begin 0) sample_window).2)).1 =
        true ∧
      (BeginRender (sample_ops (fun _ => false)) (sample_begin 1)
        (glfwWindowIconifyCallback 0 (glfwWindowIconifyCallback 1
          (BeginRender (sample_ops (fun _ => false)) (sample_begin 0) sample_window).2))).1 =
        false :=
  have h := iconify_between_calls_breaks_alternation (sample_ops (fun _ => false))
    (sample_begin 0) (sample_begin 1) (sample_end VK_SUCCESS) sample_iconified_window
    sample_window rfl rfl rfl rfl
  ⟨congrArg Prod.fst h.1, by rw [h.1, h.2.1], by rw [h.1, h.2.1]; decide, by decide,
    congrArg Prod.fst h.2.2.1, congrArg Prod.fst h.2.2.2⟩

end IconifyClaims

section FrameScopeClaims

set_option maxRecDepth 100000 in
/-- C28, evaluated: the first frame of a window draws with the render target 8 into slot 0
and its present fails with `VK_ERROR_SURFACE_LOST_KHR`, so that `EndRender` returns false
after the submission without recording the frame as the previous one. The `BeginRender` that
follows is handed slot 0 again and returns true while the handle of render target 8 is still
tracked for the slot, and the `EndRender` of this second frame, in which nothing was drawn,
commits render target 8 once more and lets the window submission wait for it. -/
theorem tracked_dependency_survives_failed_present :
    (EndRender (sample_ops (fun _ => false)) (sample_end VK_ERROR_SURFACE_LOST_KHR)
        (DrawTriangleList (sample_ops (fun _ => false)) sample_instance_impl sample_draw 3 3 0 1
          true (some sample_render_target_texture) none
          (BeginRender (sample_ops (fun _ => false)) (sample_begin 0) sample_window).2)).1 =
        false ∧
      (BeginRender (sample_ops (fun _ => false)) (sample_begin 0) sample_window).1 = true ∧
      dependencies_of (BeginRender (sample_ops (fun _ => false)) (sample_begin 0) sample_window).2
        0 = [] ∧
      (BeginRender (sample_ops (fun _ => false)) (sample_begin 0)
        sample_window_after_failed_present).1 = true ∧
      (BeginRender (sample_ops (fun _ => false)) (sample_begin 0)
        sample_window_after_failed_present).2.next_image = 0 ∧
      dependencies_of
        (BeginRender (sample_ops (fun _ => false)) (sample_begin 0)
          sample_window_after_failed_present).2 0 =
        [{ render_target := 8, swap_buffer_index := 0 }] ∧
      committed_targets
        (trace_since
          (BeginRender (sample_ops (fun _ => false)) (sample_begin 0)
            sample_window_after_failed_present).2
          (EndRender (sample_ops (fun _ => false)) (sample_end VK_SUCCESS)
            (BeginRender (sample_ops (fun _ => false)) (sample_begin 0)
              sample_window_after_failed_present).2).2) = [8] ∧
      (window_render_submit_info (sample_ops (fun _ => false))
        (BeginRender (sample_ops (fun _ => false)) (sample_begin 0)
          sample_window_after_failed_present).2).pWaitSemaphores =
        [.vk_transfer_semaphore, .of_render_target 8] := by
  decide

end FrameScopeClaims

section RetryFenceClaims
variable {σ : Type}

/-- The report of the failed wait or reset is the last thing such an attempt adds to the
trace. -/
theorem TryAcquire_fence_failure_report (o : TryAcquireOutcome) (w : WindowImpl σ)
    (hacq : o.vkAcquireNextImageKHR ≥ VK_SUCCESS)
    (hfail : o.vkWaitForFences ≠ VK_SUCCESS ∨ o.vkResetFences ≠ VK_SUCCESS) :
    ∃ message before,
      (TryAcquireAndWaitAvailable o w).2.trace = before ++ [.Report message] ∧
        (message =
            "Internal error: Cannot acquire next swapchain image, error waiting for fence!" ∨
          message =
            "Internal error: Cannot acquire next swapchain image, error resetting fence!") := by
  unfold TryAcquireAndWaitAvailable
  lift_lets
  intro new_image_index acquire_result w1 w2 w3
  rw [if_pos hacq]
  by_cases hw : o.vkWaitForFences ≠ VK_SUCCESS
  · rw [if_pos hw]
    exact ⟨_, w2.trace, rfl, Or.inl rfl⟩
  · have hr : o.vkResetFences ≠ VK_SUCCESS := hfail.resolve_left hw
    rw [if_neg hw, if_pos hr]
    exact ⟨_, w3.trace, rfl, Or.inr rfl⟩

/-- C2: when the first acquire attempt reports `VK_ERROR_OUT_OF_DATE_KHR`, the one rebuild
succeeds and the one retry reports `VK_SUCCESS`, but the wait for the acquire fence that
follows the retry, or its reset, fails, `AcquireImage` reports that it cannot acquire the
next swapchain image, then reports that it successfully acquired one, and returns true with
`next_image == UINT32_MAX` and not the index the retry stored. The rebuild ran exactly once
and exactly two acquire attempts were made. -/
theorem AcquireImage_retry_returns_true_with_invalid_image (ops : RenderTargetOps σ)
    (o : AcquireImageOutcome) (w : WindowImpl σ)
    (hfirst : o.first.vkAcquireNextImageKHR = VK_ERROR_OUT_OF_DATE_KHR)
    (hrebuilt : (RecreateWindowSizeDependantResources ops o.RecreateWindowSizeDependantResources
      (Report
        "Could not acquire swapchain image, out of date swapchain, trying to recreate swapchain now."
        (TryAcquireAndWaitAvailable o.first w).2)).1 = true)
    (hretry : o.retry.vkAcquireNextImageKHR = VK_SUCCESS)
    (hfail : o.retry.vkWaitForFences ≠ VK_SUCCESS ∨ o.retry.vkResetFences ≠ VK_SUCCESS) :
    (AcquireImage ops o w).1 = true ∧
      (AcquireImage ops o w).2.next_image = UINT32_MAX ∧
      (∀ index, o.retry.written_image_index = some index → index ≠ UINT32_MAX →
        (AcquireImage ops o w).2.next_image ≠ index) ∧
      rebuilds (AcquireImage ops o w).2.trace = rebuilds w.trace + 1 ∧
      acquire_attempts (AcquireImage ops o w).2.trace = acquire_attempts w.trace + 2 ∧
      ∃ message before,
        (AcquireImage ops o w).2.trace =
          before ++ [.Report message,
            .Report
              "Successfully recreated swapchain and aquired swapchain image after recreating swapchain."] ∧
        (message =
            "Internal error: Cannot acquire next swapchain image, error waiting for fence!" ∨
          message =
            "Internal error: Cannot acquire next swapchain image, error resetting fence!") := by
  have hold := (AcquireImage_rebuilds_and_retries_once ops o w).2.2 hfirst
  have hge : o.retry.vkAcquireNextImageKHR ≥ VK_SUCCESS := by rw [hretry]
  have hnext : (AcquireImage ops o w).2.next_image = UINT32_MAX := by
    rw [((hold.2.2 hrebuilt).2.1 hretry).2,
      (TryAcquire_fence_failure o.retry _ hge hfail).1]
  refine ⟨((hold.2.2 hrebuilt).2.1 hretry).1, hnext, ?_, hold.1, (hold.2.2 hrebuilt).1, ?_⟩
  · intro index _ hne
    rw [hnext]
    exact fun h => hne h.symm
  · unfold AcquireImage
    lift_lets
    intro result w1 src1 w2 rebuilt retry_result w3
    have hr : result.1.vk_result = VK_ERROR_OUT_OF_DATE_KHR :=
      (TryAcquire_vk_result o.first w).trans hfirst
    have hrr : retry_result.1.vk_result = VK_SUCCESS :=
      (TryAcquire_vk_result o.retry rebuilt.2).trans hretry
    have hreb : rebuilt.1 = true := hrebuilt
    obtain ⟨message, before, htrace, hmessage⟩ :=
      TryAcquire_fence_failure_report o.retry rebuilt.2 hge hfail
    have h3 : w3.trace = before ++ [.Report message,
        .Report
          "Successfully recreated swapchain and aquired swapchain image after recreating swapchain."] := by
      simp only [w3, Report, emit]
      rw [htrace, List.append_assoc]
      rfl
    have n1 : ¬ result.1.vk_result = VK_SUCCESS := by rw [hr]; decide
    have n2 : ¬ result.1.vk_result = VK_SUBOPTIMAL_KHR := by rw [hr]; decide
    have n3 : ¬ (!rebuilt.1) = true := by rw [hreb]; decide
    clear_value result w1 src1 w2 rebuilt retry_result w3
    rw [if_neg n1, if_neg n2, if_pos hr, if_neg n3, if_pos hrr]
    exact ⟨message, before, h3, hmessage⟩

theorem AcquireImage_retry_returns_true_with_invalid_image_witness :
    (AcquireImage (sample_ops (fun _ => false)) sample_retry_fence_wait_failing_acquire
        sample_window).1 = true ∧
      sample_retry_fence_wait_failing_acquire.retry.written_image_index = some 1 ∧
      (AcquireImage (sample_ops (fun _ => false)) sample_retry_fence_wait_failing_acquire
        sample_window).2.next_image = 4294967295 ∧
      (AcquireImage (sample_ops (fun _ => false)) sample_retry_fence_wait_failing_acquire
        sample_window).2.vk_render_command_buffers_size = 2 :=
  have h := AcquireImage_retry_returns_true_with_invalid_image (sample_ops (fun _ => false))
    sample_retry_fence_wait_failing_acquire sample_window rfl (by decide) rfl
    (Or.inl (by decide))
  ⟨h.1, rfl, h.2.1, by decide⟩

end RetryFenceClaims

end vk2d
